import Mathlib

/-!
# ssctrl: a verification development of the proxy controller core

Shallow embedding of `core/os_api*.go`, `core/os_operator.go`, `core/ss.go`,
`core/ss_process.go`, `core/pac_server.go` and `core/proxy_core.go`, of `IsValidPort` of
`common/utils.go`, of `config/config.go`, and of the methods `ChangeLocalPort` and
`RemoveServers` of `controler.go`.

Conventions of the embedding.

* A Go `error` is identified with its message: `Err = Option String`, `none` is `nil`.
* Code that talks to the outside (the OS driver behind the package variable `api`,
  process creation, the HTTP listener, the file system) is a function of an explicit
  world state: it takes the world and returns its result together with the next world.
  The world type is a parameter, so every deterministic collaborator is covered.
* A method with a pointer receiver takes the receiver value and returns the updated one.
* `defer` blocks are written out at every return they guard.
* Library code the program calls is embedded as far as the program uses it:
  `strconv.ParseUint` in base 10 and the host escaping of `url.URL.String()`.
-/

namespace ssctrl

/-- Go `error`, identified with its message; `none` is `nil`. -/
abbrev Err := Option String

namespace config

def ModePAC : String := "pac"
def ModeGlobal : String := "global"

/-- Go `config.ServerConfig` (comparable with `==`). -/
structure ServerConfig where
  Address : String
  Port : String
  Crypt : String
  Password : String
deriving DecidableEq, Repr

end config

namespace core

/-! ## The OS driver interface (`os_api.go`) -/

/-- Go interface `osAPI`: each method acts on the driver world `σ`. -/
structure osAPI (σ : Type) where
  listAllNetwork : σ → Except String (List String) × σ
  setAutoProxyFor : String → String → σ → Err × σ
  setGlobalProxyFor : String → String → String → σ → Err × σ
  setProxyBypassDomains : String → String → σ → Err × σ
  clearAutoProxyFor : String → σ → Err × σ
  clearGlobalProxyFor : String → σ → Err × σ

/-- One invocation of a method of `osAPI`, with its arguments. -/
inductive Call where
  | listAllNetwork
  | setAutoProxyFor (network url : String)
  | setGlobalProxyFor (network addr port : String)
  | setProxyBypassDomains (network bypass : String)
  | clearAutoProxyFor (network : String)
  | clearGlobalProxyFor (network : String)
deriving DecidableEq, Repr

/-- Call-recording wrapper around a driver: every method appends its invocation (tagged by
`inj`) to the log, oldest first, and then behaves as the wrapped driver. -/
def osAPI.tracedWith {σ ε : Type} (inj : Call → ε) (api : osAPI σ) : osAPI (σ × List ε) where
  listAllNetwork := fun w =>
    ((api.listAllNetwork w.1).1, ((api.listAllNetwork w.1).2, w.2 ++ [inj Call.listAllNetwork]))
  setAutoProxyFor := fun network url w =>
    ((api.setAutoProxyFor network url w.1).1,
      ((api.setAutoProxyFor network url w.1).2, w.2 ++ [inj (Call.setAutoProxyFor network url)]))
  setGlobalProxyFor := fun network addr port w =>
    ((api.setGlobalProxyFor network addr port w.1).1,
      ((api.setGlobalProxyFor network addr port w.1).2,
        w.2 ++ [inj (Call.setGlobalProxyFor network addr port)]))
  setProxyBypassDomains := fun network bypass w =>
    ((api.setProxyBypassDomains network bypass w.1).1,
      ((api.setProxyBypassDomains network bypass w.1).2,
        w.2 ++ [inj (Call.setProxyBypassDomains network bypass)]))
  clearAutoProxyFor := fun network w =>
    ((api.clearAutoProxyFor network w.1).1,
      ((api.clearAutoProxyFor network w.1).2, w.2 ++ [inj (Call.clearAutoProxyFor network)]))
  clearGlobalProxyFor := fun network w =>
    ((api.clearGlobalProxyFor network w.1).1,
      ((api.clearGlobalProxyFor network w.1).2, w.2 ++ [inj (Call.clearGlobalProxyFor network)]))

/-- The call-counting driver: the log holds the driver calls themselves. -/
def osAPI.traced {σ : Type} (api : osAPI σ) : osAPI (σ × List Call) :=
  api.tracedWith id

/-! ## The in-memory fake driver (`os_api_mock.go`) -/

def modePAC : Nat := 0x01
def modeGlobal : Nat := 0x02

/-- Go `^modePAC` as the 64-bit two's complement pattern of an `int`. -/
def notModePAC : Nat := 0xFFFFFFFFFFFFFFFE
/-- Go `^modeGlobal` as the 64-bit two's complement pattern of an `int`. -/
def notModeGlobal : Nat := 0xFFFFFFFFFFFFFFFD

/-- Go `mockSettings`; `mode` is the bit pattern of the Go `int` holding the flags. -/
structure mockSettings where
  mode : Nat := 0
  pacURL : String := ""
  globalAddr : String := ""
  globalPort : String := ""
  bypassDom : String := ""
deriving DecidableEq, Repr

/-- Go `mockAPI`: the map `settings` as an association list, one entry per interface
(the keys of a Go map are distinct). -/
structure mockAPI where
  settings : List (String × mockSettings)
deriving DecidableEq, Repr

def newMockAPI : mockAPI :=
  { settings := [("WiFi", {}), ("wlan", {})] }

/-- The `ok` of the map lookup `m.settings[network]`. -/
def mockAPI.has (m : mockAPI) (network : String) : Bool :=
  m.settings.any (fun e => e.1 == network)

/-- In-place update through the pointer `m.settings[network]`. -/
def mockAPI.modify (m : mockAPI) (network : String) (f : mockSettings → mockSettings) : mockAPI :=
  { settings := m.settings.map (fun e => if e.1 = network then (e.1, f e.2) else e) }

/-- Go `listAllNetwork`: the keys of the map; the order of the association list stands
for the iteration order of the Go map, which Go leaves unspecified: the closed scenarios
below are runs in which the map yields `WiFi` before `wlan`. -/
def mockAPI.listAllNetwork (m : mockAPI) : Except String (List String) × mockAPI :=
  (Except.ok (m.settings.map Prod.fst), m)

/-- The assignments of `setAutoProxyFor`: `mode |= modePAC; pacURL = url`. -/
def mockSettings.setAuto (url : String) (s : mockSettings) : mockSettings :=
  { s with mode := s.mode ||| modePAC, pacURL := url }

/-- The assignments of `setGlobalProxyFor`. -/
def mockSettings.setGlobal (addr port : String) (s : mockSettings) : mockSettings :=
  { s with mode := s.mode ||| modeGlobal, globalAddr := addr, globalPort := port }

/-- The assignments of `clearAutoProxyFor`: `mode &= ^modePAC; pacURL = ""`. -/
def mockSettings.clearAuto (s : mockSettings) : mockSettings :=
  { s with mode := s.mode &&& notModePAC, pacURL := "" }

/-- The assignments of `clearGlobalProxyFor`. -/
def mockSettings.clearGlobal (s : mockSettings) : mockSettings :=
  { s with mode := s.mode &&& notModeGlobal, globalAddr := "", globalPort := "" }

def mockAPI.setAutoProxyFor (network url : String) (m : mockAPI) : Err × mockAPI :=
  if m.has network then (none, m.modify network (mockSettings.setAuto url))
  else (some ("unknown network '" ++ network ++ "'"), m)

def mockAPI.setGlobalProxyFor (network addr port : String) (m : mockAPI) : Err × mockAPI :=
  if m.has network then (none, m.modify network (mockSettings.setGlobal addr port))
  else (some ("unknown network '" ++ network ++ "'"), m)

def mockAPI.setProxyBypassDomains (network bypass : String) (m : mockAPI) : Err × mockAPI :=
  if m.has network then
    (none, m.modify network (fun s => { s with bypassDom := bypass }))
  else (some ("unknown network '" ++ network ++ "'"), m)

def mockAPI.clearAutoProxyFor (network : String) (m : mockAPI) : Err × mockAPI :=
  if m.has network then (none, m.modify network mockSettings.clearAuto)
  else (some ("unknown network '" ++ network ++ "'"), m)

def mockAPI.clearGlobalProxyFor (network : String) (m : mockAPI) : Err × mockAPI :=
  if m.has network then (none, m.modify network mockSettings.clearGlobal)
  else (some ("unknown network '" ++ network ++ "'"), m)

/-- The same update applied to the settings of every interface. -/
def mockAPI.mapSettings (f : mockSettings → mockSettings) (m : mockAPI) : mockAPI :=
  { settings := m.settings.map (fun e => (e.1, f e.2)) }

/-- The fake driver as a value of the driver interface (`api = newMockAPI()`). -/
def mockDriver : osAPI mockAPI where
  listAllNetwork := mockAPI.listAllNetwork
  setAutoProxyFor := mockAPI.setAutoProxyFor
  setGlobalProxyFor := mockAPI.setGlobalProxyFor
  setProxyBypassDomains := mockAPI.setProxyBypassDomains
  clearAutoProxyFor := mockAPI.clearAutoProxyFor
  clearGlobalProxyFor := mockAPI.clearGlobalProxyFor

/-- The PAC flag of an interface is on. -/
def mockSettings.pacOn (s : mockSettings) : Bool := s.mode &&& modePAC != 0
/-- The global flag of an interface is on. -/
def mockSettings.globalOn (s : mockSettings) : Bool := s.mode &&& modeGlobal != 0

/-! ## OSOperator (`os_operator.go`) -/

structure opConfig where
  mode : String
  pacURL : String
  localAddr : String
  localPort : String
deriving DecidableEq, Repr

structure OSOperator where
  cfg : opConfig
  isStartup : Bool
deriving DecidableEq, Repr

def NewOSOperator (mode pacURL addr port : String) : Except String OSOperator :=
  if mode ≠ config.ModePAC ∧ mode ≠ config.ModeGlobal then
    Except.error ("unknown mode '" ++ mode ++ "'")
  else
    Except.ok { cfg := { mode := mode, pacURL := pacURL, localAddr := addr, localPort := port },
                isStartup := false }

section operator
variable {σ : Type}

/-- The loop of `clearProxy`: every interface is visited, the last failure is kept. -/
def clearLoop (clearFun : String → σ → Err × σ) : List String → Err → σ → Err × σ
  | [], resultErr, s => (resultErr, s)
  | nw :: rest, resultErr, s =>
    match clearFun nw s with
    | (some err, s1) =>
      clearLoop clearFun rest (some ("clear " ++ nw ++ " error: " ++ err ++ "; ")) s1
    | (none, s1) => clearLoop clearFun rest resultErr s1

def clearProxy (api : osAPI σ) (clearFun : String → σ → Err × σ) (s : σ) : Err × σ :=
  match api.listAllNetwork s with
  | (Except.error err, s1) => (some err, s1)
  | (Except.ok networks, s1) => clearLoop clearFun networks none s1

/-- The closure passed by `clearAllProxy`: both clears are issued, the first error wins. -/
def clearBothFor (api : osAPI σ) (network : String) (s : σ) : Err × σ :=
  match api.clearAutoProxyFor network s with
  | (err1, s1) =>
    match api.clearGlobalProxyFor network s1 with
    | (err2, s2) =>
      match err1 with
      | some e1 => (some e1, s2)
      | none =>
        match err2 with
        | some e2 => (some e2, s2)
        | none => (none, s2)

def clearAllProxy (api : osAPI σ) (s : σ) : Err × σ :=
  clearProxy api (clearBothFor api) s

def clearAutoProxy (api : osAPI σ) (s : σ) : Err × σ :=
  clearProxy api api.clearAutoProxyFor s

def clearGlobalProxy (api : osAPI σ) (s : σ) : Err × σ :=
  clearProxy api api.clearGlobalProxyFor s

/-- The loop of `setProxy`: stops at the first failure, after clearing everything. -/
def setLoop (api : osAPI σ) (setFunc : String → σ → Err × σ) : List String → σ → Err × σ
  | [], s => (none, s)
  | nw :: rest, s =>
    match setFunc nw s with
    | (some err, s1) => (some err, (clearAllProxy api s1).2)
    | (none, s1) => setLoop api setFunc rest s1

def setProxy (api : osAPI σ) (setFunc : String → σ → Err × σ) (s : σ) : Err × σ :=
  match api.listAllNetwork (clearAllProxy api s).2 with
  | (Except.error err, s1) => (some err, s1)
  | (Except.ok networks, s1) => setLoop api setFunc networks s1

def setAutoProxy (api : osAPI σ) (url : String) (s : σ) : Err × σ :=
  setProxy api (fun nw => api.setAutoProxyFor nw url) s

def setGlobalProxy (api : osAPI σ) (addr port : String) (s : σ) : Err × σ :=
  setProxy api (fun nw => api.setGlobalProxyFor nw addr port) s

def resetProxy (api : osAPI σ) (cfg : opConfig) (s : σ) : Err × σ :=
  if cfg.mode = config.ModePAC then setAutoProxy api cfg.pacURL s
  else if cfg.mode = config.ModeGlobal then setGlobalProxy api cfg.localAddr cfg.localPort s
  else (some ("unknown mode name '" ++ cfg.mode ++ "'"), s)

def clearProxyByMode (api : osAPI σ) (mode : String) (s : σ) : Err × σ :=
  if mode = config.ModePAC then clearAutoProxy api s
  else if mode = config.ModeGlobal then clearGlobalProxy api s
  else (some ("unknown mode name '" ++ mode ++ "'"), s)

def OSOperator.Startup (api : osAPI σ) (op : OSOperator) (s : σ) : Err × OSOperator × σ :=
  if op.isStartup then (none, op, s)
  else
    match resetProxy api op.cfg s with
    | (some err, s1) => (some err, op, s1)
    | (none, s1) => (none, { op with isStartup := true }, s1)

def OSOperator.Shutdown (api : osAPI σ) (op : OSOperator) (s : σ) : Err × OSOperator × σ :=
  if !op.isStartup then (none, op, s)
  else
    match clearProxyByMode api op.cfg.mode s with
    | (some err, s1) => (some err, op, s1)
    | (none, s1) => (none, { op with isStartup := false }, s1)

/-- Go `reStartup`; the deferred rollback `resetProxy(op.cfg)` runs when the apply of
`newCfg` failed, and its own result is dropped. The receiver is only read. -/
def OSOperator.reStartup (api : osAPI σ) (op : OSOperator) (newCfg : opConfig) (s : σ) : Err × σ :=
  if newCfg.mode = op.cfg.mode then resetProxy api newCfg s
  else
    match clearProxyByMode api op.cfg.mode s with
    | (some err, s1) => (some err, s1)
    | (none, s1) =>
      match resetProxy api newCfg s1 with
      | (some err, s2) => (some err, (resetProxy api op.cfg s2).2)
      | (none, s2) => (none, s2)

def OSOperator.ChangeMode (api : osAPI σ) (op : OSOperator) (newMode : String) (s : σ) :
    Err × OSOperator × σ :=
  if newMode = op.cfg.mode then (none, op, s)
  else if !op.isStartup then (none, { op with cfg := { op.cfg with mode := newMode } }, s)
  else
    match op.reStartup api { op.cfg with mode := newMode } s with
    | (some err, s1) => (some err, op, s1)
    | (none, s1) => (none, { op with cfg := { op.cfg with mode := newMode } }, s1)

def OSOperator.ChangeLocalPort (api : osAPI σ) (op : OSOperator) (newPort : String) (s : σ) :
    Err × OSOperator × σ :=
  if newPort = op.cfg.localPort then (none, op, s)
  else if !op.isStartup || op.cfg.mode = config.ModePAC then
    (none, { op with cfg := { op.cfg with localPort := newPort } }, s)
  else
    match op.reStartup api { op.cfg with localPort := newPort } s with
    | (some err, s1) => (some err, op, s1)
    | (none, s1) => (none, { op with cfg := { op.cfg with localPort := newPort } }, s1)

def OSOperator.ChangePACURL (api : osAPI σ) (op : OSOperator) (newURL : String) (s : σ) :
    Err × OSOperator × σ :=
  if newURL = op.cfg.pacURL then (none, op, s)
  else if !op.isStartup || op.cfg.mode = config.ModeGlobal then
    (none, { op with cfg := { op.cfg with pacURL := newURL } }, s)
  else
    match op.reStartup api { op.cfg with pacURL := newURL } s with
    | (some err, s1) => (some err, op, s1)
    | (none, s1) => (none, { op with cfg := { op.cfg with pacURL := newURL } }, s1)

end operator

/-! ## Panics -/

/-- What a call produces: it returns `a`, or the goroutine panics. -/
inductive Outcome (α : Type) where
  | ret (a : α)
  | panic (msg : String)
deriving DecidableEq, Repr

/-! ## Subprocesses (`ss_process.go`) and the supervisor (`ss.go`) -/

/-- A non-nil `ssProcess` interface value, named by the process it stands for. -/
abbrev Handle := Nat

/-- Process creation and termination: `startSSProcess` and `ssProcess.Kill`. `start` takes
`ssPath, localAddr, localPort, srvCfg`; on failure the Go function returns a nil process. -/
structure ssAPI (ω : Type) where
  start : String → String → String → config.ServerConfig → ω → Except String Handle × ω
  kill : Handle → ω → Err × ω

structure ssProcessMock where
  localAddr : String
  localPort : String
  srvCfg : config.ServerConfig
  killed : Bool
deriving DecidableEq, Repr

def newSSProcessMock (localAddr localPort : String) (srvCfg : config.ServerConfig) :
    ssProcessMock :=
  { localAddr := localAddr, localPort := localPort, srvCfg := srvCfg, killed := false }

def ssProcessMock.Kill (ssm : ssProcessMock) : Err × ssProcessMock :=
  (none, { ssm with killed := true })

/-- The fake processes (`isOnTest`): the world is the table of every mock process created so
far, a handle is the position of its process in the table. -/
def mockProcs : ssAPI (List ssProcessMock) where
  start := fun _ localAddr localPort srvCfg tbl =>
    (Except.ok tbl.length, tbl ++ [newSSProcessMock localAddr localPort srvCfg])
  kill := fun h tbl =>
    match tbl.get? h with
    | some p => ((p.Kill).1, tbl.set h (p.Kill).2)
    | none => (none, tbl)

structure ShadowSocks where
  localAddr : String
  localPort : String
  srvCfg : config.ServerConfig
  ssPath : String
  proc : Option Handle
  isStartup : Bool
deriving DecidableEq, Repr

def NewShadowSocks (ssPath localAddr localPort : String) (srvCfg : config.ServerConfig) :
    Except String ShadowSocks :=
  Except.ok { localAddr := localAddr, localPort := localPort, srvCfg := srvCfg,
              ssPath := ssPath, proc := none, isStartup := false }

section supervisor
variable {ω : Type}

def ShadowSocks.Startup (pe : ssAPI ω) (ss : ShadowSocks) (w : ω) : Err × ShadowSocks × ω :=
  if ss.isStartup then (none, ss, w)
  else
    match pe.start ss.ssPath ss.localAddr ss.localPort ss.srvCfg w with
    | (Except.error err, w1) => (some err, ss, w1)
    | (Except.ok proc, w1) => (none, { ss with proc := some proc, isStartup := true }, w1)

def ShadowSocks.Shutdown (pe : ssAPI ω) (ss : ShadowSocks) (w : ω) : Err × ShadowSocks × ω :=
  if !ss.isStartup then (none, ss, w)
  else
    match ss.proc with
    | none => (none, ss, w)
    | some proc =>
      match pe.kill proc w with
      | (some err, w1) => (some err, ss, w1)
      | (none, w1) => (none, { ss with isStartup := false }, w1)

/-- Go `ChangeLocalPort`; the deferred `ss.localPort = newPort` runs on the `nil` returns.
`ss.proc.Kill()` on a nil `ss.proc` is a nil dereference. -/
def ShadowSocks.ChangeLocalPort (pe : ssAPI ω) (ss : ShadowSocks) (newPort : String) (w : ω) :
    Outcome (Err × ShadowSocks × ω) :=
  if newPort = ss.localPort then Outcome.ret (none, ss, w)
  else if !ss.isStartup then Outcome.ret (none, { ss with localPort := newPort }, w)
  else
    match pe.start ss.ssPath ss.localAddr newPort ss.srvCfg w with
    | (Except.error err, w1) => Outcome.ret (some err, ss, w1)
    | (Except.ok newProc, w1) =>
      match ss.proc with
      | none => Outcome.panic "invalid memory address or nil pointer dereference"
      | some old =>
        Outcome.ret (none, { ss with proc := some newProc, localPort := newPort },
          (pe.kill old w1).2)

/-- Go `ChangeServerConfig`; the first deferred block stores `newSrvCfg` on the `nil`
returns, the second respawns the old configuration when the new spawn failed and stores
whatever `startSSProcess` returned (nil on failure) in `ss.proc`. -/
def ShadowSocks.ChangeServerConfig (pe : ssAPI ω) (ss : ShadowSocks)
    (newSrvCfg : config.ServerConfig) (w : ω) : Outcome (Err × ShadowSocks × ω) :=
  if newSrvCfg = ss.srvCfg then Outcome.ret (none, ss, w)
  else if !ss.isStartup then Outcome.ret (none, { ss with srvCfg := newSrvCfg }, w)
  else
    match ss.proc with
    | none => Outcome.panic "invalid memory address or nil pointer dereference"
    | some old =>
      match pe.kill old w with
      | (some err, w1) => Outcome.ret (some err, ss, w1)
      | (none, w1) =>
        match pe.start ss.ssPath ss.localAddr ss.localPort newSrvCfg w1 with
        | (Except.error err, w2) =>
          match pe.start ss.ssPath ss.localAddr ss.localPort ss.srvCfg w2 with
          | (Except.ok p, w3) => Outcome.ret (some err, { ss with proc := some p }, w3)
          | (Except.error _, w3) => Outcome.ret (some err, { ss with proc := none }, w3)
        | (Except.ok newProc, w2) =>
          Outcome.ret (none, { ss with proc := some newProc, srvCfg := newSrvCfg }, w2)

end supervisor

/-! ## PAC server (`pac_server.go`) -/

def pacURLFile : String := "proxy.pac"

/-- The HTTP listener and the file system as seen by `PACServer`.
`listenAndServe addr`: `some err` when `ListenAndServe` returned with `err` before the
one-second ticker fired, `none` when the server was still serving at that point.
`shutdown addr`: the result of `server.Shutdown` (followed by the wait on `shutdownCh`). -/
structure httpAPI (ω : Type) where
  listenAndServe : String → ω → Err × ω
  shutdown : String → ω → Err × ω
  readFile : String → ω → Except String (List UInt8) × ω
  DefaultPACLocalPath : String

/-- Go `PACServer`; `server` is the `*http.Server`, named by its `Addr` (`none` is nil). -/
structure PACServer where
  server : Option String
  pacPort : String
  pacData : List UInt8
  localAddr : String
  localPort : String
  isStartup : Bool
deriving DecidableEq, Repr

section pacserver
variable {ω : Type}

def NewPACServer (he : httpAPI ω) (port localPACFile localAddr localPort : String) (w : ω) :
    Except String PACServer × ω :=
  match he.readFile (if localPACFile = "" then he.DefaultPACLocalPath else localPACFile) w with
  | (Except.error err, w1) => (Except.error err, w1)
  | (Except.ok pacData, w1) =>
    (Except.ok { server := none, pacPort := port, pacData := pacData,
                 localAddr := localAddr, localPort := localPort, isStartup := false }, w1)

def PACServer.serverAddr (ps : PACServer) : String :=
  "127.0.0.1:" ++ ps.pacPort

/-- The bytes of the UTF-8 encoding of `c`: what a Go string holds for the character. -/
def utf8Bytes (c : Char) : List Nat :=
  if c.toNat < 0x80 then [c.toNat]
  else if c.toNat < 0x800 then [0xC0 + c.toNat / 64, 0x80 + c.toNat % 64]
  else if c.toNat < 0x10000 then
    [0xE0 + c.toNat / 4096, 0x80 + c.toNat / 64 % 64, 0x80 + c.toNat % 64]
  else
    [0xF0 + c.toNat / 262144, 0x80 + c.toNat / 4096 % 64, 0x80 + c.toNat / 64 % 64,
      0x80 + c.toNat % 64]

/-- Go `shouldEscape(c, encodeHost)` of `net/url` on the byte `c`: ASCII letters and
digits are kept, so are the characters a host may hold (the sub-delims
`! $ & ' ( ) * + , ; =` and `: [ ] < > "`, here by their codes) and the marks `- _ . ~`;
every other byte is escaped. -/
def shouldEscapeHost (c : Nat) : Bool :=
  !((decide (97 ≤ c) && decide (c ≤ 122)) || (decide (65 ≤ c) && decide (c ≤ 90))
    || (decide (48 ≤ c) && decide (c ≤ 57))
    || [33, 36, 38, 39, 40, 41, 42, 43, 44, 59, 61, 58, 91, 93, 60, 62, 34].contains c
    || [45, 95, 46, 126].contains c)

/-- Go `upperhex` of `net/url`. -/
def upperhex : List Char := "0123456789ABCDEF".data

/-- Go `escape(s, encodeHost)` of `net/url`: every byte of `s` for which `shouldEscape`
holds is written as `%` followed by its two upper-case hexadecimal digits, every other
byte is kept. -/
def escapeHost (s : String) : String :=
  String.mk (s.data.flatMap (fun c =>
    (utf8Bytes c).flatMap (fun b =>
      if shouldEscapeHost b then ['%', upperhex.getD (b / 16) '0', upperhex.getD (b % 16) '0']
      else [Char.ofNat b])))

/-- Go `GetPACURL`: `String()` of the `url.URL` with scheme `http`, host `serverAddr()` and
path `proxy.pac`. `String()` writes the scheme, `://`, the host escaped by
`escape(host, encodeHost)`, a `/` because the path does not start with one, and the
path, which `proxy.pac` is without escaping. -/
def PACServer.GetPACURL (ps : PACServer) : String :=
  "http://" ++ escapeHost ps.serverAddr ++ "/" ++ pacURLFile

/-- Go `Startup`. `renewServer` panics on a leftover server object; when the listener fails
at once the goroutine resets `isStartup` and the server object stays in place. -/
def PACServer.Startup (he : httpAPI ω) (ps : PACServer) (w : ω) :
    Outcome (Err × PACServer × ω) :=
  if ps.isStartup then Outcome.ret (none, ps, w)
  else
    match ps.server with
    | some _ => Outcome.panic "pac server is not nil"
    | none =>
      match he.listenAndServe ps.serverAddr w with
      | (some err, w1) =>
        Outcome.ret (some err, { ps with server := some ps.serverAddr, isStartup := false }, w1)
      | (none, w1) =>
        Outcome.ret (none, { ps with server := some ps.serverAddr, isStartup := true }, w1)

/-- Go `Shutdown`. Every method leaves `server` set while `isStartup` holds, so the server
being shut down is `ps.server`; its address is `serverAddr`. -/
def PACServer.Shutdown (he : httpAPI ω) (ps : PACServer) (w : ω) : Err × PACServer × ω :=
  if !ps.isStartup then (none, ps, w)
  else
    match he.shutdown (ps.server.getD ps.serverAddr) w with
    | (some err, w1) => (some err, ps, w1)
    | (none, w1) => (none, { ps with server := none, isStartup := false }, w1)

def PACServer.ReloadPAC (he : httpAPI ω) (ps : PACServer) (pacFile : String) (w : ω) :
    Err × PACServer × ω :=
  match he.readFile pacFile w with
  | (Except.error err, w1) => (some err, ps, w1)
  | (Except.ok pacData, w1) => (none, { ps with pacData := pacData }, w1)

def PACServer.ChangeLocalPort (ps : PACServer) (newPort : String) : Err × PACServer :=
  if newPort = ps.localPort then (none, ps)
  else (none, { ps with localPort := newPort })

/-- What `ServeHTTP` leaves in the `http.ResponseWriter`: the status code and the body. -/
structure Response where
  status : Nat
  body : List UInt8
deriving DecidableEq, Repr

/-- Go `strings.TrimLeft(s, "/")`: all leading `/` are removed. -/
def trimLeftSlash (s : String) : String :=
  String.mk (s.data.dropWhile (fun c => c == '/'))

/-- Go `ServeHTTP`, as a function of `req.Method`, `req.URL.Path` and the PAC bytes:
`WriteHeader(StatusMethodNotAllowed)`, `WriteHeader(StatusNotFound)`, or `Write(pacData)`
(which answers with status 200). -/
def PACServer.ServeHTTP (ps : PACServer) (method path : String) : Response :=
  if method ≠ "GET" then { status := 405, body := [] }
  else if trimLeftSlash path ≠ pacURLFile then { status := 404, body := [] }
  else { status := 200, body := ps.pacData }

end pacserver

/-! ## ProxyCore (`proxy_core.go`) -/

/-- Everything outside the core: the OS driver, process creation, the HTTP listener and
the file system, acting on one world. -/
structure Env (ω : Type) where
  api : osAPI ω
  proc : ssAPI ω
  http : httpAPI ω

structure ProxyCore where
  pacSrv : PACServer
  ss : ShadowSocks
  op : OSOperator
  pacPort : String
  pacFile : String
  localPort : String
  localAddr : String
  mode : String
  srvCfg : config.ServerConfig
  isStartup : Bool
deriving DecidableEq, Repr

section proxycore
variable {ω : Type}

def NewProxyCore (env : Env ω) (pacPort pacFile localPort mode : String)
    (srv : config.ServerConfig) (ssPath : String) (w : ω) : Except String ProxyCore × ω :=
  match NewPACServer env.http pacPort pacFile "127.0.0.1" localPort w with
  | (Except.error err, w1) => (Except.error err, w1)
  | (Except.ok pacSrv, w1) =>
    match NewShadowSocks ssPath "127.0.0.1" localPort srv with
    | Except.error err => (Except.error err, w1)
    | Except.ok ss =>
      match NewOSOperator mode pacSrv.GetPACURL "127.0.0.1" localPort with
      | Except.error err => (Except.error err, w1)
      | Except.ok op =>
        (Except.ok { pacSrv := pacSrv, ss := ss, op := op, pacPort := pacPort,
                     pacFile := pacFile, localPort := localPort, localAddr := "127.0.0.1",
                     mode := mode, srvCfg := srv, isStartup := false }, w1)

/-- Go `ProxyCore.Startup`. The deferred blocks run last-registered first and only while
`pc.isStartup` is still false; the results of the shutdowns are dropped. -/
def ProxyCore.Startup (env : Env ω) (pc : ProxyCore) (w : ω) :
    Outcome (Err × ProxyCore × ω) :=
  if pc.isStartup then Outcome.ret (none, pc, w)
  else
    match pc.pacSrv.Startup env.http w with
    | Outcome.panic msg => Outcome.panic msg
    | Outcome.ret (some err, pacSrv1, w1) => Outcome.ret (some err, { pc with pacSrv := pacSrv1 }, w1)
    | Outcome.ret (none, pacSrv1, w1) =>
      match pc.ss.Startup env.proc w1 with
      | (some err, ss1, w2) =>
        match pacSrv1.Shutdown env.http w2 with
        | (_, pacSrv2, w3) => Outcome.ret (some err, { pc with pacSrv := pacSrv2, ss := ss1 }, w3)
      | (none, ss1, w2) =>
        match pc.op.Startup env.api w2 with
        | (some err, op1, w3) =>
          match ss1.Shutdown env.proc w3 with
          | (_, ss2, w4) =>
            match pacSrv1.Shutdown env.http w4 with
            | (_, pacSrv2, w5) =>
              Outcome.ret (some err, { pc with pacSrv := pacSrv2, ss := ss2, op := op1 }, w5)
        | (none, op1, w3) =>
          Outcome.ret
            (none, { pc with pacSrv := pacSrv1, ss := ss1, op := op1, isStartup := true }, w3)

def ProxyCore.Shutdown (env : Env ω) (pc : ProxyCore) (w : ω) : ProxyCore × ω :=
  if !pc.isStartup then (pc, w)
  else
    match pc.op.Shutdown env.api w with
    | (_, op1, w1) =>
      match pc.ss.Shutdown env.proc w1 with
      | (_, ss1, w2) =>
        match pc.pacSrv.Shutdown env.http w2 with
        | (_, pacSrv1, w3) =>
          ({ pc with op := op1, ss := ss1, pacSrv := pacSrv1, isStartup := false }, w3)

def ProxyCore.ChangeMode (env : Env ω) (pc : ProxyCore) (newMode : String) (w : ω) :
    Err × ProxyCore × ω :=
  if newMode = pc.mode then (none, pc, w)
  else
    match pc.op.ChangeMode env.api newMode w with
    | (some err, op1, w1) => (some err, { pc with op := op1 }, w1)
    | (none, op1, w1) => (none, { pc with op := op1, mode := newMode }, w1)

/-- Go `ProxyCore.ChangeLocalPort`. Each deferred block undoes one completed step when the
result is an error, last-registered first; what the undo returns is dropped (a panic of the
undo is not). -/
def ProxyCore.ChangeLocalPort (env : Env ω) (pc : ProxyCore) (newPort : String) (w : ω) :
    Outcome (Err × ProxyCore × ω) :=
  if newPort = pc.localPort then Outcome.ret (none, pc, w)
  else
    match pc.ss.ChangeLocalPort env.proc newPort w with
    | Outcome.panic msg => Outcome.panic msg
    | Outcome.ret (some err, ss1, w1) => Outcome.ret (some err, { pc with ss := ss1 }, w1)
    | Outcome.ret (none, ss1, w1) =>
      match pc.op.ChangeLocalPort env.api newPort w1 with
      | (some err, op1, w2) =>
        match ss1.ChangeLocalPort env.proc pc.localPort w2 with
        | Outcome.panic msg => Outcome.panic msg
        | Outcome.ret (_, ss2, w3) => Outcome.ret (some err, { pc with ss := ss2, op := op1 }, w3)
      | (none, op1, w2) =>
        match pc.pacSrv.ChangeLocalPort newPort with
        | (some err, pacSrv1) =>
          match op1.ChangeLocalPort env.api pc.localPort w2 with
          | (_, op2, w3) =>
            match ss1.ChangeLocalPort env.proc pc.localPort w3 with
            | Outcome.panic msg => Outcome.panic msg
            | Outcome.ret (_, ss2, w4) =>
              Outcome.ret (some err, { pc with ss := ss2, op := op2, pacSrv := pacSrv1 }, w4)
        | (none, pacSrv1) =>
          Outcome.ret
            (none, { pc with ss := ss1, op := op1, pacSrv := pacSrv1, localPort := newPort }, w2)

/-- Go `ProxyCore.ChangePACPort`. The new server is a local until the last line; the
deferred block shuts it down when the result is an error. -/
def ProxyCore.ChangePACPort (env : Env ω) (pc : ProxyCore) (newPort : String) (w : ω) :
    Outcome (Err × ProxyCore × ω) :=
  if newPort = pc.pacPort then Outcome.ret (none, pc, w)
  else
    match NewPACServer env.http newPort pc.pacFile pc.localAddr pc.localPort w with
    | (Except.error err, w1) => Outcome.ret (some err, pc, w1)
    | (Except.ok newPACSrv, w1) =>
      match newPACSrv.Startup env.http w1 with
      | Outcome.panic msg => Outcome.panic msg
      | Outcome.ret (some err, _, w2) => Outcome.ret (some err, pc, w2)
      | Outcome.ret (none, newPACSrv1, w2) =>
        match pc.op.ChangePACURL env.api newPACSrv1.GetPACURL w2 with
        | (some err, op1, w3) =>
          match newPACSrv1.Shutdown env.http w3 with
          | (_, _, w4) => Outcome.ret (some err, { pc with op := op1 }, w4)
        | (none, op1, w3) =>
          match pc.pacSrv.Shutdown env.http w3 with
          | (_, _, w4) => Outcome.ret (none, { pc with op := op1, pacSrv := newPACSrv1 }, w4)

def ProxyCore.ChangeServerConfig (env : Env ω) (pc : ProxyCore)
    (newSrvCfg : config.ServerConfig) (w : ω) : Outcome (Err × ProxyCore × ω) :=
  if newSrvCfg = pc.srvCfg then Outcome.ret (none, pc, w)
  else
    match pc.ss.ChangeServerConfig env.proc newSrvCfg w with
    | Outcome.panic msg => Outcome.panic msg
    | Outcome.ret (some err, ss1, w1) => Outcome.ret (some err, { pc with ss := ss1 }, w1)
    | Outcome.ret (none, ss1, w1) =>
      Outcome.ret (none, { pc with ss := ss1, srvCfg := newSrvCfg }, w1)

end proxycore

/-! ## Recording and fault-injecting collaborators

Test doubles in the style of `os_api_mock.go`: a recording wrapper for the whole
environment, a driver that rejects chosen calls, and one in-memory world holding the fake
driver, the fake processes, the listening addresses and the files. -/

/-- One call that leaves the core. -/
inductive Event where
  | driver (c : Call)
  | start (ssPath localAddr localPort : String) (srvCfg : config.ServerConfig)
  | kill (h : Handle)
  | listenAndServe (addr : String)
  | shutdown (addr : String)
  | readFile (path : String)
deriving DecidableEq, Repr

/-- Recording wrapper for process creation and termination. -/
def ssAPI.traced {ω : Type} (pe : ssAPI ω) : ssAPI (ω × List Event) where
  start := fun ssPath localAddr localPort srvCfg w =>
    ((pe.start ssPath localAddr localPort srvCfg w.1).1,
      ((pe.start ssPath localAddr localPort srvCfg w.1).2,
        w.2 ++ [Event.start ssPath localAddr localPort srvCfg]))
  kill := fun h w => ((pe.kill h w.1).1, ((pe.kill h w.1).2, w.2 ++ [Event.kill h]))

/-- Recording wrapper for the HTTP listener and the file system. -/
def httpAPI.traced {ω : Type} (he : httpAPI ω) : httpAPI (ω × List Event) where
  listenAndServe := fun addr w =>
    ((he.listenAndServe addr w.1).1,
      ((he.listenAndServe addr w.1).2, w.2 ++ [Event.listenAndServe addr]))
  shutdown := fun addr w =>
    ((he.shutdown addr w.1).1, ((he.shutdown addr w.1).2, w.2 ++ [Event.shutdown addr]))
  readFile := fun path w =>
    ((he.readFile path w.1).1, ((he.readFile path w.1).2, w.2 ++ [Event.readFile path]))
  DefaultPACLocalPath := he.DefaultPACLocalPath

/-- Recording wrapper for the whole environment: one log, oldest call first. -/
def Env.traced {ω : Type} (env : Env ω) : Env (ω × List Event) where
  api := env.api.tracedWith Event.driver
  proc := env.proc.traced
  http := env.http.traced

/-- A driver that rejects the calls selected by `bad` (leaving the state alone) and
otherwise behaves as `api`. -/
def osAPI.failing {σ : Type} (bad : Call → Bool) (api : osAPI σ) : osAPI σ where
  listAllNetwork := fun s =>
    if bad Call.listAllNetwork then (Except.error "driver failure", s) else api.listAllNetwork s
  setAutoProxyFor := fun network url s =>
    if bad (Call.setAutoProxyFor network url) then (some "driver failure", s)
    else api.setAutoProxyFor network url s
  setGlobalProxyFor := fun network addr port s =>
    if bad (Call.setGlobalProxyFor network addr port) then (some "driver failure", s)
    else api.setGlobalProxyFor network addr port s
  setProxyBypassDomains := fun network bypass s =>
    if bad (Call.setProxyBypassDomains network bypass) then (some "driver failure", s)
    else api.setProxyBypassDomains network bypass s
  clearAutoProxyFor := fun network s =>
    if bad (Call.clearAutoProxyFor network) then (some "driver failure", s)
    else api.clearAutoProxyFor network s
  clearGlobalProxyFor := fun network s =>
    if bad (Call.clearGlobalProxyFor network) then (some "driver failure", s)
    else api.clearGlobalProxyFor network s

/-- An in-memory world: the fake driver, the table of fake processes, how many more
processes may be created, the addresses being listened on, and the files. -/
structure TestWorld where
  drv : mockAPI
  procs : List ssProcessMock
  spawnBudget : Nat
  listening : List String
  files : List (String × List UInt8)
deriving DecidableEq, Repr

/-- The driver of the in-memory world: the fake driver, rejecting the calls in `bad`. -/
def testDriver (bad : Call → Bool) : osAPI TestWorld where
  listAllNetwork := fun w =>
    (((mockDriver.failing bad).listAllNetwork w.drv).1,
      { w with drv := ((mockDriver.failing bad).listAllNetwork w.drv).2 })
  setAutoProxyFor := fun network url w =>
    (((mockDriver.failing bad).setAutoProxyFor network url w.drv).1,
      { w with drv := ((mockDriver.failing bad).setAutoProxyFor network url w.drv).2 })
  setGlobalProxyFor := fun network addr port w =>
    (((mockDriver.failing bad).setGlobalProxyFor network addr port w.drv).1,
      { w with drv := ((mockDriver.failing bad).setGlobalProxyFor network addr port w.drv).2 })
  setProxyBypassDomains := fun network bypass w =>
    (((mockDriver.failing bad).setProxyBypassDomains network bypass w.drv).1,
      { w with drv := ((mockDriver.failing bad).setProxyBypassDomains network bypass w.drv).2 })
  clearAutoProxyFor := fun network w =>
    (((mockDriver.failing bad).clearAutoProxyFor network w.drv).1,
      { w with drv := ((mockDriver.failing bad).clearAutoProxyFor network w.drv).2 })
  clearGlobalProxyFor := fun network w =>
    (((mockDriver.failing bad).clearGlobalProxyFor network w.drv).1,
      { w with drv := ((mockDriver.failing bad).clearGlobalProxyFor network w.drv).2 })

/-- The processes of the in-memory world: fake processes, created while the budget lasts. -/
def testProcs : ssAPI TestWorld where
  start := fun ssPath localAddr localPort srvCfg w =>
    if w.spawnBudget = 0 then (Except.error "cannot start process", w)
    else
      ((mockProcs.start ssPath localAddr localPort srvCfg w.procs).1,
        { w with procs := (mockProcs.start ssPath localAddr localPort srvCfg w.procs).2,
                 spawnBudget := w.spawnBudget - 1 })
  kill := fun h w => ((mockProcs.kill h w.procs).1, { w with procs := (mockProcs.kill h w.procs).2 })

/-- The listener and files of the in-memory world: listening on an address already in use
fails at once, shutting a server down frees its address. -/
def testHTTP : httpAPI TestWorld where
  listenAndServe := fun addr w =>
    if addr ∈ w.listening then (some ("listen tcp " ++ addr ++ ": address already in use"), w)
    else (none, { w with listening := w.listening ++ [addr] })
  shutdown := fun addr w => (none, { w with listening := w.listening.filter (fun a => a != addr) })
  readFile := fun path w =>
    match w.files.lookup path with
    | some data => (Except.ok data, w)
    | none => (Except.error ("open " ++ path ++ ": no such file or directory"), w)
  DefaultPACLocalPath := "gfwlist.js"

def testEnv (bad : Call → Bool) : Env TestWorld where
  api := testDriver bad
  proc := testProcs
  http := testHTTP

/-! ## Scenarios

The values of `TestProxyCoreStartup` in `proxy_core_test.go`. -/

def testSrvCfg : config.ServerConfig :=
  { Address := "11.22.33.44", Port := "3234", Crypt := "AEAD_AES_128_GCM",
    Password := "yourpwd" }

/-- The in-memory world before anything is started: the two fake interfaces, no process,
room for `budget` processes, nothing listening, one PAC file. -/
def testWorld (budget : Nat) : TestWorld :=
  { drv := newMockAPI, procs := [], spawnBudget := budget, listening := [],
    files := [("pac.js", [104, 105])] }

/-- The core that `NewProxyCore "1234" "pac.js" "2234" mode testSrvCfg ""` builds. -/
def testCore (mode : String) : ProxyCore :=
  { pacSrv := { server := none, pacPort := "1234", pacData := [104, 105],
                localAddr := "127.0.0.1", localPort := "2234", isStartup := false },
    ss := { localAddr := "127.0.0.1", localPort := "2234", srvCfg := testSrvCfg, ssPath := "",
            proc := none, isStartup := false },
    op := { cfg := { mode := mode, pacURL := "http://127.0.0.1:1234/proxy.pac",
                     localAddr := "127.0.0.1", localPort := "2234" },
            isStartup := false },
    pacPort := "1234", pacFile := "pac.js", localPort := "2234", localAddr := "127.0.0.1",
    mode := mode, srvCfg := testSrvCfg, isStartup := false }

/-- The core and world after a successful `Startup` of `testCore mode`, if it succeeds. -/
def startedCore (bad : Call → Bool) (mode : String) (budget : Nat) :
    Option (ProxyCore × TestWorld) :=
  match ProxyCore.Startup (testEnv bad) (testCore mode) (testWorld budget) with
  | Outcome.ret (none, pc, w) => some (pc, w)
  | _ => none

/-- The core `testCore mode` once started: PAC server listening, process 0 running,
operator running. -/
def runningCore (mode : String) : ProxyCore :=
  { testCore mode with
      pacSrv := { (testCore mode).pacSrv with server := some "127.0.0.1:1234",
                                              isStartup := true },
      ss := { (testCore mode).ss with proc := some 0, isStartup := true },
      op := { (testCore mode).op with isStartup := true },
      isStartup := true }

/-- The in-memory world once `testCore mode` is started from `testWorld (budget + 1)`. -/
def runningWorld (mode : String) (budget : Nat) : TestWorld :=
  { drv := newMockAPI.mapSettings
      (if mode = config.ModePAC then mockSettings.setAuto "http://127.0.0.1:1234/proxy.pac"
       else mockSettings.setGlobal "127.0.0.1" "2234"),
    procs := [newSSProcessMock "127.0.0.1" "2234" testSrvCfg],
    spawnBudget := budget,
    listening := ["127.0.0.1:1234"],
    files := [("pac.js", [104, 105])] }

/-- The driver fault of the port scenarios: `setGlobalProxyFor` with port 9999 is rejected. -/
def rejectPort9999 : Call → Bool
  | Call.setGlobalProxyFor _ _ port => port == "9999"
  | _ => false

/-- The driver fault of the PAC port scenario: `setAutoProxyFor` with the URL of port 5678
is rejected. -/
def rejectPAC5678 : Call → Bool
  | Call.setAutoProxyFor _ url => url == "http://127.0.0.1:5678/proxy.pac"
  | _ => false

/-- `g'` is `g` run on a recording driver: same result, same driver state, and the log
grows by the driver calls `cs` that were made. -/
def Records {σ ε α : Type} (inj : Call → ε) (g' : σ × List ε → α × (σ × List ε))
    (g : σ → α × σ) : Prop :=
  ∀ (s : σ) (l : List ε), ∃ cs : List Call, g' (s, l) = ((g s).1, ((g s).2, l ++ cs.map inj))

/-! ## Sequences of calls and simulations -/

/-- One call of a method of `OSOperator`. -/
inductive OpCall where
  | Startup
  | Shutdown
  | ChangeMode (newMode : String)
  | ChangeLocalPort (newPort : String)
  | ChangePACURL (newURL : String)
deriving DecidableEq, Repr

/-- The method call `c` on `op`. -/
def OSOperator.call {σ : Type} (api : osAPI σ) (c : OpCall) (op : OSOperator) (s : σ) :
    Err × OSOperator × σ :=
  match c with
  | OpCall.Startup => op.Startup api s
  | OpCall.Shutdown => op.Shutdown api s
  | OpCall.ChangeMode newMode => op.ChangeMode api newMode s
  | OpCall.ChangeLocalPort newPort => op.ChangeLocalPort api newPort s
  | OpCall.ChangePACURL newURL => op.ChangePACURL api newURL s

/-- The calls `cs` made one after the other, whatever each of them returns. -/
def OSOperator.calls {σ : Type} (api : osAPI σ) : List OpCall → OSOperator → σ → OSOperator × σ
  | [], op, s => (op, s)
  | c :: cs, op, s => OSOperator.calls api cs (op.call api c s).2.1 (op.call api c s).2.2

/-- Every `ChangeMode` that the sequence `cs` issues while the operator is stopped is given
pac or global. -/
def OSOperator.stoppedModesValid {σ : Type} (api : osAPI σ) :
    List OpCall → OSOperator → σ → Prop
  | [], _, _ => True
  | c :: cs, op, s =>
    (∀ m, c = OpCall.ChangeMode m → op.isStartup = false →
      m = config.ModePAC ∨ m = config.ModeGlobal) ∧
    OSOperator.stoppedModesValid api cs (op.call api c s).2.1 (op.call api c s).2.2

/-- `g'` on the world `ω` does to the related state what `g` does: same result, related
states afterwards. -/
def SimF {ω σ α : Type} (R : ω → σ → Prop) (g' : ω → α × ω) (g : σ → α × σ) : Prop :=
  ∀ w s, R w s → (g' w).1 = (g s).1 ∧ R (g' w).2 (g s).2

/-- The driver `api'` on the world `ω` simulates the driver `api` on `σ` along `R`. -/
structure osAPI.Sim {ω σ : Type} (R : ω → σ → Prop) (api' : osAPI ω) (api : osAPI σ) :
    Prop where
  listAllNetwork : SimF R api'.listAllNetwork api.listAllNetwork
  setAutoProxyFor : ∀ nw url, SimF R (api'.setAutoProxyFor nw url) (api.setAutoProxyFor nw url)
  setGlobalProxyFor : ∀ nw addr port,
    SimF R (api'.setGlobalProxyFor nw addr port) (api.setGlobalProxyFor nw addr port)
  clearAutoProxyFor : ∀ nw, SimF R (api'.clearAutoProxyFor nw) (api.clearAutoProxyFor nw)
  clearGlobalProxyFor : ∀ nw, SimF R (api'.clearGlobalProxyFor nw) (api.clearGlobalProxyFor nw)

/-- The world `w` is `w0` with the fake driver in state `m`. -/
def DrvIs (w0 : TestWorld) (w : TestWorld) (m : mockAPI) : Prop :=
  w = { w0 with drv := m }

/-- The fake processes of the in-memory world: creating a process always succeeds. -/
def fakeProcs : ssAPI TestWorld where
  start := fun ssPath localAddr localPort srvCfg w =>
    ((mockProcs.start ssPath localAddr localPort srvCfg w.procs).1,
      { w with procs := (mockProcs.start ssPath localAddr localPort srvCfg w.procs).2 })
  kill := fun h w => ((mockProcs.kill h w.procs).1, { w with procs := (mockProcs.kill h w.procs).2 })

/-- The in-memory world with the fake driver and the fake processes, no fault injected. -/
def fakeEnv : Env TestWorld where
  api := testDriver (fun _ => false)
  proc := fakeProcs
  http := testHTTP

/-- The interfaces carry exactly the setting of the operator's configuration: in pac mode
the PAC flag and URL and nothing of global mode, in global mode the global flag, address
and port and nothing of PAC mode. -/
def ifacesReflect (cfg : opConfig) (m : mockAPI) : Prop :=
  ∀ e ∈ m.settings,
    (cfg.mode = config.ModePAC →
      e.2.pacOn = true ∧ e.2.globalOn = false ∧ e.2.pacURL = cfg.pacURL ∧
      e.2.globalAddr = "" ∧ e.2.globalPort = "") ∧
    (cfg.mode = config.ModeGlobal →
      e.2.globalOn = true ∧ e.2.pacOn = false ∧ e.2.globalAddr = cfg.localAddr ∧
      e.2.globalPort = cfg.localPort ∧ e.2.pacURL = "")

/-- A started ProxyCore in the in-memory world: all three components run, the mode is pac
or global, the components agree with ProxyCore on the mode and the local port, the
operator stores the URL of the PAC server, the supervisor's handle is a live fake process
bound to the local port, the PAC server's address is being listened on, and the interfaces
carry the operator's configuration. -/
structure ProxyCore.StartedOn (pc : ProxyCore) (w : TestWorld) : Prop where
  core_started : pc.isStartup = true
  op_running : pc.op.isStartup = true
  mode_known : pc.op.cfg.mode = config.ModePAC ∨ pc.op.cfg.mode = config.ModeGlobal
  op_mode : pc.op.cfg.mode = pc.mode
  op_url : pc.op.cfg.pacURL = pc.pacSrv.GetPACURL
  ss_running : pc.ss.isStartup = true
  ss_live : ∃ h p, pc.ss.proc = some h ∧ w.procs.get? h = some p ∧
    p.localAddr = pc.ss.localAddr ∧ p.localPort = pc.localPort ∧ p.killed = false
  ss_port : pc.ss.localPort = pc.localPort
  op_port : pc.op.cfg.localPort = pc.localPort
  pac_port : pc.pacSrv.localPort = pc.localPort
  pac_running : pc.pacSrv.isStartup = true
  pac_server : pc.pacSrv.server = some pc.pacSrv.serverAddr
  pac_listening : pc.pacSrv.serverAddr ∈ w.listening
  ifaces : ifacesReflect pc.op.cfg w.drv

/-! ## Sequences of supervisor calls, and processes that fail on a script -/

/-- One call of a method of `ShadowSocks`. -/
inductive SSCall where
  | Startup
  | Shutdown
  | ChangeLocalPort (newPort : String)
  | ChangeServerConfig (newSrvCfg : config.ServerConfig)
deriving DecidableEq, Repr

/-- The method call `c` on `ss`. -/
def ShadowSocks.call {ω : Type} (pe : ssAPI ω) (c : SSCall) (ss : ShadowSocks) (w : ω) :
    Outcome (Err × ShadowSocks × ω) :=
  match c with
  | SSCall.Startup => Outcome.ret (ss.Startup pe w)
  | SSCall.Shutdown => Outcome.ret (ss.Shutdown pe w)
  | SSCall.ChangeLocalPort newPort => ss.ChangeLocalPort pe newPort w
  | SSCall.ChangeServerConfig newSrvCfg => ss.ChangeServerConfig pe newSrvCfg w

/-- The calls `cs` made one after the other, whatever each of them returns, up to the
first panic. -/
def ShadowSocks.calls {ω : Type} (pe : ssAPI ω) :
    List SSCall → ShadowSocks → ω → Outcome (ShadowSocks × ω)
  | [], ss, w => Outcome.ret (ss, w)
  | c :: cs, ss, w =>
    match ss.call pe c w with
    | Outcome.panic msg => Outcome.panic msg
    | Outcome.ret (_, ss1, w1) => ShadowSocks.calls pe cs ss1 w1

/-- The kill that `ChangeLocalPort` issues for the process it replaces, once the new
process is created, reports no error (true for every call that issues no such kill). -/
def ShadowSocks.replacedKilled {ω : Type} (pe : ssAPI ω) (c : SSCall) (ss : ShadowSocks)
    (w : ω) : Bool :=
  match c with
  | SSCall.ChangeLocalPort newPort =>
    if newPort = ss.localPort then true
    else if !ss.isStartup then true
    else
      match pe.start ss.ssPath ss.localAddr newPort ss.srvCfg w with
      | (Except.error _, _) => true
      | (Except.ok _, w1) =>
        match ss.proc with
        | none => true
        | some old => (pe.kill old w1).1.isNone
  | _ => true

/-- Along the calls `cs`, every kill that `ChangeLocalPort` issues for a replaced process
reports no error. -/
def ShadowSocks.replacedAlwaysKilled {ω : Type} (pe : ssAPI ω) :
    List SSCall → ShadowSocks → ω → Bool
  | [], _, _ => true
  | c :: cs, ss, w =>
    ss.replacedKilled pe c w &&
      (match ss.call pe c w with
       | Outcome.panic _ => true
       | Outcome.ret (_, ss1, w1) => ShadowSocks.replacedAlwaysKilled pe cs ss1 w1)

/-- Fake processes whose creation and termination fail on a script: each `start` consumes
one entry of `startFaults` and each `kill` one entry of `killFaults`, failing when the
entry is `true`; a process whose kill fails stays alive. -/
structure ProcWorld where
  procs : List ssProcessMock
  startFaults : List Bool
  killFaults : List Bool
deriving DecidableEq, Repr

def scriptedProcs : ssAPI ProcWorld where
  start := fun ssPath localAddr localPort srvCfg w =>
    match w.startFaults with
    | true :: rest => (Except.error "cannot start process", { w with startFaults := rest })
    | _ =>
      ((mockProcs.start ssPath localAddr localPort srvCfg w.procs).1,
        { w with procs := (mockProcs.start ssPath localAddr localPort srvCfg w.procs).2,
                 startFaults := w.startFaults.tail })
  kill := fun h w =>
    match w.killFaults with
    | true :: rest => (some "cannot kill process", { w with killFaults := rest })
    | _ =>
      ((mockProcs.kill h w.procs).1,
        { w with procs := (mockProcs.kill h w.procs).2, killFaults := w.killFaults.tail })

/-- The number of processes of the table that have not been killed. -/
def aliveCount (procs : List ssProcessMock) : Nat :=
  procs.countP (fun p => !p.killed)

/-- Driver faults of the apply scenario: setting the PAC URL on `wlan` is rejected, and so
is clearing PAC mode on `WiFi`. -/
def rejectSetWlanClearWiFi : Call → Bool
  | Call.setAutoProxyFor network _ => network == "wlan"
  | Call.clearAutoProxyFor network => network == "WiFi"
  | _ => false

/-- Driver faults of the clear scenario: every clear call is rejected. -/
def rejectClears : Call → Bool
  | Call.clearAutoProxyFor _ => true
  | Call.clearGlobalProxyFor _ => true
  | _ => false

/-- Every process of the table that is still alive is the one the running supervisor
holds. -/
def ShadowSocks.OwnsAlive (ss : ShadowSocks) (procs : List ssProcessMock) : Prop :=
  ∀ i p, procs.get? i = some p → p.killed = false → ss.isStartup = true ∧ ss.proc = some i

/-- What the clear-all pass makes of the settings `x` of the interface `network` on the
fake driver that rejects the calls in `bad`: each of the two clears takes effect unless it
is rejected. -/
def preCleared (bad : Call → Bool) (network : String) (x : mockSettings) : mockSettings :=
  if bad (Call.clearGlobalProxyFor network) then
    (if bad (Call.clearAutoProxyFor network) then x else x.clearAuto)
  else
    (if bad (Call.clearAutoProxyFor network) then x else x.clearAuto).clearGlobal

end core

/-! ## Ports (`common/utils.go`) -/

namespace common

/-- The digit loop of Go `strconv.ParseUint(s, 10, bitSize)`: a character that is not a
decimal digit is a syntax error, a value above `maxVal` is a range error. -/
def parseUintLoop (maxVal : Nat) : List Char → Nat → Option Nat
  | [], n => some n
  | c :: cs, n =>
    if '0' ≤ c ∧ c ≤ '9' then
      if n * 10 + (c.toNat - 48) > maxVal then none
      else parseUintLoop maxVal cs (n * 10 + (c.toNat - 48))
    else none

/-- Go `strconv.ParseUint(s, 10, bitSize)`: `none` when it returns an error. -/
def ParseUint (s : String) (bitSize : Nat) : Option Nat :=
  if s = "" then none else parseUintLoop (2 ^ bitSize - 1) s.data 0

def IsValidPort (port : String) : Bool :=
  (ParseUint port 16).isSome

end common

/-! ## The application configuration (`config/config.go`) -/

namespace config

def Crypt_AEAD_AES_128_GCM : String := "AEAD_AES_128_GCM"
def Crypt_AEAD_AES_256_GCM : String := "AEAD_AES_256_GCM"
def Crypt_AEAD_CHACHA20_POLY1305 : String := "AEAD_CHACHA20_POLY1305"

def DefaultCrypt : String := Crypt_AEAD_CHACHA20_POLY1305
def defaultEnabled : Bool := true
def defaultMode : String := ModePAC
def defaultLocalPort : String := "1080"
def defaultPACPort : String := "1082"
def defaultAPIPort : String := "1083"

/-- Membership in the map `modeValues`. -/
def IsValidMode (m : String) : Bool :=
  m == ModePAC || m == ModeGlobal

/-- Membership in the map `cryptoValues`. -/
def IsValidCryptoMethod (cm : String) : Bool :=
  cm == Crypt_AEAD_AES_128_GCM || cm == Crypt_AEAD_AES_256_GCM
    || cm == Crypt_AEAD_CHACHA20_POLY1305

def SetServerConfigDefault (srvCfg : ServerConfig) : ServerConfig :=
  if srvCfg.Crypt = "" then { srvCfg with Crypt := DefaultCrypt } else srvCfg

/-- The assignment `m[k] = v` on a Go map kept as an association list with distinct keys. -/
def mapSet {α : Type} (m : List (String × α)) (k : String) (v : α) : List (String × α) :=
  if (m.lookup k).isSome then m.map (fun e => if e.1 = k then (k, v) else e)
  else m ++ [(k, v)]

/-- Go `delete(m, k)`. -/
def mapDelete {α : Type} (m : List (String × α)) (k : String) : List (String × α) :=
  m.filter (fun e => e.1 != k)

/-- Go `appConfig`; the map `Servers` is an association list with distinct keys, the
pointers it holds are replaced by the values they point to. -/
structure appConfig where
  Enabled : Bool
  Autorun : Bool
  Mode : String
  LocalPort : String
  PACPort : String
  APIPort : String
  UsingServer : String
  Servers : List (String × ServerConfig)
deriving DecidableEq, Repr

def defaultCfg : appConfig :=
  { Enabled := false, Autorun := false, Mode := defaultMode, LocalPort := defaultLocalPort,
    PACPort := defaultPACPort, APIPort := defaultAPIPort, UsingServer := "", Servers := [] }

/-- Go `AppConfig`. `currentServer` holds the value of the `ServerConfig` it points to
(`none` is nil). The object it points to is the one the map holds for `UsingServer`, and
the only in-place update of such an object is `SetServerConfigDefault` in
`setServerDefault`, which reaches `currentServer` through the shared pointer. -/
structure AppConfig where
  c : appConfig
  currentServer : Option ServerConfig
deriving DecidableEq, Repr

def NewConfig : AppConfig :=
  { c := { Enabled := false, Autorun := false, Mode := "", LocalPort := "", PACPort := "",
           APIPort := "", UsingServer := "", Servers := [] },
    currentServer := none }

def AppConfig.GetServerConfig (ac : AppConfig) (srvName : String) : Except String ServerConfig :=
  match ac.c.Servers.lookup srvName with
  | none => Except.error ("unknown server name '" ++ srvName ++ "'")
  | some srv => Except.ok srv

/-- Go `GetCurrentServerConfig`; `*ac.currentServer` on a nil pointer is a nil dereference. -/
def AppConfig.GetCurrentServerConfig (ac : AppConfig) : core.Outcome (String × ServerConfig) :=
  match ac.currentServer with
  | none => core.Outcome.panic "invalid memory address or nil pointer dereference"
  | some srv => core.Outcome.ret (ac.c.UsingServer, srv)

def AppConfig.SetCurrentServer (ac : AppConfig) (name : String) : Err × AppConfig :=
  match ac.c.Servers.lookup name with
  | none => (some ("not exist server name '" ++ name ++ "'"), ac)
  | some srv => (none, { c := { ac.c with UsingServer := name }, currentServer := some srv })

def AppConfig.CheckServerConfig (_ac : AppConfig) (srv : ServerConfig) : Err :=
  if !common.IsValidPort srv.Port then some ("invalid server port '" ++ srv.Port ++ "'")
  else if srv.Crypt ≠ "" ∧ !IsValidCryptoMethod srv.Crypt then
    some ("invalid crypto method '" ++ srv.Crypt ++ "'")
  else none

def AppConfig.UpdateServer (ac : AppConfig) (name : String) (srv : ServerConfig) :
    Err × AppConfig :=
  if name = "" then (some "server name is empty", ac)
  else
    match ac.CheckServerConfig srv with
    | some err => (some err, ac)
    | none =>
      (none,
        { c := { ac.c with
                   Servers := mapSet ac.c.Servers name
                     (if srv.Crypt = "" then { srv with Crypt := DefaultCrypt } else srv) },
          currentServer :=
            if ac.c.UsingServer = name then
              some (if srv.Crypt = "" then { srv with Crypt := DefaultCrypt } else srv)
            else ac.currentServer })

def AppConfig.CheckServerBeRemoved (ac : AppConfig) (name : String) : Err :=
  match ac.c.Servers.lookup name with
  | none => some ("server name '" ++ name ++ "' not exist")
  | some _ =>
    if name = ac.c.UsingServer then
      some ("server '" ++ name ++ "' is being used and can not be removed")
    else none

/-- Go `RemoveServerMust`: panics, before touching the map, when the check fails. -/
def AppConfig.RemoveServerMust (ac : AppConfig) (name : String) : core.Outcome AppConfig :=
  match ac.CheckServerBeRemoved name with
  | some err => core.Outcome.panic ("check server name error: " ++ err)
  | none => core.Outcome.ret { ac with c := { ac.c with Servers := mapDelete ac.c.Servers name } }

def AppConfig.IsEnabled (ac : AppConfig) : Bool := ac.c.Enabled

def AppConfig.SetEnabled (ac : AppConfig) (enable : Bool) : AppConfig :=
  { ac with c := { ac.c with Enabled := enable } }

def AppConfig.GetMode (ac : AppConfig) : String := ac.c.Mode

def AppConfig.SetMode (ac : AppConfig) (newMode : String) : Err × AppConfig :=
  if !IsValidMode newMode then (some ("invalid mode name '" ++ newMode ++ "'"), ac)
  else (none, { ac with c := { ac.c with Mode := newMode } })

def AppConfig.GetAPIPort (ac : AppConfig) : String := ac.c.APIPort
def AppConfig.GetLocalPort (ac : AppConfig) : String := ac.c.LocalPort
def AppConfig.GetPACPort (ac : AppConfig) : String := ac.c.PACPort

/-- The closure `addPortMap` of `checkRepeatPorts`, on the map built so far. `except` is
the value behind the pointer (`none` for nil): `reflect.DeepEqual` of two string pointers
holds when they are the same pointer or point to equal strings, and not when one is nil. -/
def addPortMap (except : Option String) (portMap : List (String × String)) (p name : String) :
    Except String (List (String × String)) :=
  if except = some p then Except.ok portMap
  else
    match portMap.lookup p with
    | some repName => Except.error (name ++ " '" ++ p ++ "' is same as " ++ repName)
    | none => Except.ok (mapSet portMap p name)

def AppConfig.checkRepeatPorts (ac : AppConfig) (port : String) (except : Option String) : Err :=
  match addPortMap except [] ac.c.APIPort "control port" with
  | Except.error err => some err
  | Except.ok m1 =>
    match addPortMap except m1 ac.c.LocalPort "local port" with
    | Except.error err => some err
    | Except.ok m2 =>
      match addPortMap except m2 ac.c.PACPort "pac port" with
      | Except.error err => some err
      | Except.ok m3 =>
        match m3.lookup port with
        | some repName => some ("port '" ++ port ++ "' repeat with " ++ repName)
        | none => none

def AppConfig.checkPort (ac : AppConfig) (port : String) (except : Option String) : Err :=
  if !common.IsValidPort port then some ("invalid port value '" ++ port ++ "'")
  else ac.checkRepeatPorts port except

def AppConfig.CheckAPIPort (ac : AppConfig) (port : String) : Err :=
  ac.checkPort port (some ac.c.APIPort)

def AppConfig.SetAPIPort (ac : AppConfig) (newPort : String) : Err × AppConfig :=
  match ac.CheckAPIPort newPort with
  | some err => (some err, ac)
  | none => (none, { ac with c := { ac.c with APIPort := newPort } })

def AppConfig.CheckLocalPort (ac : AppConfig) (port : String) : Err :=
  ac.checkPort port (some ac.c.LocalPort)

def AppConfig.SetLocalPort (ac : AppConfig) (newPort : String) : Err × AppConfig :=
  match ac.CheckLocalPort newPort with
  | some err => (some err, ac)
  | none => (none, { ac with c := { ac.c with LocalPort := newPort } })

def AppConfig.SetLocalPortMust (ac : AppConfig) (newPort : String) : core.Outcome AppConfig :=
  match ac.SetLocalPort newPort with
  | (some err, _) => core.Outcome.panic ("SetLocalPort error: " ++ err)
  | (none, ac1) => core.Outcome.ret ac1

def AppConfig.CheckPACPort (ac : AppConfig) (port : String) : Err :=
  ac.checkPort port (some ac.c.PACPort)

def AppConfig.SetPACPort (ac : AppConfig) (newPort : String) : Err × AppConfig :=
  match ac.CheckPACPort newPort with
  | some err => (some err, ac)
  | none => (none, { ac with c := { ac.c with PACPort := newPort } })

/-- The loop of `checkServers` over the servers; the order of the association list stands
for the iteration order of the Go map. -/
def checkEachServer (ac : AppConfig) : List (String × ServerConfig) → Err
  | [] => none
  | e :: rest =>
    match ac.CheckServerConfig e.2 with
    | some err => some err
    | none => checkEachServer ac rest

def AppConfig.checkServers (ac : AppConfig) : Err :=
  if ac.c.Servers.length ≤ 0 then some "can not find server information in config file"
  else if ac.c.UsingServer = "" ∧ ac.c.Servers.length ≠ 1 then
    some ("have no idea about which server should be used: ["
      ++ ",".intercalate (ac.c.Servers.map Prod.fst) ++ "]")
  else if ac.c.UsingServer ≠ "" ∧ (ac.c.Servers.lookup ac.c.UsingServer).isNone then
    some ("can not find server name '" ++ ac.c.UsingServer ++ "' in server list")
  else checkEachServer ac ac.c.Servers

def AppConfig.check (ac : AppConfig) : Err :=
  match ac.checkServers with
  | some err => some err
  | none =>
    if !IsValidMode ac.c.Mode then some ("invalid mode name '" ++ ac.c.Mode ++ "'")
    else if !common.IsValidPort ac.c.LocalPort then
      some ("invalid local port '" ++ ac.c.LocalPort ++ "'")
    else if !common.IsValidPort ac.c.APIPort then
      some ("invalid control port '" ++ ac.c.APIPort ++ "'")
    else if !common.IsValidPort ac.c.PACPort then
      some ("invalid pac port '" ++ ac.c.PACPort ++ "'")
    else ac.checkRepeatPorts "" none

/-- Go `setServerDefault`: with no server in use the first server of the iteration is
taken; `currentServer` is the map entry of the server in use (nil when there is none); then
every server of the map gets its default, the one `currentServer` points to included. -/
def AppConfig.setServerDefault (ac : AppConfig) : AppConfig :=
  { c := { ac.c with
             UsingServer :=
               if ac.c.UsingServer = "" then
                 (match ac.c.Servers with
                  | [] => ""
                  | e :: _ => e.1)
               else ac.c.UsingServer,
             Servers := ac.c.Servers.map (fun e => (e.1, SetServerConfigDefault e.2)) },
    currentServer :=
      (ac.c.Servers.lookup
        (if ac.c.UsingServer = "" then
           (match ac.c.Servers with
            | [] => ""
            | e :: _ => e.1)
         else ac.c.UsingServer)).map SetServerConfigDefault }

/-- Go `LoadConfig`. `readFile` is `ioutil.ReadFile`; `unmarshal bytes c` is
`toml.Unmarshal(cfgBytes, &cfg.c)` of the library `go-toml`, given the bytes and the
configuration it decodes into, returning the configuration it leaves there. -/
def LoadConfig (readFile : String → Except String (List UInt8))
    (unmarshal : List UInt8 → appConfig → Except String appConfig) (cfgFile : String) :
    Except String AppConfig :=
  match readFile cfgFile with
  | Except.error err => Except.error err
  | Except.ok cfgBytes =>
    match unmarshal cfgBytes defaultCfg with
    | Except.error err => Except.error err
    | Except.ok c =>
      match AppConfig.check { c := c, currentServer := none } with
      | some err => Except.error err
      | none => Except.ok (AppConfig.setServerDefault { c := c, currentServer := none })

/-- One call of a port setter of `AppConfig`. -/
inductive PortCall where
  | SetAPIPort (newPort : String)
  | SetLocalPort (newPort : String)
  | SetPACPort (newPort : String)
deriving DecidableEq, Repr

/-- The setter call `c` on `ac`. -/
def AppConfig.portCall (ac : AppConfig) : PortCall → Err × AppConfig
  | PortCall.SetAPIPort newPort => ac.SetAPIPort newPort
  | PortCall.SetLocalPort newPort => ac.SetLocalPort newPort
  | PortCall.SetPACPort newPort => ac.SetPACPort newPort

/-- The setter calls `cs` made one after the other, whatever each of them returns. -/
def AppConfig.portCalls : List PortCall → AppConfig → AppConfig
  | [], ac => ac
  | c :: cs, ac => AppConfig.portCalls cs (ac.portCall c).2

/-- Every port that has been set (a port is unset while it is the empty string) is
accepted by `IsValidPort`, and any two ports that have been set are different strings. -/
def AppConfig.PortsDistinct (ac : AppConfig) : Prop :=
  (ac.c.APIPort ≠ "" → common.IsValidPort ac.c.APIPort = true) ∧
  (ac.c.LocalPort ≠ "" → common.IsValidPort ac.c.LocalPort = true) ∧
  (ac.c.PACPort ≠ "" → common.IsValidPort ac.c.PACPort = true) ∧
  (ac.c.APIPort ≠ "" → ac.c.LocalPort ≠ "" → ac.c.APIPort ≠ ac.c.LocalPort) ∧
  (ac.c.APIPort ≠ "" → ac.c.PACPort ≠ "" → ac.c.APIPort ≠ ac.c.PACPort) ∧
  (ac.c.LocalPort ≠ "" → ac.c.PACPort ≠ "" → ac.c.LocalPort ≠ ac.c.PACPort)

/-- One call of a method of `AppConfig` that changes the servers. -/
inductive ServerCall where
  | UpdateServer (name : String) (srv : ServerConfig)
  | SetCurrentServer (name : String)
  | RemoveServerMust (name : String)
deriving DecidableEq, Repr

/-- The call `c` on `ac`: the configuration it leaves, `none` when the call fails (it
returns an error, or `RemoveServerMust` panics). -/
def AppConfig.serverCall (ac : AppConfig) : ServerCall → Option AppConfig
  | ServerCall.UpdateServer name srv =>
    match ac.UpdateServer name srv with
    | (some _, _) => none
    | (none, ac1) => some ac1
  | ServerCall.SetCurrentServer name =>
    match ac.SetCurrentServer name with
    | (some _, _) => none
    | (none, ac1) => some ac1
  | ServerCall.RemoveServerMust name =>
    match ac.RemoveServerMust name with
    | core.Outcome.panic _ => none
    | core.Outcome.ret ac1 => some ac1

/-- The calls `cs` made one after the other: the configuration they leave when none of
them fails. -/
def AppConfig.serverCalls : List ServerCall → AppConfig → Option AppConfig
  | [], ac => some ac
  | c :: cs, ac =>
    match ac.serverCall c with
    | none => none
    | some ac1 => AppConfig.serverCalls cs ac1

/-- The name in use is a key of the server table, `currentServer` points to the table's
entry for that name, and the crypto of every server is a supported method. -/
def AppConfig.CurrentServerOK (ac : AppConfig) : Prop :=
  (∃ srv, ac.c.Servers.lookup ac.c.UsingServer = some srv ∧ ac.currentServer = some srv) ∧
  ∀ e ∈ ac.c.Servers, IsValidCryptoMethod e.2.Crypt = true

end config

/-! ## The controller (`controler.go`) -/

namespace main

/-- Go interface `CoreInterface`: each method acts on the state `κ` of the core behind it,
and may panic. -/
structure CoreInterface (κ : Type) where
  Startup : κ → core.Outcome (Err × κ)
  Shutdown : κ → core.Outcome κ
  ChangeMode : String → κ → core.Outcome (Err × κ)
  ChangeLocalPort : String → κ → core.Outcome (Err × κ)
  ChangePACPort : String → κ → core.Outcome (Err × κ)
  ChangeServerConfig : config.ServerConfig → κ → core.Outcome (Err × κ)

/-- One invocation of a method of `CoreInterface`, with its arguments. -/
inductive CoreCall where
  | Startup
  | Shutdown
  | ChangeMode (newMode : String)
  | ChangeLocalPort (newPort : String)
  | ChangePACPort (newPort : String)
  | ChangeServerConfig (newSrvCfg : config.ServerConfig)
deriving DecidableEq, Repr

/-- The result of a core method, with the call `c` appended to the log when it returns. -/
def withCall {κ : Type} (c : CoreCall) (log : List CoreCall) :
    core.Outcome (Err × κ) → core.Outcome (Err × (κ × List CoreCall))
  | core.Outcome.panic msg => core.Outcome.panic msg
  | core.Outcome.ret (e, k) => core.Outcome.ret (e, (k, log ++ [c]))

/-- Call-recording wrapper around a core: every method that returns appends its invocation
to the log, oldest first. -/
def CoreInterface.traced {κ : Type} (coreAPI : CoreInterface κ) :
    CoreInterface (κ × List CoreCall) where
  Startup := fun k => withCall CoreCall.Startup k.2 (coreAPI.Startup k.1)
  Shutdown := fun k =>
    match coreAPI.Shutdown k.1 with
    | core.Outcome.panic msg => core.Outcome.panic msg
    | core.Outcome.ret k1 => core.Outcome.ret (k1, k.2 ++ [CoreCall.Shutdown])
  ChangeMode := fun newMode k =>
    withCall (CoreCall.ChangeMode newMode) k.2 (coreAPI.ChangeMode newMode k.1)
  ChangeLocalPort := fun newPort k =>
    withCall (CoreCall.ChangeLocalPort newPort) k.2 (coreAPI.ChangeLocalPort newPort k.1)
  ChangePACPort := fun newPort k =>
    withCall (CoreCall.ChangePACPort newPort) k.2 (coreAPI.ChangePACPort newPort k.1)
  ChangeServerConfig := fun newSrvCfg k =>
    withCall (CoreCall.ChangeServerConfig newSrvCfg) k.2 (coreAPI.ChangeServerConfig newSrvCfg k.1)

/-- Go `proxyCoreMock` of `controler_test.go`: every method stores its argument and
returns nil. -/
structure proxyCoreMock where
  isStartup : Bool
  mode : String
  localPort : String
  pacPort : String
  srvCfg : config.ServerConfig
deriving DecidableEq, Repr

def proxyCoreMock.api : CoreInterface proxyCoreMock where
  Startup := fun cm => core.Outcome.ret (none, { cm with isStartup := true })
  Shutdown := fun cm => core.Outcome.ret { cm with isStartup := false }
  ChangeMode := fun newMode cm => core.Outcome.ret (none, { cm with mode := newMode })
  ChangeLocalPort := fun newPort cm => core.Outcome.ret (none, { cm with localPort := newPort })
  ChangePACPort := fun newPort cm => core.Outcome.ret (none, { cm with pacPort := newPort })
  ChangeServerConfig := fun newSrvCfg cm => core.Outcome.ret (none, { cm with srvCfg := newSrvCfg })

/-- Go `Controler`, as far as the methods below read and write it. -/
structure Controler where
  cfg : config.AppConfig
  isRunning : Bool
deriving DecidableEq, Repr

/-- Go `Controler.ChangeLocalPort` (the lock apart). -/
def Controler.ChangeLocalPort {κ : Type} (coreAPI : CoreInterface κ) (ctrl : Controler)
    (newPort : String) (k : κ) : core.Outcome (Err × Controler × κ) :=
  if newPort = ctrl.cfg.GetLocalPort then core.Outcome.ret (none, ctrl, k)
  else
    match ctrl.cfg.CheckLocalPort newPort with
    | some err => core.Outcome.ret (some err, ctrl, k)
    | none =>
      match coreAPI.ChangeLocalPort newPort k with
      | core.Outcome.panic msg => core.Outcome.panic msg
      | core.Outcome.ret (some err, k1) => core.Outcome.ret (some err, ctrl, k1)
      | core.Outcome.ret (none, k1) =>
        match ctrl.cfg.SetLocalPortMust newPort with
        | core.Outcome.panic msg => core.Outcome.panic msg
        | core.Outcome.ret cfg1 => core.Outcome.ret (none, { ctrl with cfg := cfg1 }, k1)

/-- The first loop of `RemoveServers`: the first name that may not be removed decides. -/
def checkAllBeRemoved (ac : config.AppConfig) : List String → Err
  | [] => none
  | name :: rest =>
    match ac.CheckServerBeRemoved name with
    | some err => some err
    | none => checkAllBeRemoved ac rest

/-- The second loop of `RemoveServers`, with the configuration as it is when the loop ends:
at its last iteration, or at the panic of `RemoveServerMust`. -/
def removeAllMust (ac : config.AppConfig) : List String → core.Outcome Err × config.AppConfig
  | [] => (core.Outcome.ret none, ac)
  | name :: rest =>
    match ac.RemoveServerMust name with
    | core.Outcome.panic msg => (core.Outcome.panic msg, ac)
    | core.Outcome.ret ac1 => removeAllMust ac1 rest

/-- Go `Controler.RemoveServers`: what the call produces, and the controller as the call
leaves it (the configuration is reached through a pointer, so what was removed before a
panic stays removed). -/
def Controler.RemoveServers (ctrl : Controler) (names : List String) :
    core.Outcome Err × Controler :=
  match checkAllBeRemoved ctrl.cfg names with
  | some err => (core.Outcome.ret (some err), ctrl)
  | none => ((removeAllMust ctrl.cfg names).1, { ctrl with cfg := (removeAllMust ctrl.cfg names).2 })

end main

namespace core

/-! # Theorems -/

/-! ## The fake driver: what the loops of `OSOperator` compute on it -/

theorem mockAPI.has_iff (m : mockAPI) (nw : String) :
    m.has nw = true ↔ nw ∈ m.settings.map Prod.fst := by
  simp [mockAPI.has, List.any_eq_true]

theorem mockAPI.modify_keys (m : mockAPI) (nw : String) (f : mockSettings → mockSettings) :
    (m.modify nw f).settings.map Prod.fst = m.settings.map Prod.fst := by
  simp only [mockAPI.modify, List.map_map]
  apply List.map_congr_left
  intro e _
  by_cases h : e.1 = nw <;> simp [h]

theorem mockAPI.modify_has (m : mockAPI) (nw k : String) (f : mockSettings → mockSettings) :
    (m.modify nw f).has k = m.has k := by
  have h1 := mockAPI.has_iff (m.modify nw f) k
  have h2 := mockAPI.has_iff m k
  rw [mockAPI.modify_keys] at h1
  cases ha : (m.modify nw f).has k <;> cases hb : m.has k <;> simp_all

/-- Updating, one after the other, the interfaces named in `ks` with an idempotent `f`
updates every entry whose name occurs in `ks` once. -/
theorem mockAPI.modify_then_map (m : mockAPI) (k : String) (ks : List String)
    (f : mockSettings → mockSettings) (hf : ∀ x, f (f x) = f x) :
    (m.modify k f).settings.map (fun e => if e.1 ∈ ks then (e.1, f e.2) else e)
      = m.settings.map (fun e => if e.1 ∈ k :: ks then (e.1, f e.2) else e) := by
  simp only [mockAPI.modify, List.map_map]
  apply List.map_congr_left
  intro e _
  by_cases h1 : e.1 = k <;> by_cases h2 : e.1 ∈ ks <;> simp [h1, h2, hf]

theorem clearLoop_mock (clearFun : String → mockAPI → Err × mockAPI)
    (f : mockSettings → mockSettings) (hf : ∀ x, f (f x) = f x)
    (hop : ∀ nw m, m.has nw = true → clearFun nw m = (none, m.modify nw f)) :
    ∀ (ks : List String) (r : Err) (m : mockAPI), (∀ k ∈ ks, m.has k = true) →
      clearLoop clearFun ks r m
        = (r, ⟨m.settings.map (fun e => if e.1 ∈ ks then (e.1, f e.2) else e)⟩) := by
  intro ks
  induction ks with
  | nil => intro r m _; simp [clearLoop]
  | cons k ks ih =>
    intro r m hk
    have h1 := hop k m (hk k (List.mem_cons_self k ks))
    simp only [clearLoop, h1]
    rw [ih r (m.modify k f) (fun k' hk' => by
      rw [mockAPI.modify_has]; exact hk k' (List.mem_cons_of_mem k hk'))]
    rw [mockAPI.modify_then_map m k ks f hf]

theorem setLoop_mock (setFunc : String → mockAPI → Err × mockAPI)
    (f : mockSettings → mockSettings) (hf : ∀ x, f (f x) = f x)
    (hop : ∀ nw m, m.has nw = true → setFunc nw m = (none, m.modify nw f)) :
    ∀ (ks : List String) (m : mockAPI), (∀ k ∈ ks, m.has k = true) →
      setLoop mockDriver setFunc ks m
        = (none, ⟨m.settings.map (fun e => if e.1 ∈ ks then (e.1, f e.2) else e)⟩) := by
  intro ks
  induction ks with
  | nil => intro m _; simp [setLoop]
  | cons k ks ih =>
    intro m hk
    have h1 := hop k m (hk k (List.mem_cons_self k ks))
    simp only [setLoop, h1]
    rw [ih (m.modify k f) (fun k' hk' => by
      rw [mockAPI.modify_has]; exact hk k' (List.mem_cons_of_mem k hk'))]
    rw [mockAPI.modify_then_map m k ks f hf]

theorem mockAPI.map_all_keys (m : mockAPI) (f : mockSettings → mockSettings) :
    (⟨m.settings.map (fun e => if e.1 ∈ m.settings.map Prod.fst then (e.1, f e.2) else e)⟩ : mockAPI)
      = m.mapSettings f := by
  simp only [mockAPI.mapSettings, mockAPI.mk.injEq]
  apply List.map_congr_left
  intro e he
  have : e.1 ∈ m.settings.map Prod.fst := List.mem_map_of_mem Prod.fst he
  simp [this]

theorem mockAPI.keys_has (m : mockAPI) : ∀ k ∈ m.settings.map Prod.fst, m.has k = true :=
  fun k hk => (mockAPI.has_iff m k).2 hk

theorem mockSettings.clearAuto_idem (x : mockSettings) : x.clearAuto.clearAuto = x.clearAuto := by
  simp [mockSettings.clearAuto, Nat.and_assoc]

theorem mockSettings.clearGlobal_idem (x : mockSettings) :
    x.clearGlobal.clearGlobal = x.clearGlobal := by
  simp [mockSettings.clearGlobal, Nat.and_assoc]

theorem mockSettings.setAuto_idem (url : String) (x : mockSettings) :
    (x.setAuto url).setAuto url = x.setAuto url := by
  simp [mockSettings.setAuto, Nat.or_assoc]

theorem mockSettings.setGlobal_idem (addr port : String) (x : mockSettings) :
    (x.setGlobal addr port).setGlobal addr port = x.setGlobal addr port := by
  simp [mockSettings.setGlobal, Nat.or_assoc]

theorem and_mask_twice (a p g : Nat) : a &&& p &&& g &&& p &&& g = a &&& p &&& g := by
  apply Nat.eq_of_testBit_eq
  intro i
  simp only [Nat.testBit_and]
  cases a.testBit i <;> cases p.testBit i <;> cases g.testBit i <;> rfl

theorem mockSettings.clearBoth_idem (x : mockSettings) :
    x.clearAuto.clearGlobal.clearAuto.clearGlobal = x.clearAuto.clearGlobal := by
  simp only [mockSettings.clearAuto, mockSettings.clearGlobal, mockSettings.mk.injEq, and_true]
  exact and_mask_twice _ _ _

theorem mockDriver_listAllNetwork (m : mockAPI) :
    mockDriver.listAllNetwork m = (Except.ok (m.settings.map Prod.fst), m) := rfl

theorem clearLoop_mock_all (clearFun : String → mockAPI → Err × mockAPI)
    (f : mockSettings → mockSettings) (hf : ∀ x, f (f x) = f x)
    (hop : ∀ nw m, m.has nw = true → clearFun nw m = (none, m.modify nw f))
    (r : Err) (m : mockAPI) :
    clearLoop clearFun (m.settings.map Prod.fst) r m = (r, m.mapSettings f) := by
  rw [clearLoop_mock clearFun f hf hop _ r m (mockAPI.keys_has m), mockAPI.map_all_keys]

theorem setLoop_mock_all (setFunc : String → mockAPI → Err × mockAPI)
    (f : mockSettings → mockSettings) (hf : ∀ x, f (f x) = f x)
    (hop : ∀ nw m, m.has nw = true → setFunc nw m = (none, m.modify nw f))
    (m : mockAPI) :
    setLoop mockDriver setFunc (m.settings.map Prod.fst) m = (none, m.mapSettings f) := by
  rw [setLoop_mock setFunc f hf hop _ m (mockAPI.keys_has m), mockAPI.map_all_keys]

theorem mock_clearAutoProxy (m : mockAPI) :
    clearAutoProxy mockDriver m = (none, m.mapSettings mockSettings.clearAuto) := by
  simp only [clearAutoProxy, clearProxy, mockDriver_listAllNetwork]
  exact clearLoop_mock_all _ mockSettings.clearAuto mockSettings.clearAuto_idem
    (fun nw m h => by simp [mockDriver, mockAPI.clearAutoProxyFor, h]) _ _

theorem mock_clearGlobalProxy (m : mockAPI) :
    clearGlobalProxy mockDriver m = (none, m.mapSettings mockSettings.clearGlobal) := by
  simp only [clearGlobalProxy, clearProxy, mockDriver_listAllNetwork]
  exact clearLoop_mock_all _ mockSettings.clearGlobal mockSettings.clearGlobal_idem
    (fun nw m h => by simp [mockDriver, mockAPI.clearGlobalProxyFor, h]) _ _

theorem mockAPI.modify_modify (m : mockAPI) (nw : String) (f g : mockSettings → mockSettings) :
    (m.modify nw f).modify nw g = m.modify nw (fun x => g (f x)) := by
  simp only [mockAPI.modify, List.map_map, mockAPI.mk.injEq]
  apply List.map_congr_left
  intro e _
  by_cases h : e.1 = nw <;> simp [h]

theorem mock_clearAllProxy (m : mockAPI) :
    clearAllProxy mockDriver m
      = (none, m.mapSettings (fun x => x.clearAuto.clearGlobal)) := by
  simp only [clearAllProxy, clearProxy, mockDriver_listAllNetwork]
  exact clearLoop_mock_all _ (fun x => x.clearAuto.clearGlobal) mockSettings.clearBoth_idem
    (fun nw m h => by
      simp [clearBothFor, mockDriver, mockAPI.clearAutoProxyFor, mockAPI.clearGlobalProxyFor, h,
        mockAPI.modify_has, mockAPI.modify_modify]) _ _

theorem mockAPI.mapSettings_keys (m : mockAPI) (f : mockSettings → mockSettings) :
    (m.mapSettings f).settings.map Prod.fst = m.settings.map Prod.fst := by
  simp [mockAPI.mapSettings, List.map_map, Function.comp_def]

theorem mockAPI.mapSettings_mapSettings (m : mockAPI) (f g : mockSettings → mockSettings) :
    (m.mapSettings f).mapSettings g = m.mapSettings (fun x => g (f x)) := by
  simp [mockAPI.mapSettings, List.map_map, Function.comp_def]

theorem mock_setAutoProxy (m : mockAPI) (url : String) :
    setAutoProxy mockDriver url m
      = (none, m.mapSettings (fun x => x.clearAuto.clearGlobal.setAuto url)) := by
  simp only [setAutoProxy, setProxy, mock_clearAllProxy, mockDriver_listAllNetwork]
  rw [setLoop_mock_all _ (mockSettings.setAuto url) (mockSettings.setAuto_idem url)
    (fun nw m h => by simp [mockDriver, mockAPI.setAutoProxyFor, h]),
    mockAPI.mapSettings_mapSettings]

theorem mock_setGlobalProxy (m : mockAPI) (addr port : String) :
    setGlobalProxy mockDriver addr port m
      = (none, m.mapSettings (fun x => x.clearAuto.clearGlobal.setGlobal addr port)) := by
  simp only [setGlobalProxy, setProxy, mock_clearAllProxy, mockDriver_listAllNetwork]
  rw [setLoop_mock_all _ (mockSettings.setGlobal addr port)
    (mockSettings.setGlobal_idem addr port)
    (fun nw m h => by simp [mockDriver, mockAPI.setGlobalProxyFor, h]),
    mockAPI.mapSettings_mapSettings]

/-! ## Flag arithmetic of the fake driver -/

theorem flag_lemma_pac_on (a : Nat) : ((a ||| modePAC) &&& modePAC != 0) = true := by
  have h : (a ||| modePAC) &&& modePAC = modePAC := by
    apply Nat.eq_of_testBit_eq
    intro i
    simp only [Nat.testBit_and, Nat.testBit_or]
    cases a.testBit i <;> cases modePAC.testBit i <;> rfl
  rw [h]; decide

theorem flag_lemma_global_on (a : Nat) : ((a ||| modeGlobal) &&& modeGlobal != 0) = true := by
  have h : (a ||| modeGlobal) &&& modeGlobal = modeGlobal := by
    apply Nat.eq_of_testBit_eq
    intro i
    simp only [Nat.testBit_and, Nat.testBit_or]
    cases a.testBit i <;> cases modeGlobal.testBit i <;> rfl
  rw [h]; decide

theorem testBit_small (c i : Nat) (h : c < 4) : c.testBit (i + 2) = false := by
  apply Nat.testBit_lt_two_pow
  calc c < 4 := h
    _ = 2 ^ 2 := by norm_num
    _ ≤ 2 ^ (i + 2) := Nat.pow_le_pow_right (by norm_num) (by omega)

theorem flag_lemma_global_off (a : Nat) :
    (((a &&& notModeGlobal) ||| modePAC) &&& modeGlobal != 0) = false := by
  have h : ((a &&& notModeGlobal) ||| modePAC) &&& modeGlobal = 0 := by
    apply Nat.eq_of_testBit_eq
    intro i
    simp only [Nat.testBit_and, Nat.testBit_or, Nat.zero_testBit]
    rcases i with _ | _ | i
    · have : modeGlobal.testBit 0 = false := by decide
      simp [this]
    · have h1 : notModeGlobal.testBit 1 = false := by decide
      have h2 : modePAC.testBit 1 = false := by decide
      simp [h1, h2]
    · have : modeGlobal.testBit (i + 2) = false := testBit_small _ _ (by decide)
      simp [this]
  rw [h]; decide

theorem flag_lemma_pac_off (a : Nat) :
    ((((a &&& notModePAC) &&& notModeGlobal) ||| modeGlobal) &&& modePAC != 0) = false := by
  have h : (((a &&& notModePAC) &&& notModeGlobal) ||| modeGlobal) &&& modePAC = 0 := by
    apply Nat.eq_of_testBit_eq
    intro i
    simp only [Nat.testBit_and, Nat.testBit_or, Nat.zero_testBit]
    rcases i with _ | _ | i
    · have h1 : notModePAC.testBit 0 = false := by decide
      have h2 : modeGlobal.testBit 0 = false := by decide
      simp [h1, h2]
    · have : modePAC.testBit 1 = false := by decide
      simp [this]
    · have : modePAC.testBit (i + 2) = false := testBit_small _ _ (by decide)
      simp [this]
  rw [h]; decide

theorem applied_pac (url : String) (x : mockSettings) :
    (x.clearAuto.clearGlobal.setAuto url).pacOn = true ∧
    (x.clearAuto.clearGlobal.setAuto url).globalOn = false ∧
    (x.clearAuto.clearGlobal.setAuto url).pacURL = url ∧
    (x.clearAuto.clearGlobal.setAuto url).globalAddr = "" ∧
    (x.clearAuto.clearGlobal.setAuto url).globalPort = "" := by
  refine ⟨?_, ?_, rfl, rfl, rfl⟩
  · exact flag_lemma_pac_on _
  · exact flag_lemma_global_off _

theorem applied_global (addr port : String) (x : mockSettings) :
    (x.clearAuto.clearGlobal.setGlobal addr port).globalOn = true ∧
    (x.clearAuto.clearGlobal.setGlobal addr port).pacOn = false ∧
    (x.clearAuto.clearGlobal.setGlobal addr port).globalAddr = addr ∧
    (x.clearAuto.clearGlobal.setGlobal addr port).globalPort = port ∧
    (x.clearAuto.clearGlobal.setGlobal addr port).pacURL = "" := by
  refine ⟨?_, ?_, rfl, rfl, rfl⟩
  · exact flag_lemma_global_on _
  · exact flag_lemma_pac_off _

/-! ## OSOperator on the fake driver -/

theorem mock_resetProxy_pac (m : mockAPI) (cfg : opConfig) (h : cfg.mode = config.ModePAC) :
    resetProxy mockDriver cfg m
      = (none, m.mapSettings (fun x => x.clearAuto.clearGlobal.setAuto cfg.pacURL)) := by
  simp [resetProxy, h, mock_setAutoProxy]

theorem mock_resetProxy_global (m : mockAPI) (cfg : opConfig) (h : cfg.mode = config.ModeGlobal) :
    resetProxy mockDriver cfg m
      = (none, m.mapSettings
          (fun x => x.clearAuto.clearGlobal.setGlobal cfg.localAddr cfg.localPort)) := by
  have hne : config.ModeGlobal ≠ config.ModePAC := by decide
  simp [resetProxy, h, hne, mock_setGlobalProxy]

theorem mockAPI.mem_mapSettings {m : mockAPI} {f : mockSettings → mockSettings}
    {e : String × mockSettings} (he : e ∈ (m.mapSettings f).settings) :
    ∃ x, e.2 = f x := by
  simp only [mockAPI.mapSettings, List.mem_map] at he
  obtain ⟨a, _, rfl⟩ := he
  exact ⟨a.2, rfl⟩

theorem mock_Startup_pac (m : mockAPI) (op : OSOperator) (h0 : op.isStartup = false)
    (h : op.cfg.mode = config.ModePAC) :
    op.Startup mockDriver m
      = (none, { op with isStartup := true },
          m.mapSettings (fun x => x.clearAuto.clearGlobal.setAuto op.cfg.pacURL)) := by
  simp [OSOperator.Startup, h0, mock_resetProxy_pac m op.cfg h]

theorem mock_Startup_global (m : mockAPI) (op : OSOperator) (h0 : op.isStartup = false)
    (h : op.cfg.mode = config.ModeGlobal) :
    op.Startup mockDriver m
      = (none, { op with isStartup := true },
          m.mapSettings
            (fun x => x.clearAuto.clearGlobal.setGlobal op.cfg.localAddr op.cfg.localPort)) := by
  simp [OSOperator.Startup, h0, mock_resetProxy_global m op.cfg h]

/-- C1: with the fake driver in any state, `Startup` of a fresh operator in mode pac
(resp. global) returns nil, marks the operator running, keeps the set of interfaces, and
leaves every interface with the PAC flag on, the global flag off, `pacURL = url` and empty
global fields (resp. the global flag on, the PAC flag off, `globalAddr = addr`,
`globalPort = port` and an empty PAC URL). -/
theorem C1_startup_applies_exactly_the_mode (m : mockAPI) (url addr port : String) :
    (∃ op, NewOSOperator config.ModePAC url addr port = Except.ok op ∧
      (op.Startup mockDriver m).1 = none ∧
      (op.Startup mockDriver m).2.1.isStartup = true ∧
      (op.Startup mockDriver m).2.2.settings.map Prod.fst = m.settings.map Prod.fst ∧
      ∀ e ∈ (op.Startup mockDriver m).2.2.settings,
        e.2.pacOn = true ∧ e.2.globalOn = false ∧ e.2.pacURL = url ∧
        e.2.globalAddr = "" ∧ e.2.globalPort = "") ∧
    (∃ op, NewOSOperator config.ModeGlobal url addr port = Except.ok op ∧
      (op.Startup mockDriver m).1 = none ∧
      (op.Startup mockDriver m).2.1.isStartup = true ∧
      (op.Startup mockDriver m).2.2.settings.map Prod.fst = m.settings.map Prod.fst ∧
      ∀ e ∈ (op.Startup mockDriver m).2.2.settings,
        e.2.globalOn = true ∧ e.2.pacOn = false ∧ e.2.globalAddr = addr ∧
        e.2.globalPort = port ∧ e.2.pacURL = "") := by
  constructor
  · refine ⟨⟨⟨config.ModePAC, url, addr, port⟩, false⟩, by simp [NewOSOperator], ?_⟩
    rw [mock_Startup_pac m _ rfl rfl]
    refine ⟨rfl, rfl, mockAPI.mapSettings_keys _ _, ?_⟩
    intro e he
    obtain ⟨x, hx⟩ := mockAPI.mem_mapSettings he
    rw [hx]
    exact applied_pac url x
  · refine ⟨⟨⟨config.ModeGlobal, url, addr, port⟩, false⟩, by simp [NewOSOperator], ?_⟩
    rw [mock_Startup_global m _ rfl rfl]
    refine ⟨rfl, rfl, mockAPI.mapSettings_keys _ _, ?_⟩
    intro e he
    obtain ⟨x, hx⟩ := mockAPI.mem_mapSettings he
    rw [hx]
    exact applied_global addr port x

theorem mode_pac_ne_global : config.ModePAC ≠ config.ModeGlobal := by decide

theorem mockSettings.clear_after_clearAuto (x : mockSettings) :
    x.clearAuto.clearAuto.clearGlobal = x.clearAuto.clearGlobal := by
  rw [mockSettings.clearAuto_idem]

theorem mockSettings.clear_after_clearGlobal (x : mockSettings) :
    x.clearGlobal.clearAuto.clearGlobal = x.clearAuto.clearGlobal := by
  simp only [mockSettings.clearAuto, mockSettings.clearGlobal, mockSettings.mk.injEq, and_true]
  apply Nat.eq_of_testBit_eq
  intro i
  simp only [Nat.testBit_and]
  cases x.mode.testBit i <;> cases notModePAC.testBit i <;> cases notModeGlobal.testBit i <;> rfl

/-- What `ChangeMode` does on the fake driver when it goes from pac to global. -/
theorem mock_ChangeMode_pac_to_global (m : mockAPI) (op : OSOperator)
    (hrun : op.isStartup = true) (hold : op.cfg.mode = config.ModePAC) :
    op.ChangeMode mockDriver config.ModeGlobal m
      = (none, { op with cfg := { op.cfg with mode := config.ModeGlobal } },
          m.mapSettings
            (fun x => x.clearAuto.clearGlobal.setGlobal op.cfg.localAddr op.cfg.localPort)) := by
  have h1 : config.ModeGlobal ≠ config.ModePAC := mode_pac_ne_global.symm
  have hr := mock_resetProxy_global (m.mapSettings mockSettings.clearAuto)
    { op.cfg with mode := config.ModeGlobal } rfl
  simp only [OSOperator.ChangeMode, OSOperator.reStartup, h1, hrun, if_false, Bool.not_true,
    Bool.false_eq_true, clearProxyByMode, hold, if_true, mock_clearAutoProxy,
    hr, mockAPI.mapSettings_mapSettings, mockSettings.clear_after_clearAuto]

/-- What `ChangeMode` does on the fake driver when it goes from global to pac. -/
theorem mock_ChangeMode_global_to_pac (m : mockAPI) (op : OSOperator)
    (hrun : op.isStartup = true) (hold : op.cfg.mode = config.ModeGlobal) :
    op.ChangeMode mockDriver config.ModePAC m
      = (none, { op with cfg := { op.cfg with mode := config.ModePAC } },
          m.mapSettings (fun x => x.clearAuto.clearGlobal.setAuto op.cfg.pacURL)) := by
  have h1 : config.ModePAC ≠ config.ModeGlobal := mode_pac_ne_global
  have h2 : config.ModeGlobal ≠ config.ModePAC := mode_pac_ne_global.symm
  have hr := mock_resetProxy_pac (m.mapSettings mockSettings.clearGlobal)
    { op.cfg with mode := config.ModePAC } rfl
  simp only [OSOperator.ChangeMode, OSOperator.reStartup, h1, hrun, if_false, Bool.not_true,
    Bool.false_eq_true, clearProxyByMode, hold, h2, if_true, mock_clearGlobalProxy,
    hr, mockAPI.mapSettings_mapSettings, mockSettings.clear_after_clearGlobal]

/-- A running operator whose stored mode is neither pac nor global cannot change mode:
clearing the old mode already fails. -/
theorem ChangeMode_unknown_old_mode {σ : Type} (api : osAPI σ) (op : OSOperator)
    (newMode : String) (s : σ) (hrun : op.isStartup = true) (hne : newMode ≠ op.cfg.mode)
    (h1 : op.cfg.mode ≠ config.ModePAC) (h2 : op.cfg.mode ≠ config.ModeGlobal) :
    (op.ChangeMode api newMode s).1 = some ("unknown mode name '" ++ op.cfg.mode ++ "'") := by
  simp [OSOperator.ChangeMode, OSOperator.reStartup, hne, hrun, clearProxyByMode, h1, h2]

/-- The guarded swap without faults: on the fake driver, when a running operator changes
to another mode `newMode` in
pac/global and `ChangeMode` returns nil, the stored mode is `newMode` (nothing else of the
operator changes), the driver state is the one a fresh `Startup` in `newMode` produces,
and on every interface the old mode's flag is off and its fields are empty while the new
mode's flag is on with the operator's configured values. -/
theorem mock_ChangeMode_leaves_no_old_setting (m : mockAPI) (op : OSOperator)
    (newMode : String) (hrun : op.isStartup = true)
    (hnew : newMode = config.ModePAC ∨ newMode = config.ModeGlobal)
    (hne : newMode ≠ op.cfg.mode) (hok : (op.ChangeMode mockDriver newMode m).1 = none) :
    (op.ChangeMode mockDriver newMode m).2.1
        = { op with cfg := { op.cfg with mode := newMode } } ∧
    (∃ fresh, NewOSOperator newMode op.cfg.pacURL op.cfg.localAddr op.cfg.localPort
        = Except.ok fresh ∧
      (op.ChangeMode mockDriver newMode m).2.2 = (fresh.Startup mockDriver m).2.2) ∧
    (op.ChangeMode mockDriver newMode m).2.2.settings.map Prod.fst
        = m.settings.map Prod.fst ∧
    ∀ e ∈ (op.ChangeMode mockDriver newMode m).2.2.settings,
      (newMode = config.ModeGlobal →
        e.2.pacOn = false ∧ e.2.pacURL = "" ∧ e.2.globalOn = true ∧
        e.2.globalAddr = op.cfg.localAddr ∧ e.2.globalPort = op.cfg.localPort) ∧
      (newMode = config.ModePAC →
        e.2.globalOn = false ∧ e.2.globalAddr = "" ∧ e.2.globalPort = "" ∧
        e.2.pacOn = true ∧ e.2.pacURL = op.cfg.pacURL) := by
  by_cases h1 : op.cfg.mode = config.ModePAC
  · have hg : newMode = config.ModeGlobal := by
      rcases hnew with h | h
      · exact absurd (h.trans h1.symm) hne
      · exact h
    subst hg
    rw [mock_ChangeMode_pac_to_global m op hrun h1]
    refine ⟨rfl, ⟨⟨⟨config.ModeGlobal, op.cfg.pacURL, op.cfg.localAddr, op.cfg.localPort⟩,
      false⟩, by simp [NewOSOperator], ?_⟩, mockAPI.mapSettings_keys _ _, ?_⟩
    · rw [mock_Startup_global m _ rfl rfl]
    · intro e he
      obtain ⟨x, hx⟩ := mockAPI.mem_mapSettings he
      rw [hx]
      have := applied_global op.cfg.localAddr op.cfg.localPort x
      exact ⟨fun _ => ⟨this.2.1, this.2.2.2.2, this.1, this.2.2.1, this.2.2.2.1⟩,
        fun h => absurd h mode_pac_ne_global.symm⟩
  · by_cases h2 : op.cfg.mode = config.ModeGlobal
    · have hp : newMode = config.ModePAC := by
        rcases hnew with h | h
        · exact h
        · exact absurd (h.trans h2.symm) hne
      subst hp
      rw [mock_ChangeMode_global_to_pac m op hrun h2]
      refine ⟨rfl, ⟨⟨⟨config.ModePAC, op.cfg.pacURL, op.cfg.localAddr, op.cfg.localPort⟩,
        false⟩, by simp [NewOSOperator], ?_⟩, mockAPI.mapSettings_keys _ _, ?_⟩
      · rw [mock_Startup_pac m _ rfl rfl]
      · intro e he
        obtain ⟨x, hx⟩ := mockAPI.mem_mapSettings he
        rw [hx]
        have := applied_pac op.cfg.pacURL x
        exact ⟨fun h => absurd h mode_pac_ne_global,
          fun _ => ⟨this.2.1, this.2.2.2.1, this.2.2.2.2, this.1, this.2.2.1⟩⟩
    · have := ChangeMode_unknown_old_mode mockDriver op newMode m hrun hne h1 h2
      rw [hok] at this
      exact absurd this (by simp)

/-- The scenario of `TestChangeMode` (pac to global on the two fake interfaces). -/
theorem scenario_change_mode_pac_to_global :
    (OSOperator.ChangeMode mockDriver ⟨⟨"pac", "abcd", "11.22.33.44", "1234"⟩, true⟩
        "global" newMockAPI).1 = none ∧
    (∀ e ∈ (OSOperator.ChangeMode mockDriver ⟨⟨"pac", "abcd", "11.22.33.44", "1234"⟩, true⟩
        "global" newMockAPI).2.2.settings,
      ("global" = config.ModeGlobal →
        e.2.pacOn = false ∧ e.2.pacURL = "" ∧ e.2.globalOn = true ∧
        e.2.globalAddr = "11.22.33.44" ∧ e.2.globalPort = "1234") ∧
      ("global" = config.ModePAC →
        e.2.globalOn = false ∧ e.2.globalAddr = "" ∧ e.2.globalPort = "" ∧
        e.2.pacOn = true ∧ e.2.pacURL = "abcd")) :=
  ⟨by decide, (mock_ChangeMode_leaves_no_old_setting newMockAPI
    ⟨⟨"pac", "abcd", "11.22.33.44", "1234"⟩, true⟩ "global" rfl (Or.inr rfl) (by decide)
    (by decide)).2.2.2⟩

/-! ## Running the operator on a recording driver -/

section records
variable {σ ε : Type} (inj : Call → ε) (api : osAPI σ)

theorem records_clearAutoProxyFor (nw : String) :
    Records inj ((api.tracedWith inj).clearAutoProxyFor nw) (api.clearAutoProxyFor nw) :=
  fun _ _ => ⟨[Call.clearAutoProxyFor nw], rfl⟩

theorem records_clearGlobalProxyFor (nw : String) :
    Records inj ((api.tracedWith inj).clearGlobalProxyFor nw) (api.clearGlobalProxyFor nw) :=
  fun _ _ => ⟨[Call.clearGlobalProxyFor nw], rfl⟩

theorem records_setAutoProxyFor (nw url : String) :
    Records inj (fun w => (api.tracedWith inj).setAutoProxyFor nw url w)
      (fun s => api.setAutoProxyFor nw url s) :=
  fun _ _ => ⟨[Call.setAutoProxyFor nw url], rfl⟩

theorem records_setGlobalProxyFor (nw addr port : String) :
    Records inj (fun w => (api.tracedWith inj).setGlobalProxyFor nw addr port w)
      (fun s => api.setGlobalProxyFor nw addr port s) :=
  fun _ _ => ⟨[Call.setGlobalProxyFor nw addr port], rfl⟩

theorem tracedWith_clearAutoProxyFor (nw : String) (s : σ) (l : List ε) :
    (api.tracedWith inj).clearAutoProxyFor nw (s, l)
      = ((api.clearAutoProxyFor nw s).1,
          ((api.clearAutoProxyFor nw s).2, l ++ [inj (Call.clearAutoProxyFor nw)])) := rfl

theorem tracedWith_clearGlobalProxyFor (nw : String) (s : σ) (l : List ε) :
    (api.tracedWith inj).clearGlobalProxyFor nw (s, l)
      = ((api.clearGlobalProxyFor nw s).1,
          ((api.clearGlobalProxyFor nw s).2, l ++ [inj (Call.clearGlobalProxyFor nw)])) := rfl

theorem tracedWith_listAllNetwork (s : σ) (l : List ε) :
    (api.tracedWith inj).listAllNetwork (s, l)
      = ((api.listAllNetwork s).1,
          ((api.listAllNetwork s).2, l ++ [inj Call.listAllNetwork])) := rfl

theorem records_clearBothFor (nw : String) :
    Records inj (clearBothFor (api.tracedWith inj) nw) (clearBothFor api nw) := by
  intro s l
  rcases h1 : api.clearAutoProxyFor nw s with ⟨e1, s1⟩
  rcases h2 : api.clearGlobalProxyFor nw s1 with ⟨e2, s2⟩
  have t1 : (api.tracedWith inj).clearAutoProxyFor nw (s, l)
      = (e1, (s1, l ++ [inj (Call.clearAutoProxyFor nw)])) := by
    rw [tracedWith_clearAutoProxyFor, h1]
  have t2 : (api.tracedWith inj).clearGlobalProxyFor nw
        (s1, l ++ [inj (Call.clearAutoProxyFor nw)])
      = (e2, (s2, l ++ [inj (Call.clearAutoProxyFor nw)]
          ++ [inj (Call.clearGlobalProxyFor nw)])) := by
    rw [tracedWith_clearGlobalProxyFor, h2]
  refine ⟨[Call.clearAutoProxyFor nw, Call.clearGlobalProxyFor nw], ?_⟩
  simp only [clearBothFor, t1, t2, h1, h2]
  cases e1 <;> cases e2 <;> simp

theorem records_clearLoop (cf' : String → σ × List ε → Err × (σ × List ε))
    (cf : String → σ → Err × σ) (h : ∀ nw, Records inj (cf' nw) (cf nw)) :
    ∀ (ks : List String) (r : Err), Records inj (clearLoop cf' ks r) (clearLoop cf ks r) := by
  intro ks
  induction ks with
  | nil => intro r s l; exact ⟨[], by simp [clearLoop]⟩
  | cons k ks ih =>
    intro r s l
    obtain ⟨c1, h1⟩ := h k s l
    simp only [clearLoop, h1]
    rcases cf k s with ⟨e1, s1⟩
    cases e1 with
    | none =>
      obtain ⟨c2, h2⟩ := ih r s1 (l ++ c1.map inj)
      exact ⟨c1 ++ c2, by simp [h2]⟩
    | some err =>
      obtain ⟨c2, h2⟩ := ih (some ("clear " ++ k ++ " error: " ++ err ++ "; ")) s1 (l ++ c1.map inj)
      exact ⟨c1 ++ c2, by simp [h2]⟩

theorem records_clearProxy (cf' : String → σ × List ε → Err × (σ × List ε))
    (cf : String → σ → Err × σ) (h : ∀ nw, Records inj (cf' nw) (cf nw)) :
    Records inj (clearProxy (api.tracedWith inj) cf') (clearProxy api cf) := by
  intro s l
  unfold clearProxy
  rw [tracedWith_listAllNetwork]
  rcases api.listAllNetwork s with ⟨r, s1⟩
  cases r with
  | error err => exact ⟨[Call.listAllNetwork], by simp⟩
  | ok nws =>
    obtain ⟨cs, hcs⟩ := records_clearLoop inj cf' cf h nws none s1 (l ++ [inj Call.listAllNetwork])
    exact ⟨Call.listAllNetwork :: cs, by dsimp only; rw [hcs]; simp⟩

theorem records_clearAllProxy :
    Records inj (clearAllProxy (api.tracedWith inj)) (clearAllProxy api) :=
  records_clearProxy inj api _ _ (records_clearBothFor inj api)

theorem records_clearAutoProxy :
    Records inj (clearAutoProxy (api.tracedWith inj)) (clearAutoProxy api) :=
  records_clearProxy inj api _ _ (records_clearAutoProxyFor inj api)

theorem records_clearGlobalProxy :
    Records inj (clearGlobalProxy (api.tracedWith inj)) (clearGlobalProxy api) :=
  records_clearProxy inj api _ _ (records_clearGlobalProxyFor inj api)

theorem records_setLoop (sf' : String → σ × List ε → Err × (σ × List ε))
    (sf : String → σ → Err × σ) (h : ∀ nw, Records inj (sf' nw) (sf nw)) :
    ∀ ks : List String,
      Records inj (setLoop (api.tracedWith inj) sf' ks) (setLoop api sf ks) := by
  intro ks
  induction ks with
  | nil => intro s l; exact ⟨[], by simp [setLoop]⟩
  | cons k ks ih =>
    intro s l
    obtain ⟨c1, h1⟩ := h k s l
    simp only [setLoop, h1]
    rcases sf k s with ⟨e1, s1⟩
    cases e1 with
    | none =>
      obtain ⟨c2, h2⟩ := ih s1 (l ++ c1.map inj)
      exact ⟨c1 ++ c2, by simp [h2]⟩
    | some err =>
      obtain ⟨c2, h2⟩ := records_clearAllProxy inj api s1 (l ++ c1.map inj)
      exact ⟨c1 ++ c2, by simp [h2]⟩

theorem records_setProxy (sf' : String → σ × List ε → Err × (σ × List ε))
    (sf : String → σ → Err × σ) (h : ∀ nw, Records inj (sf' nw) (sf nw)) :
    Records inj (setProxy (api.tracedWith inj) sf') (setProxy api sf) := by
  intro s l
  obtain ⟨c0, h0⟩ := records_clearAllProxy inj api s l
  simp only [setProxy, h0]
  rw [tracedWith_listAllNetwork]
  rcases api.listAllNetwork (clearAllProxy api s).2 with ⟨r, s1⟩
  cases r with
  | error err => exact ⟨c0 ++ [Call.listAllNetwork], by simp⟩
  | ok nws =>
    obtain ⟨cs, hcs⟩ := records_setLoop inj api sf' sf h nws s1
      (l ++ c0.map inj ++ [inj Call.listAllNetwork])
    exact ⟨c0 ++ Call.listAllNetwork :: cs, by dsimp only; rw [hcs]; simp⟩

theorem records_resetProxy (cfg : opConfig) :
    Records inj (resetProxy (api.tracedWith inj) cfg) (resetProxy api cfg) := by
  intro s l
  unfold resetProxy
  by_cases h1 : cfg.mode = config.ModePAC
  · simp only [h1, if_true]
    exact records_setProxy inj api _ _ (fun nw => records_setAutoProxyFor inj api nw _) s l
  · by_cases h2 : cfg.mode = config.ModeGlobal
    · simp only [h1, h2, if_true, if_false]
      exact records_setProxy inj api _ _ (fun nw => records_setGlobalProxyFor inj api nw _ _) s l
    · simp only [h1, h2, if_false]
      exact ⟨[], by simp⟩

theorem records_clearProxyByMode (mode : String) :
    Records inj (clearProxyByMode (api.tracedWith inj) mode) (clearProxyByMode api mode) := by
  intro s l
  unfold clearProxyByMode
  by_cases h1 : mode = config.ModePAC
  · simp only [h1, if_true]
    exact records_clearAutoProxy inj api s l
  · by_cases h2 : mode = config.ModeGlobal
    · simp only [h1, h2, if_true, if_false]
      exact records_clearGlobalProxy inj api s l
    · simp only [h1, h2, if_false]
      exact ⟨[], by simp⟩

theorem records_reStartup (op : OSOperator) (newCfg : opConfig) :
    Records inj (op.reStartup (api.tracedWith inj) newCfg) (op.reStartup api newCfg) := by
  intro s l
  unfold OSOperator.reStartup
  by_cases h : newCfg.mode = op.cfg.mode
  · simp only [h, if_true]
    exact records_resetProxy inj api newCfg s l
  · simp only [h, if_false]
    obtain ⟨c1, h1⟩ := records_clearProxyByMode inj api op.cfg.mode s l
    rw [h1]
    rcases clearProxyByMode api op.cfg.mode s with ⟨e1, s1⟩
    cases e1 with
    | some err => exact ⟨c1, rfl⟩
    | none =>
      obtain ⟨c2, h2⟩ := records_resetProxy inj api newCfg s1 (l ++ c1.map inj)
      simp only [h2]
      rcases resetProxy api newCfg s1 with ⟨e2, s2⟩
      cases e2 with
      | none => exact ⟨c1 ++ c2, by simp⟩
      | some err =>
        obtain ⟨c3, h3⟩ := records_resetProxy inj api op.cfg s2 (l ++ c1.map inj ++ c2.map inj)
        exact ⟨c1 ++ c2 ++ c3, by dsimp only; rw [h3]; simp⟩

/-- `Startup` on a recording driver: the result and the operator are those of the plain
run, the log grows by driver calls only. -/
theorem records_Startup (op : OSOperator) (s : σ) (l : List ε) :
    ∃ cs : List Call, op.Startup (api.tracedWith inj) (s, l)
      = ((op.Startup api s).1, (op.Startup api s).2.1,
          ((op.Startup api s).2.2, l ++ cs.map inj)) := by
  unfold OSOperator.Startup
  by_cases h : op.isStartup = true
  · simp only [h, if_true]
    exact ⟨[], by simp⟩
  · simp only [h, if_false]
    obtain ⟨c1, h1⟩ := records_resetProxy inj api op.cfg s l
    rw [h1]
    rcases resetProxy api op.cfg s with ⟨e1, s1⟩
    cases e1 <;> exact ⟨c1, rfl⟩

theorem records_Shutdown (op : OSOperator) (s : σ) (l : List ε) :
    ∃ cs : List Call, op.Shutdown (api.tracedWith inj) (s, l)
      = ((op.Shutdown api s).1, (op.Shutdown api s).2.1,
          ((op.Shutdown api s).2.2, l ++ cs.map inj)) := by
  unfold OSOperator.Shutdown
  by_cases h : op.isStartup = true
  · simp only [h, Bool.not_true, Bool.false_eq_true, if_false]
    obtain ⟨c1, h1⟩ := records_clearProxyByMode inj api op.cfg.mode s l
    rw [h1]
    rcases clearProxyByMode api op.cfg.mode s with ⟨e1, s1⟩
    cases e1 <;> exact ⟨c1, rfl⟩
  · simp only [h, Bool.not_false, if_true]
    exact ⟨[], by simp⟩

theorem records_ChangeMode (op : OSOperator) (newMode : String) (s : σ) (l : List ε) :
    ∃ cs : List Call, op.ChangeMode (api.tracedWith inj) newMode (s, l)
      = ((op.ChangeMode api newMode s).1, (op.ChangeMode api newMode s).2.1,
          ((op.ChangeMode api newMode s).2.2, l ++ cs.map inj)) := by
  unfold OSOperator.ChangeMode
  by_cases h : newMode = op.cfg.mode
  · simp only [h, if_true]
    exact ⟨[], by simp⟩
  · by_cases h' : op.isStartup = true
    · simp only [h, h', if_false, Bool.not_true, Bool.false_eq_true]
      obtain ⟨c1, h1⟩ := records_reStartup inj api op { op.cfg with mode := newMode } s l
      rw [h1]
      rcases op.reStartup api { op.cfg with mode := newMode } s with ⟨e1, s1⟩
      cases e1 <;> exact ⟨c1, rfl⟩
    · simp only [h, h', if_false, Bool.not_false, if_true]
      exact ⟨[], by simp⟩

theorem records_ChangeLocalPort (op : OSOperator) (newPort : String) (s : σ) (l : List ε) :
    ∃ cs : List Call, op.ChangeLocalPort (api.tracedWith inj) newPort (s, l)
      = ((op.ChangeLocalPort api newPort s).1, (op.ChangeLocalPort api newPort s).2.1,
          ((op.ChangeLocalPort api newPort s).2.2, l ++ cs.map inj)) := by
  unfold OSOperator.ChangeLocalPort
  by_cases h : newPort = op.cfg.localPort
  · simp only [h, if_true]
    exact ⟨[], by simp⟩
  · by_cases h' : (!op.isStartup || decide (op.cfg.mode = config.ModePAC)) = true
    · simp only [h, h', if_false, if_true]
      exact ⟨[], by simp⟩
    · simp only [h, h', if_false]
      obtain ⟨c1, h1⟩ := records_reStartup inj api op { op.cfg with localPort := newPort } s l
      rw [h1]
      rcases op.reStartup api { op.cfg with localPort := newPort } s with ⟨e1, s1⟩
      cases e1 <;> exact ⟨c1, rfl⟩

theorem records_ChangePACURL (op : OSOperator) (newURL : String) (s : σ) (l : List ε) :
    ∃ cs : List Call, op.ChangePACURL (api.tracedWith inj) newURL (s, l)
      = ((op.ChangePACURL api newURL s).1, (op.ChangePACURL api newURL s).2.1,
          ((op.ChangePACURL api newURL s).2.2, l ++ cs.map inj)) := by
  unfold OSOperator.ChangePACURL
  by_cases h : newURL = op.cfg.pacURL
  · simp only [h, if_true]
    exact ⟨[], by simp⟩
  · by_cases h' : (!op.isStartup || decide (op.cfg.mode = config.ModeGlobal)) = true
    · simp only [h, h', if_false, if_true]
      exact ⟨[], by simp⟩
    · simp only [h, h', if_false]
      obtain ⟨c1, h1⟩ := records_reStartup inj api op { op.cfg with pacURL := newURL } s l
      rw [h1]
      rcases op.reStartup api { op.cfg with pacURL := newURL } s with ⟨e1, s1⟩
      cases e1 <;> exact ⟨c1, rfl⟩

end records

/-! ## OSOperator on an arbitrary driver -/

/-- On a recording driver, once the enumeration inside the set algorithm returns the
interfaces `nw :: rest`, the set call for `nw` is in the log. -/
theorem setProxy_records_first_set {σ : Type} (api : osAPI σ)
    (sf : String → σ → Err × σ) (sf' : String → σ × List Call → Err × (σ × List Call))
    (mk : String → Call)
    (hsf : ∀ nw s l, sf' nw (s, l) = ((sf nw s).1, ((sf nw s).2, l ++ [mk nw])))
    (s s1 : σ) (l : List Call) (nw : String) (rest : List String)
    (hlist : api.listAllNetwork (clearAllProxy api s).2 = (Except.ok (nw :: rest), s1)) :
    ∃ pre post : List Call,
      (setProxy api.traced sf' (s, l)).2.2 = l ++ pre ++ [mk nw] ++ post := by
  have hrec : ∀ k, Records id (sf' k) (sf k) := fun k t m => ⟨[mk k], by rw [hsf]; simp⟩
  obtain ⟨c0, h0⟩ := records_clearAllProxy id api s l
  have h0' : clearAllProxy api.traced (s, l)
      = ((clearAllProxy api s).1, (clearAllProxy api s).2, l ++ c0) := by
    simpa [osAPI.traced] using h0
  have hl : api.traced.listAllNetwork ((clearAllProxy api s).2, l ++ c0)
      = (Except.ok (nw :: rest), (s1, l ++ c0 ++ [Call.listAllNetwork])) := by
    show (api.tracedWith id).listAllNetwork _ = _
    rw [tracedWith_listAllNetwork, hlist]
    rfl
  simp only [setProxy, h0', hl, setLoop, hsf]
  rcases sf nw s1 with ⟨e1, t1⟩
  cases e1 with
  | none =>
    obtain ⟨c2, h2⟩ := records_setLoop id api sf' sf hrec rest t1
      (l ++ c0 ++ [Call.listAllNetwork] ++ [mk nw])
    refine ⟨c0 ++ [Call.listAllNetwork], c2, ?_⟩
    dsimp only
    have h2' : setLoop api.traced sf' rest (t1, l ++ c0 ++ [Call.listAllNetwork] ++ [mk nw])
        = _ := h2
    rw [h2']
    simp
  | some err =>
    obtain ⟨c2, h2⟩ := records_clearAllProxy id api t1
      (l ++ c0 ++ [Call.listAllNetwork] ++ [mk nw])
    refine ⟨c0 ++ [Call.listAllNetwork], c2, ?_⟩
    dsimp only
    have h2' : clearAllProxy api.traced (t1, l ++ c0 ++ [Call.listAllNetwork] ++ [mk nw])
        = _ := h2
    rw [h2']
    simp

theorem records_traced_eq {σ α : Type} {g' : σ × List Call → α × (σ × List Call)}
    {g : σ → α × σ} (h : Records id g' g) (s : σ) (l : List Call) :
    ∃ l', g' (s, l) = ((g s).1, ((g s).2, l')) := by
  obtain ⟨cs, hcs⟩ := h s l
  exact ⟨l ++ cs.map id, hcs⟩

/-- C3: for a running operator and a different `newMode`, when clearing the old mode
succeeds and applying the new configuration fails with `e`, `ChangeMode` returns exactly
`e` and leaves the operator (mode, pacURL, localAddr, localPort, running flag) as it was;
the driver ends in the state reached by running the set algorithm of the old mode
(`setAutoProxy` with the old URL, resp. `setGlobalProxy` with the old address and port)
after the failed apply, whatever that re-apply returns. On a recording driver, as soon as
the enumeration of that re-apply returns an interface, the log continues after the calls
of the failed apply with the old mode's set call for that interface. -/
theorem C3_failed_apply_reapplies_old_and_returns_first_error {σ : Type} (api : osAPI σ)
    (op : OSOperator) (newMode : String) (s s1 s2 : σ) (e : String)
    (hrun : op.isStartup = true) (hne : newMode ≠ op.cfg.mode)
    (hclear : clearProxyByMode api op.cfg.mode s = (none, s1))
    (happly : resetProxy api { op.cfg with mode := newMode } s1 = (some e, s2)) :
    op.ChangeMode api newMode s = (some e, op, (resetProxy api op.cfg s2).2) ∧
    ((op.cfg.mode = config.ModePAC ∧
        resetProxy api op.cfg s2 = setAutoProxy api op.cfg.pacURL s2) ∨
     (op.cfg.mode = config.ModeGlobal ∧
        resetProxy api op.cfg s2 = setGlobalProxy api op.cfg.localAddr op.cfg.localPort s2)) ∧
    (∀ (l : List Call) (nw : String) (rest : List String) (s3 : σ),
      api.listAllNetwork (clearAllProxy api s2).2 = (Except.ok (nw :: rest), s3) →
      ∃ pre post : List Call,
        (op.ChangeMode api.traced newMode (s, l)).2.2.2
          = (resetProxy api.traced { op.cfg with mode := newMode }
              (clearProxyByMode api.traced op.cfg.mode (s, l)).2).2.2
            ++ pre
            ++ [if op.cfg.mode = config.ModePAC then Call.setAutoProxyFor nw op.cfg.pacURL
                else Call.setGlobalProxyFor nw op.cfg.localAddr op.cfg.localPort]
            ++ post) := by
  have key : ∀ {τ : Type} (a : osAPI τ) (t t1 t2 : τ),
      clearProxyByMode a op.cfg.mode t = (none, t1) →
      resetProxy a { op.cfg with mode := newMode } t1 = (some e, t2) →
      op.ChangeMode a newMode t = (some e, op, (resetProxy a op.cfg t2).2) := by
    intro τ a t t1 t2 hc ha
    simp [OSOperator.ChangeMode, OSOperator.reStartup, hne, hrun, hc, ha]
  have hmode : (op.cfg.mode = config.ModePAC ∧
        resetProxy api op.cfg s2 = setAutoProxy api op.cfg.pacURL s2) ∨
     (op.cfg.mode = config.ModeGlobal ∧
        resetProxy api op.cfg s2 = setGlobalProxy api op.cfg.localAddr op.cfg.localPort s2) := by
    by_cases h1 : op.cfg.mode = config.ModePAC
    · exact Or.inl ⟨h1, by simp [resetProxy, h1]⟩
    · by_cases h2 : op.cfg.mode = config.ModeGlobal
      · exact Or.inr ⟨h2, by simp [resetProxy, h2, mode_pac_ne_global.symm]⟩
      · simp [clearProxyByMode, h1, h2] at hclear
  refine ⟨key api s s1 s2 hclear happly, hmode, ?_⟩
  intro l nw rest s3 hlist
  obtain ⟨l1, hc⟩ := records_traced_eq (records_clearProxyByMode id api op.cfg.mode) s l
  obtain ⟨l2, ha⟩ :=
    records_traced_eq (records_resetProxy id api { op.cfg with mode := newMode }) s1 l1
  have hc' : clearProxyByMode api.traced op.cfg.mode (s, l) = (none, (s1, l1)) := by
    rw [show api.traced = api.tracedWith id from rfl, hc, hclear]
  have ha' : resetProxy api.traced { op.cfg with mode := newMode } (s1, l1)
      = (some e, (s2, l2)) := by
    rw [show api.traced = api.tracedWith id from rfl, ha, happly]
  rw [key api.traced (s, l) (s1, l1) (s2, l2) hc' ha', hc', ha']
  rcases hmode with ⟨hm, _⟩ | ⟨hm, _⟩
  · obtain ⟨pre, post, h⟩ := setProxy_records_first_set api
      (fun k => api.setAutoProxyFor k op.cfg.pacURL)
      (fun k => api.traced.setAutoProxyFor k op.cfg.pacURL)
      (fun k => Call.setAutoProxyFor k op.cfg.pacURL) (fun _ _ _ => rfl) s2 s3 l2 nw rest hlist
    refine ⟨pre, post, ?_⟩
    simp only [resetProxy, hm, if_true, setAutoProxy]
    exact h
  · obtain ⟨pre, post, h⟩ := setProxy_records_first_set api
      (fun k => api.setGlobalProxyFor k op.cfg.localAddr op.cfg.localPort)
      (fun k => api.traced.setGlobalProxyFor k op.cfg.localAddr op.cfg.localPort)
      (fun k => Call.setGlobalProxyFor k op.cfg.localAddr op.cfg.localPort)
      (fun _ _ _ => rfl) s2 s3 l2 nw rest hlist
    refine ⟨pre, post, ?_⟩
    simp only [resetProxy, hm, mode_pac_ne_global.symm, if_true, if_false, setGlobalProxy]
    exact h

/-- Witness of C3: the fake driver made to reject every `setGlobalProxyFor`; a running pac
operator is asked to go global. -/
theorem C3_failed_apply_reapplies_old_and_returns_first_error_witness :
    (OSOperator.ChangeMode
        (mockDriver.failing (fun c => c == Call.setGlobalProxyFor "WiFi" "11.22.33.44" "1234"))
        ⟨⟨"pac", "abcd", "11.22.33.44", "1234"⟩, true⟩ "global" newMockAPI).1
      = some "driver failure" ∧
    (OSOperator.ChangeMode
        (mockDriver.failing (fun c => c == Call.setGlobalProxyFor "WiFi" "11.22.33.44" "1234"))
        ⟨⟨"pac", "abcd", "11.22.33.44", "1234"⟩, true⟩ "global" newMockAPI).2.1
      = ⟨⟨"pac", "abcd", "11.22.33.44", "1234"⟩, true⟩ :=
  have h := (C3_failed_apply_reapplies_old_and_returns_first_error
    (mockDriver.failing (fun c => c == Call.setGlobalProxyFor "WiFi" "11.22.33.44" "1234"))
    ⟨⟨"pac", "abcd", "11.22.33.44", "1234"⟩, true⟩ "global" newMockAPI
    newMockAPI newMockAPI "driver failure" rfl (by decide) (by decide) (by decide)).1
  ⟨by rw [h], by rw [h]⟩

/-- C4 (as amended): `Shutdown` on a running operator stops it exactly when clearing the
active mode reports no error, and then a second `Shutdown` returns nil without touching the
driver (no call reaches a recording driver); when clearing fails, `Shutdown` returns that
error and the operator stays running. -/
theorem C4_shutdown_stops_only_when_clear_succeeds {σ : Type} (api : osAPI σ)
    (op : OSOperator) (s : σ) (hrun : op.isStartup = true) :
    (∀ s1, clearProxyByMode api op.cfg.mode s = (none, s1) →
      op.Shutdown api s = (none, { op with isStartup := false }, s1) ∧
      (op.Shutdown api s).2.1.Shutdown api s1 = (none, { op with isStartup := false }, s1) ∧
      ∀ log : List Call,
        (op.Shutdown api s).2.1.Shutdown api.traced (s1, log)
          = (none, { op with isStartup := false }, (s1, log))) ∧
    (∀ e s1, clearProxyByMode api op.cfg.mode s = (some e, s1) →
      op.Shutdown api s = (some e, op, s1) ∧ (op.Shutdown api s).2.1.isStartup = true) := by
  constructor
  · intro s1 h
    have h0 : op.Shutdown api s = (none, { op with isStartup := false }, s1) := by
      simp [OSOperator.Shutdown, hrun, h]
    rw [h0]
    exact ⟨rfl, by simp [OSOperator.Shutdown], fun log => by simp [OSOperator.Shutdown]⟩
  · intro e s1 h
    have h0 : op.Shutdown api s = (some e, op, s1) := by
      simp [OSOperator.Shutdown, hrun, h]
    rw [h0]
    exact ⟨rfl, hrun⟩

/-- Witness of C4: on the fake driver a running pac operator shuts down and stays stopped;
on the fake driver made to reject `clearAutoProxyFor` on `wlan` it stays running. -/
theorem C4_shutdown_stops_only_when_clear_succeeds_witness :
    (OSOperator.Shutdown mockDriver ⟨⟨"pac", "abcd", "11.22.33.44", "1234"⟩, true⟩ newMockAPI
        = (none, ⟨⟨"pac", "abcd", "11.22.33.44", "1234"⟩, false⟩, newMockAPI)) ∧
    (OSOperator.Shutdown (mockDriver.failing (fun c => c == Call.clearAutoProxyFor "wlan"))
        ⟨⟨"pac", "abcd", "11.22.33.44", "1234"⟩, true⟩ newMockAPI).2.1.isStartup = true :=
  ⟨((C4_shutdown_stops_only_when_clear_succeeds mockDriver
      ⟨⟨"pac", "abcd", "11.22.33.44", "1234"⟩, true⟩ newMockAPI rfl).1
      newMockAPI (by decide)).1,
   ((C4_shutdown_stops_only_when_clear_succeeds
      (mockDriver.failing (fun c => c == Call.clearAutoProxyFor "wlan"))
      ⟨⟨"pac", "abcd", "11.22.33.44", "1234"⟩, true⟩ newMockAPI rfl).2
      "clear wlan error: driver failure; " newMockAPI (by decide)).2⟩

/-- Counterexample to C4 as stated: the fake driver made to reject `clearAutoProxyFor` on
`wlan`. A pac operator starts, its `Shutdown` reports the failure and the operator is still
running; the second `Shutdown` calls the driver again and fails again. -/
theorem C4_counterexample_failed_shutdown_stays_running :
    (OSOperator.Startup (mockDriver.failing (fun c => c == Call.clearAutoProxyFor "wlan"))
        ⟨⟨"pac", "abcd", "11.22.33.44", "1234"⟩, false⟩ newMockAPI).1 = none ∧
    (OSOperator.Shutdown (mockDriver.failing (fun c => c == Call.clearAutoProxyFor "wlan"))
        ⟨⟨"pac", "abcd", "11.22.33.44", "1234"⟩, true⟩
        (OSOperator.Startup (mockDriver.failing (fun c => c == Call.clearAutoProxyFor "wlan"))
          ⟨⟨"pac", "abcd", "11.22.33.44", "1234"⟩, false⟩ newMockAPI).2.2)
      = (some "clear wlan error: driver failure; ",
          ⟨⟨"pac", "abcd", "11.22.33.44", "1234"⟩, true⟩,
          ⟨[("WiFi", {}), ("wlan", { mode := 1, pacURL := "abcd" })]⟩) ∧
    (OSOperator.Shutdown
        (mockDriver.failing (fun c => c == Call.clearAutoProxyFor "wlan")).traced
        ⟨⟨"pac", "abcd", "11.22.33.44", "1234"⟩, true⟩
        (⟨[("WiFi", {}), ("wlan", { mode := 1, pacURL := "abcd" })]⟩, [])).1
      = some "clear wlan error: driver failure; " ∧
    (OSOperator.Shutdown
        (mockDriver.failing (fun c => c == Call.clearAutoProxyFor "wlan")).traced
        ⟨⟨"pac", "abcd", "11.22.33.44", "1234"⟩, true⟩
        (⟨[("WiFi", {}), ("wlan", { mode := 1, pacURL := "abcd" })]⟩, [])).2.2.2
      = [Call.listAllNetwork, Call.clearAutoProxyFor "WiFi", Call.clearAutoProxyFor "wlan"] := by
  decide

/-- C10: on a stopped operator `ChangeMode` returns nil for every `newMode`, changes only
the stored mode, and leaves the driver world as it was; on a recording driver the log is
unchanged, that is, no driver call is issued. -/
theorem C10_change_mode_while_stopped_is_memory_only {σ : Type} (api : osAPI σ)
    (op : OSOperator) (newMode : String) (s : σ) (hstop : op.isStartup = false) :
    op.ChangeMode api newMode s
      = (none, { op with cfg := { op.cfg with mode := newMode } }, s) ∧
    (op.ChangeMode api newMode s).2.1.cfg.pacURL = op.cfg.pacURL ∧
    (op.ChangeMode api newMode s).2.1.cfg.localAddr = op.cfg.localAddr ∧
    (op.ChangeMode api newMode s).2.1.cfg.localPort = op.cfg.localPort ∧
    (op.ChangeMode api newMode s).2.1.isStartup = false ∧
    ∀ log : List Call,
      op.ChangeMode api.traced newMode (s, log)
        = (none, { op with cfg := { op.cfg with mode := newMode } }, (s, log)) := by
  have key : ∀ {τ : Type} (a : osAPI τ) (t : τ),
      op.ChangeMode a newMode t
        = (none, { op with cfg := { op.cfg with mode := newMode } }, t) := by
    intro τ a t
    by_cases h : newMode = op.cfg.mode
    · subst h
      simp [OSOperator.ChangeMode]
    · simp [OSOperator.ChangeMode, h, hstop]
  rw [key api s]
  exact ⟨rfl, rfl, rfl, rfl, hstop, fun log => key api.traced (s, log)⟩

/-- Witness of C10: the first half of `TestChangeMode` — a fresh pac operator is switched
to global before `Startup`, on the recording fake driver. -/
theorem C10_change_mode_while_stopped_is_memory_only_witness :
    (⟨⟨"pac", "abcd", "11.22.33.44", "1234"⟩, false⟩ : OSOperator).isStartup = false ∧
    OSOperator.ChangeMode mockDriver.traced ⟨⟨"pac", "abcd", "11.22.33.44", "1234"⟩, false⟩
        "global" (newMockAPI, [])
      = (none, ⟨⟨"global", "abcd", "11.22.33.44", "1234"⟩, false⟩, (newMockAPI, [])) :=
  ⟨rfl, (C10_change_mode_while_stopped_is_memory_only mockDriver
    ⟨⟨"pac", "abcd", "11.22.33.44", "1234"⟩, false⟩ "global" newMockAPI rfl).2.2.2.2.2 []⟩

/-! ## The process supervisor -/

/-- C8: for a running supervisor (live handle `old`) and a new port, on recording
processes: `ChangeLocalPort` first spawns with the supervisor's path, address and server
config and the new port. If the spawn fails, that error is returned, nothing is killed,
and the supervisor (handle `old`, stored port) is unchanged. If it succeeds, the old
process is killed after the spawn, the handle is the new process and the stored port is
the new port. -/
theorem C8_change_local_port_spawns_before_kill {ω : Type} (pe : ssAPI ω) (ss : ShadowSocks)
    (newPort : String) (old : Handle) (w : ω) (log : List Event)
    (hrun : ss.isStartup = true) (hproc : ss.proc = some old)
    (hne : newPort ≠ ss.localPort) :
    (∀ err w1, pe.start ss.ssPath ss.localAddr newPort ss.srvCfg w = (Except.error err, w1) →
      ss.ChangeLocalPort pe.traced newPort (w, log)
        = Outcome.ret (some err, ss,
            (w1, log ++ [Event.start ss.ssPath ss.localAddr newPort ss.srvCfg]))) ∧
    (∀ newProc w1,
      pe.start ss.ssPath ss.localAddr newPort ss.srvCfg w = (Except.ok newProc, w1) →
      ss.ChangeLocalPort pe.traced newPort (w, log)
        = Outcome.ret (none, { ss with proc := some newProc, localPort := newPort },
            ((pe.kill old w1).2,
              log ++ [Event.start ss.ssPath ss.localAddr newPort ss.srvCfg, Event.kill old]))) := by
  constructor
  · intro err w1 h
    simp [ShadowSocks.ChangeLocalPort, hne, hrun, ssAPI.traced, h]
  · intro newProc w1 h
    simp [ShadowSocks.ChangeLocalPort, hne, hrun, hproc, ssAPI.traced, h]

/-- Witness of C8: the fake processes; a supervisor running process 0 on port 2345 moves
to port 6789. -/
theorem C8_change_local_port_spawns_before_kill_witness :
    ShadowSocks.ChangeLocalPort mockProcs.traced
        ⟨"127.0.0.1", "2345", ⟨"11.22.33.44", "3234", "AEAD_AES_128_GCM", "yourpwd"⟩, "",
          some 0, true⟩ "6789"
        ([newSSProcessMock "127.0.0.1" "2345"
            ⟨"11.22.33.44", "3234", "AEAD_AES_128_GCM", "yourpwd"⟩], [])
      = Outcome.ret (none,
          ⟨"127.0.0.1", "6789", ⟨"11.22.33.44", "3234", "AEAD_AES_128_GCM", "yourpwd"⟩, "",
            some 1, true⟩,
          ([⟨"127.0.0.1", "2345", ⟨"11.22.33.44", "3234", "AEAD_AES_128_GCM", "yourpwd"⟩, true⟩,
            ⟨"127.0.0.1", "6789", ⟨"11.22.33.44", "3234", "AEAD_AES_128_GCM", "yourpwd"⟩, false⟩],
           [Event.start "" "127.0.0.1" "6789"
              ⟨"11.22.33.44", "3234", "AEAD_AES_128_GCM", "yourpwd"⟩, Event.kill 0])) :=
  (C8_change_local_port_spawns_before_kill mockProcs
    ⟨"127.0.0.1", "2345", ⟨"11.22.33.44", "3234", "AEAD_AES_128_GCM", "yourpwd"⟩, "",
      some 0, true⟩ "6789" 0
    [newSSProcessMock "127.0.0.1" "2345" ⟨"11.22.33.44", "3234", "AEAD_AES_128_GCM", "yourpwd"⟩]
    [] rfl rfl (by decide)).2 1 _ rfl

/-- C9: for a running supervisor (live handle `old`) and a different server config, on
recording processes: `ChangeServerConfig` kills the old process first. If the kill
succeeds, the new process is spawned with the new config on the unchanged path, address
and port. If that spawn fails with `e`, a spawn with the old config follows, exactly `e`
is returned whatever the respawn gives, the stored config is still the old one and the
handle is what the respawn returned. If it succeeds, the handle is the new process and the
stored config is the new one. -/
theorem C9_change_server_config_kills_then_spawns {ω : Type} (pe : ssAPI ω) (ss : ShadowSocks)
    (newCfg : config.ServerConfig) (old : Handle) (w w1 : ω) (log : List Event)
    (hrun : ss.isStartup = true) (hproc : ss.proc = some old) (hne : newCfg ≠ ss.srvCfg)
    (hkill : pe.kill old w = (none, w1)) :
    (∀ e w2 r w3,
      pe.start ss.ssPath ss.localAddr ss.localPort newCfg w1 = (Except.error e, w2) →
      pe.start ss.ssPath ss.localAddr ss.localPort ss.srvCfg w2 = (r, w3) →
      ss.ChangeServerConfig pe.traced newCfg (w, log)
        = Outcome.ret (some e, { ss with proc := r.toOption },
            (w3, log ++ [Event.kill old,
              Event.start ss.ssPath ss.localAddr ss.localPort newCfg,
              Event.start ss.ssPath ss.localAddr ss.localPort ss.srvCfg]))) ∧
    (∀ newProc w2,
      pe.start ss.ssPath ss.localAddr ss.localPort newCfg w1 = (Except.ok newProc, w2) →
      ss.ChangeServerConfig pe.traced newCfg (w, log)
        = Outcome.ret (none, { ss with proc := some newProc, srvCfg := newCfg },
            (w2, log ++ [Event.kill old,
              Event.start ss.ssPath ss.localAddr ss.localPort newCfg]))) := by
  constructor
  · intro e w2 r w3 h1 h2
    cases r with
    | error e' =>
      simp [ShadowSocks.ChangeServerConfig, hne, hrun, hproc, ssAPI.traced, hkill, h1, h2,
        Except.toOption]
    | ok p =>
      simp [ShadowSocks.ChangeServerConfig, hne, hrun, hproc, ssAPI.traced, hkill, h1, h2,
        Except.toOption]
  · intro newProc w2 h
    simp [ShadowSocks.ChangeServerConfig, hne, hrun, hproc, ssAPI.traced, hkill, h]

/-- Witness of C9: on the fake processes the supervisor running process 0 gets a new
server; in the in-memory world with no process budget left both spawns fail, the first
error is returned, the old config is kept and the handle is gone. -/
theorem C9_change_server_config_kills_then_spawns_witness :
    ShadowSocks.ChangeServerConfig mockProcs.traced
        ⟨"127.0.0.1", "2345", ⟨"11.22.33.44", "3234", "AEAD_AES_128_GCM", "yourpwd"⟩, "",
          some 0, true⟩ ⟨"99.88.77.66", "9876", "AEAD_AES_256_GCM", "mypwd"⟩
        ([newSSProcessMock "127.0.0.1" "2345"
            ⟨"11.22.33.44", "3234", "AEAD_AES_128_GCM", "yourpwd"⟩], [])
      = Outcome.ret (none,
          ⟨"127.0.0.1", "2345", ⟨"99.88.77.66", "9876", "AEAD_AES_256_GCM", "mypwd"⟩, "",
            some 1, true⟩,
          ([⟨"127.0.0.1", "2345", ⟨"11.22.33.44", "3234", "AEAD_AES_128_GCM", "yourpwd"⟩, true⟩,
            ⟨"127.0.0.1", "2345", ⟨"99.88.77.66", "9876", "AEAD_AES_256_GCM", "mypwd"⟩, false⟩],
           [Event.kill 0, Event.start "" "127.0.0.1" "2345"
              ⟨"99.88.77.66", "9876", "AEAD_AES_256_GCM", "mypwd"⟩])) ∧
    ShadowSocks.ChangeServerConfig testProcs.traced
        ⟨"127.0.0.1", "2345", ⟨"11.22.33.44", "3234", "AEAD_AES_128_GCM", "yourpwd"⟩, "",
          some 0, true⟩ ⟨"99.88.77.66", "9876", "AEAD_AES_256_GCM", "mypwd"⟩
        (⟨newMockAPI, [newSSProcessMock "127.0.0.1" "2345"
            ⟨"11.22.33.44", "3234", "AEAD_AES_128_GCM", "yourpwd"⟩], 0, [], []⟩, [])
      = Outcome.ret (some "cannot start process",
          ⟨"127.0.0.1", "2345", ⟨"11.22.33.44", "3234", "AEAD_AES_128_GCM", "yourpwd"⟩, "",
            none, true⟩,
          (⟨newMockAPI,
            [⟨"127.0.0.1", "2345", ⟨"11.22.33.44", "3234", "AEAD_AES_128_GCM", "yourpwd"⟩,
              true⟩], 0, [], []⟩,
           [Event.kill 0,
            Event.start "" "127.0.0.1" "2345" ⟨"99.88.77.66", "9876", "AEAD_AES_256_GCM", "mypwd"⟩,
            Event.start "" "127.0.0.1" "2345"
              ⟨"11.22.33.44", "3234", "AEAD_AES_128_GCM", "yourpwd"⟩])) :=
  ⟨(C9_change_server_config_kills_then_spawns mockProcs
      ⟨"127.0.0.1", "2345", ⟨"11.22.33.44", "3234", "AEAD_AES_128_GCM", "yourpwd"⟩, "",
        some 0, true⟩ ⟨"99.88.77.66", "9876", "AEAD_AES_256_GCM", "mypwd"⟩ 0
      [newSSProcessMock "127.0.0.1" "2345"
        ⟨"11.22.33.44", "3234", "AEAD_AES_128_GCM", "yourpwd"⟩] _ []
      rfl rfl (by decide) rfl).2 1 _ rfl,
   (C9_change_server_config_kills_then_spawns testProcs
      ⟨"127.0.0.1", "2345", ⟨"11.22.33.44", "3234", "AEAD_AES_128_GCM", "yourpwd"⟩, "",
        some 0, true⟩ ⟨"99.88.77.66", "9876", "AEAD_AES_256_GCM", "mypwd"⟩ 0
      ⟨newMockAPI, [newSSProcessMock "127.0.0.1" "2345"
        ⟨"11.22.33.44", "3234", "AEAD_AES_128_GCM", "yourpwd"⟩], 0, [], []⟩ _ []
      rfl rfl (by decide) rfl).1 "cannot start process" _ (Except.error "cannot start process")
      _ rfl rfl⟩

/-! ## ProxyCore -/

theorem traced_PACServer_Startup_fresh {ω : Type} (he : httpAPI ω) (ps : PACServer) (w : ω)
    (log : List Event) (hps : ps.isStartup = false) (hsrv : ps.server = none) :
    ps.Startup he.traced (w, log)
      = Outcome.ret ((he.listenAndServe ps.serverAddr w).1,
          { ps with server := some ps.serverAddr,
                    isStartup := (he.listenAndServe ps.serverAddr w).1.isNone },
          ((he.listenAndServe ps.serverAddr w).2,
            log ++ [Event.listenAndServe ps.serverAddr])) := by
  simp only [PACServer.Startup, hps, hsrv, httpAPI.traced]
  rcases he.listenAndServe ps.serverAddr w with ⟨e, w1⟩
  cases e <;> simp

theorem traced_PACServer_Shutdown_running {ω : Type} (he : httpAPI ω) (ps : PACServer) (w : ω)
    (log : List Event) (addr : String) (hps : ps.isStartup = true) (hsrv : ps.server = some addr) :
    ps.Shutdown he.traced (w, log)
      = ((ps.Shutdown he w).1, (ps.Shutdown he w).2.1,
          ((he.shutdown addr w).2, log ++ [Event.shutdown addr])) := by
  simp only [PACServer.Shutdown, hps, hsrv, httpAPI.traced, Option.getD_some]
  rcases he.shutdown addr w with ⟨e, w1⟩
  cases e <;> simp

theorem PACServer_Shutdown_stops {ω : Type} (he : httpAPI ω) (ps : PACServer) (w : ω)
    (addr : String) (hsrv : ps.server = some addr) (h : (he.shutdown addr w).1 = none) :
    (ps.Shutdown he w).2.1.isStartup = false := by
  by_cases hps : ps.isStartup = true
  · simp only [PACServer.Shutdown, hps, hsrv, Option.getD_some]
    rcases hh : he.shutdown addr w with ⟨e, w1⟩
    rw [hh] at h
    cases e with
    | none => simp
    | some err => simp at h
  · simp [PACServer.Shutdown, hps]

theorem traced_ShadowSocks_Shutdown_running {ω : Type} (pe : ssAPI ω) (ss : ShadowSocks) (w : ω)
    (log : List Event) (h : Handle) (hrun : ss.isStartup = true) (hproc : ss.proc = some h) :
    ss.Shutdown pe.traced (w, log)
      = ((ss.Shutdown pe w).1, (ss.Shutdown pe w).2.1,
          ((pe.kill h w).2, log ++ [Event.kill h])) := by
  simp only [ShadowSocks.Shutdown, hrun, hproc, ssAPI.traced]
  rcases pe.kill h w with ⟨e, w1⟩
  cases e <;> simp

theorem ShadowSocks_Shutdown_stops {ω : Type} (pe : ssAPI ω) (ss : ShadowSocks) (w : ω)
    (h : Handle) (hproc : ss.proc = some h) (hk : (pe.kill h w).1 = none) :
    (ss.Shutdown pe w).2.1.isStartup = false := by
  by_cases hrun : ss.isStartup = true
  · simp only [ShadowSocks.Shutdown, hrun, hproc]
    rcases hh : pe.kill h w with ⟨e, w1⟩
    rw [hh] at hk
    cases e with
    | none => simp
    | some err => simp at hk
  · simp [ShadowSocks.Shutdown, hrun]

theorem OSOperator_Startup_error_keeps_operator {σ : Type} (api : osAPI σ) (op op1 : OSOperator)
    (s s1 : σ) (e : String) (h : op.Startup api s = (some e, op1, s1)) : op1 = op := by
  unfold OSOperator.Startup at h
  by_cases hrun : op.isStartup = true
  · simp [hrun] at h
  · simp only [hrun, if_false] at h
    rcases hr : resetProxy api op.cfg s with ⟨e1, t⟩
    rw [hr] at h
    cases e1 with
    | none => simp at h
    | some err => simp at h; exact h.2.1.symm

/-- C5: `ProxyCore.Startup` on a not-started core whose PAC server and supervisor are not
running, observed on a recording environment. The PAC server is started first, then the
supervisor, then the OSOperator. If the listener fails, its error is returned and nothing
else is called. If the spawn fails, its error is returned and the PAC server is shut down.
If the OSOperator fails, its error is returned, the supervisor is shut down (its process
killed) and then the PAC server. In these three cases ProxyCore stays not-started and the
later components are untouched; a component whose shutdown call reports no error is not
running afterwards. When all three succeed ProxyCore is started. -/
theorem C5_startup_unwinds_in_reverse_order {ω : Type} (env : Env ω) (pc : ProxyCore)
    (w : ω) (log : List Event) (h0 : pc.isStartup = false)
    (hps : pc.pacSrv.isStartup = false) (hsrv : pc.pacSrv.server = none)
    (hss : pc.ss.isStartup = false) :
    (∀ e w1, env.http.listenAndServe pc.pacSrv.serverAddr w = (some e, w1) →
      pc.Startup env.traced (w, log)
        = Outcome.ret (some e,
            { pc with pacSrv := { pc.pacSrv with server := some pc.pacSrv.serverAddr } },
            (w1, log ++ [Event.listenAndServe pc.pacSrv.serverAddr]))) ∧
    (∀ w1 e w2, env.http.listenAndServe pc.pacSrv.serverAddr w = (none, w1) →
      env.proc.start pc.ss.ssPath pc.ss.localAddr pc.ss.localPort pc.ss.srvCfg w1
        = (Except.error e, w2) →
      ∃ pacSrv', pc.Startup env.traced (w, log)
        = Outcome.ret (some e, { pc with pacSrv := pacSrv' },
            ((env.http.shutdown pc.pacSrv.serverAddr w2).2,
              log ++ [Event.listenAndServe pc.pacSrv.serverAddr,
                Event.start pc.ss.ssPath pc.ss.localAddr pc.ss.localPort pc.ss.srvCfg,
                Event.shutdown pc.pacSrv.serverAddr])) ∧
        ((env.http.shutdown pc.pacSrv.serverAddr w2).1 = none → pacSrv'.isStartup = false)) ∧
    (∀ w1 h w2 e op1 w3, env.http.listenAndServe pc.pacSrv.serverAddr w = (none, w1) →
      env.proc.start pc.ss.ssPath pc.ss.localAddr pc.ss.localPort pc.ss.srvCfg w1
        = (Except.ok h, w2) →
      pc.op.Startup env.api w2 = (some e, op1, w3) →
      ∃ pacSrv' ss' cs, pc.Startup env.traced (w, log)
        = Outcome.ret (some e, { pc with pacSrv := pacSrv', ss := ss' },
            ((env.http.shutdown pc.pacSrv.serverAddr (env.proc.kill h w3).2).2,
              log ++ [Event.listenAndServe pc.pacSrv.serverAddr,
                  Event.start pc.ss.ssPath pc.ss.localAddr pc.ss.localPort pc.ss.srvCfg]
                ++ List.map Event.driver cs
                ++ [Event.kill h, Event.shutdown pc.pacSrv.serverAddr])) ∧
        ((env.proc.kill h w3).1 = none → ss'.isStartup = false) ∧
        ((env.http.shutdown pc.pacSrv.serverAddr (env.proc.kill h w3).2).1 = none →
          pacSrv'.isStartup = false)) ∧
    (∀ w1 h w2 op1 w3, env.http.listenAndServe pc.pacSrv.serverAddr w = (none, w1) →
      env.proc.start pc.ss.ssPath pc.ss.localAddr pc.ss.localPort pc.ss.srvCfg w1
        = (Except.ok h, w2) →
      pc.op.Startup env.api w2 = (none, op1, w3) →
      ∃ cs, pc.Startup env.traced (w, log)
        = Outcome.ret (none,
            { pc with
                pacSrv := { pc.pacSrv with server := some pc.pacSrv.serverAddr,
                                           isStartup := true },
                ss := { pc.ss with proc := some h, isStartup := true },
                op := op1, isStartup := true },
            (w3, log ++ [Event.listenAndServe pc.pacSrv.serverAddr,
                  Event.start pc.ss.ssPath pc.ss.localAddr pc.ss.localPort pc.ss.srvCfg]
                ++ List.map Event.driver cs))) := by
  have hP := traced_PACServer_Startup_fresh env.http pc.pacSrv w log hps hsrv
  refine ⟨?_, ?_, ?_, ?_⟩
  · intro e w1 hl
    rw [hl] at hP
    simp only [ProxyCore.Startup, h0, Env.traced, hP]
    simp [hps]
  · intro w1 e w2 hl hst
    rw [hl] at hP
    have hS : pc.ss.Startup env.proc.traced (w1, log ++ [Event.listenAndServe pc.pacSrv.serverAddr])
        = (some e, pc.ss, (w2, log ++ [Event.listenAndServe pc.pacSrv.serverAddr]
            ++ [Event.start pc.ss.ssPath pc.ss.localAddr pc.ss.localPort pc.ss.srvCfg])) := by
      simp [ShadowSocks.Startup, hss, ssAPI.traced, hst]
    have hD := traced_PACServer_Shutdown_running env.http
      { pc.pacSrv with server := some pc.pacSrv.serverAddr, isStartup := true } w2
      (log ++ [Event.listenAndServe pc.pacSrv.serverAddr]
        ++ [Event.start pc.ss.ssPath pc.ss.localAddr pc.ss.localPort pc.ss.srvCfg])
      pc.pacSrv.serverAddr rfl rfl
    refine ⟨_, ?_, PACServer_Shutdown_stops env.http
      { pc.pacSrv with server := some pc.pacSrv.serverAddr, isStartup := true } w2
      pc.pacSrv.serverAddr rfl⟩
    simp only [ProxyCore.Startup, h0, Env.traced, hP]
    simp only [Option.isNone_none, Bool.false_eq_true, if_false, hS, hD]
    simp
  · intro w1 h w2 e op1 w3 hl hst hop
    rw [hl] at hP
    have hS : pc.ss.Startup env.proc.traced (w1, log ++ [Event.listenAndServe pc.pacSrv.serverAddr])
        = (none, { pc.ss with proc := some h, isStartup := true },
            (w2, log ++ [Event.listenAndServe pc.pacSrv.serverAddr]
            ++ [Event.start pc.ss.ssPath pc.ss.localAddr pc.ss.localPort pc.ss.srvCfg])) := by
      simp [ShadowSocks.Startup, hss, ssAPI.traced, hst]
    obtain ⟨cs, hO⟩ := records_Startup Event.driver env.api pc.op w2
      (log ++ [Event.listenAndServe pc.pacSrv.serverAddr]
        ++ [Event.start pc.ss.ssPath pc.ss.localAddr pc.ss.localPort pc.ss.srvCfg])
    rw [hop] at hO
    have hK := traced_ShadowSocks_Shutdown_running env.proc
      { pc.ss with proc := some h, isStartup := true } w3
      (log ++ [Event.listenAndServe pc.pacSrv.serverAddr]
        ++ [Event.start pc.ss.ssPath pc.ss.localAddr pc.ss.localPort pc.ss.srvCfg]
        ++ List.map Event.driver cs) h rfl rfl
    have hD := traced_PACServer_Shutdown_running env.http
      { pc.pacSrv with server := some pc.pacSrv.serverAddr, isStartup := true }
      (env.proc.kill h w3).2
      (log ++ [Event.listenAndServe pc.pacSrv.serverAddr]
        ++ [Event.start pc.ss.ssPath pc.ss.localAddr pc.ss.localPort pc.ss.srvCfg]
        ++ List.map Event.driver cs ++ [Event.kill h])
      pc.pacSrv.serverAddr rfl rfl
    have hop1 : op1 = pc.op := OSOperator_Startup_error_keeps_operator env.api pc.op op1 w2 w3 e hop
    refine ⟨_, _, cs, ?_, ShadowSocks_Shutdown_stops env.proc
      { pc.ss with proc := some h, isStartup := true } w3 h rfl,
      PACServer_Shutdown_stops env.http
      { pc.pacSrv with server := some pc.pacSrv.serverAddr, isStartup := true }
      (env.proc.kill h w3).2 pc.pacSrv.serverAddr rfl⟩
    simp only [ProxyCore.Startup, h0, Env.traced, hP]
    simp only [Option.isNone_none, Bool.false_eq_true, if_false, hS, hO, hK, hD, hop1]
    simp
  · intro w1 h w2 op1 w3 hl hst hop
    rw [hl] at hP
    have hS : pc.ss.Startup env.proc.traced (w1, log ++ [Event.listenAndServe pc.pacSrv.serverAddr])
        = (none, { pc.ss with proc := some h, isStartup := true },
            (w2, log ++ [Event.listenAndServe pc.pacSrv.serverAddr]
            ++ [Event.start pc.ss.ssPath pc.ss.localAddr pc.ss.localPort pc.ss.srvCfg])) := by
      simp [ShadowSocks.Startup, hss, ssAPI.traced, hst]
    obtain ⟨cs, hO⟩ := records_Startup Event.driver env.api pc.op w2
      (log ++ [Event.listenAndServe pc.pacSrv.serverAddr]
        ++ [Event.start pc.ss.ssPath pc.ss.localAddr pc.ss.localPort pc.ss.srvCfg])
    rw [hop] at hO
    refine ⟨cs, ?_⟩
    simp only [ProxyCore.Startup, h0, Env.traced, hP]
    simp only [Option.isNone_none, Bool.false_eq_true, if_false, hS, hO]
    simp

/-- Witness of C5: port 1234 is already in use, so the PAC server cannot listen; the only
call made is the listen, no process is spawned and the driver is not called. With the
driver rejecting every `setGlobalProxyFor`, the process is killed and the PAC server shut
down, in that order. -/
theorem C5_startup_unwinds_in_reverse_order_witness :
    ProxyCore.Startup (testEnv (fun _ => false)).traced (testCore "pac")
        ({ testWorld 2 with listening := ["127.0.0.1:1234"] }, [])
      = Outcome.ret (some "listen tcp 127.0.0.1:1234: address already in use",
          { testCore "pac" with
              pacSrv := { (testCore "pac").pacSrv with server := some "127.0.0.1:1234" } },
          ({ testWorld 2 with listening := ["127.0.0.1:1234"] },
            [Event.listenAndServe "127.0.0.1:1234"])) :=
  (C5_startup_unwinds_in_reverse_order (testEnv (fun _ => false)) (testCore "pac")
    { testWorld 2 with listening := ["127.0.0.1:1234"] } [] rfl rfl rfl rfl).1
    "listen tcp 127.0.0.1:1234: address already in use" _ rfl

theorem OSOperator_ChangeLocalPort_error_keeps_operator {σ : Type} (api : osAPI σ)
    (op op1 : OSOperator) (p : String) (s s1 : σ) (e : String)
    (h : op.ChangeLocalPort api p s = (some e, op1, s1)) : op1 = op := by
  unfold OSOperator.ChangeLocalPort at h
  split at h
  · simp at h
  · split at h
    · simp at h
    · rcases hr : op.reStartup api { op.cfg with localPort := p } s with ⟨e1, t⟩
      rw [hr] at h
      cases e1 with
      | none => simp at h
      | some err => simp at h; exact h.2.1.symm

theorem OSOperator_ChangePACURL_error_keeps_operator {σ : Type} (api : osAPI σ)
    (op op1 : OSOperator) (u : String) (s s1 : σ) (e : String)
    (h : op.ChangePACURL api u s = (some e, op1, s1)) : op1 = op := by
  unfold OSOperator.ChangePACURL at h
  split at h
  · simp at h
  · split at h
    · simp at h
    · rcases hr : op.reStartup api { op.cfg with pacURL := u } s with ⟨e1, t⟩
      rw [hr] at h
      cases e1 with
      | none => simp at h
      | some err => simp at h; exact h.2.1.symm

theorem ShadowSocks_ChangeLocalPort_error_keeps_supervisor {ω : Type} (pe : ssAPI ω)
    (ss ss1 : ShadowSocks) (p : String) (w w1 : ω) (e : String)
    (h : ss.ChangeLocalPort pe p w = Outcome.ret (some e, ss1, w1)) : ss1 = ss := by
  unfold ShadowSocks.ChangeLocalPort at h
  split at h
  · simp at h
  · split at h
    · simp at h
    · rcases hr : pe.start ss.ssPath ss.localAddr p ss.srvCfg w with ⟨r, t⟩
      rw [hr] at h
      cases r with
      | error err => simp at h; exact h.2.1.symm
      | ok newProc =>
        cases hp : ss.proc with
        | none => simp [hp] at h
        | some old => simp [hp] at h

/-- When `ChangeLocalPort` of the supervisor returns nil the stored port is the requested
one; if the supervisor was running on another port, its handle is the process that
`startSSProcess` returned for the requested port. -/
theorem ShadowSocks_ChangeLocalPort_ok {ω : Type} (pe : ssAPI ω)
    (ss ss1 : ShadowSocks) (p : String) (w w1 : ω)
    (h : ss.ChangeLocalPort pe p w = Outcome.ret (none, ss1, w1)) :
    ss1.localPort = p ∧
    (ss.isStartup = true → p ≠ ss.localPort →
      ∃ newProc, (pe.start ss.ssPath ss.localAddr p ss.srvCfg w).1 = Except.ok newProc ∧
        ss1.proc = some newProc) := by
  unfold ShadowSocks.ChangeLocalPort at h
  split at h
  · next heq =>
    simp at h
    exact ⟨by rw [← h.1]; exact heq.symm, fun _ hne => absurd heq hne⟩
  · split at h
    · next hstop =>
      simp at h
      refine ⟨by rw [← h.1], fun hrun _ => ?_⟩
      simp [hrun] at hstop
    · rcases hr : pe.start ss.ssPath ss.localAddr p ss.srvCfg w with ⟨r, t⟩
      rw [hr] at h
      cases r with
      | error err => simp at h
      | ok newProc =>
        cases hp : ss.proc with
        | none => simp [hp] at h
        | some old =>
          simp [hp] at h
          exact ⟨by rw [← h.1], fun _ _ => ⟨newProc, rfl, by rw [← h.1]⟩⟩

/-- C6 (as amended): when `ProxyCore.ChangeLocalPort` returns an error, ProxyCore's own
port, the OSOperator (its stored port included) and the PAC server (its stored port
included) are those from before the call. The supervisor is unchanged when its own step
failed; when the OSOperator step failed, the supervisor is asked to change back to the old
port, and if that returns nil the supervisor stores the old port and, being a running
supervisor that had moved, holds the process spawned for the old port. -/
theorem C6_failed_change_local_port_keeps_stored_ports {ω : Type} (env : Env ω)
    (pc pc' : ProxyCore) (newPort : String) (w w' : ω) (e : String)
    (h : pc.ChangeLocalPort env newPort w = Outcome.ret (some e, pc', w')) :
    pc'.localPort = pc.localPort ∧ pc'.op = pc.op ∧ pc'.pacSrv = pc.pacSrv ∧
    pc'.isStartup = pc.isStartup ∧
    (pc'.ss = pc.ss ∨
      ∃ ss1 w1 w2 r,
        pc.ss.ChangeLocalPort env.proc newPort w = Outcome.ret (none, ss1, w1) ∧
        pc.op.ChangeLocalPort env.api newPort w1 = (some e, pc.op, w2) ∧
        ss1.ChangeLocalPort env.proc pc.localPort w2 = Outcome.ret (r, pc'.ss, w') ∧
        (r = none → pc'.ss.localPort = pc.localPort ∧
          (ss1.isStartup = true → pc.localPort ≠ ss1.localPort →
            ∃ newProc,
              (env.proc.start ss1.ssPath ss1.localAddr pc.localPort ss1.srvCfg w2).1
                = Except.ok newProc ∧ pc'.ss.proc = some newProc))) := by
  unfold ProxyCore.ChangeLocalPort at h
  split at h
  · simp at h
  · cases h1 : pc.ss.ChangeLocalPort env.proc newPort w with
    | panic msg => simp [h1] at h
    | ret r1 =>
      obtain ⟨e1, ss1, w1⟩ := r1
      cases e1 with
      | some err =>
        have hk := ShadowSocks_ChangeLocalPort_error_keeps_supervisor env.proc _ _ _ _ _ _ h1
        simp [h1] at h
        obtain ⟨-, hpc, -⟩ := h
        subst hpc
        exact ⟨rfl, rfl, rfl, rfl, Or.inl hk⟩
      | none =>
        simp only [h1] at h
        rcases h2 : pc.op.ChangeLocalPort env.api newPort w1 with ⟨e2, op1, w2⟩
        cases e2 with
        | some err =>
          have hk := OSOperator_ChangeLocalPort_error_keeps_operator env.api _ _ _ _ _ _ h2
          subst hk
          simp only [h2] at h
          cases h3 : ss1.ChangeLocalPort env.proc pc.localPort w2 with
          | panic msg => simp [h3] at h
          | ret r3 =>
            obtain ⟨e3, ss2, w3⟩ := r3
            simp [h3] at h
            obtain ⟨he, hpc, hw⟩ := h
            subst hpc hw he
            refine ⟨rfl, rfl, rfl, rfl, Or.inr ⟨ss1, w1, w2, e3, rfl, h2, h3, ?_⟩⟩
            intro hr
            subst hr
            exact ShadowSocks_ChangeLocalPort_ok env.proc _ _ _ _ _ h3
        | none =>
          simp only [h2] at h
          have h4 : (pc.pacSrv.ChangeLocalPort newPort).1 = none := by
            unfold PACServer.ChangeLocalPort
            split <;> rfl
          rcases h5 : pc.pacSrv.ChangeLocalPort newPort with ⟨e5, ps1⟩
          rw [h5] at h4
          simp only at h4
          subst h4
          simp [h5] at h

/-! ## The URL of the PAC server -/

theorem escapeHost_append (a b : String) :
    escapeHost (a ++ b) = escapeHost a ++ escapeHost b := by
  apply String.ext
  simp [escapeHost, String.data_append, List.flatMap_append]

/-- A string of ASCII characters that `shouldEscape` keeps is left as it is. -/
theorem escapeHost_kept (s : String)
    (h : ∀ c ∈ s.data, c.toNat < 128 ∧ shouldEscapeHost c.toNat = false) :
    escapeHost s = s := by
  apply String.ext
  have hl : ∀ l : List Char, (∀ c ∈ l, c.toNat < 128 ∧ shouldEscapeHost c.toNat = false) →
      l.flatMap (fun c =>
        (utf8Bytes c).flatMap (fun b =>
          if shouldEscapeHost b then
            ['%', upperhex.getD (b / 16) '0', upperhex.getD (b % 16) '0']
          else [Char.ofNat b])) = l := by
    intro l
    induction l with
    | nil => intro _; rfl
    | cons c l ih =>
      intro hc
      obtain ⟨h1, h2⟩ := hc c (List.mem_cons_self _ _)
      rw [List.flatMap_cons, ih (fun c' hc' => hc c' (List.mem_cons_of_mem _ hc'))]
      have hb : utf8Bytes c = [c.toNat] := by simp [utf8Bytes, h1]
      simp [hb, h2, Char.ofNat_toNat]
  exact hl s.data h

/-- A decimal digit is an ASCII character that `shouldEscape` keeps. -/
theorem digit_kept (c : Char) (h : '0' ≤ c ∧ c ≤ '9') :
    c.toNat < 128 ∧ shouldEscapeHost c.toNat = false := by
  have h1 : 48 ≤ c.toNat := h.1
  have h2 : c.toNat ≤ 57 := h.2
  refine ⟨by omega, ?_⟩
  simp [shouldEscapeHost, h1, h2]

theorem pacURL_eq (p : String) :
    "http://" ++ escapeHost ("127.0.0.1:" ++ p) ++ "/" ++ "proxy.pac"
      = "http://127.0.0.1:" ++ escapeHost p ++ "/proxy.pac" := by
  have h0 : escapeHost "127.0.0.1:" = "127.0.0.1:" := by decide
  rw [escapeHost_append, h0, ← String.append_assoc, String.append_assoc _ "/" "proxy.pac"]
  rfl

/-- `GetPACURL()` is `http://127.0.0.1:`, the escaped port and `/proxy.pac`. -/
theorem GetPACURL_eq (ps : PACServer) :
    ps.GetPACURL = "http://127.0.0.1:" ++ escapeHost ps.pacPort ++ "/proxy.pac" := by
  simp only [PACServer.GetPACURL, PACServer.serverAddr, pacURLFile]
  exact pacURL_eq ps.pacPort

/-- C7: `ProxyCore.ChangePACPort` to another port, observed on a recording environment,
when the PAC file is read, the new server listens on `127.0.0.1:newPort` and the update of
the OSOperator's PAC URL to the new server's URL fails with `e`: `e` is returned, the new
server is shut down (the last call, after the driver calls of the failed update), and
ProxyCore is unchanged — it still holds the old PAC server in the state it had, and the
OSOperator still stores the old PAC URL. No call is made for the old server. -/
theorem C7_failed_pac_url_update_tears_down_new_server {ω : Type} (env : Env ω)
    (pc : ProxyCore) (newPort : String) (w w1 w2 w3 : ω) (log : List Event)
    (data : List UInt8) (e : String) (op1 : OSOperator)
    (hne : newPort ≠ pc.pacPort)
    (hread : env.http.readFile
        (if pc.pacFile = "" then env.http.DefaultPACLocalPath else pc.pacFile) w
      = (Except.ok data, w1))
    (hlisten : env.http.listenAndServe ("127.0.0.1:" ++ newPort) w1 = (none, w2))
    (hurl : pc.op.ChangePACURL env.api
        ("http://127.0.0.1:" ++ escapeHost newPort ++ "/proxy.pac") w2
      = (some e, op1, w3)) :
    ∃ cs : List Call,
      pc.ChangePACPort env.traced newPort (w, log)
        = Outcome.ret (some e, pc,
            ((env.http.shutdown ("127.0.0.1:" ++ newPort) w3).2,
              log ++ [Event.readFile
                    (if pc.pacFile = "" then env.http.DefaultPACLocalPath else pc.pacFile),
                  Event.listenAndServe ("127.0.0.1:" ++ newPort)]
                ++ List.map Event.driver cs
                ++ [Event.shutdown ("127.0.0.1:" ++ newPort)])) := by
  have hop1 := OSOperator_ChangePACURL_error_keeps_operator env.api _ _ _ _ _ _ hurl
  subst hop1
  have hN : NewPACServer env.http.traced newPort pc.pacFile pc.localAddr pc.localPort (w, log)
      = (Except.ok { server := none, pacPort := newPort, pacData := data,
                     localAddr := pc.localAddr, localPort := pc.localPort,
                     isStartup := false },
          (w1, log ++ [Event.readFile
            (if pc.pacFile = "" then env.http.DefaultPACLocalPath else pc.pacFile)])) := by
    simp [NewPACServer, httpAPI.traced, hread]
  have hP := traced_PACServer_Startup_fresh env.http
    { server := none, pacPort := newPort, pacData := data, localAddr := pc.localAddr,
      localPort := pc.localPort, isStartup := false } w1
    (log ++ [Event.readFile
      (if pc.pacFile = "" then env.http.DefaultPACLocalPath else pc.pacFile)]) rfl rfl
  simp only [PACServer.serverAddr, hlisten, Option.isNone_none] at hP
  obtain ⟨cs, hO⟩ := records_ChangePACURL Event.driver env.api pc.op
    ("http://127.0.0.1:" ++ escapeHost newPort ++ "/proxy.pac") w2
    (log ++ [Event.readFile
      (if pc.pacFile = "" then env.http.DefaultPACLocalPath else pc.pacFile)]
      ++ [Event.listenAndServe ("127.0.0.1:" ++ newPort)])
  rw [hurl] at hO
  dsimp only at hO
  have hD := traced_PACServer_Shutdown_running env.http
    { server := some ("127.0.0.1:" ++ newPort), pacPort := newPort, pacData := data,
      localAddr := pc.localAddr, localPort := pc.localPort, isStartup := true } w3
    (log ++ [Event.readFile
      (if pc.pacFile = "" then env.http.DefaultPACLocalPath else pc.pacFile)]
      ++ [Event.listenAndServe ("127.0.0.1:" ++ newPort)] ++ List.map Event.driver cs)
    ("127.0.0.1:" ++ newPort) rfl rfl
  refine ⟨cs, ?_⟩
  have henv : env.traced.http = env.http.traced := rfl
  have hapi : env.traced.api = env.api.tracedWith Event.driver := rfl
  simp only [ProxyCore.ChangePACPort, hne, if_false, hN, henv, hapi, hP,
    PACServer.GetPACURL, PACServer.serverAddr, pacURLFile, pacURL_eq]
  rw [hO]
  dsimp only
  rw [hD]
  simp

/-! ## The scenarios are what the code produces -/

theorem newProxyCore_is_testCore :
    NewProxyCore (testEnv (fun _ => false)) "1234" "pac.js" "2234" "pac" testSrvCfg ""
        (testWorld 2) = (Except.ok (testCore "pac"), testWorld 2) := by
  rfl

theorem startedCore_global :
    startedCore rejectPort9999 "global" 2
      = some (runningCore "global", runningWorld "global" 1) := by
  decide

theorem startedCore_pac :
    startedCore rejectPAC5678 "pac" 2 = some (runningCore "pac", runningWorld "pac" 1) := by
  decide

/-- Witness of C7: the started pac core of the scenario moves its PAC server to port 5678
while the driver rejects the new URL. -/
theorem C7_failed_pac_url_update_tears_down_new_server_witness :
    ∃ cs : List Call,
      ProxyCore.ChangePACPort (testEnv rejectPAC5678).traced (runningCore "pac") "5678"
          (runningWorld "pac" 1, [])
        = Outcome.ret (some "driver failure", runningCore "pac",
            ({ runningWorld "pac" 1 with drv := newMockAPI },
              [] ++ [Event.readFile "pac.js", Event.listenAndServe ("127.0.0.1:" ++ "5678")]
                ++ List.map Event.driver cs
                ++ [Event.shutdown ("127.0.0.1:" ++ "5678")])) :=
  C7_failed_pac_url_update_tears_down_new_server (testEnv rejectPAC5678) (runningCore "pac")
    "5678" (runningWorld "pac" 1) (runningWorld "pac" 1)
    { runningWorld "pac" 1 with listening := ["127.0.0.1:1234", "127.0.0.1:5678"] }
    { runningWorld "pac" 1 with drv := newMockAPI,
                                 listening := ["127.0.0.1:1234", "127.0.0.1:5678"] }
    [] [104, 105] "driver failure" (runningCore "pac").op (by decide) rfl rfl (by decide)

/-- The port scenario: the started global core (local port 2234, one more process may be
created) is asked to move to port 9999 while the driver rejects that port. -/
theorem scenario_change_local_port :
    ProxyCore.ChangeLocalPort (testEnv rejectPort9999) (runningCore "global") "9999"
        (runningWorld "global" 1)
      = Outcome.ret (some "driver failure",
          { runningCore "global" with
              ss := { (runningCore "global").ss with localPort := "9999", proc := some 1 } },
          { runningWorld "global" 1 with
              drv := newMockAPI,
              procs := [{ newSSProcessMock "127.0.0.1" "2234" testSrvCfg with killed := true },
                        newSSProcessMock "127.0.0.1" "9999" testSrvCfg],
              spawnBudget := 0 }) := by
  decide

/-- Counterexample to C6 as stated: in the port scenario `ChangeLocalPort` returns the
driver's error, and afterwards the supervisor stores port 9999 and its live process
(process 1, not killed) is bound to 9999, because the respawn on 2234 failed and was
dropped; ProxyCore and the OSOperator store 2234, and no interface carries the old global
setting 127.0.0.1:2234 (every interface has no mode and empty fields). -/
theorem C6_counterexample_error_with_new_port_in_force :
    ∃ pc' w', ProxyCore.ChangeLocalPort (testEnv rejectPort9999) (runningCore "global") "9999"
        (runningWorld "global" 1) = Outcome.ret (some "driver failure", pc', w') ∧
      (runningCore "global").isStartup = true ∧
      (runningCore "global").localPort = "2234" ∧
      pc'.localPort = "2234" ∧ pc'.op.cfg.localPort = "2234" ∧
      pc'.ss.localPort = "9999" ∧ pc'.ss.proc = some 1 ∧
      w'.procs.get? 1 = some (newSSProcessMock "127.0.0.1" "9999" testSrvCfg) ∧
      ∀ e ∈ w'.drv.settings, e.2.globalOn = false ∧ e.2.globalAddr = "" ∧ e.2.globalPort = "" :=
  ⟨_, _, scenario_change_local_port, by decide⟩

/-- Witness of C6 (as amended): the port scenario; ProxyCore's port is still 2234. -/
theorem C6_failed_change_local_port_keeps_stored_ports_witness :
    ProxyCore.ChangeLocalPort (testEnv rejectPort9999) (runningCore "global") "9999"
        (runningWorld "global" 1)
      = Outcome.ret (some "driver failure",
          { runningCore "global" with
              ss := { (runningCore "global").ss with localPort := "9999", proc := some 1 } },
          { runningWorld "global" 1 with
              drv := newMockAPI,
              procs := [{ newSSProcessMock "127.0.0.1" "2234" testSrvCfg with killed := true },
                        newSSProcessMock "127.0.0.1" "9999" testSrvCfg],
              spawnBudget := 0 }) ∧
    ({ runningCore "global" with
        ss := { (runningCore "global").ss with localPort := "9999", proc := some 1 } }
      : ProxyCore).localPort = (runningCore "global").localPort :=
  ⟨scenario_change_local_port,
   (C6_failed_change_local_port_keeps_stored_ports (testEnv rejectPort9999)
      (runningCore "global") _ "9999" (runningWorld "global" 1) _ "driver failure"
      scenario_change_local_port).1⟩

/-! ## PAC server: requests and reloads -/

theorem trimLeftSlash_proxy_pac : trimLeftSlash "/proxy.pac" = "proxy.pac" := by decide

/-- Dropping the leading slashes gives `p` (which does not start with a slash) exactly for
the lists that are `p` preceded by slashes. -/
theorem dropWhile_slash_eq_iff (p l : List Char) (hp : p.head? ≠ some '/') :
    l.dropWhile (fun c => c == '/') = p ↔ ∃ n, l = List.replicate n '/' ++ p := by
  constructor
  · intro h
    induction l with
    | nil => exact ⟨0, by simpa using h.symm⟩
    | cons c l ih =>
      by_cases hc : c = '/'
      · subst hc
        simp only [List.dropWhile_cons, beq_self_eq_true, if_true] at h
        obtain ⟨n, hn⟩ := ih h
        exact ⟨n + 1, by rw [hn]; rfl⟩
      · have : (c == '/') = false := by simpa using hc
        simp only [List.dropWhile_cons, this] at h
        exact ⟨0, by simpa using h⟩
  · rintro ⟨n, rfl⟩
    induction n with
    | zero =>
      cases p with
      | nil => rfl
      | cons c p =>
        have hc : (c == '/') = false := by
          simp only [List.head?_cons, ne_eq, Option.some.injEq] at hp
          simpa using hp
        simp [List.dropWhile_cons, hc]
    | succ n ih =>
      simpa [List.replicate_succ, List.dropWhile_cons] using ih

/-- C16: `ServeHTTP` answers every request whose method is not GET with 405 and no body,
whatever the path; a GET of `/proxy.pac` gets status 200 with exactly the current PAC
bytes, which after a successful `ReloadPAC` are the bytes read. -/
theorem C16_serve_http_method_and_pac_bytes (ps : PACServer) :
    (∀ method path, method ≠ "GET" → ps.ServeHTTP method path = { status := 405, body := [] }) ∧
    ps.ServeHTTP "GET" "/proxy.pac" = { status := 200, body := ps.pacData } ∧
    (∀ {ω : Type} (he : httpAPI ω) (file : String) (w w1 : ω) (data : List UInt8),
      he.readFile file w = (Except.ok data, w1) →
      (ps.ReloadPAC he file w).1 = none ∧
      (ps.ReloadPAC he file w).2.1.ServeHTTP "GET" "/proxy.pac"
        = { status := 200, body := data }) := by
  refine ⟨?_, ?_, ?_⟩
  · intro method path h
    simp [PACServer.ServeHTTP, h]
  · simp [PACServer.ServeHTTP, trimLeftSlash_proxy_pac, pacURLFile]
  · intro ω he file w w1 data h
    simp [PACServer.ReloadPAC, h, PACServer.ServeHTTP, trimLeftSlash_proxy_pac, pacURLFile]

/-- Witness of C16: a POST of the PAC path is refused, and the bytes of `pac.js` are served
after a reload in the in-memory world. -/
theorem C16_serve_http_method_and_pac_bytes_witness :
    "POST" ≠ "GET" ∧
    (testCore "pac").pacSrv.ServeHTTP "POST" "/proxy.pac" = { status := 405, body := [] } ∧
    ((⟨none, "1234", [], "127.0.0.1", "2234", false⟩ : PACServer).ReloadPAC testHTTP "pac.js"
        (testWorld 2)).2.1.ServeHTTP "GET" "/proxy.pac" = { status := 200, body := [104, 105] } :=
  ⟨by decide,
   (C16_serve_http_method_and_pac_bytes (testCore "pac").pacSrv).1 "POST" "/proxy.pac"
     (by decide),
   ((C16_serve_http_method_and_pac_bytes ⟨none, "1234", [], "127.0.0.1", "2234", false⟩).2.2
     testHTTP "pac.js" (testWorld 2) (testWorld 2) [104, 105] rfl).2⟩

/-- C17 (as amended): a GET is answered with 404 and no body exactly when its path is not
`proxy.pac` preceded by zero or more slashes; every such path (`proxy.pac`, `/proxy.pac`,
`//proxy.pac`, ...) is answered with status 200 and the PAC bytes. -/
theorem C17_get_is_404_unless_slashes_then_proxy_pac (ps : PACServer) (path : String) :
    ((¬ ∃ n, path.data = List.replicate n '/' ++ "proxy.pac".data) →
      ps.ServeHTTP "GET" path = { status := 404, body := [] }) ∧
    ((∃ n, path.data = List.replicate n '/' ++ "proxy.pac".data) →
      ps.ServeHTTP "GET" path = { status := 200, body := ps.pacData }) := by
  have key : trimLeftSlash path = pacURLFile ↔
      ∃ n, path.data = List.replicate n '/' ++ "proxy.pac".data := by
    rw [← dropWhile_slash_eq_iff "proxy.pac".data path.data (by decide)]
    simp only [trimLeftSlash, pacURLFile]
    constructor
    · intro h
      have := congrArg String.data h
      simpa using this
    · intro h
      rw [h]
  constructor
  · intro h
    have : trimLeftSlash path ≠ pacURLFile := fun h' => h (key.1 h')
    simp [PACServer.ServeHTTP, this]
  · intro h
    simp [PACServer.ServeHTTP, key.2 h]

/-- Witness of C17 (as amended): `/other` is not found, `//proxy.pac` is served. -/
theorem C17_get_is_404_unless_slashes_then_proxy_pac_witness :
    (testCore "pac").pacSrv.ServeHTTP "GET" "/other" = { status := 404, body := [] } ∧
    (testCore "pac").pacSrv.ServeHTTP "GET" "//proxy.pac" = { status := 200, body := [104, 105] } :=
  ⟨(C17_get_is_404_unless_slashes_then_proxy_pac (testCore "pac").pacSrv "/other").1
     (by
       rintro ⟨n, hn⟩
       rcases n with _ | _ | n
       · exact absurd hn (by decide)
       · exact absurd hn (by decide)
       · have h2 := congrArg (fun l => l.get? 1) hn
         simp [List.replicate_succ] at h2),
   (C17_get_is_404_unless_slashes_then_proxy_pac (testCore "pac").pacSrv "//proxy.pac").2
     ⟨2, by decide⟩⟩

/-- Counterexample to C17 as stated: the path `//proxy.pac` is not `/proxy.pac`, yet a GET
of it is answered with status 200 and the PAC bytes. -/
theorem C17_counterexample_double_slash_is_served :
    "//proxy.pac" ≠ "/proxy.pac" ∧
    (testCore "pac").pacSrv.ServeHTTP "GET" "//proxy.pac"
      = { status := 200, body := (testCore "pac").pacSrv.pacData } ∧
    (testCore "pac").pacSrv.pacData = [104, 105] := by
  decide

/-- C18: `ReloadPAC` returns the read error and leaves the server as it was (so every
request is answered as before) when reading fails; when reading succeeds it returns nil
and the buffer is exactly the bytes read, nothing else of the server changing. -/
theorem C18_reload_pac_keeps_buffer_on_failure {ω : Type} (he : httpAPI ω) (ps : PACServer)
    (file : String) (w : ω) :
    (∀ err w1, he.readFile file w = (Except.error err, w1) →
      ps.ReloadPAC he file w = (some err, ps, w1) ∧
      ∀ method path,
        (ps.ReloadPAC he file w).2.1.ServeHTTP method path = ps.ServeHTTP method path) ∧
    (∀ data w1, he.readFile file w = (Except.ok data, w1) →
      ps.ReloadPAC he file w = (none, { ps with pacData := data }, w1)) := by
  constructor
  · intro err w1 h
    have h0 : ps.ReloadPAC he file w = (some err, ps, w1) := by simp [PACServer.ReloadPAC, h]
    rw [h0]
    exact ⟨rfl, fun _ _ => rfl⟩
  · intro data w1 h
    simp [PACServer.ReloadPAC, h]

/-- Witness of C18: in the in-memory world `missing.js` cannot be read and `pac.js` can. -/
theorem C18_reload_pac_keeps_buffer_on_failure_witness :
    (testCore "pac").pacSrv.ReloadPAC testHTTP "missing.js" (testWorld 2)
      = (some "open missing.js: no such file or directory", (testCore "pac").pacSrv,
          testWorld 2) ∧
    (⟨none, "1234", [], "127.0.0.1", "2234", false⟩ : PACServer).ReloadPAC testHTTP "pac.js"
        (testWorld 2)
      = (none, ⟨none, "1234", [104, 105], "127.0.0.1", "2234", false⟩, testWorld 2) :=
  ⟨((C18_reload_pac_keeps_buffer_on_failure testHTTP (testCore "pac").pacSrv "missing.js"
      (testWorld 2)).1 "open missing.js: no such file or directory" (testWorld 2) rfl).1,
   (C18_reload_pac_keeps_buffer_on_failure testHTTP ⟨none, "1234", [], "127.0.0.1", "2234", false⟩
      "pac.js" (testWorld 2)).2 [104, 105] (testWorld 2) rfl⟩

/-! ## OSOperator: fields the active mode does not consume -/

/-- C11: `ChangeLocalPort(p)` on an operator that is stopped or in pac mode, and
`ChangePACURL(u)` on an operator that is stopped or in global mode, return nil, leave the
driver world as it was (so every interface keeps its global fields, resp. its PAC URL),
issue no driver call (the log of a recording driver is unchanged), and change only the
stored `localPort`, resp. `pacURL`. -/
theorem C11_unconsumed_field_is_updated_in_memory_only {σ : Type} (api : osAPI σ)
    (op : OSOperator) (s : σ) :
    (∀ p, (op.isStartup = false ∨ op.cfg.mode = config.ModePAC) →
      op.ChangeLocalPort api p s
        = (none, { op with cfg := { op.cfg with localPort := p } }, s) ∧
      ∀ log : List Call,
        op.ChangeLocalPort api.traced p (s, log)
          = (none, { op with cfg := { op.cfg with localPort := p } }, (s, log))) ∧
    (∀ u, (op.isStartup = false ∨ op.cfg.mode = config.ModeGlobal) →
      op.ChangePACURL api u s
        = (none, { op with cfg := { op.cfg with pacURL := u } }, s) ∧
      ∀ log : List Call,
        op.ChangePACURL api.traced u (s, log)
          = (none, { op with cfg := { op.cfg with pacURL := u } }, (s, log))) := by
  constructor
  · intro p h
    have key : ∀ {τ : Type} (a : osAPI τ) (t : τ),
        op.ChangeLocalPort a p t
          = (none, { op with cfg := { op.cfg with localPort := p } }, t) := by
      intro τ a t
      by_cases hp : p = op.cfg.localPort
      · subst hp
        simp [OSOperator.ChangeLocalPort]
      · rcases h with h | h <;> simp [OSOperator.ChangeLocalPort, hp, h]
    exact ⟨key api s, fun log => key api.traced (s, log)⟩
  · intro u h
    have key : ∀ {τ : Type} (a : osAPI τ) (t : τ),
        op.ChangePACURL a u t
          = (none, { op with cfg := { op.cfg with pacURL := u } }, t) := by
      intro τ a t
      by_cases hu : u = op.cfg.pacURL
      · subst hu
        simp [OSOperator.ChangePACURL]
      · rcases h with h | h <;> simp [OSOperator.ChangePACURL, hu, h]
    exact ⟨key api s, fun log => key api.traced (s, log)⟩

/-- Witness of C11: the second part of `TestChangeLocalPort` and of `TestChangePACURL` —
a running pac operator changes its port, a running global operator its PAC URL, on the
recording fake driver. -/
theorem C11_unconsumed_field_is_updated_in_memory_only_witness :
    OSOperator.ChangeLocalPort mockDriver.traced ⟨⟨"pac", "abcd", "11.22.33.44", "5432"⟩, true⟩
        "1234" (newMockAPI, [])
      = (none, ⟨⟨"pac", "abcd", "11.22.33.44", "1234"⟩, true⟩, (newMockAPI, [])) ∧
    OSOperator.ChangePACURL mockDriver.traced ⟨⟨"global", "abcd", "11.22.33.44", "1234"⟩, true⟩
        "http://12344/pac.pac" (newMockAPI, [])
      = (none, ⟨⟨"global", "http://12344/pac.pac", "11.22.33.44", "1234"⟩, true⟩,
          (newMockAPI, [])) :=
  ⟨((C11_unconsumed_field_is_updated_in_memory_only mockDriver
      ⟨⟨"pac", "abcd", "11.22.33.44", "5432"⟩, true⟩ newMockAPI).1 "1234" (Or.inr rfl)).2 [],
   ((C11_unconsumed_field_is_updated_in_memory_only mockDriver
      ⟨⟨"global", "abcd", "11.22.33.44", "1234"⟩, true⟩ newMockAPI).2 "http://12344/pac.pac"
      (Or.inr rfl)).2 []⟩

/-- A change of a field within the same mode is a single run of the apply algorithm with
the new configuration: whatever it returns is returned and the driver is left where that
run left it. -/
theorem reStartup_same_mode {σ : Type} (api : osAPI σ) (op : OSOperator) (newCfg : opConfig)
    (s : σ) (h : newCfg.mode = op.cfg.mode) :
    op.reStartup api newCfg s = resetProxy api newCfg s := by
  simp [OSOperator.reStartup, h]

/-- C12 (the code at the failing input): a running global operator with address 127.0.0.1
and port 2234, on the recording fake driver made to reject port 9999, is asked to change
to port 9999. The error is returned and the stored port stays 2234, but the driver calls
end with the clearing that follows the rejected set: no `setGlobalProxyFor` with the old
port 2234 is issued, and every interface is left without any setting. -/
theorem C12_failed_port_change_does_not_reapply_old_port :
    OSOperator.ChangeLocalPort (mockDriver.failing rejectPort9999).traced
        ⟨⟨"global", "http://127.0.0.1:1234/proxy.pac", "127.0.0.1", "2234"⟩, true⟩ "9999"
        ((runningWorld "global" 1).drv, [])
      = (some "driver failure",
          ⟨⟨"global", "http://127.0.0.1:1234/proxy.pac", "127.0.0.1", "2234"⟩, true⟩,
          (newMockAPI,
            [Call.listAllNetwork,
             Call.clearAutoProxyFor "WiFi", Call.clearGlobalProxyFor "WiFi",
             Call.clearAutoProxyFor "wlan", Call.clearGlobalProxyFor "wlan",
             Call.listAllNetwork,
             Call.setGlobalProxyFor "WiFi" "127.0.0.1" "9999",
             Call.listAllNetwork,
             Call.clearAutoProxyFor "WiFi", Call.clearGlobalProxyFor "WiFi",
             Call.clearAutoProxyFor "wlan", Call.clearGlobalProxyFor "wlan"])) ∧
    (runningWorld "global" 1).drv
      = ⟨[("WiFi", { mode := 2, globalAddr := "127.0.0.1", globalPort := "2234" }),
          ("wlan", { mode := 2, globalAddr := "127.0.0.1", globalPort := "2234" })]⟩ := by
  decide

/-! ## Startup followed by Shutdown on the fake driver -/

theorem flag_lemma_cleared_pac (y : Nat) : ((y &&& notModePAC) &&& modePAC != 0) = false := by
  have h : (y &&& notModePAC) &&& modePAC = 0 := by
    rw [Nat.and_assoc, show notModePAC &&& modePAC = 0 by decide, Nat.and_zero]
  rw [h]; decide

theorem flag_lemma_cleared_global (y : Nat) :
    ((y &&& notModeGlobal) &&& modeGlobal != 0) = false := by
  have h : (y &&& notModeGlobal) &&& modeGlobal = 0 := by
    rw [Nat.and_assoc, show notModeGlobal &&& modeGlobal = 0 by decide, Nat.and_zero]
  rw [h]; decide

theorem flag_lemma_global_stays_off (a : Nat) :
    (((((a &&& notModePAC) &&& notModeGlobal) ||| modePAC) &&& notModePAC) &&& modeGlobal != 0)
      = false := by
  have h : ((((a &&& notModePAC) &&& notModeGlobal) ||| modePAC) &&& notModePAC) &&& modeGlobal
      = 0 := by
    apply Nat.eq_of_testBit_eq
    intro i
    simp only [Nat.testBit_and, Nat.testBit_or, Nat.zero_testBit]
    rcases i with _ | _ | i
    · have : modeGlobal.testBit 0 = false := by decide
      simp [this]
    · have h1 : notModeGlobal.testBit 1 = false := by decide
      have h2 : modePAC.testBit 1 = false := by decide
      simp [h1, h2]
    · have : modeGlobal.testBit (i + 2) = false := testBit_small _ _ (by decide)
      simp [this]
  rw [h]; decide

theorem flag_lemma_pac_stays_off (a : Nat) :
    (((((a &&& notModePAC) &&& notModeGlobal) ||| modeGlobal) &&& notModeGlobal) &&& modePAC != 0)
      = false := by
  have h : ((((a &&& notModePAC) &&& notModeGlobal) ||| modeGlobal) &&& notModeGlobal)
      &&& modePAC = 0 := by
    apply Nat.eq_of_testBit_eq
    intro i
    simp only [Nat.testBit_and, Nat.testBit_or, Nat.zero_testBit]
    rcases i with _ | _ | i
    · have h1 : notModePAC.testBit 0 = false := by decide
      have h2 : modeGlobal.testBit 0 = false := by decide
      simp [h1, h2]
    · have : modePAC.testBit 1 = false := by decide
      simp [this]
    · have : modePAC.testBit (i + 2) = false := testBit_small _ _ (by decide)
      simp [this]
  rw [h]; decide

theorem cleared_after_pac (url : String) (x : mockSettings) :
    (x.clearAuto.clearGlobal.setAuto url).clearAuto.pacOn = false ∧
    (x.clearAuto.clearGlobal.setAuto url).clearAuto.globalOn = false ∧
    (x.clearAuto.clearGlobal.setAuto url).clearAuto.pacURL = "" ∧
    (x.clearAuto.clearGlobal.setAuto url).clearAuto.globalAddr = "" ∧
    (x.clearAuto.clearGlobal.setAuto url).clearAuto.globalPort = "" :=
  ⟨flag_lemma_cleared_pac _, flag_lemma_global_stays_off _, rfl, rfl, rfl⟩

theorem cleared_after_global (addr port : String) (x : mockSettings) :
    (x.clearAuto.clearGlobal.setGlobal addr port).clearGlobal.pacOn = false ∧
    (x.clearAuto.clearGlobal.setGlobal addr port).clearGlobal.globalOn = false ∧
    (x.clearAuto.clearGlobal.setGlobal addr port).clearGlobal.pacURL = "" ∧
    (x.clearAuto.clearGlobal.setGlobal addr port).clearGlobal.globalAddr = "" ∧
    (x.clearAuto.clearGlobal.setGlobal addr port).clearGlobal.globalPort = "" :=
  ⟨flag_lemma_pac_stays_off _, flag_lemma_cleared_global _, rfl, rfl, rfl⟩

theorem mock_Shutdown_pac (m : mockAPI) (op : OSOperator) (h0 : op.isStartup = true)
    (h : op.cfg.mode = config.ModePAC) :
    op.Shutdown mockDriver m
      = (none, { op with isStartup := false }, m.mapSettings mockSettings.clearAuto) := by
  simp [OSOperator.Shutdown, h0, clearProxyByMode, h, mock_clearAutoProxy]

theorem mock_Shutdown_global (m : mockAPI) (op : OSOperator) (h0 : op.isStartup = true)
    (h : op.cfg.mode = config.ModeGlobal) :
    op.Shutdown mockDriver m
      = (none, { op with isStartup := false }, m.mapSettings mockSettings.clearGlobal) := by
  simp [OSOperator.Shutdown, h0, clearProxyByMode, h, mode_pac_ne_global.symm,
    mock_clearGlobalProxy]

/-- C15: on the fake driver in any state, for pac and for global: `Startup` of a fresh
operator followed by `Shutdown` returns nil both times, leaves the operator stopped, and
leaves every interface with both flags off and empty `pacURL`, `globalAddr` and
`globalPort`; from the fresh fake driver the result is the fresh fake driver again. -/
theorem C15_startup_then_shutdown_clears_everything (m : mockAPI) (url addr port : String) :
    (∀ mode, mode = config.ModePAC ∨ mode = config.ModeGlobal →
      ∃ op, NewOSOperator mode url addr port = Except.ok op ∧
        (op.Startup mockDriver m).1 = none ∧
        ((op.Startup mockDriver m).2.1.Shutdown mockDriver (op.Startup mockDriver m).2.2).1
          = none ∧
        ((op.Startup mockDriver m).2.1.Shutdown mockDriver
          (op.Startup mockDriver m).2.2).2.1.isStartup = false ∧
        ∀ e ∈ ((op.Startup mockDriver m).2.1.Shutdown mockDriver
            (op.Startup mockDriver m).2.2).2.2.settings,
          e.2.pacOn = false ∧ e.2.globalOn = false ∧ e.2.pacURL = "" ∧
          e.2.globalAddr = "" ∧ e.2.globalPort = "") ∧
    (OSOperator.Shutdown mockDriver ⟨⟨"pac", "abcd", "11.22.33.44", "1234"⟩, true⟩
      (OSOperator.Startup mockDriver ⟨⟨"pac", "abcd", "11.22.33.44", "1234"⟩, false⟩
        newMockAPI).2.2).2.2 = newMockAPI ∧
    (OSOperator.Shutdown mockDriver ⟨⟨"global", "abcd", "11.22.33.44", "1234"⟩, true⟩
      (OSOperator.Startup mockDriver ⟨⟨"global", "abcd", "11.22.33.44", "1234"⟩, false⟩
        newMockAPI).2.2).2.2 = newMockAPI := by
  refine ⟨?_, by decide, by decide⟩
  intro mode hmode
  rcases hmode with rfl | rfl
  · refine ⟨⟨⟨config.ModePAC, url, addr, port⟩, false⟩, by simp [NewOSOperator], ?_⟩
    rw [mock_Startup_pac m _ rfl rfl]
    dsimp only
    rw [mock_Shutdown_pac _ _ rfl rfl, mockAPI.mapSettings_mapSettings]
    refine ⟨rfl, rfl, rfl, ?_⟩
    intro e he
    obtain ⟨x, hx⟩ := mockAPI.mem_mapSettings he
    rw [hx]
    exact cleared_after_pac url x
  · refine ⟨⟨⟨config.ModeGlobal, url, addr, port⟩, false⟩, by simp [NewOSOperator], ?_⟩
    rw [mock_Startup_global m _ rfl rfl]
    dsimp only
    rw [mock_Shutdown_global _ _ rfl rfl, mockAPI.mapSettings_mapSettings]
    refine ⟨rfl, rfl, rfl, ?_⟩
    intro e he
    obtain ⟨x, hx⟩ := mockAPI.mem_mapSettings he
    rw [hx]
    exact cleared_after_global addr port x

/-! ## The stored mode along sequences of calls -/

theorem resetProxy_ok_mode_known {σ : Type} (api : osAPI σ) (cfg : opConfig) (s : σ)
    (h : (resetProxy api cfg s).1 = none) :
    cfg.mode = config.ModePAC ∨ cfg.mode = config.ModeGlobal := by
  by_cases h1 : cfg.mode = config.ModePAC
  · exact Or.inl h1
  · by_cases h2 : cfg.mode = config.ModeGlobal
    · exact Or.inr h2
    · simp [resetProxy, h1, h2] at h

theorem Startup_keeps_cfg {σ : Type} (api : osAPI σ) (op : OSOperator) (s : σ) :
    (op.Startup api s).2.1.cfg = op.cfg := by
  unfold OSOperator.Startup
  split
  · rfl
  · rcases resetProxy api op.cfg s with ⟨e, t⟩
    cases e <;> rfl

theorem Shutdown_keeps_cfg {σ : Type} (api : osAPI σ) (op : OSOperator) (s : σ) :
    (op.Shutdown api s).2.1.cfg = op.cfg := by
  unfold OSOperator.Shutdown
  split
  · rfl
  · rcases clearProxyByMode api op.cfg.mode s with ⟨e, t⟩
    cases e <;> rfl

theorem ChangeLocalPort_keeps_mode_and_url {σ : Type} (api : osAPI σ) (op : OSOperator)
    (p : String) (s : σ) :
    (op.ChangeLocalPort api p s).2.1.cfg.mode = op.cfg.mode ∧
    (op.ChangeLocalPort api p s).2.1.cfg.pacURL = op.cfg.pacURL := by
  unfold OSOperator.ChangeLocalPort
  split
  · exact ⟨rfl, rfl⟩
  · split
    · exact ⟨rfl, rfl⟩
    · rcases op.reStartup api { op.cfg with localPort := p } s with ⟨e, t⟩
      cases e <;> exact ⟨rfl, rfl⟩

theorem ChangePACURL_keeps_mode {σ : Type} (api : osAPI σ) (op : OSOperator)
    (u : String) (s : σ) :
    (op.ChangePACURL api u s).2.1.cfg.mode = op.cfg.mode := by
  unfold OSOperator.ChangePACURL
  split
  · rfl
  · split
    · rfl
    · rcases op.reStartup api { op.cfg with pacURL := u } s with ⟨e, t⟩
      cases e <;> rfl

theorem reStartup_ok_other_mode {σ : Type} (api : osAPI σ) (op : OSOperator)
    (newCfg : opConfig) (s : σ) (h : (op.reStartup api newCfg s).1 = none) :
    newCfg.mode = config.ModePAC ∨ newCfg.mode = config.ModeGlobal := by
  unfold OSOperator.reStartup at h
  split at h
  · exact resetProxy_ok_mode_known api newCfg s h
  · rcases hc : clearProxyByMode api op.cfg.mode s with ⟨e1, s1⟩
    rw [hc] at h
    cases e1 with
    | some err => simp at h
    | none =>
      simp only at h
      rcases hr : resetProxy api newCfg s1 with ⟨e2, s2⟩
      rw [hr] at h
      cases e2 with
      | some err => simp at h
      | none => exact resetProxy_ok_mode_known api newCfg s1 (by rw [hr])

/-- `ChangeMode` keeps the stored mode in pac/global, unless it is called on a stopped
operator with another string. -/
theorem ChangeMode_keeps_mode_known {σ : Type} (api : osAPI σ) (op : OSOperator)
    (m : String) (s : σ)
    (hop : op.cfg.mode = config.ModePAC ∨ op.cfg.mode = config.ModeGlobal)
    (hm : op.isStartup = false → m = config.ModePAC ∨ m = config.ModeGlobal) :
    (op.ChangeMode api m s).2.1.cfg.mode = config.ModePAC ∨
    (op.ChangeMode api m s).2.1.cfg.mode = config.ModeGlobal := by
  unfold OSOperator.ChangeMode
  split
  · exact hop
  · split
    · next hstop =>
      exact hm (by simpa using hstop)
    · rcases hr : op.reStartup api { op.cfg with mode := m } s with ⟨e, t⟩
      cases e with
      | some err => exact hop
      | none => exact reStartup_ok_other_mode api op { op.cfg with mode := m } s (by rw [hr])

theorem call_keeps_mode_known {σ : Type} (api : osAPI σ) (c : OpCall) (op : OSOperator) (s : σ)
    (hop : op.cfg.mode = config.ModePAC ∨ op.cfg.mode = config.ModeGlobal)
    (hm : ∀ m, c = OpCall.ChangeMode m → op.isStartup = false →
      m = config.ModePAC ∨ m = config.ModeGlobal) :
    (op.call api c s).2.1.cfg.mode = config.ModePAC ∨
    (op.call api c s).2.1.cfg.mode = config.ModeGlobal := by
  cases c with
  | Startup => simpa [OSOperator.call, Startup_keeps_cfg] using hop
  | Shutdown => simpa [OSOperator.call, Shutdown_keeps_cfg] using hop
  | ChangeMode m => exact ChangeMode_keeps_mode_known api op m s hop (hm m rfl)
  | ChangeLocalPort p =>
    simpa [OSOperator.call, (ChangeLocalPort_keeps_mode_and_url api op p s).1] using hop
  | ChangePACURL u => simpa [OSOperator.call, ChangePACURL_keeps_mode] using hop

theorem calls_keep_mode_known {σ : Type} (api : osAPI σ) :
    ∀ (cs : List OpCall) (op : OSOperator) (s : σ),
      (op.cfg.mode = config.ModePAC ∨ op.cfg.mode = config.ModeGlobal) →
      OSOperator.stoppedModesValid api cs op s →
      (OSOperator.calls api cs op s).1.cfg.mode = config.ModePAC ∨
      (OSOperator.calls api cs op s).1.cfg.mode = config.ModeGlobal := by
  intro cs
  induction cs with
  | nil => intro op s hop _; exact hop
  | cons c cs ih =>
    intro op s hop hadm
    exact ih _ _ (call_keeps_mode_known api c op s hop hadm.1) hadm.2

/-- `ChangeMode` on a running operator with a string that is neither pac nor global and is
not the stored mode returns an error and leaves the operator as it is: either clearing the
old mode fails, or applying the new configuration fails on the unknown mode. -/
theorem ChangeMode_running_unknown_is_refused {σ : Type} (api : osAPI σ) (op : OSOperator)
    (newMode : String) (s : σ) (hrun : op.isStartup = true) (hne : newMode ≠ op.cfg.mode)
    (h1 : newMode ≠ config.ModePAC) (h2 : newMode ≠ config.ModeGlobal) :
    ∃ err, (op.ChangeMode api newMode s).1 = some err ∧ (op.ChangeMode api newMode s).2.1 = op := by
  have hre : ∃ err, (op.reStartup api { op.cfg with mode := newMode } s).1 = some err := by
    unfold OSOperator.reStartup
    simp only [hne, if_false]
    rcases hc : clearProxyByMode api op.cfg.mode s with ⟨e1, s1⟩
    cases e1 with
    | some err => exact ⟨err, rfl⟩
    | none =>
      have hr : resetProxy api { op.cfg with mode := newMode } s1
          = (some ("unknown mode name '" ++ newMode ++ "'"), s1) := by
        simp [resetProxy, h1, h2]
      simp only [hr]
      exact ⟨_, rfl⟩
  obtain ⟨err, he⟩ := hre
  unfold OSOperator.ChangeMode
  simp only [hne, if_false, hrun, Bool.not_true, Bool.false_eq_true]
  rcases hr : op.reStartup api { op.cfg with mode := newMode } s with ⟨e, t⟩
  rw [hr] at he
  simp only at he
  subst he
  exact ⟨err, rfl, rfl⟩

/-- C20 (as amended): `NewOSOperator` fails exactly when the mode is neither pac nor global,
and for every operator it returns and every sequence of calls of `Startup`, `Shutdown`,
`ChangeMode`, `ChangeLocalPort` and `ChangePACURL` in which each `ChangeMode` issued while
the operator is stopped is given pac or global, the stored mode is pac or global at the
end; on every driver, `ChangeMode` with a string that is neither pac nor global on a
running operator whose mode is pac or global returns an error and leaves the operator, its
stored mode included, unchanged. -/
theorem C20_mode_stays_known_when_stopped_changes_are_valid {σ : Type} (api : osAPI σ)
    (mode url addr port : String) :
    ((∃ e, NewOSOperator mode url addr port = Except.error e) ↔
      (mode ≠ config.ModePAC ∧ mode ≠ config.ModeGlobal)) ∧
    (∀ op, NewOSOperator mode url addr port = Except.ok op →
      ∀ (cs : List OpCall) (s : σ), OSOperator.stoppedModesValid api cs op s →
        (OSOperator.calls api cs op s).1.cfg.mode = config.ModePAC ∨
        (OSOperator.calls api cs op s).1.cfg.mode = config.ModeGlobal) ∧
    (∀ (op : OSOperator) (newMode : String) (s : σ), op.isStartup = true →
      (op.cfg.mode = config.ModePAC ∨ op.cfg.mode = config.ModeGlobal) →
      newMode ≠ config.ModePAC → newMode ≠ config.ModeGlobal →
      ∃ err, (op.ChangeMode api newMode s).1 = some err ∧
        (op.ChangeMode api newMode s).2.1 = op) := by
  refine ⟨?_, ?_, ?_⟩
  rotate_left 2
  · intro op newMode s hrun hop h1 h2
    have hne : newMode ≠ op.cfg.mode := by
      intro h
      rcases hop with hp | hg
      · exact h1 (h.trans hp)
      · exact h2 (h.trans hg)
    exact ChangeMode_running_unknown_is_refused api op newMode s hrun hne h1 h2
  · unfold NewOSOperator
    split
    · next h => exact ⟨fun _ => h, fun _ => ⟨_, rfl⟩⟩
    · next h => exact ⟨fun ⟨e, he⟩ => by simp at he, fun h' => absurd h' h⟩
  · intro op hnew cs s hadm
    have hop : op.cfg.mode = config.ModePAC ∨ op.cfg.mode = config.ModeGlobal := by
      unfold NewOSOperator at hnew
      split at hnew
      · simp at hnew
      · next h =>
        simp only [Except.ok.injEq] at hnew
        subst hnew
        by_cases h1 : mode = config.ModePAC
        · exact Or.inl h1
        · by_cases h2 : mode = config.ModeGlobal
          · exact Or.inr h2
          · exact absurd ⟨h1, h2⟩ h
    exact calls_keep_mode_known api cs op s hop hadm

/-- Witness of C20 (as amended): on the fake driver a fresh pac operator is switched to
global, started, asked for the unknown mode `foo` (refused: it is running), given a new
port and shut down; the stored mode is global. -/
theorem C20_mode_stays_known_when_stopped_changes_are_valid_witness :
    (OSOperator.calls mockDriver
        [OpCall.ChangeMode "global", OpCall.Startup, OpCall.ChangeMode "foo",
          OpCall.ChangeLocalPort "1", OpCall.Shutdown]
        ⟨⟨"pac", "abcd", "11.22.33.44", "1234"⟩, false⟩ newMockAPI).1.cfg.mode = "global" ∧
    ((OSOperator.calls mockDriver
        [OpCall.ChangeMode "global", OpCall.Startup, OpCall.ChangeMode "foo",
          OpCall.ChangeLocalPort "1", OpCall.Shutdown]
        ⟨⟨"pac", "abcd", "11.22.33.44", "1234"⟩, false⟩ newMockAPI).1.cfg.mode = config.ModePAC ∨
     (OSOperator.calls mockDriver
        [OpCall.ChangeMode "global", OpCall.Startup, OpCall.ChangeMode "foo",
          OpCall.ChangeLocalPort "1", OpCall.Shutdown]
        ⟨⟨"pac", "abcd", "11.22.33.44", "1234"⟩, false⟩ newMockAPI).1.cfg.mode
          = config.ModeGlobal) :=
  ⟨by decide,
   (C20_mode_stays_known_when_stopped_changes_are_valid mockDriver "pac" "abcd" "11.22.33.44"
      "1234").2.1 ⟨⟨"pac", "abcd", "11.22.33.44", "1234"⟩, false⟩ rfl _ newMockAPI
      (by
        refine ⟨fun m hm _ => ?_, fun m hm _ => ?_, fun m hm hstop => ?_, fun m hm _ => ?_,
          fun m hm _ => ?_, trivial⟩
        · cases hm; exact Or.inr rfl
        · cases hm
        · cases hm; exact absurd hstop (by decide)
        · cases hm
        · cases hm)⟩

/-- Counterexample to C20 as stated: `NewOSOperator` returns a pac operator, and
`ChangeMode("foo")` on it, not yet started, returns nil and stores `foo`, which is neither
pac nor global. -/
theorem C20_counterexample_stopped_change_mode_stores_any_string :
    NewOSOperator "pac" "abcd" "11.22.33.44" "1234"
      = Except.ok ⟨⟨"pac", "abcd", "11.22.33.44", "1234"⟩, false⟩ ∧
    OSOperator.ChangeMode mockDriver ⟨⟨"pac", "abcd", "11.22.33.44", "1234"⟩, false⟩ "foo"
        newMockAPI
      = (none, ⟨⟨"foo", "abcd", "11.22.33.44", "1234"⟩, false⟩, newMockAPI) ∧
    "foo" ≠ config.ModePAC ∧ "foo" ≠ config.ModeGlobal := by
  refine ⟨rfl, by decide, by decide, by decide⟩

/-! ## The PAC URL stored in the OSOperator -/

theorem ChangeMode_keeps_url {σ : Type} (api : osAPI σ) (op : OSOperator) (m : String) (s : σ) :
    (op.ChangeMode api m s).2.1.cfg.pacURL = op.cfg.pacURL := by
  unfold OSOperator.ChangeMode
  split
  · rfl
  · split
    · rfl
    · rcases op.reStartup api { op.cfg with mode := m } s with ⟨e, t⟩
      cases e <;> rfl

theorem ChangePACURL_ok_stores_url {σ : Type} (api : osAPI σ) (op op1 : OSOperator) (u : String)
    (s s1 : σ) (h : op.ChangePACURL api u s = (none, op1, s1)) : op1.cfg.pacURL = u := by
  unfold OSOperator.ChangePACURL at h
  split at h
  · next heq =>
    simp only [Prod.mk.injEq, true_and] at h
    rw [← h.1]; exact heq.symm
  · split at h
    · simp only [Prod.mk.injEq, true_and] at h
      rw [← h.1]
    · rcases hr : op.reStartup api { op.cfg with pacURL := u } s with ⟨e1, t⟩
      rw [hr] at h
      cases e1 with
      | some err => simp at h
      | none =>
        simp only [Prod.mk.injEq, true_and] at h
        rw [← h.1]

theorem PACServer_Startup_keeps_port {ω : Type} (he : httpAPI ω) (ps ps1 : PACServer) (w w1 : ω)
    (r : Err) (h : ps.Startup he w = Outcome.ret (r, ps1, w1)) : ps1.pacPort = ps.pacPort := by
  unfold PACServer.Startup at h
  split at h
  · simp only [Outcome.ret.injEq, Prod.mk.injEq] at h
    rw [← h.2.1]
  · split at h
    · simp at h
    · rcases hl : he.listenAndServe ps.serverAddr w with ⟨e, t⟩
      rw [hl] at h
      cases e with
      | none =>
        simp only [Outcome.ret.injEq, Prod.mk.injEq] at h
        rw [← h.2.1]
      | some err =>
        simp only [Outcome.ret.injEq, Prod.mk.injEq] at h
        rw [← h.2.1]

theorem PACServer_Shutdown_keeps_port {ω : Type} (he : httpAPI ω) (ps : PACServer) (w : ω) :
    (ps.Shutdown he w).2.1.pacPort = ps.pacPort := by
  unfold PACServer.Shutdown
  split
  · rfl
  · rcases he.shutdown (ps.server.getD ps.serverAddr) w with ⟨e, t⟩
    cases e <;> rfl

theorem PACServer_ChangeLocalPort_keeps_port (ps : PACServer) (p : String) :
    (ps.ChangeLocalPort p).2.pacPort = ps.pacPort := by
  unfold PACServer.ChangeLocalPort
  split <;> rfl

theorem GetPACURL_of_port (ps ps1 : PACServer) (h : ps1.pacPort = ps.pacPort) :
    ps1.GetPACURL = ps.GetPACURL := by
  simp [PACServer.GetPACURL, PACServer.serverAddr, h]

theorem NewPACServer_port {ω : Type} (he : httpAPI ω) (port file addr lp : String) (w w1 : ω)
    (ps : PACServer) (h : NewPACServer he port file addr lp w = (Except.ok ps, w1)) :
    ps.pacPort = port := by
  unfold NewPACServer at h
  rcases hr : he.readFile (if file = "" then he.DefaultPACLocalPath else file) w with ⟨r, t⟩
  rw [hr] at h
  cases r with
  | error err => simp at h
  | ok data =>
    simp only [Prod.mk.injEq, Except.ok.injEq] at h
    rw [← h.1]

theorem Startup_preserves_url {ω : Type} (env : Env ω) (pc pc1 : ProxyCore) (w w1 : ω) (r : Err)
    (h : pc.Startup env w = Outcome.ret (r, pc1, w1)) :
    pc1.op.cfg.pacURL = pc.op.cfg.pacURL ∧ pc1.pacSrv.pacPort = pc.pacSrv.pacPort := by
  unfold ProxyCore.Startup at h
  split at h
  · simp only [Outcome.ret.injEq, Prod.mk.injEq] at h
    rw [← h.2.1]; exact ⟨rfl, rfl⟩
  · cases hP : pc.pacSrv.Startup env.http w with
    | panic msg => simp [hP] at h
    | ret rP =>
      obtain ⟨eP, ps1, wP⟩ := rP
      have hport := PACServer_Startup_keeps_port env.http _ _ _ _ _ hP
      simp only [hP] at h
      cases eP with
      | some err =>
        simp only [Outcome.ret.injEq, Prod.mk.injEq] at h
        rw [← h.2.1]; exact ⟨rfl, hport⟩
      | none =>
        simp only at h
        rcases hS : pc.ss.Startup env.proc wP with ⟨eS, ss1, wS⟩
        rw [hS] at h
        cases eS with
        | some err =>
          simp only [Outcome.ret.injEq, Prod.mk.injEq] at h
          rw [← h.2.1]
          exact ⟨rfl, (PACServer_Shutdown_keeps_port env.http ps1 wS).trans hport⟩
        | none =>
          simp only at h
          have hcfg := Startup_keeps_cfg env.api pc.op wS
          rcases hO : pc.op.Startup env.api wS with ⟨eO, op1, wO⟩
          rw [hO] at h hcfg
          cases eO with
          | some err =>
            simp only [Outcome.ret.injEq, Prod.mk.injEq] at h
            rw [← h.2.1]
            exact ⟨by simp only at hcfg; rw [hcfg],
              (PACServer_Shutdown_keeps_port env.http ps1 _).trans hport⟩
          | none =>
            simp only [Outcome.ret.injEq, Prod.mk.injEq] at h
            rw [← h.2.1]
            exact ⟨by simp only at hcfg; rw [hcfg], hport⟩

theorem ChangeLocalPort_preserves_url {ω : Type} (env : Env ω) (pc pc1 : ProxyCore)
    (p : String) (w w1 : ω) (r : Err)
    (h : pc.ChangeLocalPort env p w = Outcome.ret (r, pc1, w1)) :
    pc1.op.cfg.pacURL = pc.op.cfg.pacURL ∧ pc1.pacSrv.pacPort = pc.pacSrv.pacPort := by
  unfold ProxyCore.ChangeLocalPort at h
  split at h
  · simp only [Outcome.ret.injEq, Prod.mk.injEq] at h
    rw [← h.2.1]; exact ⟨rfl, rfl⟩
  · cases h1 : pc.ss.ChangeLocalPort env.proc p w with
    | panic msg => simp [h1] at h
    | ret r1 =>
      obtain ⟨e1, ss1, w1'⟩ := r1
      simp only [h1] at h
      cases e1 with
      | some err =>
        simp only [Outcome.ret.injEq, Prod.mk.injEq] at h
        rw [← h.2.1]; exact ⟨rfl, rfl⟩
      | none =>
        simp only at h
        have hu := (ChangeLocalPort_keeps_mode_and_url env.api pc.op p w1').2
        rcases h2 : pc.op.ChangeLocalPort env.api p w1' with ⟨e2, op1, w2⟩
        rw [h2] at h hu
        simp only at hu
        cases e2 with
        | some err =>
          simp only at h
          cases h3 : ss1.ChangeLocalPort env.proc pc.localPort w2 with
          | panic msg => simp [h3] at h
          | ret r3 =>
            obtain ⟨e3, ss2, w3⟩ := r3
            simp only [h3, Outcome.ret.injEq, Prod.mk.injEq] at h
            rw [← h.2.1]; exact ⟨hu, rfl⟩
        | none =>
          simp only at h
          have hp := PACServer_ChangeLocalPort_keeps_port pc.pacSrv p
          rcases h4 : pc.pacSrv.ChangeLocalPort p with ⟨e4, ps1⟩
          rw [h4] at h hp
          simp only at hp
          cases e4 with
          | none =>
            simp only [Outcome.ret.injEq, Prod.mk.injEq] at h
            rw [← h.2.1]; exact ⟨hu, hp⟩
          | some err =>
            simp only at h
            have hu2 := (ChangeLocalPort_keeps_mode_and_url env.api op1 pc.localPort w2).2
            rcases h5 : op1.ChangeLocalPort env.api pc.localPort w2 with ⟨e5, op2, w5⟩
            rw [h5] at h hu2
            simp only at h hu2
            cases h6 : ss1.ChangeLocalPort env.proc pc.localPort w5 with
            | panic msg => simp [h6] at h
            | ret r6 =>
              obtain ⟨e6, ss2, w6⟩ := r6
              simp only [h6, Outcome.ret.injEq, Prod.mk.injEq] at h
              rw [← h.2.1]; exact ⟨hu2.trans hu, hp⟩

theorem ChangePACPort_preserves_invariant {ω : Type} (env : Env ω) (pc pc1 : ProxyCore)
    (p : String) (w w1 : ω) (r : Err)
    (hinv : pc.op.cfg.pacURL = pc.pacSrv.GetPACURL)
    (h : pc.ChangePACPort env p w = Outcome.ret (r, pc1, w1)) :
    pc1.op.cfg.pacURL = pc1.pacSrv.GetPACURL := by
  unfold ProxyCore.ChangePACPort at h
  split at h
  · simp only [Outcome.ret.injEq, Prod.mk.injEq] at h
    rw [← h.2.1]; exact hinv
  · rcases hN : NewPACServer env.http p pc.pacFile pc.localAddr pc.localPort w with ⟨rN, wN⟩
    rw [hN] at h
    cases rN with
    | error err =>
      simp only [Outcome.ret.injEq, Prod.mk.injEq] at h
      rw [← h.2.1]; exact hinv
    | ok nps =>
      simp only at h
      cases hP : nps.Startup env.http wN with
      | panic msg => simp [hP] at h
      | ret rP =>
        obtain ⟨eP, nps1, wP⟩ := rP
        have hport := PACServer_Startup_keeps_port env.http _ _ _ _ _ hP
        simp only [hP] at h
        cases eP with
        | some err =>
          simp only [Outcome.ret.injEq, Prod.mk.injEq] at h
          rw [← h.2.1]; exact hinv
        | none =>
          simp only at h
          rcases hU : pc.op.ChangePACURL env.api nps1.GetPACURL wP with ⟨eU, op1, wU⟩
          rw [hU] at h
          cases eU with
          | some err =>
            have hk := OSOperator_ChangePACURL_error_keeps_operator env.api _ _ _ _ _ _ hU
            simp only [Outcome.ret.injEq, Prod.mk.injEq] at h
            rw [← h.2.1, hk]; exact hinv
          | none =>
            have hs := ChangePACURL_ok_stores_url env.api _ _ _ _ _ hU
            simp only [Outcome.ret.injEq, Prod.mk.injEq] at h
            rw [← h.2.1]; exact hs

/-- C19 (as amended): the PAC URL stored in ProxyCore's OSOperator is `GetPACURL()` of the
PAC server ProxyCore holds: this holds for the core `NewProxyCore` returns, and every
ProxyCore operation that returns (with nil or with an error) hands back a core for which it
holds again. `GetPACURL()` is `http://127.0.0.1:`, the server's port escaped as
`url.URL.String()` escapes a host, and `/proxy.pac`; when the port consists of decimal
digits this is `http://127.0.0.1:<its port>/proxy.pac`. -/
theorem C19_operator_pac_url_is_url_of_held_server {ω : Type} (env : Env ω) :
    (∀ pacPort pacFile localPort mode srv ssPath (w w1 : ω) pc,
      NewProxyCore env pacPort pacFile localPort mode srv ssPath w = (Except.ok pc, w1) →
      pc.op.cfg.pacURL = pc.pacSrv.GetPACURL) ∧
    (∀ (pc : ProxyCore) (w : ω), pc.op.cfg.pacURL = pc.pacSrv.GetPACURL →
      (∀ r pc1 w1, pc.Startup env w = Outcome.ret (r, pc1, w1) →
        pc1.op.cfg.pacURL = pc1.pacSrv.GetPACURL) ∧
      (pc.Shutdown env w).1.op.cfg.pacURL = (pc.Shutdown env w).1.pacSrv.GetPACURL ∧
      (∀ m, (pc.ChangeMode env m w).2.1.op.cfg.pacURL
        = (pc.ChangeMode env m w).2.1.pacSrv.GetPACURL) ∧
      (∀ p r pc1 w1, pc.ChangeLocalPort env p w = Outcome.ret (r, pc1, w1) →
        pc1.op.cfg.pacURL = pc1.pacSrv.GetPACURL) ∧
      (∀ p r pc1 w1, pc.ChangePACPort env p w = Outcome.ret (r, pc1, w1) →
        pc1.op.cfg.pacURL = pc1.pacSrv.GetPACURL) ∧
      (∀ c r pc1 w1, pc.ChangeServerConfig env c w = Outcome.ret (r, pc1, w1) →
        pc1.op.cfg.pacURL = pc1.pacSrv.GetPACURL)) ∧
    (∀ ps : PACServer,
      ps.GetPACURL = "http://127.0.0.1:" ++ escapeHost ps.pacPort ++ "/proxy.pac") ∧
    (∀ ps : PACServer, (∀ c ∈ ps.pacPort.data, '0' ≤ c ∧ c ≤ '9') →
      ps.GetPACURL = "http://127.0.0.1:" ++ ps.pacPort ++ "/proxy.pac") := by
  refine ⟨?_, ?_, GetPACURL_eq, ?_⟩
  rotate_left 2
  · intro ps hd
    rw [GetPACURL_eq, escapeHost_kept ps.pacPort (fun c hc => digit_kept c (hd c hc))]
  · intro pacPort pacFile localPort mode srv ssPath w w1 pc h
    unfold NewProxyCore at h
    rcases hN : NewPACServer env.http pacPort pacFile "127.0.0.1" localPort w with ⟨rN, wN⟩
    rw [hN] at h
    cases rN with
    | error err => simp at h
    | ok ps =>
      simp only [NewShadowSocks] at h
      cases hO : NewOSOperator mode ps.GetPACURL "127.0.0.1" localPort with
      | error err => simp [hO] at h
      | ok op =>
        simp only [hO, Prod.mk.injEq, Except.ok.injEq] at h
        rw [← h.1]
        unfold NewOSOperator at hO
        split at hO
        · simp at hO
        · simp only [Except.ok.injEq] at hO
          rw [← hO]
  · intro pc w hinv
    refine ⟨?_, ?_, ?_, ?_, ?_, ?_⟩
    · intro r pc1 w1 h
      obtain ⟨h1, h2⟩ := Startup_preserves_url env pc pc1 w w1 r h
      rw [h1, hinv, GetPACURL_of_port _ _ h2]
    · unfold ProxyCore.Shutdown
      split
      · exact hinv
      · simp only
        rw [Shutdown_keeps_cfg, hinv]
        exact (GetPACURL_of_port _ _ (PACServer_Shutdown_keeps_port env.http pc.pacSrv _)).symm
    · intro m
      unfold ProxyCore.ChangeMode
      split
      · exact hinv
      · have hu := ChangeMode_keeps_url env.api pc.op m w
        rcases hc : pc.op.ChangeMode env.api m w with ⟨e, op1, t⟩
        rw [hc] at hu
        simp only at hu
        cases e <;> simp only <;> rw [hu, hinv]
    · intro p r pc1 w1 h
      obtain ⟨h1, h2⟩ := ChangeLocalPort_preserves_url env pc pc1 p w w1 r h
      rw [h1, hinv, GetPACURL_of_port _ _ h2]
    · intro p r pc1 w1 h
      exact ChangePACPort_preserves_invariant env pc pc1 p w w1 r hinv h
    · intro c r pc1 w1 h
      unfold ProxyCore.ChangeServerConfig at h
      split at h
      · simp only [Outcome.ret.injEq, Prod.mk.injEq] at h
        rw [← h.2.1]; exact hinv
      · cases hS : pc.ss.ChangeServerConfig env.proc c w with
        | panic msg => simp [hS] at h
        | ret rS =>
          obtain ⟨eS, ss1, wS⟩ := rS
          simp only [hS] at h
          cases eS with
          | some err =>
            simp only [Outcome.ret.injEq, Prod.mk.injEq] at h
            rw [← h.2.1]; exact hinv
          | none =>
            simp only [Outcome.ret.injEq, Prod.mk.injEq] at h
            rw [← h.2.1]; exact hinv

/-- Counterexample to C19 as stated: `NewProxyCore` is given the PAC port `12 34`. The PAC
server it holds has that port, its `GetPACURL()` and the URL stored in the OSOperator are
`http://127.0.0.1:12%2034/proxy.pac`, with the space of the port percent-encoded, which is
not `http://127.0.0.1:12 34/proxy.pac`. -/
theorem C19_counterexample_port_is_percent_encoded :
    NewProxyCore fakeEnv "12 34" "pac.js" "2234" "pac" testSrvCfg "" (testWorld 1)
      = (Except.ok
          { testCore "pac" with
              pacSrv := ⟨none, "12 34", [104, 105], "127.0.0.1", "2234", false⟩,
              op := ⟨⟨"pac", "http://127.0.0.1:12%2034/proxy.pac", "127.0.0.1", "2234"⟩, false⟩,
              pacPort := "12 34" },
          testWorld 1) ∧
    PACServer.GetPACURL ⟨none, "12 34", [104, 105], "127.0.0.1", "2234", false⟩
      = "http://127.0.0.1:12%2034/proxy.pac" ∧
    "http://127.0.0.1:12%2034/proxy.pac" ≠ "http://127.0.0.1:" ++ "12 34" ++ "/proxy.pac" :=
  ⟨rfl, by decide, by decide⟩

/-! ## Running the operator on a driver that simulates another -/

section sim
variable {ω σ : Type} {R : ω → σ → Prop} {api' : osAPI ω} {api : osAPI σ}

theorem sim_clearBothFor (hs : osAPI.Sim R api' api) (nw : String) :
    SimF R (clearBothFor api' nw) (clearBothFor api nw) := by
  intro w s hR
  rcases h1' : api'.clearAutoProxyFor nw w with ⟨a1', w1⟩
  rcases h1 : api.clearAutoProxyFor nw s with ⟨a1, s1⟩
  have t1 := hs.clearAutoProxyFor nw w s hR
  rw [h1', h1] at t1
  obtain ⟨ha1, hR1⟩ := t1
  simp only at ha1 hR1
  subst ha1
  rcases h2' : api'.clearGlobalProxyFor nw w1 with ⟨a2', w2⟩
  rcases h2 : api.clearGlobalProxyFor nw s1 with ⟨a2, s2⟩
  have t2 := hs.clearGlobalProxyFor nw w1 s1 hR1
  rw [h2', h2] at t2
  obtain ⟨ha2, hR2⟩ := t2
  simp only at ha2 hR2
  subst ha2
  simp only [clearBothFor, h1', h1, h2', h2]
  cases a1' <;> cases a2' <;> exact ⟨rfl, hR2⟩

theorem sim_clearLoop (cf' : String → ω → Err × ω) (cf : String → σ → Err × σ)
    (h : ∀ nw, SimF R (cf' nw) (cf nw)) :
    ∀ (ks : List String) (r : Err), SimF R (clearLoop cf' ks r) (clearLoop cf ks r) := by
  intro ks
  induction ks with
  | nil => intro r w s hR; exact ⟨rfl, hR⟩
  | cons k ks ih =>
    intro r w s hR
    rcases h1' : cf' k w with ⟨a1', w1⟩
    rcases h1 : cf k s with ⟨a1, s1⟩
    have t1 := h k w s hR
    rw [h1', h1] at t1
    obtain ⟨ha1, hR1⟩ := t1
    simp only at ha1 hR1
    subst ha1
    simp only [clearLoop, h1', h1]
    cases a1' with
    | none => exact ih r w1 s1 hR1
    | some err => exact ih _ w1 s1 hR1

theorem sim_clearProxy (hs : osAPI.Sim R api' api) (cf' : String → ω → Err × ω)
    (cf : String → σ → Err × σ) (h : ∀ nw, SimF R (cf' nw) (cf nw)) :
    SimF R (clearProxy api' cf') (clearProxy api cf) := by
  intro w s hR
  rcases h1' : api'.listAllNetwork w with ⟨a1', w1⟩
  rcases h1 : api.listAllNetwork s with ⟨a1, s1⟩
  have t1 := hs.listAllNetwork w s hR
  rw [h1', h1] at t1
  obtain ⟨ha1, hR1⟩ := t1
  simp only at ha1 hR1
  subst ha1
  simp only [clearProxy, h1', h1]
  cases a1' with
  | error err => exact ⟨rfl, hR1⟩
  | ok nws => exact sim_clearLoop cf' cf h nws none w1 s1 hR1

theorem sim_clearAllProxy (hs : osAPI.Sim R api' api) :
    SimF R (clearAllProxy api') (clearAllProxy api) :=
  sim_clearProxy hs _ _ (sim_clearBothFor hs)

theorem sim_setLoop (hs : osAPI.Sim R api' api) (sf' : String → ω → Err × ω)
    (sf : String → σ → Err × σ) (h : ∀ nw, SimF R (sf' nw) (sf nw)) :
    ∀ ks : List String, SimF R (setLoop api' sf' ks) (setLoop api sf ks) := by
  intro ks
  induction ks with
  | nil => intro w s hR; exact ⟨rfl, hR⟩
  | cons k ks ih =>
    intro w s hR
    rcases h1' : sf' k w with ⟨a1', w1⟩
    rcases h1 : sf k s with ⟨a1, s1⟩
    have t1 := h k w s hR
    rw [h1', h1] at t1
    obtain ⟨ha1, hR1⟩ := t1
    simp only at ha1 hR1
    subst ha1
    simp only [setLoop, h1', h1]
    cases a1' with
    | none => exact ih w1 s1 hR1
    | some err => exact ⟨rfl, (sim_clearAllProxy hs w1 s1 hR1).2⟩

theorem sim_setProxy (hs : osAPI.Sim R api' api) (sf' : String → ω → Err × ω)
    (sf : String → σ → Err × σ) (h : ∀ nw, SimF R (sf' nw) (sf nw)) :
    SimF R (setProxy api' sf') (setProxy api sf) := by
  intro w s hR
  have hR0 := (sim_clearAllProxy hs w s hR).2
  rcases h1' : api'.listAllNetwork (clearAllProxy api' w).2 with ⟨a1', w1⟩
  rcases h1 : api.listAllNetwork (clearAllProxy api s).2 with ⟨a1, s1⟩
  have t1 := hs.listAllNetwork _ _ hR0
  rw [h1', h1] at t1
  obtain ⟨ha1, hR1⟩ := t1
  simp only at ha1 hR1
  subst ha1
  simp only [setProxy, h1', h1]
  cases a1' with
  | error err => exact ⟨rfl, hR1⟩
  | ok nws => exact sim_setLoop hs sf' sf h nws w1 s1 hR1

theorem sim_resetProxy (hs : osAPI.Sim R api' api) (cfg : opConfig) :
    SimF R (resetProxy api' cfg) (resetProxy api cfg) := by
  intro w s hR
  unfold resetProxy
  by_cases h1 : cfg.mode = config.ModePAC
  · simp only [h1, if_true]
    exact sim_setProxy hs _ _ (fun nw => hs.setAutoProxyFor nw _) w s hR
  · by_cases h2 : cfg.mode = config.ModeGlobal
    · simp only [h1, h2, if_true, if_false]
      exact sim_setProxy hs _ _ (fun nw => hs.setGlobalProxyFor nw _ _) w s hR
    · simp only [h1, h2, if_false]
      exact ⟨trivial, hR⟩

theorem sim_clearProxyByMode (hs : osAPI.Sim R api' api) (mode : String) :
    SimF R (clearProxyByMode api' mode) (clearProxyByMode api mode) := by
  intro w s hR
  unfold clearProxyByMode
  by_cases h1 : mode = config.ModePAC
  · simp only [h1, if_true]
    exact sim_clearProxy hs _ _ hs.clearAutoProxyFor w s hR
  · by_cases h2 : mode = config.ModeGlobal
    · simp only [h1, h2, if_true, if_false]
      exact sim_clearProxy hs _ _ hs.clearGlobalProxyFor w s hR
    · simp only [h1, h2, if_false]
      exact ⟨trivial, hR⟩

theorem sim_reStartup (hs : osAPI.Sim R api' api) (op : OSOperator) (newCfg : opConfig) :
    SimF R (op.reStartup api' newCfg) (op.reStartup api newCfg) := by
  intro w s hR
  unfold OSOperator.reStartup
  by_cases h : newCfg.mode = op.cfg.mode
  · simp only [h, if_true]
    exact sim_resetProxy hs newCfg w s hR
  · simp only [h, if_false]
    rcases h1' : clearProxyByMode api' op.cfg.mode w with ⟨a1', w1⟩
    rcases h1 : clearProxyByMode api op.cfg.mode s with ⟨a1, s1⟩
    have t1 := sim_clearProxyByMode hs op.cfg.mode w s hR
    rw [h1', h1] at t1
    obtain ⟨ha1, hR1⟩ := t1
    simp only at ha1 hR1
    subst ha1
    cases a1' with
    | some err => exact ⟨rfl, hR1⟩
    | none =>
      simp only
      rcases h2' : resetProxy api' newCfg w1 with ⟨a2', w2⟩
      rcases h2 : resetProxy api newCfg s1 with ⟨a2, s2⟩
      have t2 := sim_resetProxy hs newCfg w1 s1 hR1
      rw [h2', h2] at t2
      obtain ⟨ha2, hR2⟩ := t2
      simp only at ha2 hR2
      subst ha2
      cases a2' with
      | none => exact ⟨rfl, hR2⟩
      | some err => exact ⟨rfl, (sim_resetProxy hs op.cfg w2 s2 hR2).2⟩

theorem sim_ChangeLocalPort (hs : osAPI.Sim R api' api) (op : OSOperator) (p : String)
    (w : ω) (s : σ) (hR : R w s) :
    (op.ChangeLocalPort api' p w).1 = (op.ChangeLocalPort api p s).1 ∧
    (op.ChangeLocalPort api' p w).2.1 = (op.ChangeLocalPort api p s).2.1 ∧
    R (op.ChangeLocalPort api' p w).2.2 (op.ChangeLocalPort api p s).2.2 := by
  unfold OSOperator.ChangeLocalPort
  split
  · exact ⟨rfl, rfl, hR⟩
  · split
    · exact ⟨rfl, rfl, hR⟩
    · rcases h1' : op.reStartup api' { op.cfg with localPort := p } w with ⟨a1', w1⟩
      rcases h1 : op.reStartup api { op.cfg with localPort := p } s with ⟨a1, s1⟩
      have t1 := sim_reStartup hs op { op.cfg with localPort := p } w s hR
      rw [h1', h1] at t1
      obtain ⟨ha1, hR1⟩ := t1
      simp only at ha1 hR1
      subst ha1
      cases a1' <;> exact ⟨rfl, rfl, hR1⟩

theorem sim_ChangePACURL (hs : osAPI.Sim R api' api) (op : OSOperator) (u : String)
    (w : ω) (s : σ) (hR : R w s) :
    (op.ChangePACURL api' u w).1 = (op.ChangePACURL api u s).1 ∧
    (op.ChangePACURL api' u w).2.1 = (op.ChangePACURL api u s).2.1 ∧
    R (op.ChangePACURL api' u w).2.2 (op.ChangePACURL api u s).2.2 := by
  unfold OSOperator.ChangePACURL
  split
  · exact ⟨rfl, rfl, hR⟩
  · split
    · exact ⟨rfl, rfl, hR⟩
    · rcases h1' : op.reStartup api' { op.cfg with pacURL := u } w with ⟨a1', w1⟩
      rcases h1 : op.reStartup api { op.cfg with pacURL := u } s with ⟨a1, s1⟩
      have t1 := sim_reStartup hs op { op.cfg with pacURL := u } w s hR
      rw [h1', h1] at t1
      obtain ⟨ha1, hR1⟩ := t1
      simp only at ha1 hR1
      subst ha1
      cases a1' <;> exact ⟨rfl, rfl, hR1⟩

end sim

/-- The driver of the in-memory world with no fault injected is the fake driver acting on
the `drv` field. -/
theorem testDriver_sim (w0 : TestWorld) :
    osAPI.Sim (DrvIs w0) (testDriver (fun _ => false)) mockDriver where
  listAllNetwork := by
    intro w s hR
    subst hR
    exact ⟨rfl, rfl⟩
  setAutoProxyFor := by
    intro nw url w s hR
    subst hR
    exact ⟨rfl, rfl⟩
  setGlobalProxyFor := by
    intro nw addr port w s hR
    subst hR
    exact ⟨rfl, rfl⟩
  clearAutoProxyFor := by
    intro nw w s hR
    subst hR
    exact ⟨rfl, rfl⟩
  clearGlobalProxyFor := by
    intro nw w s hR
    subst hR
    exact ⟨rfl, rfl⟩

/-! ## ProxyCore on the fake driver and the fake processes -/

theorem mock_ChangeLocalPort_global (m : mockAPI) (op : OSOperator) (p : String)
    (hrun : op.isStartup = true) (hmode : op.cfg.mode = config.ModeGlobal)
    (hne : p ≠ op.cfg.localPort) :
    op.ChangeLocalPort mockDriver p m
      = (none, { op with cfg := { op.cfg with localPort := p } },
          m.mapSettings (fun x => x.clearAuto.clearGlobal.setGlobal op.cfg.localAddr p)) := by
  have hr := mock_resetProxy_global m { op.cfg with localPort := p } hmode
  have hcond : (!op.isStartup || decide (op.cfg.mode = config.ModePAC)) = false := by
    simp [hrun, hmode, mode_pac_ne_global.symm]
  unfold OSOperator.ChangeLocalPort
  rw [if_neg hne, hcond]
  simp only [Bool.false_eq_true, if_false]
  have hr' : resetProxy mockDriver ⟨op.cfg.mode, op.cfg.pacURL, op.cfg.localAddr, p⟩ m
      = (none, m.mapSettings (fun x => x.clearAuto.clearGlobal.setGlobal op.cfg.localAddr p)) :=
    hr
  rw [reStartup_same_mode mockDriver op { op.cfg with localPort := p } m rfl, hr', hrun]

theorem mock_ChangePACURL_pac (m : mockAPI) (op : OSOperator) (u : String)
    (hrun : op.isStartup = true) (hmode : op.cfg.mode = config.ModePAC)
    (hne : u ≠ op.cfg.pacURL) :
    op.ChangePACURL mockDriver u m
      = (none, { op with cfg := { op.cfg with pacURL := u } },
          m.mapSettings (fun x => x.clearAuto.clearGlobal.setAuto u)) := by
  have hr := mock_resetProxy_pac m { op.cfg with pacURL := u } hmode
  have hcond : (!op.isStartup || decide (op.cfg.mode = config.ModeGlobal)) = false := by
    simp [hrun, hmode, mode_pac_ne_global]
  unfold OSOperator.ChangePACURL
  rw [if_neg hne, hcond]
  simp only [Bool.false_eq_true, if_false]
  have hr' : resetProxy mockDriver ⟨op.cfg.mode, u, op.cfg.localAddr, op.cfg.localPort⟩ m
      = (none, m.mapSettings (fun x => x.clearAuto.clearGlobal.setAuto u)) := hr
  rw [reStartup_same_mode mockDriver op { op.cfg with pacURL := u } m rfl, hr', hrun]

theorem DrvIs_self (w : TestWorld) : DrvIs w w w.drv := rfl

/-- On the in-memory world `ChangeLocalPort` of the operator is the fake driver's run on
the `drv` field. -/
theorem fake_ChangeLocalPort (w : TestWorld) (op : OSOperator) (p : String) :
    op.ChangeLocalPort fakeEnv.api p w
      = ((op.ChangeLocalPort mockDriver p w.drv).1, (op.ChangeLocalPort mockDriver p w.drv).2.1,
          { w with drv := (op.ChangeLocalPort mockDriver p w.drv).2.2 }) := by
  obtain ⟨h1, h2, h3⟩ := sim_ChangeLocalPort (testDriver_sim w) op p w w.drv (DrvIs_self w)
  have h3' : (op.ChangeLocalPort fakeEnv.api p w).2.2
      = { w with drv := (op.ChangeLocalPort mockDriver p w.drv).2.2 } := h3
  have h1' : (op.ChangeLocalPort fakeEnv.api p w).1 = _ := h1
  have h2' : (op.ChangeLocalPort fakeEnv.api p w).2.1 = _ := h2
  rw [← h1', ← h2', ← h3']

theorem fake_ChangePACURL (w : TestWorld) (op : OSOperator) (u : String) :
    op.ChangePACURL fakeEnv.api u w
      = ((op.ChangePACURL mockDriver u w.drv).1, (op.ChangePACURL mockDriver u w.drv).2.1,
          { w with drv := (op.ChangePACURL mockDriver u w.drv).2.2 }) := by
  obtain ⟨h1, h2, h3⟩ := sim_ChangePACURL (testDriver_sim w) op u w w.drv (DrvIs_self w)
  have h3' : (op.ChangePACURL fakeEnv.api u w).2.2
      = { w with drv := (op.ChangePACURL mockDriver u w.drv).2.2 } := h3
  have h1' : (op.ChangePACURL fakeEnv.api u w).1 = _ := h1
  have h2' : (op.ChangePACURL fakeEnv.api u w).2.1 = _ := h2
  rw [← h1', ← h2', ← h3']

/-- The supervisor on the fake processes: a running supervisor whose handle is in the
table moves to another port by appending the new process and marking the old one killed. -/
theorem fake_ss_ChangeLocalPort (w : TestWorld) (ss : ShadowSocks) (p : String) (h : Handle)
    (q : ssProcessMock) (hrun : ss.isStartup = true) (hproc : ss.proc = some h)
    (hq : w.procs.get? h = some q) (hne : p ≠ ss.localPort) :
    ss.ChangeLocalPort fakeEnv.proc p w
      = Outcome.ret (none, { ss with proc := some w.procs.length, localPort := p },
          { w with
              procs := (w.procs ++ [newSSProcessMock ss.localAddr p ss.srvCfg]).set h (q.Kill).2 })
      := by
  have hq0 : w.procs[h]? = some q := by simpa using hq
  have hlt : h < w.procs.length := by
    rcases Nat.lt_or_ge h w.procs.length with hl | hl
    · exact hl
    · rw [List.getElem?_eq_none hl] at hq0; simp at hq0
  have hq' : (w.procs ++ [newSSProcessMock ss.localAddr p ss.srvCfg])[h]? = some q := by
    rw [List.getElem?_append_left hlt]; exact hq0
  simp [ShadowSocks.ChangeLocalPort, hne, hrun, hproc, fakeEnv, fakeProcs, mockProcs, hq',
    ssProcessMock.Kill]

theorem ChangeLocalPort_unconsumed {σ : Type} (api : osAPI σ) (op : OSOperator) (p : String)
    (s : σ) (h : op.isStartup = false ∨ op.cfg.mode = config.ModePAC) :
    op.ChangeLocalPort api p s
      = (none, { op with cfg := { op.cfg with localPort := p } }, s) := by
  by_cases hp : p = op.cfg.localPort
  · subst hp
    simp [OSOperator.ChangeLocalPort]
  · rcases h with h | h <;> simp [OSOperator.ChangeLocalPort, hp, h]

theorem ChangePACURL_unconsumed {σ : Type} (api : osAPI σ) (op : OSOperator) (u : String)
    (s : σ) (h : op.isStartup = false ∨ op.cfg.mode = config.ModeGlobal) :
    op.ChangePACURL api u s
      = (none, { op with cfg := { op.cfg with pacURL := u } }, s) := by
  by_cases hu : u = op.cfg.pacURL
  · subst hu
    simp [OSOperator.ChangePACURL]
  · rcases h with h | h <;> simp [OSOperator.ChangePACURL, hu, h]

/-- On the fake driver a running operator in a known mode changes its port with nil, and
the interfaces carry the new configuration afterwards. -/
theorem mock_ChangeLocalPort_started (m : mockAPI) (op : OSOperator) (p : String)
    (hrun : op.isStartup = true)
    (hmode : op.cfg.mode = config.ModePAC ∨ op.cfg.mode = config.ModeGlobal)
    (hif : ifacesReflect op.cfg m) :
    ∃ m', op.ChangeLocalPort mockDriver p m
        = (none, { op with cfg := { op.cfg with localPort := p } }, m') ∧
      ifacesReflect { op.cfg with localPort := p } m' := by
  rcases hmode with hm | hm
  · refine ⟨m, ChangeLocalPort_unconsumed mockDriver op p m (Or.inr hm), ?_⟩
    intro e he
    refine ⟨fun _ => (hif e he).1 hm, fun hg => ?_⟩
    exact absurd (hm.symm.trans hg) mode_pac_ne_global
  · by_cases hp : p = op.cfg.localPort
    · subst hp
      exact ⟨m, by simp [OSOperator.ChangeLocalPort], hif⟩
    · refine ⟨_, mock_ChangeLocalPort_global m op p hrun hm hp, ?_⟩
      intro e he
      obtain ⟨x, hx⟩ := mockAPI.mem_mapSettings he
      rw [hx]
      refine ⟨fun hpac => absurd (hpac.symm.trans hm) mode_pac_ne_global, fun _ => ?_⟩
      exact applied_global op.cfg.localAddr p x

theorem mock_ChangePACURL_started (m : mockAPI) (op : OSOperator) (u : String)
    (hrun : op.isStartup = true)
    (hmode : op.cfg.mode = config.ModePAC ∨ op.cfg.mode = config.ModeGlobal)
    (hif : ifacesReflect op.cfg m) :
    ∃ m', op.ChangePACURL mockDriver u m
        = (none, { op with cfg := { op.cfg with pacURL := u } }, m') ∧
      ifacesReflect { op.cfg with pacURL := u } m' := by
  rcases hmode with hm | hm
  · by_cases hu : u = op.cfg.pacURL
    · subst hu
      exact ⟨m, by simp [OSOperator.ChangePACURL], hif⟩
    · refine ⟨_, mock_ChangePACURL_pac m op u hrun hm hu, ?_⟩
      intro e he
      obtain ⟨x, hx⟩ := mockAPI.mem_mapSettings he
      rw [hx]
      refine ⟨fun _ => ?_, fun hg => absurd (hm.symm.trans hg) mode_pac_ne_global⟩
      exact applied_pac u x
  · refine ⟨m, ChangePACURL_unconsumed mockDriver op u m (Or.inr hm), ?_⟩
    intro e he
    refine ⟨fun hpac => ?_, fun _ => (hif e he).2 hm⟩
    exact absurd (hpac.symm.trans hm) mode_pac_ne_global

theorem PACServer_ChangeLocalPort_eq (ps : PACServer) (p : String) :
    ps.ChangeLocalPort p = (none, { ps with localPort := p }) := by
  unfold PACServer.ChangeLocalPort
  split
  · next h => subst h; rfl
  · rfl

/-- C13: on the fake driver and the fake processes, for every started ProxyCore and every
port other than its local port, `ChangeLocalPort` returns nil; afterwards ProxyCore, the
PAC server, the supervisor and the OSOperator store the new port, the supervisor's handle
is a fake process bound to the new port and not killed, and every interface carries the
current mode only: in pac mode the PAC flag with empty global address and port, in global
mode the global flag with `globalPort` the new port and an empty PAC URL. The core is
again a started core of the resulting world. -/
theorem C13_change_local_port_on_fakes (pc : ProxyCore) (w : TestWorld) (newPort : String)
    (hst : pc.StartedOn w) (hne : newPort ≠ pc.localPort) :
    ∃ pc' w', pc.ChangeLocalPort fakeEnv newPort w = Outcome.ret (none, pc', w') ∧
      pc'.localPort = newPort ∧ pc'.pacSrv.localPort = newPort ∧
      pc'.ss.localPort = newPort ∧ pc'.op.cfg.localPort = newPort ∧ pc'.mode = pc.mode ∧
      (∃ h p, pc'.ss.proc = some h ∧ w'.procs.get? h = some p ∧ p.localPort = newPort ∧
        p.killed = false) ∧
      (∀ e ∈ w'.drv.settings,
        (pc.mode = config.ModePAC →
          e.2.pacOn = true ∧ e.2.globalOn = false ∧ e.2.globalAddr = "" ∧
          e.2.globalPort = "") ∧
        (pc.mode = config.ModeGlobal →
          e.2.globalOn = true ∧ e.2.pacOn = false ∧ e.2.globalPort = newPort ∧
          e.2.pacURL = "")) ∧
      pc'.StartedOn w' := by
  obtain ⟨h, q, hproc, hq, hqa, hqp, hqk⟩ := hst.ss_live
  have hss := fake_ss_ChangeLocalPort w pc.ss newPort h q hst.ss_running hproc hq
    (by rw [hst.ss_port]; exact hne)
  obtain ⟨m', hop, hif⟩ := mock_ChangeLocalPort_started w.drv pc.op newPort hst.op_running
    hst.mode_known hst.ifaces
  have hq0 : w.procs[h]? = some q := by simpa using hq
  have hlt : h < w.procs.length := by
    rcases Nat.lt_or_ge h w.procs.length with hl | hl
    · exact hl
    · rw [List.getElem?_eq_none hl] at hq0; simp at hq0
  have hnew : ((w.procs ++ [newSSProcessMock pc.ss.localAddr newPort pc.ss.srvCfg]).set h
      (q.Kill).2).get? w.procs.length
        = some (newSSProcessMock pc.ss.localAddr newPort pc.ss.srvCfg) := by
    simp [List.getElem?_set, Nat.ne_of_lt hlt]
  generalize (w.procs ++ [newSSProcessMock pc.ss.localAddr newPort pc.ss.srvCfg]).set h
    (q.Kill).2 = procs' at hss hnew
  have hfo := fake_ChangeLocalPort { w with procs := procs' } pc.op newPort
  simp only [hop] at hfo
  refine ⟨{ pc with ss := { pc.ss with proc := some w.procs.length, localPort := newPort },
                    op := { pc.op with cfg := { pc.op.cfg with localPort := newPort } },
                    pacSrv := { pc.pacSrv with localPort := newPort },
                    localPort := newPort },
    { w with procs := procs', drv := m' }, ?_, rfl, rfl, rfl, rfl, rfl,
    ⟨_, _, rfl, hnew, rfl, rfl⟩, ?_, ?_⟩
  · simp only [ProxyCore.ChangeLocalPort, hne, if_false, hss, hfo,
      PACServer_ChangeLocalPort_eq]
  · intro e he
    have := hif e he
    refine ⟨fun hp => ?_, fun hg => ?_⟩
    · obtain ⟨a, b, _, c, d⟩ := this.1 (hst.op_mode.trans hp)
      exact ⟨a, b, c, d⟩
    · obtain ⟨a, b, _, c, d⟩ := this.2 (hst.op_mode.trans hg)
      exact ⟨a, b, c, d⟩
  · exact
      { core_started := hst.core_started
        op_running := hst.op_running
        mode_known := hst.mode_known
        op_mode := hst.op_mode
        op_url := hst.op_url
        ss_running := hst.ss_running
        ss_live := ⟨_, _, rfl, hnew, rfl, rfl, rfl⟩
        ss_port := rfl
        op_port := rfl
        pac_port := rfl
        pac_running := hst.pac_running
        pac_server := hst.pac_server
        pac_listening := hst.pac_listening
        ifaces := hif }

/-- `ChangePACPort` to a port other than the recorded one: on the fake driver (recording
in-memory world), for every started ProxyCore and
every port other than its recorded PAC port for which the PAC file can be read and the
address `127.0.0.1:newPort` is free: `ChangePACPort` returns nil; the calls are the read of
the PAC file, the listen on the new address, the driver calls of the OSOperator update and
only then the shutdown of the old server; ProxyCore holds a running server on
`127.0.0.1:newPort`, that address is being listened on and the old one no longer is; in
pac mode every interface has only the PAC flag with `pacURL` the new server's
`GetPACURL()`, in global mode only the global flag with an empty PAC URL. The core is again
a started core of the resulting world. -/
theorem ChangePACPort_on_fakes (pc : ProxyCore) (w : TestWorld) (log : List Event)
    (newPort : String) (data : List UInt8)
    (hst : pc.StartedOn w) (hne : newPort ≠ pc.pacPort)
    (hfile : w.files.lookup (if pc.pacFile = "" then "gfwlist.js" else pc.pacFile) = some data)
    (hfree : ("127.0.0.1:" ++ newPort) ∉ w.listening) :
    ∃ pc' w' cs, pc.ChangePACPort fakeEnv.traced newPort (w, log)
        = Outcome.ret (none, pc',
            (w', log ++ [Event.readFile (if pc.pacFile = "" then "gfwlist.js" else pc.pacFile),
                  Event.listenAndServe ("127.0.0.1:" ++ newPort)]
                ++ List.map Event.driver cs
                ++ [Event.shutdown pc.pacSrv.serverAddr])) ∧
      pc'.pacSrv.isStartup = true ∧ pc'.pacSrv.server = some ("127.0.0.1:" ++ newPort) ∧
      pc'.pacSrv.pacPort = newPort ∧
      ("127.0.0.1:" ++ newPort) ∈ w'.listening ∧ pc.pacSrv.serverAddr ∉ w'.listening ∧
      pc'.mode = pc.mode ∧
      (∀ e ∈ w'.drv.settings,
        (pc.mode = config.ModePAC →
          e.2.pacOn = true ∧ e.2.globalOn = false ∧ e.2.pacURL = pc'.pacSrv.GetPACURL) ∧
        (pc.mode = config.ModeGlobal →
          e.2.globalOn = true ∧ e.2.pacOn = false ∧ e.2.pacURL = "")) ∧
      pc'.StartedOn w' := by
  -- the new server
  have hN : NewPACServer testHTTP.traced newPort pc.pacFile pc.localAddr pc.localPort (w, log)
      = (Except.ok { server := none, pacPort := newPort, pacData := data,
                     localAddr := pc.localAddr, localPort := pc.localPort,
                     isStartup := false },
          (w, log ++ [Event.readFile (if pc.pacFile = "" then "gfwlist.js" else pc.pacFile)])) := by
    have : testHTTP.DefaultPACLocalPath = "gfwlist.js" := rfl
    simp [NewPACServer, httpAPI.traced, testHTTP, hfile]
  have hL : testHTTP.listenAndServe ("127.0.0.1:" ++ newPort) w
      = (none, { w with listening := w.listening ++ ["127.0.0.1:" ++ newPort] }) := by
    simp [testHTTP, hfree]
  have hP := traced_PACServer_Startup_fresh testHTTP
    { server := none, pacPort := newPort, pacData := data, localAddr := pc.localAddr,
      localPort := pc.localPort, isStartup := false } w
    (log ++ [Event.readFile (if pc.pacFile = "" then "gfwlist.js" else pc.pacFile)]) rfl rfl
  simp only [PACServer.serverAddr, hL, Option.isNone_none] at hP
  -- the operator
  obtain ⟨m', hop, hif⟩ := mock_ChangePACURL_started w.drv pc.op
    ("http://" ++ escapeHost ("127.0.0.1:" ++ newPort) ++ "/" ++ "proxy.pac") hst.op_running
    hst.mode_known hst.ifaces
  have hfo := fake_ChangePACURL { w with listening := w.listening ++ ["127.0.0.1:" ++ newPort] }
    pc.op ("http://" ++ escapeHost ("127.0.0.1:" ++ newPort) ++ "/" ++ "proxy.pac")
  simp only [hop] at hfo
  obtain ⟨cs, hO⟩ := records_ChangePACURL Event.driver fakeEnv.api pc.op
    ("http://" ++ escapeHost ("127.0.0.1:" ++ newPort) ++ "/" ++ "proxy.pac")
    { w with listening := w.listening ++ ["127.0.0.1:" ++ newPort] }
    (log ++ [Event.readFile (if pc.pacFile = "" then "gfwlist.js" else pc.pacFile)]
      ++ [Event.listenAndServe ("127.0.0.1:" ++ newPort)])
  rw [hfo] at hO
  dsimp only at hO
  -- the old server
  have hD := traced_PACServer_Shutdown_running testHTTP pc.pacSrv
    { w with listening := w.listening ++ ["127.0.0.1:" ++ newPort], drv := m' }
    (log ++ [Event.readFile (if pc.pacFile = "" then "gfwlist.js" else pc.pacFile)]
      ++ [Event.listenAndServe ("127.0.0.1:" ++ newPort)] ++ List.map Event.driver cs)
    pc.pacSrv.serverAddr hst.pac_running hst.pac_server
  have hold : pc.pacSrv.serverAddr ≠ "127.0.0.1:" ++ newPort := by
    intro h
    exact hfree (h ▸ hst.pac_listening)
  refine ⟨{ pc with op := { pc.op with cfg := { pc.op.cfg with
                pacURL := "http://" ++ escapeHost ("127.0.0.1:" ++ newPort) ++ "/" ++ "proxy.pac" } },
                    pacSrv := { server := some ("127.0.0.1:" ++ newPort), pacPort := newPort,
                                pacData := data, localAddr := pc.localAddr,
                                localPort := pc.localPort, isStartup := true } },
    { w with listening := (w.listening ++ ["127.0.0.1:" ++ newPort]).filter
              (fun a => a != pc.pacSrv.serverAddr),
             drv := m' }, cs, ?_, rfl, rfl, rfl, ?_, ?_, rfl, ?_, ?_⟩
  · have henv : fakeEnv.traced.http = testHTTP.traced := rfl
    have hapi : fakeEnv.traced.api = fakeEnv.api.tracedWith Event.driver := rfl
    simp only [ProxyCore.ChangePACPort, hne, if_false, henv, hapi, hN, hP,
      PACServer.GetPACURL, PACServer.serverAddr, pacURLFile]
    rw [hO]
    dsimp only
    rw [hD]
    simp [testHTTP, PACServer.serverAddr]
  · simp [List.mem_filter, hold.symm]
  · simp [List.mem_filter]
  · intro e he
    have := hif e he
    refine ⟨fun hp => ?_, fun hg => ?_⟩
    · obtain ⟨a, b, c, _, _⟩ := this.1 (hst.op_mode.trans hp)
      exact ⟨a, b, c⟩
    · obtain ⟨a, b, _, _, c⟩ := this.2 (hst.op_mode.trans hg)
      exact ⟨a, b, c⟩
  · obtain ⟨h, q, hproc, hq, hqa, hqp, hqk⟩ := hst.ss_live
    exact
      { core_started := hst.core_started
        op_running := hst.op_running
        mode_known := hst.mode_known
        op_mode := hst.op_mode
        op_url := rfl
        ss_running := hst.ss_running
        ss_live := ⟨h, q, hproc, hq, hqa, hqp, hqk⟩
        ss_port := hst.ss_port
        op_port := hst.op_port
        pac_port := rfl
        pac_running := rfl
        pac_server := rfl
        pac_listening := by
          have h2 : ("127.0.0.1:" ++ newPort) ≠ pc.pacSrv.serverAddr := hold.symm
          simp only [PACServer.serverAddr] at h2 ⊢
          simp [List.mem_filter, h2]
        ifaces := hif }

/-! ## The scenario on the fakes -/

/-- On the fakes, `Startup` of the scenario core in pac mode gives the running core and the
running world. -/
theorem fake_Startup_pac :
    ProxyCore.Startup fakeEnv (testCore "pac") (testWorld 1)
      = Outcome.ret (none, runningCore "pac", runningWorld "pac" 1) := by
  decide

/-- On the fakes, `Startup` of the scenario core in global mode gives the running core and
the running world. -/
theorem fake_Startup_global :
    ProxyCore.Startup fakeEnv (testCore "global") (testWorld 1)
      = Outcome.ret (none, runningCore "global", runningWorld "global" 1) := by
  decide

theorem runningCore_started_pac : (runningCore "pac").StartedOn (runningWorld "pac" 1) :=
  { core_started := rfl
    op_running := rfl
    mode_known := by decide
    op_mode := rfl
    op_url := by decide
    ss_running := rfl
    ss_live := ⟨0, newSSProcessMock "127.0.0.1" "2234" testSrvCfg, rfl, rfl, rfl, rfl, rfl⟩
    ss_port := rfl
    op_port := rfl
    pac_port := rfl
    pac_running := rfl
    pac_server := by decide
    pac_listening := by decide
    ifaces := by unfold ifacesReflect; decide }

theorem runningCore_started_global :
    (runningCore "global").StartedOn (runningWorld "global" 1) :=
  { core_started := rfl
    op_running := rfl
    mode_known := by decide
    op_mode := rfl
    op_url := by decide
    ss_running := rfl
    ss_live := ⟨0, newSSProcessMock "127.0.0.1" "2234" testSrvCfg, rfl, rfl, rfl, rfl, rfl⟩
    ss_port := rfl
    op_port := rfl
    pac_port := rfl
    pac_running := rfl
    pac_server := by decide
    pac_listening := by decide
    ifaces := by unfold ifacesReflect; decide }

/-- Witness of C13: the started global core of the scenario moves from port 2234 to 6789;
the call returns nil, every component stores 6789 and the result is again a started core. -/
theorem C13_change_local_port_on_fakes_witness :
    (runningCore "global").StartedOn (runningWorld "global" 1) ∧
    ∃ pc' w', (runningCore "global").ChangeLocalPort fakeEnv "6789" (runningWorld "global" 1)
        = Outcome.ret (none, pc', w') ∧
      pc'.localPort = "6789" ∧ pc'.pacSrv.localPort = "6789" ∧ pc'.ss.localPort = "6789" ∧
      pc'.op.cfg.localPort = "6789" ∧
      (∀ e ∈ w'.drv.settings, e.2.globalOn = true ∧ e.2.pacOn = false ∧
        e.2.globalPort = "6789" ∧ e.2.pacURL = "") ∧
      pc'.StartedOn w' := by
  obtain ⟨pc', w', h, h1, h2, h3, h4, _, _, h5, h6⟩ :=
    C13_change_local_port_on_fakes (runningCore "global") (runningWorld "global" 1) "6789"
      runningCore_started_global (by decide)
  exact ⟨runningCore_started_global, pc', w', h, h1, h2, h3, h4,
    fun e he => (h5 e he).2 rfl, h6⟩

/-- The scenario of `testProxyCoreChangePACPort`: the started pac core moves its PAC server
from port 1234 to port 5678. -/
theorem scenario_change_pac_port :
    (runningCore "pac").StartedOn (runningWorld "pac" 1) ∧
    ∃ pc' w' cs, (runningCore "pac").ChangePACPort fakeEnv.traced "5678"
        (runningWorld "pac" 1, [])
        = Outcome.ret (none, pc',
            (w', [Event.readFile "pac.js", Event.listenAndServe "127.0.0.1:5678"]
                ++ List.map Event.driver cs ++ [Event.shutdown "127.0.0.1:1234"])) ∧
      pc'.pacSrv.server = some "127.0.0.1:5678" ∧
      "127.0.0.1:5678" ∈ w'.listening ∧ "127.0.0.1:1234" ∉ w'.listening ∧
      (∀ e ∈ w'.drv.settings, e.2.pacOn = true ∧ e.2.globalOn = false ∧
        e.2.pacURL = "http://127.0.0.1:5678/proxy.pac") ∧
      pc'.StartedOn w' := by
  obtain ⟨pc', w', cs, h, _, h2, h3, h4, h5, _, h6, h7⟩ :=
    ChangePACPort_on_fakes (runningCore "pac") (runningWorld "pac" 1) [] "5678"
      [104, 105] runningCore_started_pac (by decide) (by decide) (by decide)
  refine ⟨runningCore_started_pac, pc', w', cs, h, h2, h4, h5, fun e he => ?_, h7⟩
  obtain ⟨a, b, c⟩ := (h6 e he).1 rfl
  refine ⟨a, b, c.trans ?_⟩
  simp only [PACServer.GetPACURL, PACServer.serverAddr, h3]
  decide

/-! ## `Startup` on the fakes gives a started core -/

theorem sim_Startup {ω σ : Type} {R : ω → σ → Prop} {api' : osAPI ω} {api : osAPI σ}
    (hs : osAPI.Sim R api' api) (op : OSOperator) (w : ω) (s : σ) (hR : R w s) :
    (op.Startup api' w).1 = (op.Startup api s).1 ∧
    (op.Startup api' w).2.1 = (op.Startup api s).2.1 ∧
    R (op.Startup api' w).2.2 (op.Startup api s).2.2 := by
  unfold OSOperator.Startup
  split
  · exact ⟨rfl, rfl, hR⟩
  · rcases h1' : resetProxy api' op.cfg w with ⟨a1', w1⟩
    rcases h1 : resetProxy api op.cfg s with ⟨a1, s1⟩
    have t1 := sim_resetProxy hs op.cfg w s hR
    rw [h1', h1] at t1
    obtain ⟨ha1, hR1⟩ := t1
    simp only at ha1 hR1
    subst ha1
    cases a1' <;> exact ⟨rfl, rfl, hR1⟩

theorem fake_OSOperator_Startup (w : TestWorld) (op : OSOperator) :
    op.Startup fakeEnv.api w
      = ((op.Startup mockDriver w.drv).1, (op.Startup mockDriver w.drv).2.1,
          { w with drv := (op.Startup mockDriver w.drv).2.2 }) := by
  obtain ⟨h1, h2, h3⟩ := sim_Startup (testDriver_sim w) op w w.drv (DrvIs_self w)
  have h3' : (op.Startup fakeEnv.api w).2.2
      = { w with drv := (op.Startup mockDriver w.drv).2.2 } := h3
  have h1' : (op.Startup fakeEnv.api w).1 = _ := h1
  have h2' : (op.Startup fakeEnv.api w).2.1 = _ := h2
  rw [← h1', ← h2', ← h3']

/-- A fresh operator in a known mode starts on the fake driver, and afterwards the
interfaces carry its configuration. -/
theorem mock_Startup_fresh (m : mockAPI) (op : OSOperator) (h0 : op.isStartup = false)
    (hm : op.cfg.mode = config.ModePAC ∨ op.cfg.mode = config.ModeGlobal) :
    ∃ m', op.Startup mockDriver m = (none, { op with isStartup := true }, m') ∧
      ifacesReflect op.cfg m' := by
  rcases hm with hp | hg
  · refine ⟨_, mock_Startup_pac m op h0 hp, ?_⟩
    intro e he
    obtain ⟨x, hx⟩ := mockAPI.mem_mapSettings he
    rw [hx]
    exact ⟨fun _ => applied_pac op.cfg.pacURL x,
      fun hg => absurd (hp.symm.trans hg) mode_pac_ne_global⟩
  · refine ⟨_, mock_Startup_global m op h0 hg, ?_⟩
    intro e he
    obtain ⟨x, hx⟩ := mockAPI.mem_mapSettings he
    rw [hx]
    exact ⟨fun hp => absurd (hp.symm.trans hg) mode_pac_ne_global,
      fun _ => applied_global op.cfg.localAddr op.cfg.localPort x⟩

/-- On the fakes, whenever `NewProxyCore` builds a core and its `Startup` returns nil, the
result is a started core of the resulting world. -/
theorem fake_Startup_started (pacPort pacFile localPort mode ssPath : String)
    (srv : config.ServerConfig) (w0 w w' : TestWorld) (pc pc' : ProxyCore)
    (hnew : NewProxyCore fakeEnv pacPort pacFile localPort mode srv ssPath w0
      = (Except.ok pc, w))
    (hst : pc.Startup fakeEnv w = Outcome.ret (none, pc', w')) :
    pc'.StartedOn w' := by
  have hhttp : fakeEnv.http = testHTTP := rfl
  have hproc : fakeEnv.proc = fakeProcs := rfl
  unfold NewProxyCore at hnew
  rw [hhttp] at hnew
  rcases hN : NewPACServer testHTTP pacPort pacFile "127.0.0.1" localPort w0 with ⟨r, w1⟩
  rw [hN] at hnew
  cases r with
  | error err => simp at hnew
  | ok ps =>
    have hps : ps.server = none ∧ ps.isStartup = false ∧ ps.localPort = localPort ∧
        ps.pacPort = pacPort := by
      unfold NewPACServer at hN
      split at hN
      · simp at hN
      · simp only [Prod.mk.injEq, Except.ok.injEq] at hN
        rw [← hN.1]
        exact ⟨rfl, rfl, rfl, rfl⟩
    obtain ⟨hps1, hps2, hps3, hps4⟩ := hps
    simp only [NewShadowSocks, NewOSOperator] at hnew
    by_cases hm : mode ≠ config.ModePAC ∧ mode ≠ config.ModeGlobal
    · simp [hm] at hnew
    · have hmode : mode = config.ModePAC ∨ mode = config.ModeGlobal := by
        by_contra hc
        exact hm ⟨fun h => hc (Or.inl h), fun h => hc (Or.inr h)⟩
      simp only [hm, if_false, Prod.mk.injEq, Except.ok.injEq] at hnew
      obtain ⟨hpc, hw⟩ := hnew
      subst hw
      subst hpc
      unfold ProxyCore.Startup at hst
      rw [hhttp, hproc] at hst
      simp only [Bool.false_eq_true, if_false] at hst
      by_cases hl : ps.serverAddr ∈ w1.listening
      · simp [PACServer.Startup, hps1, hps2, testHTTP, hl] at hst
      · have hP : ps.Startup testHTTP w1
            = Outcome.ret (none, { ps with server := some ps.serverAddr, isStartup := true },
                { w1 with listening := w1.listening ++ [ps.serverAddr] }) := by
          simp [PACServer.Startup, hps1, hps2, testHTTP, hl]
        rw [hP] at hst
        simp only [ShadowSocks.Startup, fakeProcs, mockProcs, Bool.false_eq_true, if_false]
          at hst
        obtain ⟨m', hop, hif⟩ := mock_Startup_fresh w1.drv
          { cfg := { mode := mode, pacURL := ps.GetPACURL, localAddr := "127.0.0.1",
                     localPort := localPort },
            isStartup := false } rfl hmode
        rw [fake_OSOperator_Startup] at hst
        simp only [hop, Outcome.ret.injEq, Prod.mk.injEq, true_and] at hst
        obtain ⟨hpc', hw'⟩ := hst
        subst hpc'
        subst hw'
        exact
          { core_started := rfl
            op_running := rfl
            mode_known := hmode
            op_mode := rfl
            op_url := rfl
            ss_running := rfl
            ss_live := ⟨w1.procs.length, newSSProcessMock "127.0.0.1" localPort srv, rfl,
              by simp, rfl, rfl, rfl⟩
            ss_port := rfl
            op_port := rfl
            pac_port := hps3
            pac_running := rfl
            pac_server := rfl
            pac_listening := by simp [PACServer.serverAddr]
            ifaces := hif }

/-! ## The clear algorithm when several interfaces fail -/

/-- C30 (the code at the failing input): on the fake driver made to reject every clear
call, clearing fails on both interfaces `WiFi` and `wlan` (both are called, the log shows
it), and the error that `clearAutoProxy`, `clearGlobalProxy`, `clearAllProxy` and
`OSOperator.Shutdown` return is `clear wlan error: driver failure; `: it names the last
failing interface only, `WiFi` is not in it. -/
theorem C30_clear_error_names_only_the_last_failing_interface :
    clearAutoProxy (mockDriver.failing rejectClears).traced (newMockAPI, [])
      = (some "clear wlan error: driver failure; ",
          (newMockAPI, [Call.listAllNetwork, Call.clearAutoProxyFor "WiFi",
                        Call.clearAutoProxyFor "wlan"])) ∧
    clearGlobalProxy (mockDriver.failing rejectClears).traced (newMockAPI, [])
      = (some "clear wlan error: driver failure; ",
          (newMockAPI, [Call.listAllNetwork, Call.clearGlobalProxyFor "WiFi",
                        Call.clearGlobalProxyFor "wlan"])) ∧
    clearAllProxy (mockDriver.failing rejectClears).traced (newMockAPI, [])
      = (some "clear wlan error: driver failure; ",
          (newMockAPI, [Call.listAllNetwork,
                        Call.clearAutoProxyFor "WiFi", Call.clearGlobalProxyFor "WiFi",
                        Call.clearAutoProxyFor "wlan", Call.clearGlobalProxyFor "wlan"])) ∧
    (OSOperator.Shutdown (mockDriver.failing rejectClears)
        ⟨⟨"pac", "http://127.0.0.1:1234/proxy.pac", "127.0.0.1", "2234"⟩, true⟩ newMockAPI).1
      = some "clear wlan error: driver failure; " := by
  decide

/-! ## The supervisor after a failed respawn -/

/-- C29 (the code at the failing input): a supervisor created by `NewShadowSocks` and
started, on fake processes whose second and third creation fail, is asked to change to
another server configuration. The kill succeeds, the spawn with the new configuration
fails and so does the respawn with the old one: the call returns the spawn error and
leaves the supervisor marked running with no process handle. `Shutdown` then returns nil
without stopping it, and the next `ChangeServerConfig` or `ChangeLocalPort` dereferences
the missing handle and panics. -/
theorem C29_failed_respawn_leaves_running_supervisor_without_handle :
    NewShadowSocks "" "127.0.0.1" "2345" testSrvCfg
      = Except.ok ⟨"127.0.0.1", "2345", testSrvCfg, "", none, false⟩ ∧
    ShadowSocks.calls scriptedProcs
        [SSCall.Startup, SSCall.ChangeServerConfig ⟨"99.88.77.66", "9876", "AEAD_AES_256_GCM", "mypwd"⟩]
        ⟨"127.0.0.1", "2345", testSrvCfg, "", none, false⟩ ⟨[], [false, true, true], []⟩
      = Outcome.ret (⟨"127.0.0.1", "2345", testSrvCfg, "", none, true⟩,
          ⟨[⟨"127.0.0.1", "2345", testSrvCfg, true⟩], [], []⟩) ∧
    ShadowSocks.ChangeServerConfig scriptedProcs
        ⟨"127.0.0.1", "2345", testSrvCfg, "", some 0, true⟩
        ⟨"99.88.77.66", "9876", "AEAD_AES_256_GCM", "mypwd"⟩
        ⟨[⟨"127.0.0.1", "2345", testSrvCfg, false⟩], [true, true], []⟩
      = Outcome.ret (some "cannot start process",
          ⟨"127.0.0.1", "2345", testSrvCfg, "", none, true⟩,
          ⟨[⟨"127.0.0.1", "2345", testSrvCfg, true⟩], [], []⟩) ∧
    ShadowSocks.Shutdown scriptedProcs ⟨"127.0.0.1", "2345", testSrvCfg, "", none, true⟩
        ⟨[⟨"127.0.0.1", "2345", testSrvCfg, true⟩], [], []⟩
      = (none, ⟨"127.0.0.1", "2345", testSrvCfg, "", none, true⟩,
          ⟨[⟨"127.0.0.1", "2345", testSrvCfg, true⟩], [], []⟩) ∧
    ShadowSocks.ChangeServerConfig scriptedProcs
        ⟨"127.0.0.1", "2345", testSrvCfg, "", none, true⟩
        ⟨"99.88.77.66", "9876", "AEAD_AES_256_GCM", "mypwd"⟩
        ⟨[⟨"127.0.0.1", "2345", testSrvCfg, true⟩], [], []⟩
      = Outcome.panic "invalid memory address or nil pointer dereference" ∧
    ShadowSocks.ChangeLocalPort scriptedProcs
        ⟨"127.0.0.1", "2345", testSrvCfg, "", none, true⟩ "9999"
        ⟨[⟨"127.0.0.1", "2345", testSrvCfg, true⟩], [], []⟩
      = Outcome.panic "invalid memory address or nil pointer dereference" :=
  ⟨rfl, by decide⟩

/-! ## The apply algorithm when clearing may fail -/

theorem flag_lemma_both_cleared_pac (y : Nat) :
    (((y &&& notModePAC) &&& notModeGlobal) &&& modePAC != 0) = false := by
  have h : ((y &&& notModePAC) &&& notModeGlobal) &&& modePAC = 0 := by
    rw [Nat.and_assoc, Nat.and_assoc,
      show notModePAC &&& (notModeGlobal &&& modePAC) = 0 by decide, Nat.and_zero]
  rw [h]; decide

/-- After the clear-all pass of the fake driver no interface has a mode or a value. -/
theorem mock_clearAllProxy_clean (m : mockAPI) :
    ∀ e ∈ (clearAllProxy mockDriver m).2.settings,
      e.2.pacOn = false ∧ e.2.globalOn = false ∧ e.2.pacURL = "" ∧ e.2.globalAddr = "" ∧
        e.2.globalPort = "" := by
  intro e he
  rw [mock_clearAllProxy] at he
  obtain ⟨x, hx⟩ := mockAPI.mem_mapSettings he
  rw [hx]
  exact ⟨flag_lemma_both_cleared_pac _, flag_lemma_cleared_global _, rfl, rfl, rfl⟩

/-- A fault-injecting driver that rejects no enumeration and no clear call clears like the
driver it wraps. -/
theorem clearAllProxy_failing {σ : Type} (api : osAPI σ) (bad : Call → Bool)
    (hlist : bad Call.listAllNetwork = false)
    (hca : ∀ nw, bad (Call.clearAutoProxyFor nw) = false)
    (hcg : ∀ nw, bad (Call.clearGlobalProxyFor nw) = false) (s : σ) :
    clearAllProxy (api.failing bad) s = clearAllProxy api s := by
  have h1 : (api.failing bad).listAllNetwork s = api.listAllNetwork s := by
    simp [osAPI.failing, hlist]
  have h2 : clearBothFor (api.failing bad) = clearBothFor api := by
    funext nw t
    simp [clearBothFor, osAPI.failing, hca, hcg]
  simp only [clearAllProxy, clearProxy, h1, h2]

/-- When the loop of `setProxy` returns an error, it is the error of a set call, and the
state is the one the clear-all pass leaves after that call. -/
theorem setLoop_error {σ : Type} (api : osAPI σ) (setFunc : String → σ → Err × σ) :
    ∀ (nws : List String) (s : σ) (e : String) (s' : σ),
      setLoop api setFunc nws s = (some e, s') →
      ∃ nw s0 s1, nw ∈ nws ∧ setFunc nw s0 = (some e, s1) ∧ s' = (clearAllProxy api s1).2 := by
  intro nws
  induction nws with
  | nil => intro s e s' h; simp [setLoop] at h
  | cons nw rest ih =>
    intro s e s' h
    rcases hf : setFunc nw s with ⟨r, s1⟩
    cases r with
    | some err =>
      simp only [setLoop, hf, Prod.mk.injEq, Option.some.injEq] at h
      refine ⟨nw, s, s1, List.mem_cons_self _ _, ?_, h.2.symm⟩
      rw [hf, h.1]
    | none =>
      simp only [setLoop, hf] at h
      obtain ⟨nw', s0, s2, hmem, h1, h2⟩ := ih s1 e s' h
      exact ⟨nw', s0, s2, List.mem_cons_of_mem _ hmem, h1, h2⟩

/-- On the fake driver with injected faults that spare enumeration: an error of `setProxy`
is the error of a set call, and the state is what the clear-all pass leaves. -/
theorem setProxy_failing_error (bad : Call → Bool) (hlist : bad Call.listAllNetwork = false)
    (setFunc : String → mockAPI → Err × mockAPI) (m m' : mockAPI) (e : String)
    (h : setProxy (mockDriver.failing bad) setFunc m = (some e, m')) :
    ∃ nw s0 s1, setFunc nw s0 = (some e, s1) ∧
      m' = (clearAllProxy (mockDriver.failing bad) s1).2 := by
  unfold setProxy at h
  have hl : ∀ s, (mockDriver.failing bad).listAllNetwork s
      = (Except.ok (s.settings.map Prod.fst), s) := by
    intro s
    simp [osAPI.failing, hlist, mockDriver, mockAPI.listAllNetwork]
  rw [hl] at h
  obtain ⟨nw, s0, s1, _, h1, h2⟩ := setLoop_error _ setFunc _ _ e m' h
  exact ⟨nw, s0, s1, h1, h2⟩

/-- Counterexample to C27 as stated: on the fake driver made to reject setting the PAC URL
on `wlan` and clearing PAC mode on `WiFi`, applying pac mode fails on `wlan` after it
succeeded on `WiFi`; `resetProxy` and `OSOperator.Startup` return the apply failure, and
`WiFi` is left with PAC mode active and the new URL, since the clear that follows the
failure is rejected there. -/
theorem C27_counterexample_failed_clear_leaves_new_mode :
    resetProxy (mockDriver.failing rejectSetWlanClearWiFi)
        ⟨"pac", "http://127.0.0.1:1234/proxy.pac", "127.0.0.1", "2234"⟩ newMockAPI
      = (some "driver failure",
          ⟨[("WiFi", { mode := 1, pacURL := "http://127.0.0.1:1234/proxy.pac" }),
            ("wlan", {})]⟩) ∧
    OSOperator.Startup (mockDriver.failing rejectSetWlanClearWiFi)
        ⟨⟨"pac", "http://127.0.0.1:1234/proxy.pac", "127.0.0.1", "2234"⟩, false⟩ newMockAPI
      = (some "driver failure",
          ⟨⟨"pac", "http://127.0.0.1:1234/proxy.pac", "127.0.0.1", "2234"⟩, false⟩,
          ⟨[("WiFi", { mode := 1, pacURL := "http://127.0.0.1:1234/proxy.pac" }),
            ("wlan", {})]⟩) ∧
    mockSettings.pacOn { mode := 1, pacURL := "http://127.0.0.1:1234/proxy.pac" } = true := by
  decide

/-- C27 (as amended): on the fake driver with injected faults, where each set call may
fail on its own and enumeration and the clear calls do not fail: when applying the
configuration of a known mode fails, `resetProxy` returns the error of the set call that
failed, `OSOperator.Startup` of a stopped operator returns the same error and leaves it
stopped, and afterwards no interface has any mode active or any value set, the set of
interfaces being the same. -/
theorem C27_failed_apply_leaves_no_mode_when_clearing_works (bad : Call → Bool)
    (cfg : opConfig) (m m' : mockAPI) (e : String)
    (hlist : bad Call.listAllNetwork = false)
    (hca : ∀ nw, bad (Call.clearAutoProxyFor nw) = false)
    (hcg : ∀ nw, bad (Call.clearGlobalProxyFor nw) = false)
    (hmode : cfg.mode = config.ModePAC ∨ cfg.mode = config.ModeGlobal)
    (hres : resetProxy (mockDriver.failing bad) cfg m = (some e, m')) :
    (∃ nw m0,
      (cfg.mode = config.ModePAC ∧
        ((mockDriver.failing bad).setAutoProxyFor nw cfg.pacURL m0).1 = some e) ∨
      (cfg.mode = config.ModeGlobal ∧
        ((mockDriver.failing bad).setGlobalProxyFor nw cfg.localAddr cfg.localPort m0).1
          = some e)) ∧
    OSOperator.Startup (mockDriver.failing bad) ⟨cfg, false⟩ m = (some e, ⟨cfg, false⟩, m') ∧
    (∀ entry ∈ m'.settings,
      entry.2.pacOn = false ∧ entry.2.globalOn = false ∧ entry.2.pacURL = "" ∧
        entry.2.globalAddr = "" ∧ entry.2.globalPort = "") := by
  have hclean : ∀ s1, m' = (clearAllProxy (mockDriver.failing bad) s1).2 →
      ∀ entry ∈ m'.settings,
        entry.2.pacOn = false ∧ entry.2.globalOn = false ∧ entry.2.pacURL = "" ∧
          entry.2.globalAddr = "" ∧ entry.2.globalPort = "" := by
    intro s1 h2
    rw [h2, clearAllProxy_failing mockDriver bad hlist hca hcg]
    exact mock_clearAllProxy_clean s1
  have hstart : OSOperator.Startup (mockDriver.failing bad) ⟨cfg, false⟩ m
      = (some e, ⟨cfg, false⟩, m') := by
    simp [OSOperator.Startup, hres]
  rcases hmode with hp | hg
  · have h : setProxy (mockDriver.failing bad)
        (fun nw => (mockDriver.failing bad).setAutoProxyFor nw cfg.pacURL) m = (some e, m') := by
      simpa [resetProxy, hp, setAutoProxy] using hres
    obtain ⟨nw, s0, s1, h1, h2⟩ := setProxy_failing_error bad hlist _ m m' e h
    exact ⟨⟨nw, s0, Or.inl ⟨hp, by rw [h1]⟩⟩, hstart, hclean s1 h2⟩
  · have h : setProxy (mockDriver.failing bad)
        (fun nw => (mockDriver.failing bad).setGlobalProxyFor nw cfg.localAddr cfg.localPort) m
        = (some e, m') := by
      simpa [resetProxy, hg, mode_pac_ne_global.symm, setGlobalProxy] using hres
    obtain ⟨nw, s0, s1, h1, h2⟩ := setProxy_failing_error bad hlist _ m m' e h
    exact ⟨⟨nw, s0, Or.inr ⟨hg, by rw [h1]⟩⟩, hstart, hclean s1 h2⟩

/-- The driver fault of the witness of C27: setting the PAC URL on `wlan` is rejected. -/
theorem scenario_rejected_set_is_cleared :
    resetProxy (mockDriver.failing (fun c => decide (c = Call.setAutoProxyFor "wlan" "u")))
        ⟨"pac", "u", "127.0.0.1", "2234"⟩ newMockAPI
      = (some "driver failure", newMockAPI) := by
  decide

/-- Witness of C27 (as amended): the driver rejects setting the PAC URL on `wlan` only;
the apply failure is returned and both interfaces are left without any setting. -/
theorem C27_failed_apply_leaves_no_mode_when_clearing_works_witness :
    resetProxy (mockDriver.failing (fun c => decide (c = Call.setAutoProxyFor "wlan" "u")))
        ⟨"pac", "u", "127.0.0.1", "2234"⟩ newMockAPI
      = (some "driver failure", newMockAPI) ∧
    ∀ entry ∈ newMockAPI.settings,
      entry.2.pacOn = false ∧ entry.2.globalOn = false ∧ entry.2.pacURL = "" ∧
        entry.2.globalAddr = "" ∧ entry.2.globalPort = "" :=
  ⟨scenario_rejected_set_is_cleared,
   (C27_failed_apply_leaves_no_mode_when_clearing_works
      (fun c => decide (c = Call.setAutoProxyFor "wlan" "u"))
      ⟨"pac", "u", "127.0.0.1", "2234"⟩ newMockAPI newMockAPI "driver failure"
      (by decide) (fun nw => by simp) (fun nw => by simp) (Or.inl rfl)
      scenario_rejected_set_is_cleared).2.2⟩

/-! ## ProxyCore.Shutdown -/

theorem sim_Shutdown {ω σ : Type} {R : ω → σ → Prop} {api' : osAPI ω} {api : osAPI σ}
    (hs : osAPI.Sim R api' api) (op : OSOperator) (w : ω) (s : σ) (hR : R w s) :
    (op.Shutdown api' w).1 = (op.Shutdown api s).1 ∧
    (op.Shutdown api' w).2.1 = (op.Shutdown api s).2.1 ∧
    R (op.Shutdown api' w).2.2 (op.Shutdown api s).2.2 := by
  unfold OSOperator.Shutdown
  split
  · exact ⟨rfl, rfl, hR⟩
  · rcases h1' : clearProxyByMode api' op.cfg.mode w with ⟨a1', w1⟩
    rcases h1 : clearProxyByMode api op.cfg.mode s with ⟨a1, s1⟩
    have t1 := sim_clearProxyByMode hs op.cfg.mode w s hR
    rw [h1', h1] at t1
    obtain ⟨ha1, hR1⟩ := t1
    simp only at ha1 hR1
    subst ha1
    cases a1' <;> exact ⟨rfl, rfl, hR1⟩

theorem fake_OSOperator_Shutdown (w : TestWorld) (op : OSOperator) :
    op.Shutdown fakeEnv.api w
      = ((op.Shutdown mockDriver w.drv).1, (op.Shutdown mockDriver w.drv).2.1,
          { w with drv := (op.Shutdown mockDriver w.drv).2.2 }) := by
  obtain ⟨h1, h2, h3⟩ := sim_Shutdown (testDriver_sim w) op w w.drv (DrvIs_self w)
  have h3' : (op.Shutdown fakeEnv.api w).2.2
      = { w with drv := (op.Shutdown mockDriver w.drv).2.2 } := h3
  have h1' : (op.Shutdown fakeEnv.api w).1 = _ := h1
  have h2' : (op.Shutdown fakeEnv.api w).2.1 = _ := h2
  rw [← h1', ← h2', ← h3']

theorem clearAuto_keeps_global_off (x : mockSettings) (h : x.globalOn = false) :
    x.clearAuto.globalOn = false := by
  have h0 : x.mode &&& modeGlobal = 0 := by
    simpa [mockSettings.globalOn] using h
  have h1 : (x.mode &&& notModePAC) &&& modeGlobal = 0 := by
    rw [Nat.and_assoc, Nat.and_comm notModePAC, ← Nat.and_assoc, h0, Nat.zero_and]
  simp [mockSettings.globalOn, mockSettings.clearAuto, h1]

theorem clearGlobal_keeps_pac_off (x : mockSettings) (h : x.pacOn = false) :
    x.clearGlobal.pacOn = false := by
  have h0 : x.mode &&& modePAC = 0 := by
    simpa [mockSettings.pacOn] using h
  have h1 : (x.mode &&& notModeGlobal) &&& modePAC = 0 := by
    rw [Nat.and_assoc, Nat.and_comm notModeGlobal, ← Nat.and_assoc, h0, Nat.zero_and]
  simp [mockSettings.pacOn, mockSettings.clearGlobal, h1]

/-- A running operator in a known mode whose configuration the interfaces carry stops on
the fake driver, and afterwards no interface has a mode active. -/
theorem mock_Shutdown_started (m : mockAPI) (op : OSOperator) (hrun : op.isStartup = true)
    (hm : op.cfg.mode = config.ModePAC ∨ op.cfg.mode = config.ModeGlobal)
    (hif : ifacesReflect op.cfg m) :
    ∃ m', op.Shutdown mockDriver m = (none, { op with isStartup := false }, m') ∧
      ∀ e ∈ m'.settings, e.2.pacOn = false ∧ e.2.globalOn = false := by
  rcases hm with hp | hg
  · refine ⟨_, mock_Shutdown_pac m op hrun hp, ?_⟩
    intro e he
    simp only [mockAPI.mapSettings, List.mem_map] at he
    obtain ⟨a, ha, rfl⟩ := he
    obtain ⟨_, hgo, _⟩ := (hif a ha).1 hp
    exact ⟨flag_lemma_cleared_pac _, clearAuto_keeps_global_off _ hgo⟩
  · refine ⟨_, mock_Shutdown_global m op hrun hg, ?_⟩
    intro e he
    simp only [mockAPI.mapSettings, List.mem_map] at he
    obtain ⟨a, ha, rfl⟩ := he
    obtain ⟨_, hpo, _⟩ := (hif a ha).2 hg
    exact ⟨clearGlobal_keeps_pac_off _ hpo, flag_lemma_cleared_global _⟩

/-- C21: `ProxyCore.Shutdown`, observed on a recording environment. On a not-started core
it returns with nothing called and nothing changed. On a started core whose three
components run it calls `OSOperator.Shutdown` (the driver calls `cs` are those of that one
call), then kills the supervisor's process, then shuts the PAC server down, each once and
in that order, whatever the earlier calls return; each component is left as its own
`Shutdown` leaves it and ProxyCore is not-started (for every started core, whatever the
state of its components, the result is that of the three `Shutdown` calls made in this
order, each on the world the one before left). On the fakes, for a started core, none
of the three fails: afterwards no component is running, no interface has a mode active,
the supervisor's process is killed and the PAC server's address is no longer listened on. -/
theorem C21_shutdown_stops_operator_supervisor_pac_server {ω : Type} (env : Env ω)
    (pc : ProxyCore) (w : ω) (log : List Event) :
    (pc.isStartup = false → pc.Shutdown env.traced (w, log) = (pc, (w, log))) ∧
    (∀ h addr, pc.isStartup = true → pc.op.isStartup = true → pc.ss.isStartup = true →
      pc.ss.proc = some h → pc.pacSrv.isStartup = true → pc.pacSrv.server = some addr →
      ∃ cs : List Call,
        pc.op.Shutdown (env.api.tracedWith Event.driver) (w, log)
          = ((pc.op.Shutdown env.api w).1, (pc.op.Shutdown env.api w).2.1,
              ((pc.op.Shutdown env.api w).2.2, log ++ cs.map Event.driver)) ∧
        pc.Shutdown env.traced (w, log)
          = ({ pc with
                 op := (pc.op.Shutdown env.api w).2.1,
                 ss := (pc.ss.Shutdown env.proc (pc.op.Shutdown env.api w).2.2).2.1,
                 pacSrv := (pc.pacSrv.Shutdown env.http
                   (pc.ss.Shutdown env.proc (pc.op.Shutdown env.api w).2.2).2.2).2.1,
                 isStartup := false },
              ((pc.pacSrv.Shutdown env.http
                  (pc.ss.Shutdown env.proc (pc.op.Shutdown env.api w).2.2).2.2).2.2,
                log ++ cs.map Event.driver ++ [Event.kill h, Event.shutdown addr]))) ∧
    (pc.isStartup = true →
      pc.Shutdown env w
        = ({ pc with
               op := (pc.op.Shutdown env.api w).2.1,
               ss := (pc.ss.Shutdown env.proc (pc.op.Shutdown env.api w).2.2).2.1,
               pacSrv := (pc.pacSrv.Shutdown env.http
                 (pc.ss.Shutdown env.proc (pc.op.Shutdown env.api w).2.2).2.2).2.1,
               isStartup := false },
            (pc.pacSrv.Shutdown env.http
              (pc.ss.Shutdown env.proc (pc.op.Shutdown env.api w).2.2).2.2).2.2)) ∧
    (∀ (tw : TestWorld), pc.StartedOn tw →
      (pc.Shutdown fakeEnv tw).1.isStartup = false ∧
      (pc.Shutdown fakeEnv tw).1.op.isStartup = false ∧
      (pc.Shutdown fakeEnv tw).1.ss.isStartup = false ∧
      (pc.Shutdown fakeEnv tw).1.pacSrv.isStartup = false ∧
      (∀ e ∈ (pc.Shutdown fakeEnv tw).2.drv.settings,
        e.2.pacOn = false ∧ e.2.globalOn = false) ∧
      (∃ h p, pc.ss.proc = some h ∧ (pc.Shutdown fakeEnv tw).2.procs.get? h = some p ∧
        p.killed = true) ∧
      pc.pacSrv.serverAddr ∉ (pc.Shutdown fakeEnv tw).2.listening) := by
  refine ⟨?_, ?_, ?_, ?_⟩
  · intro h0
    simp [ProxyCore.Shutdown, h0]
  rotate_left
  · intro h0
    simp [ProxyCore.Shutdown, h0]
  rotate_left
  · intro h addr h0 hop hss hproc hps hsrv
    obtain ⟨cs, hcs⟩ := records_Shutdown Event.driver env.api pc.op w log
    refine ⟨cs, hcs, ?_⟩
    have hapi : env.traced.api = env.api.tracedWith Event.driver := rfl
    have hpe : env.traced.proc = env.proc.traced := rfl
    have hhe : env.traced.http = env.http.traced := rfl
    unfold ProxyCore.Shutdown
    rw [hapi, hpe, hhe, hcs]
    simp only [h0, Bool.not_true, Bool.false_eq_true, if_false]
    rw [traced_ShadowSocks_Shutdown_running env.proc pc.ss _ _ h hss hproc]
    dsimp only
    rw [traced_PACServer_Shutdown_running env.http pc.pacSrv _ _ addr hps hsrv]
    have hk : (env.proc.kill h (pc.op.Shutdown env.api w).2.2).2
        = (pc.ss.Shutdown env.proc (pc.op.Shutdown env.api w).2.2).2.2 := by
      simp only [ShadowSocks.Shutdown, hss, hproc, Bool.not_true, Bool.false_eq_true, if_false]
      rcases env.proc.kill h (pc.op.Shutdown env.api w).2.2 with ⟨e, w1⟩
      cases e <;> rfl
    have hd : ∀ w2, (env.http.shutdown addr w2).2 = (pc.pacSrv.Shutdown env.http w2).2.2 := by
      intro w2
      simp only [PACServer.Shutdown, hps, hsrv, Bool.not_true, Bool.false_eq_true, if_false,
        Option.getD_some]
      rcases env.http.shutdown addr w2 with ⟨e, w1⟩
      cases e <;> rfl
    simp [hk, hd]
  · intro tw hst
    obtain ⟨m', hop, hclean⟩ := mock_Shutdown_started tw.drv pc.op hst.op_running
      hst.mode_known hst.ifaces
    obtain ⟨h, q, hproc, hq, _, _, _⟩ := hst.ss_live
    have hq0 : tw.procs[h]? = some q := by simpa using hq
    have hlt : h < tw.procs.length := by
      rcases Nat.lt_or_ge h tw.procs.length with hl | hl
      · exact hl
      · rw [List.getElem?_eq_none hl] at hq0; simp at hq0
    have hO : pc.op.Shutdown fakeEnv.api tw
        = (none, { pc.op with isStartup := false }, { tw with drv := m' }) := by
      rw [fake_OSOperator_Shutdown, hop]
    have hS : pc.ss.Shutdown fakeEnv.proc { tw with drv := m' }
        = (none, { pc.ss with isStartup := false },
            { tw with drv := m', procs := tw.procs.set h (q.Kill).2 }) := by
      simp [ShadowSocks.Shutdown, hst.ss_running, hproc, fakeEnv, fakeProcs, mockProcs, hq0,
        ssProcessMock.Kill]
    have hP : pc.pacSrv.Shutdown fakeEnv.http
          { tw with drv := m', procs := tw.procs.set h (q.Kill).2 }
        = (none, { pc.pacSrv with server := none, isStartup := false },
            { tw with drv := m', procs := tw.procs.set h (q.Kill).2,
                      listening := tw.listening.filter (fun a => a != pc.pacSrv.serverAddr) })
        := by
      simp [PACServer.Shutdown, hst.pac_running, hst.pac_server, fakeEnv, testHTTP]
    have hall : pc.Shutdown fakeEnv tw
        = ({ pc with op := { pc.op with isStartup := false },
                     ss := { pc.ss with isStartup := false },
                     pacSrv := { pc.pacSrv with server := none, isStartup := false },
                     isStartup := false },
            { tw with drv := m', procs := tw.procs.set h (q.Kill).2,
                      listening := tw.listening.filter (fun a => a != pc.pacSrv.serverAddr) })
        := by
      simp only [ProxyCore.Shutdown, hst.core_started, Bool.not_true, Bool.false_eq_true,
        if_false, hO, hS, hP]
    rw [hall]
    refine ⟨rfl, rfl, rfl, rfl, hclean, ⟨h, (q.Kill).2, hproc, ?_, rfl⟩, ?_⟩
    · simp [hlt]
    · simp [List.mem_filter]

/-- Witness of C21: the started pac core of the scenario is shut down on the fakes. -/
theorem C21_shutdown_stops_operator_supervisor_pac_server_witness :
    (runningCore "pac").StartedOn (runningWorld "pac" 1) ∧
    ((runningCore "pac").Shutdown fakeEnv (runningWorld "pac" 1)).1.isStartup = false ∧
    ((runningCore "pac").Shutdown fakeEnv (runningWorld "pac" 1)).1.op.isStartup = false ∧
    ((runningCore "pac").Shutdown fakeEnv (runningWorld "pac" 1)).1.ss.isStartup = false ∧
    ((runningCore "pac").Shutdown fakeEnv (runningWorld "pac" 1)).1.pacSrv.isStartup = false ∧
    ((runningCore "pac").Shutdown fakeEnv.traced (runningWorld "pac" 1, [])).2.2
      = [Event.driver Call.listAllNetwork, Event.driver (Call.clearAutoProxyFor "WiFi"),
         Event.driver (Call.clearAutoProxyFor "wlan"), Event.kill 0,
         Event.shutdown "127.0.0.1:1234"] :=
  ⟨runningCore_started_pac,
   ((C21_shutdown_stops_operator_supervisor_pac_server fakeEnv (runningCore "pac")
      (runningWorld "pac" 1) []).2.2.2 (runningWorld "pac" 1) runningCore_started_pac).1,
   ((C21_shutdown_stops_operator_supervisor_pac_server fakeEnv (runningCore "pac")
      (runningWorld "pac" 1) []).2.2.2 (runningWorld "pac" 1) runningCore_started_pac).2.1,
   ((C21_shutdown_stops_operator_supervisor_pac_server fakeEnv (runningCore "pac")
      (runningWorld "pac" 1) []).2.2.2 (runningWorld "pac" 1) runningCore_started_pac).2.2.1,
   ((C21_shutdown_stops_operator_supervisor_pac_server fakeEnv (runningCore "pac")
      (runningWorld "pac" 1) []).2.2.2 (runningWorld "pac" 1) runningCore_started_pac).2.2.2.1,
   by decide⟩

/-! ## ProxyCore.ChangeServerConfig -/

/-- `ChangeServerConfig` of the supervisor on recording processes: the result is that of
the plain run, and the log grows by process events only; on success the new configuration
is stored and, for a running supervisor given another configuration, the handle is the
one returned by the last call, the spawn with the new configuration. -/
theorem traced_ShadowSocks_ChangeServerConfig {ω : Type} (pe : ssAPI ω) (ss ss' : ShadowSocks)
    (newCfg : config.ServerConfig) (w w' : ω) (log log' : List Event) (e : Err)
    (h : ss.ChangeServerConfig pe.traced newCfg (w, log) = Outcome.ret (e, ss', (w', log'))) :
    ss.ChangeServerConfig pe newCfg w = Outcome.ret (e, ss', w') ∧
    (∃ evs, log' = log ++ evs ∧
      (∀ ev ∈ evs, (∃ a b c d, ev = Event.start a b c d) ∨ (∃ hd, ev = Event.kill hd)) ∧
      (e = none → ss.isStartup = true → newCfg ≠ ss.srvCfg →
        ∃ hd w0, pe.start ss.ssPath ss.localAddr ss.localPort newCfg w0 = (Except.ok hd, w') ∧
          ss'.proc = some hd ∧
          evs.getLast? = some (Event.start ss.ssPath ss.localAddr ss.localPort newCfg))) ∧
    (e = none → ss'.srvCfg = newCfg) ∧
    (e ≠ none → ss'.srvCfg = ss.srvCfg) := by
  unfold ShadowSocks.ChangeServerConfig at h ⊢
  by_cases h1 : newCfg = ss.srvCfg
  · simp only [h1, if_true, Outcome.ret.injEq, Prod.mk.injEq] at h ⊢
    obtain ⟨rfl, rfl, rfl, rfl⟩ := h
    exact ⟨⟨rfl, rfl, rfl⟩, ⟨[], by simp, by simp, by simp⟩, fun _ => rfl, fun _ => rfl⟩
  · simp only [h1, if_false] at h ⊢
    by_cases h2 : ss.isStartup = true
    · simp only [h2, Bool.not_true, Bool.false_eq_true, if_false] at h ⊢
      cases hp : ss.proc with
      | none => simp [hp] at h
      | some old =>
        simp only [hp, ssAPI.traced] at h ⊢
        rcases hk : pe.kill old w with ⟨ek, w1⟩
        rw [hk] at h
        cases ek with
        | some err =>
          simp only [Outcome.ret.injEq, Prod.mk.injEq] at h ⊢
          obtain ⟨rfl, rfl, rfl, rfl⟩ := h
          exact ⟨⟨rfl, rfl, rfl⟩, ⟨[Event.kill old], rfl, by simp, by simp⟩, by simp,
            fun _ => rfl⟩
        | none =>
          simp only at h ⊢
          rcases hs : pe.start ss.ssPath ss.localAddr ss.localPort newCfg w1 with ⟨r, w2⟩
          rw [hs] at h
          cases r with
          | ok newProc =>
            simp only [Outcome.ret.injEq, Prod.mk.injEq] at h ⊢
            obtain ⟨rfl, rfl, rfl, rfl⟩ := h
            refine ⟨⟨rfl, rfl, rfl⟩,
              ⟨[Event.kill old, Event.start ss.ssPath ss.localAddr ss.localPort newCfg],
                by simp, by simp, ?_⟩, fun _ => rfl, by simp⟩
            intro _ _ _
            exact ⟨newProc, w1, hs, rfl, by simp⟩
          | error err =>
            simp only at h ⊢
            rcases hr : pe.start ss.ssPath ss.localAddr ss.localPort ss.srvCfg w2 with ⟨r2, w3⟩
            rw [hr] at h
            cases r2 with
            | ok p =>
              simp only [Outcome.ret.injEq, Prod.mk.injEq] at h ⊢
              obtain ⟨rfl, rfl, rfl, rfl⟩ := h
              exact ⟨⟨rfl, rfl, rfl⟩,
                ⟨[Event.kill old, Event.start ss.ssPath ss.localAddr ss.localPort newCfg,
                  Event.start ss.ssPath ss.localAddr ss.localPort ss.srvCfg],
                  by simp, by simp, by simp⟩, by simp, fun _ => rfl⟩
            | error err2 =>
              simp only [Outcome.ret.injEq, Prod.mk.injEq] at h ⊢
              obtain ⟨rfl, rfl, rfl, rfl⟩ := h
              exact ⟨⟨rfl, rfl, rfl⟩,
                ⟨[Event.kill old, Event.start ss.ssPath ss.localAddr ss.localPort newCfg,
                  Event.start ss.ssPath ss.localAddr ss.localPort ss.srvCfg],
                  by simp, by simp, by simp⟩, by simp, fun _ => rfl⟩
    · simp only [Bool.not_eq_true] at h2
      simp only [h2, Bool.not_false, if_true, Outcome.ret.injEq, Prod.mk.injEq] at h ⊢
      obtain ⟨rfl, rfl, rfl, rfl⟩ := h
      exact ⟨⟨rfl, rfl, rfl⟩, ⟨[], by simp, by simp, by simp [h2]⟩, fun _ => rfl, by simp⟩

/-- A supervisor that holds a handle whenever it runs returns from `ChangeServerConfig`. -/
theorem ShadowSocks_ChangeServerConfig_returns {ω : Type} (pe : ssAPI ω) (ss : ShadowSocks)
    (newCfg : config.ServerConfig) (w : ω) (hh : ss.isStartup = true → ss.proc ≠ none) :
    ∃ r, ss.ChangeServerConfig pe newCfg w = Outcome.ret r := by
  unfold ShadowSocks.ChangeServerConfig
  by_cases h1 : newCfg = ss.srvCfg
  · simp [h1]
  · by_cases h2 : ss.isStartup = true
    · cases hp : ss.proc with
      | none => exact absurd hp (hh h2)
      | some old =>
        simp only [h1, h2, if_false, Bool.not_true, Bool.false_eq_true]
        rcases pe.kill old w with ⟨ek, w1⟩
        cases ek with
        | some err => exact ⟨_, rfl⟩
        | none =>
          simp only
          rcases pe.start ss.ssPath ss.localAddr ss.localPort newCfg w1 with ⟨r, w2⟩
          cases r with
          | ok p => exact ⟨_, rfl⟩
          | error err =>
            simp only
            rcases pe.start ss.ssPath ss.localAddr ss.localPort ss.srvCfg w2 with ⟨r2, w3⟩
            cases r2 <;> exact ⟨_, rfl⟩
    · simp only [Bool.not_eq_true] at h2
      simp [h1, h2]

/-- When `ChangeServerConfig` of a running supervisor succeeds with another configuration,
the handle it holds is the one returned by the spawn with the new configuration, and the
world is the one that spawn left. -/
theorem ShadowSocks_ChangeServerConfig_ok_spawned {ω : Type} (pe : ssAPI ω)
    (ss ss' : ShadowSocks) (newCfg : config.ServerConfig) (w w' : ω)
    (h : ss.ChangeServerConfig pe newCfg w = Outcome.ret (none, ss', w'))
    (hrun : ss.isStartup = true) (hne : newCfg ≠ ss.srvCfg) :
    ∃ hd w0, pe.start ss.ssPath ss.localAddr ss.localPort newCfg w0 = (Except.ok hd, w') ∧
      ss'.proc = some hd := by
  unfold ShadowSocks.ChangeServerConfig at h
  simp only [hne, hrun, if_false, Bool.not_true, Bool.false_eq_true] at h
  cases hp : ss.proc with
  | none => simp [hp] at h
  | some old =>
    simp only [hp] at h
    rcases hk : pe.kill old w with ⟨ek, w1⟩
    rw [hk] at h
    cases ek with
    | some err => simp at h
    | none =>
      simp only at h
      rcases hs : pe.start ss.ssPath ss.localAddr ss.localPort newCfg w1 with ⟨r, w2⟩
      rw [hs] at h
      cases r with
      | ok newProc =>
        simp only [Outcome.ret.injEq, Prod.mk.injEq, true_and] at h
        obtain ⟨rfl, rfl⟩ := h
        exact ⟨newProc, w1, hs, rfl⟩
      | error err =>
        simp only at h
        rcases hr : pe.start ss.ssPath ss.localAddr ss.localPort ss.srvCfg w2 with ⟨r2, w3⟩
        rw [hr] at h
        cases r2 <;> simp at h

theorem testProcs_kill_frame (h : Handle) (w : TestWorld) :
    (testProcs.kill h w).2.drv = w.drv ∧ (testProcs.kill h w).2.listening = w.listening ∧
      (testProcs.kill h w).2.files = w.files :=
  ⟨rfl, rfl, rfl⟩

theorem testProcs_start_frame (ssPath localAddr localPort : String)
    (srvCfg : config.ServerConfig) (w : TestWorld) :
    (testProcs.start ssPath localAddr localPort srvCfg w).2.drv = w.drv ∧
      (testProcs.start ssPath localAddr localPort srvCfg w).2.listening = w.listening ∧
      (testProcs.start ssPath localAddr localPort srvCfg w).2.files = w.files := by
  by_cases hb : w.spawnBudget = 0 <;> simp [testProcs, hb]

theorem testProcs_start_ok (ssPath localAddr localPort : String)
    (srvCfg : config.ServerConfig) (w w1 : TestWorld) (hd : Handle)
    (h : testProcs.start ssPath localAddr localPort srvCfg w = (Except.ok hd, w1)) :
    w1.procs.get? hd = some (newSSProcessMock localAddr localPort srvCfg) := by
  by_cases hb : w.spawnBudget = 0
  · simp [testProcs, hb] at h
  · simp only [testProcs, hb, if_false, mockProcs, Prod.mk.injEq, Except.ok.injEq] at h
    obtain ⟨rfl, rfl⟩ := h
    simp

/-- On the in-memory world `ChangeServerConfig` of the supervisor touches the process table
and the spawn budget only. -/
theorem testProcs_ChangeServerConfig_frame (ss ss' : ShadowSocks)
    (newCfg : config.ServerConfig) (w w' : TestWorld) (e : Err)
    (h : ss.ChangeServerConfig testProcs newCfg w = Outcome.ret (e, ss', w')) :
    w'.drv = w.drv ∧ w'.listening = w.listening ∧ w'.files = w.files := by
  unfold ShadowSocks.ChangeServerConfig at h
  by_cases h1 : newCfg = ss.srvCfg
  · simp only [h1, if_true, Outcome.ret.injEq, Prod.mk.injEq] at h
    obtain ⟨_, _, rfl⟩ := h
    exact ⟨rfl, rfl, rfl⟩
  · by_cases h2 : ss.isStartup = true
    · simp only [h1, h2, if_false, Bool.not_true, Bool.false_eq_true] at h
      cases hp : ss.proc with
      | none => simp [hp] at h
      | some old =>
        simp only [hp] at h
        have fk := testProcs_kill_frame old w
        rcases hk : testProcs.kill old w with ⟨ek, w1⟩
        rw [hk] at h fk
        cases ek with
        | some err =>
          simp only [Outcome.ret.injEq, Prod.mk.injEq] at h
          obtain ⟨_, _, rfl⟩ := h
          exact fk
        | none =>
          simp only at h
          have fs := testProcs_start_frame ss.ssPath ss.localAddr ss.localPort newCfg w1
          rcases hs : testProcs.start ss.ssPath ss.localAddr ss.localPort newCfg w1 with ⟨r, w2⟩
          rw [hs] at h fs
          cases r with
          | ok newProc =>
            simp only [Outcome.ret.injEq, Prod.mk.injEq] at h
            obtain ⟨_, _, rfl⟩ := h
            exact ⟨fs.1.trans fk.1, fs.2.1.trans fk.2.1, fs.2.2.trans fk.2.2⟩
          | error err =>
            simp only at h
            have fr := testProcs_start_frame ss.ssPath ss.localAddr ss.localPort ss.srvCfg w2
            rcases hr : testProcs.start ss.ssPath ss.localAddr ss.localPort ss.srvCfg w2
              with ⟨r2, w3⟩
            rw [hr] at h fr
            cases r2 with
            | ok p =>
              simp only [Outcome.ret.injEq, Prod.mk.injEq] at h
              obtain ⟨_, _, rfl⟩ := h
              exact ⟨fr.1.trans (fs.1.trans fk.1), fr.2.1.trans (fs.2.1.trans fk.2.1),
                fr.2.2.trans (fs.2.2.trans fk.2.2)⟩
            | error err2 =>
              simp only [Outcome.ret.injEq, Prod.mk.injEq] at h
              obtain ⟨_, _, rfl⟩ := h
              exact ⟨fr.1.trans (fs.1.trans fk.1), fr.2.1.trans (fs.2.1.trans fk.2.1),
                fr.2.2.trans (fs.2.2.trans fk.2.2)⟩
    · simp only [Bool.not_eq_true] at h2
      simp only [h1, h2, if_false, Bool.not_false, if_true, Outcome.ret.injEq,
        Prod.mk.injEq] at h
      obtain ⟨_, _, rfl⟩ := h
      exact ⟨rfl, rfl, rfl⟩

/-- C22: `ProxyCore.ChangeServerConfig`, observed on a recording environment. When the
configuration given is the stored one nothing is called and nothing changes. Otherwise,
whenever the call returns (it does when a running supervisor holds a handle), the result
is that of the plain run, the calls made are process creations and kills only (no driver
call, no listener or file call), the OSOperator, the PAC server and every other field of
ProxyCore but `ss` and `srvCfg` are unchanged; on success `srvCfg` is the new
configuration, and for a running supervisor the last call is the spawn with the new
configuration and the supervisor holds the handle it returned; on failure `srvCfg` is
unchanged. In the in-memory world, whatever the driver does, the driver state, the
listening addresses and the files are unchanged, and on success on a running supervisor
the handle is a live fake process created with the new configuration. -/
theorem C22_change_server_config_involves_supervisor_only {ω : Type} (env : Env ω)
    (pc : ProxyCore) (newCfg : config.ServerConfig) (w : ω) (log : List Event) :
    (newCfg = pc.srvCfg →
      pc.ChangeServerConfig env.traced newCfg (w, log) = Outcome.ret (none, pc, (w, log))) ∧
    ((pc.ss.isStartup = true → pc.ss.proc ≠ none) →
      ∃ r, pc.ChangeServerConfig env.traced newCfg (w, log) = Outcome.ret r) ∧
    (∀ e pc' w' log',
      pc.ChangeServerConfig env.traced newCfg (w, log) = Outcome.ret (e, pc', (w', log')) →
      pc.ChangeServerConfig env newCfg w = Outcome.ret (e, pc', w') ∧
      (∃ evs, log' = log ++ evs ∧
        (∀ ev ∈ evs, (∃ a b c d, ev = Event.start a b c d) ∨ (∃ hd, ev = Event.kill hd)) ∧
        (e = none → pc.ss.isStartup = true → newCfg ≠ pc.srvCfg → pc.ss.srvCfg = pc.srvCfg →
          ∃ hd w0,
            env.proc.start pc.ss.ssPath pc.ss.localAddr pc.ss.localPort newCfg w0
              = (Except.ok hd, w') ∧
            pc'.ss.proc = some hd ∧
            evs.getLast?
              = some (Event.start pc.ss.ssPath pc.ss.localAddr pc.ss.localPort newCfg))) ∧
      pc'.op = pc.op ∧ pc'.pacSrv = pc.pacSrv ∧ pc'.pacPort = pc.pacPort ∧
      pc'.pacFile = pc.pacFile ∧ pc'.localPort = pc.localPort ∧
      pc'.localAddr = pc.localAddr ∧ pc'.mode = pc.mode ∧ pc'.isStartup = pc.isStartup ∧
      (e = none → pc'.srvCfg = newCfg) ∧
      (e ≠ none → pc'.srvCfg = pc.srvCfg)) ∧
    (∀ (bad : Call → Bool) (tw tw' : TestWorld) e pc',
      pc.ChangeServerConfig (testEnv bad) newCfg tw = Outcome.ret (e, pc', tw') →
      tw'.drv = tw.drv ∧ tw'.listening = tw.listening ∧ tw'.files = tw.files ∧
      (e = none → pc.ss.isStartup = true → newCfg ≠ pc.srvCfg → pc.ss.srvCfg = pc.srvCfg →
        ∃ hd, pc'.ss.proc = some hd ∧
          tw'.procs.get? hd
            = some (newSSProcessMock pc.ss.localAddr pc.ss.localPort newCfg))) := by
  have hpe : env.traced.proc = env.proc.traced := rfl
  refine ⟨?_, ?_, ?_, ?_⟩
  · intro h
    simp [ProxyCore.ChangeServerConfig, h]
  · intro hh
    unfold ProxyCore.ChangeServerConfig
    by_cases h1 : newCfg = pc.srvCfg
    · simp [h1]
    · obtain ⟨r, hr⟩ := ShadowSocks_ChangeServerConfig_returns env.traced.proc pc.ss newCfg
        (w, log) hh
      rcases r with ⟨e, ss1, w1⟩
      simp only [h1, if_false, hr]
      cases e <;> exact ⟨_, rfl⟩
  · intro e pc' w' log' h
    unfold ProxyCore.ChangeServerConfig at h ⊢
    by_cases h1 : newCfg = pc.srvCfg
    · simp only [h1, if_true, Outcome.ret.injEq, Prod.mk.injEq] at h ⊢
      obtain ⟨rfl, rfl, rfl, rfl⟩ := h
      exact ⟨⟨rfl, rfl, rfl⟩, ⟨[], by simp, by simp, by simp⟩, rfl, rfl, rfl, rfl, rfl, rfl,
        rfl, rfl, fun _ => h1.symm ▸ rfl, fun _ => rfl⟩
    · simp only [h1, if_false, hpe] at h ⊢
      rcases hs : pc.ss.ChangeServerConfig env.proc.traced newCfg (w, log) with ⟨r⟩ | msg
      · rcases r with ⟨e1, ss1, w1, l1⟩
        obtain ⟨hplain, ⟨evs, hlog, hev, hlast⟩, hok, hbad⟩ :=
          traced_ShadowSocks_ChangeServerConfig env.proc pc.ss ss1 newCfg w w1 log l1 e1 hs
        rw [hs] at h
        rw [hplain]
        cases e1 with
        | none =>
          simp only [Outcome.ret.injEq, Prod.mk.injEq] at h ⊢
          obtain ⟨rfl, rfl, rfl, rfl⟩ := h
          refine ⟨⟨rfl, rfl, rfl⟩, ⟨evs, hlog, hev, ?_⟩, rfl, rfl, rfl, rfl, rfl, rfl, rfl,
            rfl, fun _ => rfl, by simp⟩
          intro _ hrun _ hcfg
          exact hlast rfl hrun (hcfg ▸ h1)
        | some err =>
          simp only [Outcome.ret.injEq, Prod.mk.injEq] at h ⊢
          obtain ⟨rfl, rfl, rfl, rfl⟩ := h
          exact ⟨⟨rfl, rfl, rfl⟩, ⟨evs, hlog, hev, by simp⟩, rfl, rfl, rfl, rfl, rfl, rfl,
            rfl, rfl, by simp, fun _ => rfl⟩
      · rw [hs] at h
        simp at h
  · intro bad tw tw' e pc' h
    have hproc : (testEnv bad).proc = testProcs := rfl
    unfold ProxyCore.ChangeServerConfig at h
    by_cases h1 : newCfg = pc.srvCfg
    · simp only [h1, if_true, Outcome.ret.injEq, Prod.mk.injEq] at h
      obtain ⟨_, _, rfl⟩ := h
      exact ⟨rfl, rfl, rfl, fun _ _ hne _ => absurd h1 hne⟩
    · simp only [h1, if_false, hproc] at h
      rcases hs : pc.ss.ChangeServerConfig testProcs newCfg tw with ⟨r⟩ | msg
      · rcases r with ⟨e1, ss1, w1⟩
        have hframe := testProcs_ChangeServerConfig_frame pc.ss ss1 newCfg tw w1 e1 hs
        rw [hs] at h
        cases e1 with
        | some err =>
          simp only [Outcome.ret.injEq, Prod.mk.injEq] at h
          obtain ⟨rfl, _, rfl⟩ := h
          exact ⟨hframe.1, hframe.2.1, hframe.2.2, by simp⟩
        | none =>
          simp only [Outcome.ret.injEq, Prod.mk.injEq] at h
          obtain ⟨_, rfl, rfl⟩ := h
          refine ⟨hframe.1, hframe.2.1, hframe.2.2, ?_⟩
          intro _ hrun _ hcfg
          obtain ⟨hd, w0, hst, hproc'⟩ :=
            ShadowSocks_ChangeServerConfig_ok_spawned testProcs pc.ss ss1 newCfg tw w1 hs hrun
              (hcfg ▸ h1)
          exact ⟨hd, hproc', testProcs_start_ok _ _ _ _ w0 w1 hd hst⟩
      · rw [hs] at h
        simp at h

/-- The scenario of the witness of C22: the started pac core is given another server. -/
theorem scenario_change_server_config :
    (runningCore "pac").ChangeServerConfig (testEnv rejectPAC5678)
        ⟨"99.88.77.66", "9876", "AEAD_AES_256_GCM", "mypwd"⟩ (runningWorld "pac" 1)
      = Outcome.ret (none,
          { runningCore "pac" with
              ss := { (runningCore "pac").ss with
                        proc := some 1,
                        srvCfg := ⟨"99.88.77.66", "9876", "AEAD_AES_256_GCM", "mypwd"⟩ },
              srvCfg := ⟨"99.88.77.66", "9876", "AEAD_AES_256_GCM", "mypwd"⟩ },
          { runningWorld "pac" 1 with
              procs := [{ newSSProcessMock "127.0.0.1" "2234" testSrvCfg with killed := true },
                        newSSProcessMock "127.0.0.1" "2234"
                          ⟨"99.88.77.66", "9876", "AEAD_AES_256_GCM", "mypwd"⟩],
              spawnBudget := 0 }) := by
  decide

/-- Witness of C22: in the scenario the driver state, the listening addresses and the
files are unchanged, and the supervisor holds process 1, created with the new server. -/
theorem C22_change_server_config_involves_supervisor_only_witness :
    ∃ pc' tw',
      (runningCore "pac").ChangeServerConfig (testEnv rejectPAC5678)
          ⟨"99.88.77.66", "9876", "AEAD_AES_256_GCM", "mypwd"⟩ (runningWorld "pac" 1)
        = Outcome.ret (none, pc', tw') ∧
      tw'.drv = (runningWorld "pac" 1).drv ∧
      tw'.listening = (runningWorld "pac" 1).listening ∧
      tw'.files = (runningWorld "pac" 1).files ∧
      pc'.ss.proc = some 1 :=
  ⟨_, _, scenario_change_server_config,
    ((C22_change_server_config_involves_supervisor_only (testEnv rejectPAC5678)
        (runningCore "pac") ⟨"99.88.77.66", "9876", "AEAD_AES_256_GCM", "mypwd"⟩
        (runningWorld "pac" 1) []).2.2.2 rejectPAC5678 (runningWorld "pac" 1) _ none _
        scenario_change_server_config).1,
    ((C22_change_server_config_involves_supervisor_only (testEnv rejectPAC5678)
        (runningCore "pac") ⟨"99.88.77.66", "9876", "AEAD_AES_256_GCM", "mypwd"⟩
        (runningWorld "pac" 1) []).2.2.2 rejectPAC5678 (runningWorld "pac" 1) _ none _
        scenario_change_server_config).2.1,
    ((C22_change_server_config_involves_supervisor_only (testEnv rejectPAC5678)
        (runningCore "pac") ⟨"99.88.77.66", "9876", "AEAD_AES_256_GCM", "mypwd"⟩
        (runningWorld "pac" 1) []).2.2.2 rejectPAC5678 (runningWorld "pac" 1) _ none _
        scenario_change_server_config).2.2.1,
    rfl⟩

/-! ## The supervisor's processes -/

theorem aliveCount_le_one (procs : List ssProcessMock)
    (h : ∀ i j p q, procs.get? i = some p → procs.get? j = some q → p.killed = false →
      q.killed = false → i = j) :
    aliveCount procs ≤ 1 := by
  induction procs with
  | nil => simp [aliveCount]
  | cons a l ih =>
    have hl : ∀ i j p q, l.get? i = some p → l.get? j = some q → p.killed = false →
        q.killed = false → i = j := by
      intro i j p q hi hj hp hq
      have := h (i + 1) (j + 1) p q (by simpa using hi) (by simpa using hj) hp hq
      omega
    cases ha : a.killed with
    | true =>
      have : aliveCount (a :: l) = aliveCount l := by simp [aliveCount, ha]
      rw [this]
      exact ih hl
    | false =>
      have hdead : ∀ q ∈ l, (!q.killed) = false := by
        intro q hq
        obtain ⟨j, hj⟩ := List.mem_iff_get?.1 hq
        cases hk : q.killed with
        | true => rfl
        | false =>
          have := h 0 (j + 1) a q (by simp) (by simpa using hj) ha hk
          omega
      have h0 : List.countP (fun p => !p.killed) l = 0 := by
        rw [List.countP_eq_zero]
        intro q hq
        simp [hdead q hq]
      simp [aliveCount, ha, h0]

theorem OwnsAlive_aliveCount (ss : ShadowSocks) (procs : List ssProcessMock)
    (h : ss.OwnsAlive procs) : aliveCount procs ≤ 1 := by
  apply aliveCount_le_one
  intro i j p q hi hj hp hq
  have h1 := (h i p hi hp).2
  have h2 := (h j q hj hq).2
  rw [h1] at h2
  exact Option.some.inj h2

/-- The table after the fake kill of `h`: the process at `h` is marked killed, the others
are as they were. -/
theorem mockProcs_kill_get (h : Handle) (procs : List ssProcessMock) (i : Nat)
    (p : ssProcessMock) (hp : (mockProcs.kill h procs).2.get? i = some p)
    (halive : p.killed = false) : i ≠ h ∧ procs.get? i = some p := by
  simp only [mockProcs] at hp
  cases hq : procs.get? h with
  | none =>
    simp only [hq] at hp
    refine ⟨?_, hp⟩
    intro hih
    rw [hih, hq] at hp
    cases hp
  | some q =>
    simp only [hq, ssProcessMock.Kill] at hp
    by_cases hih : i = h
    · subst hih
      have hq0 : procs[i]? = some q := by simpa using hq
      have hlt : i < procs.length := by
        rcases Nat.lt_or_ge i procs.length with hl | hl
        · exact hl
        · rw [List.getElem?_eq_none hl] at hq0; simp at hq0
      simp [hlt] at hp
      rw [← hp] at halive
      simp at halive
    · refine ⟨hih, ?_⟩
      have : (procs.set h { q with killed := true })[i]? = procs[i]? := by
        rw [List.getElem?_set_ne (Ne.symm hih)]
      simpa [this] using hp

theorem scriptedProcs_start_cases (ssPath localAddr localPort : String)
    (srvCfg : config.ServerConfig) (w : ProcWorld) :
    ((scriptedProcs.start ssPath localAddr localPort srvCfg w).1
        = Except.error "cannot start process" ∧
      (scriptedProcs.start ssPath localAddr localPort srvCfg w).2.procs = w.procs) ∨
    ((scriptedProcs.start ssPath localAddr localPort srvCfg w).1 = Except.ok w.procs.length ∧
      (scriptedProcs.start ssPath localAddr localPort srvCfg w).2.procs
        = w.procs ++ [newSSProcessMock localAddr localPort srvCfg]) := by
  rcases hf : w.startFaults with _ | ⟨b, rest⟩
  · right
    simp [scriptedProcs, hf, mockProcs]
  · cases b with
    | true => left; simp [scriptedProcs, hf]
    | false => right; simp [scriptedProcs, hf, mockProcs]

theorem scriptedProcs_kill_cases (h : Handle) (w : ProcWorld) :
    ((scriptedProcs.kill h w).1 = some "cannot kill process" ∧
      (scriptedProcs.kill h w).2.procs = w.procs) ∨
    ((scriptedProcs.kill h w).1 = none ∧
      (scriptedProcs.kill h w).2.procs = (mockProcs.kill h w.procs).2) := by
  have hk : (mockProcs.kill h w.procs).1 = none := by
    simp only [mockProcs]
    cases w.procs.get? h <;> rfl
  rcases hf : w.killFaults with _ | ⟨b, rest⟩
  · right
    simp [scriptedProcs, hf, hk]
  · cases b with
    | true => left; simp [scriptedProcs, hf]
    | false => right; simp [scriptedProcs, hf, hk]

theorem OwnsAlive_of_dead (ss : ShadowSocks) (procs : List ssProcessMock)
    (h : ∀ i p, procs.get? i = some p → p.killed = true) : ss.OwnsAlive procs := by
  intro i p hi hp
  rw [h i p hi] at hp
  cases hp

theorem dead_of_stopped (ss : ShadowSocks) (procs : List ssProcessMock)
    (h : ss.OwnsAlive procs) (h0 : ss.isStartup = false) :
    ∀ i p, procs.get? i = some p → p.killed = true := by
  intro i p hi
  cases hk : p.killed with
  | true => rfl
  | false =>
    have := (h i p hi hk).1
    rw [h0] at this
    cases this

theorem dead_of_no_handle (ss : ShadowSocks) (procs : List ssProcessMock)
    (h : ss.OwnsAlive procs) (h0 : ss.proc = none) :
    ∀ i p, procs.get? i = some p → p.killed = true := by
  intro i p hi
  cases hk : p.killed with
  | true => rfl
  | false =>
    have := (h i p hi hk).2
    rw [h0] at this
    cases this

theorem dead_after_kill (ss : ShadowSocks) (procs : List ssProcessMock) (old : Handle)
    (h : ss.OwnsAlive procs) (hp : ss.proc = some old) :
    ∀ i p, (mockProcs.kill old procs).2.get? i = some p → p.killed = true := by
  intro i p hi
  cases hk : p.killed with
  | true => rfl
  | false =>
    obtain ⟨hne, hget⟩ := mockProcs_kill_get old procs i p hi hk
    have := (h i p hget hk).2
    rw [hp] at this
    exact absurd (Option.some.inj this).symm hne

/-- A process appended to a table of dead processes is the only one alive. -/
theorem OwnsAlive_append (ss : ShadowSocks) (procs : List ssProcessMock) (q : ssProcessMock)
    (h : ∀ i p, procs.get? i = some p → p.killed = true)
    (hrun : ss.isStartup = true) (hp : ss.proc = some procs.length) :
    ss.OwnsAlive (procs ++ [q]) := by
  intro i p hi hk
  refine ⟨hrun, ?_⟩
  rcases Nat.lt_trichotomy i procs.length with hl | hl | hl
  · have : (procs ++ [q])[i]? = procs[i]? := List.getElem?_append_left hl
    have hi' : procs.get? i = some p := by simpa [this] using hi
    rw [h i p hi'] at hk
    cases hk
  · rw [hl]; exact hp
  · have : (procs ++ [q])[i]? = none := List.getElem?_eq_none (by simp; omega)
    have hi' : (procs ++ [q])[i]? = some p := by simpa using hi
    rw [this] at hi'
    cases hi'

theorem OwnsAlive_congr (ss ss' : ShadowSocks) (procs : List ssProcessMock)
    (h : ss.OwnsAlive procs) (h1 : ss'.isStartup = ss.isStartup) (h2 : ss'.proc = ss.proc) :
    ss'.OwnsAlive procs := by
  intro i p hi hk
  rw [h1, h2]
  exact h i p hi hk

theorem Startup_keeps_OwnsAlive (ss ss1 : ShadowSocks) (w w1 : ProcWorld) (e : Err)
    (hI : ss.OwnsAlive w.procs) (h : ss.Startup scriptedProcs w = (e, ss1, w1)) :
    ss1.OwnsAlive w1.procs := by
  unfold ShadowSocks.Startup at h
  by_cases hrun : ss.isStartup = true
  · simp only [hrun, if_true, Prod.mk.injEq] at h
    obtain ⟨_, rfl, rfl⟩ := h
    exact hI
  · simp only [Bool.not_eq_true] at hrun
    simp only [hrun, Bool.false_eq_true, if_false] at h
    have hdead := dead_of_stopped ss w.procs hI hrun
    have hc := scriptedProcs_start_cases ss.ssPath ss.localAddr ss.localPort ss.srvCfg w
    rcases hs : scriptedProcs.start ss.ssPath ss.localAddr ss.localPort ss.srvCfg w with ⟨r, w2⟩
    rw [hs] at h hc
    simp only at hc
    rcases hc with ⟨hr, hp⟩ | ⟨hr, hp⟩
    · subst hr
      simp only [Prod.mk.injEq] at h
      obtain ⟨_, rfl, rfl⟩ := h
      rw [hp]; exact hI
    · subst hr
      simp only [Prod.mk.injEq] at h
      obtain ⟨_, rfl, rfl⟩ := h
      rw [hp]
      exact OwnsAlive_append _ _ _ hdead rfl rfl

theorem Shutdown_keeps_OwnsAlive (ss ss1 : ShadowSocks) (w w1 : ProcWorld) (e : Err)
    (hI : ss.OwnsAlive w.procs) (h : ss.Shutdown scriptedProcs w = (e, ss1, w1)) :
    ss1.OwnsAlive w1.procs := by
  unfold ShadowSocks.Shutdown at h
  by_cases hrun : ss.isStartup = true
  · simp only [hrun, Bool.not_true, Bool.false_eq_true, if_false] at h
    cases hp : ss.proc with
    | none =>
      simp only [hp, Prod.mk.injEq] at h
      obtain ⟨_, rfl, rfl⟩ := h
      exact hI
    | some old =>
      simp only [hp] at h
      have hc := scriptedProcs_kill_cases old w
      rcases hk : scriptedProcs.kill old w with ⟨r, w2⟩
      rw [hk] at h hc
      simp only at hc
      rcases hc with ⟨hr, hpr⟩ | ⟨hr, hpr⟩
      · subst hr
        simp only [Prod.mk.injEq] at h
        obtain ⟨_, rfl, rfl⟩ := h
        rw [hpr]; exact hI
      · subst hr
        simp only [Prod.mk.injEq] at h
        obtain ⟨_, rfl, rfl⟩ := h
        rw [hpr]
        exact OwnsAlive_of_dead _ _ (dead_after_kill ss w.procs old hI hp)
  · simp only [Bool.not_eq_true] at hrun
    simp only [hrun, Bool.not_false, if_true, Prod.mk.injEq] at h
    obtain ⟨_, rfl, rfl⟩ := h
    exact hI

theorem ChangeLocalPort_keeps_OwnsAlive (ss ss1 : ShadowSocks) (w w1 : ProcWorld) (e : Err)
    (newPort : String) (hI : ss.OwnsAlive w.procs)
    (hk : ss.replacedKilled scriptedProcs (SSCall.ChangeLocalPort newPort) w = true)
    (h : ss.ChangeLocalPort scriptedProcs newPort w = Outcome.ret (e, ss1, w1)) :
    ss1.OwnsAlive w1.procs := by
  unfold ShadowSocks.ChangeLocalPort at h
  simp only [ShadowSocks.replacedKilled] at hk
  by_cases h1 : newPort = ss.localPort
  · simp only [h1, if_true, Outcome.ret.injEq, Prod.mk.injEq] at h
    obtain ⟨_, rfl, rfl⟩ := h
    exact hI
  · by_cases hrun : ss.isStartup = true
    · simp only [h1, hrun, if_false, Bool.not_true, Bool.false_eq_true] at h hk
      have hc := scriptedProcs_start_cases ss.ssPath ss.localAddr newPort ss.srvCfg w
      rcases hs : scriptedProcs.start ss.ssPath ss.localAddr newPort ss.srvCfg w with ⟨r, w2⟩
      rw [hs] at h hc hk
      simp only at hc
      rcases hc with ⟨hr, hp⟩ | ⟨hr, hp⟩
      · subst hr
        simp only [Outcome.ret.injEq, Prod.mk.injEq] at h
        obtain ⟨_, rfl, rfl⟩ := h
        rw [hp]; exact hI
      · subst hr
        simp only at h hk
        cases hproc : ss.proc with
        | none => simp [hproc] at h
        | some old =>
          simp only [hproc, Outcome.ret.injEq, Prod.mk.injEq] at h hk
          obtain ⟨_, rfl, rfl⟩ := h
          have hkc := scriptedProcs_kill_cases old w2
          rcases hkc with ⟨hr2, _⟩ | ⟨_, hpr2⟩
          · rw [hr2] at hk
            simp at hk
          · rw [hpr2, hp]
            intro i p hi halive
            refine ⟨rfl, ?_⟩
            obtain ⟨hne, hget⟩ := mockProcs_kill_get old _ i p hi halive
            rcases Nat.lt_trichotomy i w.procs.length with hl | hl | hl
            · have : (w.procs ++ [newSSProcessMock ss.localAddr newPort ss.srvCfg])[i]?
                  = w.procs[i]? := List.getElem?_append_left hl
              have hi' : w.procs.get? i = some p := by simpa [this] using hget
              have := (hI i p hi' halive).2
              rw [hproc] at this
              exact absurd (Option.some.inj this).symm hne
            · rw [hl]
            · have : (w.procs ++ [newSSProcessMock ss.localAddr newPort ss.srvCfg])[i]? = none :=
                List.getElem?_eq_none (by simp; omega)
              have hi' : (w.procs ++ [newSSProcessMock ss.localAddr newPort ss.srvCfg])[i]?
                  = some p := by simpa using hget
              rw [this] at hi'
              cases hi'
    · simp only [Bool.not_eq_true] at hrun
      simp only [h1, hrun, if_false, Bool.not_false, if_true, Outcome.ret.injEq,
        Prod.mk.injEq] at h
      obtain ⟨_, rfl, rfl⟩ := h
      exact OwnsAlive_congr ss _ _ hI hrun.symm rfl

theorem ChangeServerConfig_keeps_OwnsAlive (ss ss1 : ShadowSocks) (w w1 : ProcWorld) (e : Err)
    (newCfg : config.ServerConfig) (hI : ss.OwnsAlive w.procs)
    (h : ss.ChangeServerConfig scriptedProcs newCfg w = Outcome.ret (e, ss1, w1)) :
    ss1.OwnsAlive w1.procs := by
  unfold ShadowSocks.ChangeServerConfig at h
  by_cases h1 : newCfg = ss.srvCfg
  · simp only [h1, if_true, Outcome.ret.injEq, Prod.mk.injEq] at h
    obtain ⟨_, rfl, rfl⟩ := h
    exact hI
  · by_cases hrun : ss.isStartup = true
    · simp only [h1, hrun, if_false, Bool.not_true, Bool.false_eq_true] at h
      cases hproc : ss.proc with
      | none => simp [hproc] at h
      | some old =>
        simp only [hproc] at h
        have hkc := scriptedProcs_kill_cases old w
        rcases hk : scriptedProcs.kill old w with ⟨r, w2⟩
        rw [hk] at h hkc
        simp only at hkc
        rcases hkc with ⟨hr, hp⟩ | ⟨hr, hp⟩
        · subst hr
          simp only [Outcome.ret.injEq, Prod.mk.injEq] at h
          obtain ⟨_, rfl, rfl⟩ := h
          rw [hp]; exact hI
        · subst hr
          simp only at h
          have hdead2 : ∀ i p, w2.procs.get? i = some p → p.killed = true := by
            rw [hp]; exact dead_after_kill ss w.procs old hI hproc
          have hc := scriptedProcs_start_cases ss.ssPath ss.localAddr ss.localPort newCfg w2
          rcases hs : scriptedProcs.start ss.ssPath ss.localAddr ss.localPort newCfg w2
            with ⟨r3, w3⟩
          rw [hs] at h hc
          simp only at hc
          rcases hc with ⟨hr3, hp3⟩ | ⟨hr3, hp3⟩
          · subst hr3
            simp only at h
            have hdead3 : ∀ i p, w3.procs.get? i = some p → p.killed = true := by
              rw [hp3]; exact hdead2
            have hc4 := scriptedProcs_start_cases ss.ssPath ss.localAddr ss.localPort
              ss.srvCfg w3
            rcases hs4 : scriptedProcs.start ss.ssPath ss.localAddr ss.localPort ss.srvCfg w3
              with ⟨r4, w4⟩
            rw [hs4] at h hc4
            simp only at hc4
            rcases hc4 with ⟨hr4, hp4⟩ | ⟨hr4, hp4⟩
            · subst hr4
              simp only [Outcome.ret.injEq, Prod.mk.injEq] at h
              obtain ⟨_, rfl, rfl⟩ := h
              rw [hp4]
              exact OwnsAlive_of_dead _ _ hdead3
            · subst hr4
              simp only [Outcome.ret.injEq, Prod.mk.injEq] at h
              obtain ⟨_, rfl, rfl⟩ := h
              rw [hp4]
              exact OwnsAlive_append _ _ _ hdead3 rfl rfl
          · subst hr3
            simp only [Outcome.ret.injEq, Prod.mk.injEq] at h
            obtain ⟨_, rfl, rfl⟩ := h
            rw [hp3]
            exact OwnsAlive_append _ _ _ hdead2 rfl rfl
    · simp only [Bool.not_eq_true] at hrun
      simp only [h1, hrun, if_false, Bool.not_false, if_true, Outcome.ret.injEq,
        Prod.mk.injEq] at h
      obtain ⟨_, rfl, rfl⟩ := h
      exact OwnsAlive_congr ss _ _ hI hrun.symm rfl

theorem call_keeps_OwnsAlive (c : SSCall) (ss ss1 : ShadowSocks) (w w1 : ProcWorld) (e : Err)
    (hI : ss.OwnsAlive w.procs) (hk : ss.replacedKilled scriptedProcs c w = true)
    (h : ss.call scriptedProcs c w = Outcome.ret (e, ss1, w1)) :
    ss1.OwnsAlive w1.procs := by
  cases c with
  | Startup =>
    simp only [ShadowSocks.call, Outcome.ret.injEq] at h
    exact Startup_keeps_OwnsAlive ss ss1 w w1 e hI h
  | Shutdown =>
    simp only [ShadowSocks.call, Outcome.ret.injEq] at h
    exact Shutdown_keeps_OwnsAlive ss ss1 w w1 e hI h
  | ChangeLocalPort newPort => exact ChangeLocalPort_keeps_OwnsAlive ss ss1 w w1 e newPort hI hk h
  | ChangeServerConfig newCfg => exact ChangeServerConfig_keeps_OwnsAlive ss ss1 w w1 e newCfg hI h

theorem calls_keep_OwnsAlive :
    ∀ (cs : List SSCall) (ss ss' : ShadowSocks) (w w' : ProcWorld),
      ss.OwnsAlive w.procs → ss.replacedAlwaysKilled scriptedProcs cs w = true →
      ShadowSocks.calls scriptedProcs cs ss w = Outcome.ret (ss', w') →
      ss'.OwnsAlive w'.procs := by
  intro cs
  induction cs with
  | nil =>
    intro ss ss' w w' hI _ h
    simp only [ShadowSocks.calls, Outcome.ret.injEq, Prod.mk.injEq] at h
    obtain ⟨rfl, rfl⟩ := h
    exact hI
  | cons c cs ih =>
    intro ss ss' w w' hI hk h
    simp only [ShadowSocks.replacedAlwaysKilled, Bool.and_eq_true] at hk
    simp only [ShadowSocks.calls] at h
    rcases hc : ss.call scriptedProcs c w with ⟨r⟩ | msg
    · rcases r with ⟨e, ss1, w1⟩
      rw [hc] at h
      have hk2 := hk.2
      rw [hc] at hk2
      exact ih ss1 ss' w1 w' (call_keeps_OwnsAlive c ss ss1 w w1 e hI hk.1 hc) hk2 h
    · rw [hc] at h
      cases h

/-- Counterexample to C28 as stated: a supervisor created by `NewShadowSocks` is started
and then moved to port 9999, on fake processes whose first kill fails. `ChangeLocalPort`
creates the new process, the kill of the replaced one fails and its result is dropped:
the call returns nil, and both processes spawned by the supervisor are alive. -/
theorem C28_counterexample_failed_kill_leaves_two_alive :
    NewShadowSocks "" "127.0.0.1" "2345" testSrvCfg
      = Except.ok ⟨"127.0.0.1", "2345", testSrvCfg, "", none, false⟩ ∧
    ShadowSocks.calls scriptedProcs [SSCall.Startup, SSCall.ChangeLocalPort "9999"]
        ⟨"127.0.0.1", "2345", testSrvCfg, "", none, false⟩ ⟨[], [], [true]⟩
      = Outcome.ret (⟨"127.0.0.1", "9999", testSrvCfg, "", some 1, true⟩,
          ⟨[⟨"127.0.0.1", "2345", testSrvCfg, false⟩, ⟨"127.0.0.1", "9999", testSrvCfg, false⟩],
            [], []⟩) ∧
    ShadowSocks.ChangeLocalPort scriptedProcs ⟨"127.0.0.1", "2345", testSrvCfg, "", some 0, true⟩
        "9999" ⟨[⟨"127.0.0.1", "2345", testSrvCfg, false⟩], [], [true]⟩
      = Outcome.ret (none, ⟨"127.0.0.1", "9999", testSrvCfg, "", some 1, true⟩,
          ⟨[⟨"127.0.0.1", "2345", testSrvCfg, false⟩, ⟨"127.0.0.1", "9999", testSrvCfg, false⟩],
            [], []⟩) ∧
    aliveCount
        [⟨"127.0.0.1", "2345", testSrvCfg, false⟩, ⟨"127.0.0.1", "9999", testSrvCfg, false⟩]
      = 2 :=
  ⟨rfl, by decide⟩

/-- C28 (as amended): a supervisor (any, so also the one `NewShadowSocks` returns) runs,
from an empty process table, any sequence of `Startup`, `Shutdown`, `ChangeLocalPort` and
`ChangeServerConfig` calls on fake processes whose creations and kills fail as the scripts
say, the kill that `ChangeLocalPort` issues for the process it replaced being the only one
required not to fail. After the sequence (so after each call, the sequence being any) at
most one process is alive, and a process that is alive is the one the running supervisor
holds. -/
theorem C28_at_most_one_alive_when_replaced_is_killed
    (startFaults killFaults : List Bool) (cs : List SSCall)
    (ss0 ss' : ShadowSocks) (w' : ProcWorld)
    (hk : ss0.replacedAlwaysKilled scriptedProcs cs ⟨[], startFaults, killFaults⟩ = true)
    (h : ShadowSocks.calls scriptedProcs cs ss0 ⟨[], startFaults, killFaults⟩
      = Outcome.ret (ss', w')) :
    aliveCount w'.procs ≤ 1 ∧
    (∀ i p, w'.procs.get? i = some p → p.killed = false →
      ss'.isStartup = true ∧ ss'.proc = some i) := by
  have h0 : ss0.OwnsAlive [] := by
    intro i p hi
    simp at hi
  have hI := calls_keep_OwnsAlive cs ss0 ss' ⟨[], startFaults, killFaults⟩ w' h0 hk h
  exact ⟨OwnsAlive_aliveCount ss' w'.procs hI, hI⟩

/-- Witness of C28 (as amended): start, move to port 9999 (the replaced process is killed),
then a change of server whose kill fails: process 1 is the only one alive. -/
theorem C28_at_most_one_alive_when_replaced_is_killed_witness :
    ShadowSocks.calls scriptedProcs
        [SSCall.Startup, SSCall.ChangeLocalPort "9999",
         SSCall.ChangeServerConfig ⟨"99.88.77.66", "9876", "AEAD_AES_256_GCM", "mypwd"⟩]
        ⟨"127.0.0.1", "2345", testSrvCfg, "", none, false⟩ ⟨[], [false, false, true], [false, true]⟩
      = Outcome.ret (⟨"127.0.0.1", "9999", testSrvCfg, "", some 1, true⟩,
          ⟨[⟨"127.0.0.1", "2345", testSrvCfg, true⟩, ⟨"127.0.0.1", "9999", testSrvCfg, false⟩],
            [true], []⟩) ∧
    aliveCount
        [⟨"127.0.0.1", "2345", testSrvCfg, true⟩, ⟨"127.0.0.1", "9999", testSrvCfg, false⟩]
      ≤ 1 :=
  ⟨by decide,
   (C28_at_most_one_alive_when_replaced_is_killed [false, false, true] [false, true]
      [SSCall.Startup, SSCall.ChangeLocalPort "9999",
       SSCall.ChangeServerConfig ⟨"99.88.77.66", "9876", "AEAD_AES_256_GCM", "mypwd"⟩]
      ⟨"127.0.0.1", "2345", testSrvCfg, "", none, false⟩
      ⟨"127.0.0.1", "9999", testSrvCfg, "", some 1, true⟩
      ⟨[⟨"127.0.0.1", "2345", testSrvCfg, true⟩, ⟨"127.0.0.1", "9999", testSrvCfg, false⟩],
        [true], []⟩
      (by decide) (by decide)).1⟩

/-! ## A field stored while its mode is inactive is applied at the switch -/

/-- C36: on the fake driver in any state, for a running operator in pac mode:
`ChangeLocalPort(p)` followed by `ChangeMode("global")` returns nil both times and leaves
every interface with only the global flag, `globalAddr` the operator's address,
`globalPort = p` and an empty PAC URL. Symmetrically, for a running operator in global
mode, `ChangePACURL(u)` followed by `ChangeMode("pac")` leaves every interface with only
the PAC flag, `pacURL = u` and empty global fields. -/
theorem C36_stored_field_is_applied_at_the_mode_switch (m : mockAPI) (op : OSOperator) :
    (∀ p, op.isStartup = true → op.cfg.mode = config.ModePAC →
      (op.ChangeLocalPort mockDriver p m).1 = none ∧
      (OSOperator.ChangeMode mockDriver (op.ChangeLocalPort mockDriver p m).2.1 "global"
        (op.ChangeLocalPort mockDriver p m).2.2).1 = none ∧
      (OSOperator.ChangeMode mockDriver (op.ChangeLocalPort mockDriver p m).2.1 "global"
        (op.ChangeLocalPort mockDriver p m).2.2).2.1
        = { op with cfg := { op.cfg with mode := "global", localPort := p } } ∧
      ∀ e ∈ (OSOperator.ChangeMode mockDriver (op.ChangeLocalPort mockDriver p m).2.1 "global"
          (op.ChangeLocalPort mockDriver p m).2.2).2.2.settings,
        e.2.globalOn = true ∧ e.2.pacOn = false ∧ e.2.globalAddr = op.cfg.localAddr ∧
          e.2.globalPort = p ∧ e.2.pacURL = "") ∧
    (∀ u, op.isStartup = true → op.cfg.mode = config.ModeGlobal →
      (op.ChangePACURL mockDriver u m).1 = none ∧
      (OSOperator.ChangeMode mockDriver (op.ChangePACURL mockDriver u m).2.1 "pac"
        (op.ChangePACURL mockDriver u m).2.2).1 = none ∧
      (OSOperator.ChangeMode mockDriver (op.ChangePACURL mockDriver u m).2.1 "pac"
        (op.ChangePACURL mockDriver u m).2.2).2.1
        = { op with cfg := { op.cfg with mode := "pac", pacURL := u } } ∧
      ∀ e ∈ (OSOperator.ChangeMode mockDriver (op.ChangePACURL mockDriver u m).2.1 "pac"
          (op.ChangePACURL mockDriver u m).2.2).2.2.settings,
        e.2.pacOn = true ∧ e.2.globalOn = false ∧ e.2.pacURL = u ∧
          e.2.globalAddr = "" ∧ e.2.globalPort = "") := by
  constructor
  · intro p hrun hmode
    rw [ChangeLocalPort_unconsumed mockDriver op p m (Or.inr hmode)]
    have h := mock_ChangeMode_pac_to_global m { op with cfg := { op.cfg with localPort := p } }
      hrun hmode
    have hg : config.ModeGlobal = "global" := rfl
    rw [hg] at h
    dsimp only
    rw [h]
    refine ⟨rfl, rfl, rfl, ?_⟩
    intro e he
    obtain ⟨x, hx⟩ := mockAPI.mem_mapSettings he
    rw [hx]
    exact applied_global op.cfg.localAddr p x
  · intro u hrun hmode
    rw [ChangePACURL_unconsumed mockDriver op u m (Or.inr hmode)]
    have h := mock_ChangeMode_global_to_pac m { op with cfg := { op.cfg with pacURL := u } }
      hrun hmode
    have hg : config.ModePAC = "pac" := rfl
    rw [hg] at h
    dsimp only
    rw [h]
    refine ⟨rfl, rfl, rfl, ?_⟩
    intro e he
    obtain ⟨x, hx⟩ := mockAPI.mem_mapSettings he
    rw [hx]
    exact applied_pac u x

/-- Witness of C36: a running pac operator on the fresh fake driver is given port 9999 and
then switched to global. -/
theorem C36_stored_field_is_applied_at_the_mode_switch_witness :
    (OSOperator.ChangeLocalPort mockDriver
      ⟨⟨"pac", "http://127.0.0.1:1234/proxy.pac", "127.0.0.1", "2234"⟩, true⟩ "9999"
      newMockAPI).1 = none ∧
    ∀ e ∈ (OSOperator.ChangeMode mockDriver
        (OSOperator.ChangeLocalPort mockDriver
          ⟨⟨"pac", "http://127.0.0.1:1234/proxy.pac", "127.0.0.1", "2234"⟩, true⟩ "9999"
          newMockAPI).2.1 "global"
        (OSOperator.ChangeLocalPort mockDriver
          ⟨⟨"pac", "http://127.0.0.1:1234/proxy.pac", "127.0.0.1", "2234"⟩, true⟩ "9999"
          newMockAPI).2.2).2.2.settings,
      e.2.globalOn = true ∧ e.2.pacOn = false ∧ e.2.globalAddr = "127.0.0.1" ∧
        e.2.globalPort = "9999" ∧ e.2.pacURL = "" :=
  ⟨((C36_stored_field_is_applied_at_the_mode_switch newMockAPI
      ⟨⟨"pac", "http://127.0.0.1:1234/proxy.pac", "127.0.0.1", "2234"⟩, true⟩).1 "9999"
      rfl rfl).1,
   ((C36_stored_field_is_applied_at_the_mode_switch newMockAPI
      ⟨⟨"pac", "http://127.0.0.1:1234/proxy.pac", "127.0.0.1", "2234"⟩, true⟩).1 "9999"
      rfl rfl).2.2.2⟩

/-! ## The calls of the clear algorithm -/

theorem traced_clearLoop_auto {σ : Type} (api : osAPI σ) :
    ∀ (nws : List String) (r : Err) (s : σ) (l : List Call),
      clearLoop api.traced.clearAutoProxyFor nws r (s, l)
        = ((clearLoop api.clearAutoProxyFor nws r s).1,
            ((clearLoop api.clearAutoProxyFor nws r s).2,
              l ++ nws.map Call.clearAutoProxyFor)) := by
  intro nws
  induction nws with
  | nil => intro r s l; simp [clearLoop]
  | cons nw rest ih =>
    intro r s l
    have t : api.traced.clearAutoProxyFor nw (s, l)
        = ((api.clearAutoProxyFor nw s).1,
            ((api.clearAutoProxyFor nw s).2, l ++ [Call.clearAutoProxyFor nw])) := rfl
    rcases h : api.clearAutoProxyFor nw s with ⟨e, s1⟩
    rw [h] at t
    cases e with
    | none => simp only [clearLoop, t, h, ih]; simp
    | some err => simp only [clearLoop, t, h, ih]; simp

theorem traced_clearLoop_global {σ : Type} (api : osAPI σ) :
    ∀ (nws : List String) (r : Err) (s : σ) (l : List Call),
      clearLoop api.traced.clearGlobalProxyFor nws r (s, l)
        = ((clearLoop api.clearGlobalProxyFor nws r s).1,
            ((clearLoop api.clearGlobalProxyFor nws r s).2,
              l ++ nws.map Call.clearGlobalProxyFor)) := by
  intro nws
  induction nws with
  | nil => intro r s l; simp [clearLoop]
  | cons nw rest ih =>
    intro r s l
    have t : api.traced.clearGlobalProxyFor nw (s, l)
        = ((api.clearGlobalProxyFor nw s).1,
            ((api.clearGlobalProxyFor nw s).2, l ++ [Call.clearGlobalProxyFor nw])) := rfl
    rcases h : api.clearGlobalProxyFor nw s with ⟨e, s1⟩
    rw [h] at t
    cases e with
    | none => simp only [clearLoop, t, h, ih]; simp
    | some err => simp only [clearLoop, t, h, ih]; simp

theorem traced_clearBothFor {σ : Type} (api : osAPI σ) (nw : String) (s : σ) (l : List Call) :
    clearBothFor api.traced nw (s, l)
      = ((clearBothFor api nw s).1,
          ((clearBothFor api nw s).2,
            l ++ [Call.clearAutoProxyFor nw, Call.clearGlobalProxyFor nw])) := by
  have t1 : api.traced.clearAutoProxyFor nw (s, l)
      = ((api.clearAutoProxyFor nw s).1,
          ((api.clearAutoProxyFor nw s).2, l ++ [Call.clearAutoProxyFor nw])) := rfl
  rcases h1 : api.clearAutoProxyFor nw s with ⟨e1, s1⟩
  rw [h1] at t1
  have t2 : api.traced.clearGlobalProxyFor nw (s1, l ++ [Call.clearAutoProxyFor nw])
      = ((api.clearGlobalProxyFor nw s1).1,
          ((api.clearGlobalProxyFor nw s1).2,
            l ++ [Call.clearAutoProxyFor nw] ++ [Call.clearGlobalProxyFor nw])) := rfl
  rcases h2 : api.clearGlobalProxyFor nw s1 with ⟨e2, s2⟩
  rw [h2] at t2
  simp only [clearBothFor, t1, t2, h1, h2]
  cases e1 <;> cases e2 <;> simp

theorem traced_clearLoop_both {σ : Type} (api : osAPI σ) :
    ∀ (nws : List String) (r : Err) (s : σ) (l : List Call),
      clearLoop (clearBothFor api.traced) nws r (s, l)
        = ((clearLoop (clearBothFor api) nws r s).1,
            ((clearLoop (clearBothFor api) nws r s).2,
              l ++ nws.flatMap
                (fun nw => [Call.clearAutoProxyFor nw, Call.clearGlobalProxyFor nw]))) := by
  intro nws
  induction nws with
  | nil => intro r s l; simp [clearLoop]
  | cons nw rest ih =>
    intro r s l
    have t := traced_clearBothFor api nw s l
    rcases h : clearBothFor api nw s with ⟨e, s1⟩
    rw [h] at t
    cases e with
    | none => simp only [clearLoop, t, h, ih]; simp
    | some err => simp only [clearLoop, t, h, ih]; simp

/-- C31: the clear algorithm on a recording driver, for every driver and every state.
When the enumeration returns the interfaces `nws`, `clearAutoProxy` (resp.
`clearGlobalProxy`) calls the enumeration and then the PAC clear (resp. the global clear)
once for every interface of `nws`, in that order, and `clearAllProxy` calls the PAC clear
and then the global clear for every interface of `nws`, in that order, whatever these
calls return; the result and the driver state are those of the plain run. When the
enumeration fails, its error is returned and the enumeration is the only call. -/
theorem C31_clear_visits_every_enumerated_interface {σ : Type} (api : osAPI σ) (s : σ)
    (l : List Call) :
    (∀ nws s1, api.listAllNetwork s = (Except.ok nws, s1) →
      clearAutoProxy api.traced (s, l)
        = ((clearAutoProxy api s).1,
            ((clearAutoProxy api s).2,
              l ++ [Call.listAllNetwork] ++ nws.map Call.clearAutoProxyFor)) ∧
      clearGlobalProxy api.traced (s, l)
        = ((clearGlobalProxy api s).1,
            ((clearGlobalProxy api s).2,
              l ++ [Call.listAllNetwork] ++ nws.map Call.clearGlobalProxyFor)) ∧
      clearAllProxy api.traced (s, l)
        = ((clearAllProxy api s).1,
            ((clearAllProxy api s).2,
              l ++ [Call.listAllNetwork] ++ nws.flatMap
                (fun nw => [Call.clearAutoProxyFor nw, Call.clearGlobalProxyFor nw])))) ∧
    (∀ err s1, api.listAllNetwork s = (Except.error err, s1) →
      clearAutoProxy api.traced (s, l) = (some err, (s1, l ++ [Call.listAllNetwork])) ∧
      clearGlobalProxy api.traced (s, l) = (some err, (s1, l ++ [Call.listAllNetwork])) ∧
      clearAllProxy api.traced (s, l) = (some err, (s1, l ++ [Call.listAllNetwork]))) := by
  have t : api.traced.listAllNetwork (s, l)
      = ((api.listAllNetwork s).1, ((api.listAllNetwork s).2, l ++ [Call.listAllNetwork])) := rfl
  constructor
  · intro nws s1 h
    rw [h] at t
    refine ⟨?_, ?_, ?_⟩
    · simp only [clearAutoProxy, clearProxy, t, h, traced_clearLoop_auto]
    · simp only [clearGlobalProxy, clearProxy, t, h, traced_clearLoop_global]
    · simp only [clearAllProxy, clearProxy, t, h, traced_clearLoop_both]
  · intro err s1 h
    rw [h] at t
    refine ⟨?_, ?_, ?_⟩
    · simp only [clearAutoProxy, clearProxy, t]
    · simp only [clearGlobalProxy, clearProxy, t]
    · simp only [clearAllProxy, clearProxy, t]

/-- Witness of C31: on the fake driver made to reject every clear call, all four clear
calls of the clear-all pass are made. -/
theorem C31_clear_visits_every_enumerated_interface_witness :
    clearAllProxy (mockDriver.failing rejectClears).traced (newMockAPI, [])
      = ((clearAllProxy (mockDriver.failing rejectClears) newMockAPI).1,
          ((clearAllProxy (mockDriver.failing rejectClears) newMockAPI).2,
            [] ++ [Call.listAllNetwork] ++ ["WiFi", "wlan"].flatMap
              (fun nw => [Call.clearAutoProxyFor nw, Call.clearGlobalProxyFor nw]))) :=
  ((C31_clear_visits_every_enumerated_interface (mockDriver.failing rejectClears) newMockAPI
      []).1 ["WiFi", "wlan"] newMockAPI rfl).2.2

/-! ## The PAC server after a failed bind -/

/-- C32 (the code at the failing input): the PAC server of `testCore`, with port 1234, in
a world where another program already listens on 127.0.0.1:1234. `PACServer.Startup`
returns the listen error, leaving the server object in place and the PAC server not
started; the second `Startup`, also once the address has been freed, panics in
`renewServer`. `ProxyCore.Startup` returns the same error and keeps that PAC server, and
its retry panics as well. -/
theorem C32_startup_after_failed_bind_panics :
    PACServer.Startup testHTTP ⟨none, "1234", [104, 105], "127.0.0.1", "2234", false⟩
        ⟨newMockAPI, [], 1, ["127.0.0.1:1234"], [("pac.js", [104, 105])]⟩
      = Outcome.ret (some "listen tcp 127.0.0.1:1234: address already in use",
          ⟨some "127.0.0.1:1234", "1234", [104, 105], "127.0.0.1", "2234", false⟩,
          ⟨newMockAPI, [], 1, ["127.0.0.1:1234"], [("pac.js", [104, 105])]⟩) ∧
    PACServer.Startup testHTTP
        ⟨some "127.0.0.1:1234", "1234", [104, 105], "127.0.0.1", "2234", false⟩
        ⟨newMockAPI, [], 1, ["127.0.0.1:1234"], [("pac.js", [104, 105])]⟩
      = Outcome.panic "pac server is not nil" ∧
    PACServer.Startup testHTTP
        ⟨some "127.0.0.1:1234", "1234", [104, 105], "127.0.0.1", "2234", false⟩ (testWorld 1)
      = Outcome.panic "pac server is not nil" ∧
    ProxyCore.Startup fakeEnv (testCore "pac")
        ⟨newMockAPI, [], 1, ["127.0.0.1:1234"], [("pac.js", [104, 105])]⟩
      = Outcome.ret (some "listen tcp 127.0.0.1:1234: address already in use",
          { testCore "pac" with
              pacSrv := ⟨some "127.0.0.1:1234", "1234", [104, 105], "127.0.0.1", "2234", false⟩ },
          ⟨newMockAPI, [], 1, ["127.0.0.1:1234"], [("pac.js", [104, 105])]⟩) ∧
    ProxyCore.Startup fakeEnv
        { testCore "pac" with
            pacSrv := ⟨some "127.0.0.1:1234", "1234", [104, 105], "127.0.0.1", "2234", false⟩ }
        (testWorld 1)
      = Outcome.panic "pac server is not nil" := by
  decide

/-! ## The PAC port recorded by ProxyCore -/

/-- C33 (the code at the failing input): the started pac-mode core `runningCore "pac"`, with
its PAC server on port 1234, is moved to port 5678 and then back to 1234. The first
`ChangePACPort` returns nil and the held server listens on 127.0.0.1:5678, but the recorded
`pacPort` is still 1234; the second call therefore returns nil at its guard without doing
anything: the PAC server stays on port 5678 and the operator keeps the URL of port 5678. -/
theorem C33_recorded_pac_port_is_never_updated :
    ProxyCore.ChangePACPort fakeEnv (runningCore "pac") "5678" (runningWorld "pac" 1)
      = Outcome.ret (none,
          { runningCore "pac" with
              pacSrv := ⟨some "127.0.0.1:5678", "5678", [104, 105], "127.0.0.1", "2234", true⟩,
              op := ⟨⟨"pac", "http://127.0.0.1:5678/proxy.pac", "127.0.0.1", "2234"⟩, true⟩ },
          { runningWorld "pac" 1 with
              drv := newMockAPI.mapSettings
                (mockSettings.setAuto "http://127.0.0.1:5678/proxy.pac"),
              listening := ["127.0.0.1:5678"] }) ∧
    ({ runningCore "pac" with
        pacSrv := ⟨some "127.0.0.1:5678", "5678", [104, 105], "127.0.0.1", "2234", true⟩,
        op := ⟨⟨"pac", "http://127.0.0.1:5678/proxy.pac", "127.0.0.1", "2234"⟩, true⟩
      } : ProxyCore).pacPort = "1234" ∧
    ProxyCore.ChangePACPort fakeEnv.traced
        { runningCore "pac" with
            pacSrv := ⟨some "127.0.0.1:5678", "5678", [104, 105], "127.0.0.1", "2234", true⟩,
            op := ⟨⟨"pac", "http://127.0.0.1:5678/proxy.pac", "127.0.0.1", "2234"⟩, true⟩ }
        "1234"
        ({ runningWorld "pac" 1 with
            drv := newMockAPI.mapSettings
              (mockSettings.setAuto "http://127.0.0.1:5678/proxy.pac"),
            listening := ["127.0.0.1:5678"] }, [])
      = Outcome.ret (none,
          { runningCore "pac" with
              pacSrv := ⟨some "127.0.0.1:5678", "5678", [104, 105], "127.0.0.1", "2234", true⟩,
              op := ⟨⟨"pac", "http://127.0.0.1:5678/proxy.pac", "127.0.0.1", "2234"⟩, true⟩ },
          ({ runningWorld "pac" 1 with
              drv := newMockAPI.mapSettings
                (mockSettings.setAuto "http://127.0.0.1:5678/proxy.pac"),
              listening := ["127.0.0.1:5678"] }, [])) := by
  decide

/-! ## Reconfiguring a core that is not started -/

/-- C34 (the code at the failing input): the core `testCore "pac"` as `NewProxyCore` builds
it, never started, in a world where nothing listens. `ChangePACPort "5678"` reads the PAC
file and starts a new PAC server: it returns nil with the core still not started, the held
PAC server running and 127.0.0.1:5678 being listened on; `Shutdown` of the core then does
nothing and the address stays listened on. On the same core `ChangeMode`,
`ChangeLocalPort` and `ChangeServerConfig` make no call at all. -/
theorem C34_change_pac_port_starts_server_on_stopped_core :
    NewProxyCore fakeEnv "1234" "pac.js" "2234" "pac" testSrvCfg "" (testWorld 1)
      = (Except.ok (testCore "pac"), testWorld 1) ∧
    ProxyCore.ChangePACPort fakeEnv.traced (testCore "pac") "5678" (testWorld 1, [])
      = Outcome.ret (none,
          { testCore "pac" with
              pacSrv := ⟨some "127.0.0.1:5678", "5678", [104, 105], "127.0.0.1", "2234", true⟩,
              op := ⟨⟨"pac", "http://127.0.0.1:5678/proxy.pac", "127.0.0.1", "2234"⟩, false⟩ },
          ({ testWorld 1 with listening := ["127.0.0.1:5678"] },
            [Event.readFile "pac.js", Event.listenAndServe "127.0.0.1:5678"])) ∧
    ({ testCore "pac" with
        pacSrv := ⟨some "127.0.0.1:5678", "5678", [104, 105], "127.0.0.1", "2234", true⟩,
        op := ⟨⟨"pac", "http://127.0.0.1:5678/proxy.pac", "127.0.0.1", "2234"⟩, false⟩
      } : ProxyCore).isStartup = false ∧
    ProxyCore.Shutdown fakeEnv.traced
        { testCore "pac" with
            pacSrv := ⟨some "127.0.0.1:5678", "5678", [104, 105], "127.0.0.1", "2234", true⟩,
            op := ⟨⟨"pac", "http://127.0.0.1:5678/proxy.pac", "127.0.0.1", "2234"⟩, false⟩ }
        ({ testWorld 1 with listening := ["127.0.0.1:5678"] }, [])
      = ({ testCore "pac" with
            pacSrv := ⟨some "127.0.0.1:5678", "5678", [104, 105], "127.0.0.1", "2234", true⟩,
            op := ⟨⟨"pac", "http://127.0.0.1:5678/proxy.pac", "127.0.0.1", "2234"⟩, false⟩ },
          ({ testWorld 1 with listening := ["127.0.0.1:5678"] }, [])) ∧
    (ProxyCore.ChangeMode fakeEnv.traced (testCore "pac") "global" (testWorld 1, [])).2.2
      = (testWorld 1, []) ∧
    ProxyCore.ChangeLocalPort fakeEnv.traced (testCore "pac") "9999" (testWorld 1, [])
      = Outcome.ret (none,
          { testCore "pac" with
              pacSrv := ⟨none, "1234", [104, 105], "127.0.0.1", "9999", false⟩,
              ss := ⟨"127.0.0.1", "9999", testSrvCfg, "", none, false⟩,
              op := ⟨⟨"pac", "http://127.0.0.1:1234/proxy.pac", "127.0.0.1", "9999"⟩, false⟩,
              localPort := "9999" },
          (testWorld 1, [])) ∧
    ProxyCore.ChangeServerConfig fakeEnv.traced (testCore "pac")
        ⟨"99.88.77.66", "9876", "AEAD_AES_256_GCM", "mypwd"⟩ (testWorld 1, [])
      = Outcome.ret (none,
          { testCore "pac" with
              ss := ⟨"127.0.0.1", "2234",
                ⟨"99.88.77.66", "9876", "AEAD_AES_256_GCM", "mypwd"⟩, "", none, false⟩,
              srvCfg := ⟨"99.88.77.66", "9876", "AEAD_AES_256_GCM", "mypwd"⟩ },
          (testWorld 1, [])) :=
  ⟨rfl, by decide, by decide, by decide, by decide, by decide, by decide⟩

/-! ## The defensive pre-clear when clearing may fail -/

theorem mockAPI.modify_not_has (m : mockAPI) (nw : String) (f : mockSettings → mockSettings)
    (h : m.has nw = false) : m.modify nw f = m := by
  have hk : ∀ e ∈ m.settings, e.1 ≠ nw := by
    intro e he heq
    have : m.has nw = true := by
      rw [mockAPI.has_iff]
      exact heq ▸ List.mem_map_of_mem Prod.fst he
    rw [h] at this
    cases this
  rcases m with ⟨l⟩
  simp only [mockAPI.modify, mockAPI.mk.injEq]
  conv_rhs => rw [← List.map_id l]
  apply List.map_congr_left
  intro e he
  simp [hk e he]

theorem mockAPI.modify_same (m : mockAPI) (nw : String) : m.modify nw (fun x => x) = m := by
  rcases m with ⟨l⟩
  simp only [mockAPI.modify, mockAPI.mk.injEq]
  conv_rhs => rw [← List.map_id l]
  apply List.map_congr_left
  intro e _
  rcases e with ⟨a, b⟩
  simp

theorem preCleared_idem (bad : Call → Bool) (nw : String) (x : mockSettings) :
    preCleared bad nw (preCleared bad nw x) = preCleared bad nw x := by
  unfold preCleared
  cases bad (Call.clearGlobalProxyFor nw) <;> cases bad (Call.clearAutoProxyFor nw) <;>
    simp [mockSettings.clearAuto_idem, mockSettings.clearGlobal_idem,
      mockSettings.clearBoth_idem]

theorem failing_clearBothFor_state (bad : Call → Bool) (nw : String) (m : mockAPI) :
    (clearBothFor (mockDriver.failing bad) nw m).2 = m.modify nw (preCleared bad nw) := by
  by_cases hh : m.has nw = true
  · cases ha : bad (Call.clearAutoProxyFor nw) <;> cases hg : bad (Call.clearGlobalProxyFor nw)
    · have hpc : preCleared bad nw = fun x => x.clearAuto.clearGlobal := by
        funext x; simp [preCleared, ha, hg]
      simp [clearBothFor, osAPI.failing, mockDriver, mockAPI.clearAutoProxyFor,
        mockAPI.clearGlobalProxyFor, ha, hg, hh, mockAPI.modify_has, mockAPI.modify_modify, hpc]
    · have hpc : preCleared bad nw = mockSettings.clearAuto := by
        funext x; simp [preCleared, ha, hg]
      simp [clearBothFor, osAPI.failing, mockDriver, mockAPI.clearAutoProxyFor, ha, hg, hh, hpc]
    · have hpc : preCleared bad nw = mockSettings.clearGlobal := by
        funext x; simp [preCleared, ha, hg]
      simp [clearBothFor, osAPI.failing, mockDriver, mockAPI.clearGlobalProxyFor, ha, hg, hh,
        hpc]
    · have hpc : preCleared bad nw = fun x => x := by
        funext x; simp [preCleared, ha, hg]
      simp [clearBothFor, osAPI.failing, ha, hg, hpc, mockAPI.modify_same]
  · simp only [Bool.not_eq_true] at hh
    rw [mockAPI.modify_not_has m nw _ hh]
    cases ha : bad (Call.clearAutoProxyFor nw) <;> cases hg : bad (Call.clearGlobalProxyFor nw) <;>
      simp [clearBothFor, osAPI.failing, mockDriver, mockAPI.clearAutoProxyFor,
        mockAPI.clearGlobalProxyFor, ha, hg, hh]

theorem mockAPI.modify_then_map_dep (m : mockAPI) (k : String) (ks : List String)
    (G : String → mockSettings → mockSettings) (hG : ∀ k x, G k (G k x) = G k x) :
    (m.modify k (G k)).settings.map (fun e => if e.1 ∈ ks then (e.1, G e.1 e.2) else e)
      = m.settings.map (fun e => if e.1 ∈ k :: ks then (e.1, G e.1 e.2) else e) := by
  simp only [mockAPI.modify, List.map_map]
  apply List.map_congr_left
  intro e _
  by_cases h1 : e.1 = k
  · subst h1
    by_cases h2 : e.1 ∈ ks <;> simp [h2, hG]
  · by_cases h2 : e.1 ∈ ks <;> simp [h1, h2]

theorem clearLoop_state (clearFun : String → mockAPI → Err × mockAPI)
    (G : String → mockSettings → mockSettings) (hG : ∀ k x, G k (G k x) = G k x)
    (hstep : ∀ nw m, (clearFun nw m).2 = m.modify nw (G nw)) :
    ∀ (ks : List String) (r : Err) (m : mockAPI),
      (clearLoop clearFun ks r m).2
        = ⟨m.settings.map (fun e => if e.1 ∈ ks then (e.1, G e.1 e.2) else e)⟩ := by
  intro ks
  induction ks with
  | nil => intro r m; simp [clearLoop]
  | cons k ks ih =>
    intro r m
    have hs := hstep k m
    rcases h : clearFun k m with ⟨e, s1⟩
    rw [h] at hs
    simp only at hs
    subst hs
    cases e with
    | none =>
      simp only [clearLoop, h]
      rw [ih, mockAPI.modify_then_map_dep m k ks G hG]
    | some err =>
      simp only [clearLoop, h]
      rw [ih, mockAPI.modify_then_map_dep m k ks G hG]

theorem setLoop_ok_state (api : osAPI mockAPI) (setFunc : String → mockAPI → Err × mockAPI)
    (f : mockSettings → mockSettings) (hf : ∀ x, f (f x) = f x)
    (hstep : ∀ nw m, (setFunc nw m).1 = none → (setFunc nw m).2 = m.modify nw f) :
    ∀ (ks : List String) (m m' : mockAPI), setLoop api setFunc ks m = (none, m') →
      m' = ⟨m.settings.map (fun e => if e.1 ∈ ks then (e.1, f e.2) else e)⟩ := by
  intro ks
  induction ks with
  | nil =>
    intro m m' h
    simp only [setLoop, Prod.mk.injEq, true_and] at h
    subst h
    simp
  | cons k ks ih =>
    intro m m' h
    have hs := hstep k m
    rcases hk : setFunc k m with ⟨e, s1⟩
    rw [hk] at hs
    cases e with
    | some err => simp [setLoop, hk] at h
    | none =>
      simp only [setLoop, hk] at h
      have hs' : s1 = m.modify k f := hs rfl
      subst hs'
      rw [ih _ _ h, mockAPI.modify_then_map m k ks f hf]

theorem mockAPI.map_all_keys_dep (m : mockAPI) (G : String → mockSettings → mockSettings) :
    m.settings.map (fun e => if e.1 ∈ m.settings.map Prod.fst then (e.1, G e.1 e.2) else e)
      = m.settings.map (fun e => (e.1, G e.1 e.2)) := by
  apply List.map_congr_left
  intro e he
  have : e.1 ∈ m.settings.map Prod.fst := List.mem_map_of_mem Prod.fst he
  simp [this]

/-- On the fake driver with injected faults: when `setProxy` returns nil, every interface
holds what the set call makes of what the pre-clear left there. -/
theorem failing_setProxy_ok (bad : Call → Bool) (setFunc : String → mockAPI → Err × mockAPI)
    (f : mockSettings → mockSettings) (hf : ∀ x, f (f x) = f x)
    (hstep : ∀ nw m, (setFunc nw m).1 = none → (setFunc nw m).2 = m.modify nw f)
    (m m' : mockAPI) (h : setProxy (mockDriver.failing bad) setFunc m = (none, m')) :
    m' = ⟨m.settings.map (fun e => (e.1, f (preCleared bad e.1 e.2)))⟩ := by
  unfold setProxy at h
  by_cases hb : bad Call.listAllNetwork = true
  · simp [osAPI.failing, hb] at h
  · simp only [Bool.not_eq_true] at hb
    have hl : ∀ s, (mockDriver.failing bad).listAllNetwork s
        = (Except.ok (s.settings.map Prod.fst), s) := by
      intro s
      simp [osAPI.failing, hb, mockDriver, mockAPI.listAllNetwork]
    have hc : (clearAllProxy (mockDriver.failing bad) m).2
        = ⟨m.settings.map (fun e => (e.1, preCleared bad e.1 e.2))⟩ := by
      simp only [clearAllProxy, clearProxy, hl]
      rw [clearLoop_state _ (preCleared bad) (preCleared_idem bad)
        (failing_clearBothFor_state bad), mockAPI.map_all_keys_dep]
    rw [hc, hl] at h
    simp only at h
    have h2 := setLoop_ok_state _ setFunc f hf hstep _ _ _ h
    rw [h2]
    have hkeys : (m.settings.map (fun e => (e.1, preCleared bad e.1 e.2))).map Prod.fst
        = m.settings.map Prod.fst := by
      simp [List.map_map, Function.comp_def]
    simp only [mockAPI.mk.injEq, List.map_map]
    apply List.map_congr_left
    intro e he
    have : e.1 ∈ m.settings.map Prod.fst := List.mem_map_of_mem Prod.fst he
    simp [Function.comp_def, this]

theorem failing_setAuto_step (bad : Call → Bool) (url nw : String) (m : mockAPI)
    (h : ((mockDriver.failing bad).setAutoProxyFor nw url m).1 = none) :
    ((mockDriver.failing bad).setAutoProxyFor nw url m).2
      = m.modify nw (mockSettings.setAuto url) := by
  cases hb : bad (Call.setAutoProxyFor nw url)
  · cases hh : m.has nw
    · simp [osAPI.failing, hb, mockDriver, mockAPI.setAutoProxyFor, hh] at h
    · simp [osAPI.failing, hb, mockDriver, mockAPI.setAutoProxyFor, hh]
  · simp [osAPI.failing, hb] at h

theorem failing_setGlobal_step (bad : Call → Bool) (addr port nw : String) (m : mockAPI)
    (h : ((mockDriver.failing bad).setGlobalProxyFor nw addr port m).1 = none) :
    ((mockDriver.failing bad).setGlobalProxyFor nw addr port m).2
      = m.modify nw (mockSettings.setGlobal addr port) := by
  cases hb : bad (Call.setGlobalProxyFor nw addr port)
  · cases hh : m.has nw
    · simp [osAPI.failing, hb, mockDriver, mockAPI.setGlobalProxyFor, hh] at h
    · simp [osAPI.failing, hb, mockDriver, mockAPI.setGlobalProxyFor, hh]
  · simp [osAPI.failing, hb] at h

theorem setAuto_keeps_global_off (u : String) (x : mockSettings) (h : x.globalOn = false) :
    (x.setAuto u).globalOn = false := by
  have h0 : x.mode &&& modeGlobal = 0 := by
    simpa [mockSettings.globalOn] using h
  have h1 : (x.mode ||| modePAC) &&& modeGlobal = 0 := by
    apply Nat.eq_of_testBit_eq
    intro i
    have hi : (x.mode &&& modeGlobal).testBit i = false := by rw [h0]; simp
    simp only [Nat.testBit_and, Nat.testBit_or, Nat.zero_testBit] at hi ⊢
    rcases i with _ | _ | i
    · have : modeGlobal.testBit 0 = false := by decide
      simp [this]
    · have h2 : modePAC.testBit 1 = false := by decide
      simpa [h2] using hi
    · have : modeGlobal.testBit (i + 2) = false := testBit_small _ _ (by decide)
      simp [this]
  simp [mockSettings.globalOn, mockSettings.setAuto, h1]

theorem setGlobal_keeps_pac_off (a p : String) (x : mockSettings) (h : x.pacOn = false) :
    (x.setGlobal a p).pacOn = false := by
  have h0 : x.mode &&& modePAC = 0 := by
    simpa [mockSettings.pacOn] using h
  have h1 : (x.mode ||| modeGlobal) &&& modePAC = 0 := by
    apply Nat.eq_of_testBit_eq
    intro i
    have hi : (x.mode &&& modePAC).testBit i = false := by rw [h0]; simp
    simp only [Nat.testBit_and, Nat.testBit_or, Nat.zero_testBit] at hi ⊢
    rcases i with _ | _ | i
    · have h2 : modeGlobal.testBit 0 = false := by decide
      simpa [h2] using hi
    · have : modePAC.testBit 1 = false := by decide
      simp [this]
    · have : modePAC.testBit (i + 2) = false := testBit_small _ _ (by decide)
      simp [this]
  simp [mockSettings.pacOn, mockSettings.setGlobal, h1]

theorem preCleared_global_off (bad : Call → Bool) (nw : String) (x : mockSettings)
    (h : bad (Call.clearGlobalProxyFor nw) = false) :
    (preCleared bad nw x).globalOn = false ∧ (preCleared bad nw x).globalAddr = "" ∧
      (preCleared bad nw x).globalPort = "" := by
  unfold preCleared
  simp only [h, Bool.false_eq_true, if_false]
  exact ⟨flag_lemma_cleared_global _, rfl, rfl⟩

theorem preCleared_pac_off (bad : Call → Bool) (nw : String) (x : mockSettings)
    (h : bad (Call.clearAutoProxyFor nw) = false) :
    (preCleared bad nw x).pacOn = false ∧ (preCleared bad nw x).pacURL = "" := by
  unfold preCleared
  simp only [h, Bool.false_eq_true, if_false]
  cases bad (Call.clearGlobalProxyFor nw)
  · exact ⟨clearGlobal_keeps_pac_off _ (flag_lemma_cleared_pac _), rfl⟩
  · exact ⟨flag_lemma_cleared_pac _, rfl⟩

/-- Counterexample to C35 as stated: the interface `WiFi` still holds the global setting
127.0.0.1:2234 and the fake driver rejects clearing global mode on `WiFi`. The pre-clear
fails on `WiFi`, but `OSOperator.Startup` in pac mode returns nil and the operator is
running: `WiFi` is left with PAC mode and global mode both active. -/
theorem C35_counterexample_failed_pre_clear_goes_unreported :
    (clearAllProxy (mockDriver.failing (fun c => decide (c = Call.clearGlobalProxyFor "WiFi")))
        ⟨[("WiFi", { mode := 2, globalAddr := "127.0.0.1", globalPort := "2234" }),
          ("wlan", {})]⟩).1
      = some "clear WiFi error: driver failure; " ∧
    OSOperator.Startup (mockDriver.failing (fun c => decide (c = Call.clearGlobalProxyFor "WiFi")))
        ⟨⟨"pac", "http://127.0.0.1:1234/proxy.pac", "127.0.0.1", "2234"⟩, false⟩
        ⟨[("WiFi", { mode := 2, globalAddr := "127.0.0.1", globalPort := "2234" }),
          ("wlan", {})]⟩
      = (none, ⟨⟨"pac", "http://127.0.0.1:1234/proxy.pac", "127.0.0.1", "2234"⟩, true⟩,
          ⟨[("WiFi", { mode := 3, pacURL := "http://127.0.0.1:1234/proxy.pac",
                       globalAddr := "127.0.0.1", globalPort := "2234" }),
            ("wlan", { mode := 1, pacURL := "http://127.0.0.1:1234/proxy.pac" })]⟩) ∧
    mockSettings.globalOn { mode := 3, pacURL := "http://127.0.0.1:1234/proxy.pac",
                            globalAddr := "127.0.0.1", globalPort := "2234" } = true ∧
    mockSettings.pacOn { mode := 3, pacURL := "http://127.0.0.1:1234/proxy.pac",
                         globalAddr := "127.0.0.1", globalPort := "2234" } = true := by
  decide

/-- C35 (as amended): on the fake driver with injected faults, where every call may fail on
its own. When `resetProxy` for the configuration `cfg` returns nil (so `OSOperator.Startup`
of a stopped operator returns nil and marks it running, and a re-apply in the same mode
returns nil), the interfaces are the same as before and every one of them has the mode of
`cfg` active with the values of `cfg`; the other mode is inactive, with its values empty,
on every interface on which the clear call for that other mode is not rejected. A failure
of the pre-clear is not reported. -/
theorem C35_successful_apply_clears_other_mode_where_clear_is_accepted (bad : Call → Bool)
    (cfg : opConfig) (m m' : mockAPI)
    (hres : resetProxy (mockDriver.failing bad) cfg m = (none, m')) :
    OSOperator.Startup (mockDriver.failing bad) ⟨cfg, false⟩ m = (none, ⟨cfg, true⟩, m') ∧
    (∀ op : OSOperator, op.cfg.mode = cfg.mode →
      op.reStartup (mockDriver.failing bad) cfg m = (none, m')) ∧
    m'.settings.map Prod.fst = m.settings.map Prod.fst ∧
    (cfg.mode = config.ModePAC ∨ cfg.mode = config.ModeGlobal) ∧
    (cfg.mode = config.ModePAC → ∀ e ∈ m'.settings,
      e.2.pacOn = true ∧ e.2.pacURL = cfg.pacURL ∧
      (bad (Call.clearGlobalProxyFor e.1) = false →
        e.2.globalOn = false ∧ e.2.globalAddr = "" ∧ e.2.globalPort = "")) ∧
    (cfg.mode = config.ModeGlobal → ∀ e ∈ m'.settings,
      e.2.globalOn = true ∧ e.2.globalAddr = cfg.localAddr ∧
      e.2.globalPort = cfg.localPort ∧
      (bad (Call.clearAutoProxyFor e.1) = false → e.2.pacOn = false ∧ e.2.pacURL = "")) := by
  have hstart : OSOperator.Startup (mockDriver.failing bad) ⟨cfg, false⟩ m
      = (none, ⟨cfg, true⟩, m') := by
    simp [OSOperator.Startup, hres]
  have hre : ∀ op : OSOperator, op.cfg.mode = cfg.mode →
      op.reStartup (mockDriver.failing bad) cfg m = (none, m') := by
    intro op h
    rw [reStartup_same_mode _ _ _ _ h.symm, hres]
  have hmode := resetProxy_ok_mode_known _ cfg m (by rw [hres])
  by_cases hp : cfg.mode = config.ModePAC
  · have h : setProxy (mockDriver.failing bad)
        (fun nw => (mockDriver.failing bad).setAutoProxyFor nw cfg.pacURL) m = (none, m') := by
      simpa [resetProxy, hp, setAutoProxy] using hres
    have hm := failing_setProxy_ok bad _ (mockSettings.setAuto cfg.pacURL)
      (mockSettings.setAuto_idem cfg.pacURL)
      (fun nw s => failing_setAuto_step bad cfg.pacURL nw s) m m' h
    refine ⟨hstart, hre, ?_, hmode, ?_, ?_⟩
    · rw [hm]; simp [List.map_map, Function.comp_def]
    · intro _ e he
      rw [hm] at he
      obtain ⟨a, ha, hae⟩ := List.mem_map.1 he
      rw [← hae]
      refine ⟨flag_lemma_pac_on _, rfl, ?_⟩
      intro hb
      obtain ⟨g1, g2, g3⟩ := preCleared_global_off bad a.1 a.2 hb
      exact ⟨setAuto_keeps_global_off _ _ g1, g2, g3⟩
    · intro hg
      rw [hp] at hg
      exact absurd hg mode_pac_ne_global
  · have hg : cfg.mode = config.ModeGlobal := by
      rcases hmode with h | h
      · exact absurd h hp
      · exact h
    have h : setProxy (mockDriver.failing bad)
        (fun nw => (mockDriver.failing bad).setGlobalProxyFor nw cfg.localAddr cfg.localPort) m
        = (none, m') := by
      simpa [resetProxy, hg, mode_pac_ne_global.symm, setGlobalProxy] using hres
    have hm := failing_setProxy_ok bad _ (mockSettings.setGlobal cfg.localAddr cfg.localPort)
      (mockSettings.setGlobal_idem cfg.localAddr cfg.localPort)
      (fun nw s => failing_setGlobal_step bad cfg.localAddr cfg.localPort nw s) m m' h
    refine ⟨hstart, hre, ?_, hmode, ?_, ?_⟩
    · rw [hm]; simp [List.map_map, Function.comp_def]
    · intro h'
      exact absurd h' hp
    · intro _ e he
      rw [hm] at he
      obtain ⟨a, ha, hae⟩ := List.mem_map.1 he
      rw [← hae]
      refine ⟨flag_lemma_global_on _, rfl, rfl, ?_⟩
      intro hb
      obtain ⟨g1, g2⟩ := preCleared_pac_off bad a.1 a.2 hb
      exact ⟨setGlobal_keeps_pac_off _ _ _ g1, g2⟩

/-- The scenario of the witness of C35: the stale global setting of `WiFi` survives the
rejected clear and PAC mode is applied on top of it. -/
theorem scenario_stale_global_survives :
    resetProxy (mockDriver.failing (fun c => decide (c = Call.clearGlobalProxyFor "WiFi")))
        ⟨"pac", "u", "127.0.0.1", "2234"⟩
        ⟨[("WiFi", { mode := 2, globalAddr := "127.0.0.1", globalPort := "2234" }),
          ("wlan", { mode := 2, globalAddr := "127.0.0.1", globalPort := "2234" })]⟩
      = (none,
          ⟨[("WiFi", { mode := 3, pacURL := "u", globalAddr := "127.0.0.1",
                       globalPort := "2234" }),
            ("wlan", { mode := 1, pacURL := "u" })]⟩) := by
  decide

/-- Witness of C35 (as amended): both interfaces hold a stale global setting and only the
clear of global mode on `WiFi` is rejected; after the successful apply of pac mode, `wlan`
has PAC mode only and `WiFi` has PAC mode as well. -/
theorem C35_successful_apply_clears_other_mode_where_clear_is_accepted_witness :
    resetProxy (mockDriver.failing (fun c => decide (c = Call.clearGlobalProxyFor "WiFi")))
        ⟨"pac", "u", "127.0.0.1", "2234"⟩
        ⟨[("WiFi", { mode := 2, globalAddr := "127.0.0.1", globalPort := "2234" }),
          ("wlan", { mode := 2, globalAddr := "127.0.0.1", globalPort := "2234" })]⟩
      = (none,
          ⟨[("WiFi", { mode := 3, pacURL := "u", globalAddr := "127.0.0.1",
                       globalPort := "2234" }),
            ("wlan", { mode := 1, pacURL := "u" })]⟩) ∧
    ∀ e ∈ (⟨[("WiFi", { mode := 3, pacURL := "u", globalAddr := "127.0.0.1",
                        globalPort := "2234" }),
             ("wlan", { mode := 1, pacURL := "u" })]⟩ : mockAPI).settings,
      e.2.pacOn = true ∧ e.2.pacURL = "u" ∧
      ((fun c => decide (c = Call.clearGlobalProxyFor "WiFi")) (Call.clearGlobalProxyFor e.1)
          = false →
        e.2.globalOn = false ∧ e.2.globalAddr = "" ∧ e.2.globalPort = "") :=
  ⟨scenario_stale_global_survives,
   (C35_successful_apply_clears_other_mode_where_clear_is_accepted
      (fun c => decide (c = Call.clearGlobalProxyFor "WiFi"))
      ⟨"pac", "u", "127.0.0.1", "2234"⟩ _ _ scenario_stale_global_survives).2.2.2.2.1 rfl⟩

/-! ## Changing the PAC port back to the port the core was created with -/

/-- C14 (the code at the failing input): the started global-mode core `runningCore "global"`,
with its PAC server on port 1234. `ChangePACPort "8080"` returns nil after reading the PAC
file, listening on 127.0.0.1:8080 and shutting the old server down; the result is a started
core whose PAC server runs on port 8080, with 127.0.0.1:1234 free and the PAC file readable.
For this core 1234 is not the current PAC port, yet `ChangePACPort "1234"` returns nil
without a single call: the PAC server is still the one on port 8080 and nothing listens on
127.0.0.1:1234, because the port ProxyCore recorded is still 1234. -/
theorem C14_change_to_recorded_port_leaves_server_in_place :
    ProxyCore.ChangePACPort fakeEnv.traced (runningCore "global") "8080"
        (runningWorld "global" 1, [])
      = Outcome.ret (none,
          { runningCore "global" with
              pacSrv := ⟨some "127.0.0.1:8080", "8080", [104, 105], "127.0.0.1", "2234", true⟩,
              op := ⟨⟨"global", "http://127.0.0.1:8080/proxy.pac", "127.0.0.1", "2234"⟩, true⟩ },
          ({ runningWorld "global" 1 with listening := ["127.0.0.1:8080"] },
            [Event.readFile "pac.js", Event.listenAndServe "127.0.0.1:8080",
             Event.shutdown "127.0.0.1:1234"])) ∧
    ProxyCore.StartedOn
      { runningCore "global" with
          pacSrv := ⟨some "127.0.0.1:8080", "8080", [104, 105], "127.0.0.1", "2234", true⟩,
          op := ⟨⟨"global", "http://127.0.0.1:8080/proxy.pac", "127.0.0.1", "2234"⟩, true⟩ }
      { runningWorld "global" 1 with listening := ["127.0.0.1:8080"] } ∧
    ({ runningCore "global" with
        pacSrv := ⟨some "127.0.0.1:8080", "8080", [104, 105], "127.0.0.1", "2234", true⟩,
        op := ⟨⟨"global", "http://127.0.0.1:8080/proxy.pac", "127.0.0.1", "2234"⟩, true⟩
      } : ProxyCore).pacPort = "1234" ∧
    "127.0.0.1:1234" ∉
      ({ runningWorld "global" 1 with listening := ["127.0.0.1:8080"] } : TestWorld).listening ∧
    ({ runningWorld "global" 1 with listening := ["127.0.0.1:8080"] } : TestWorld).files.lookup
        "pac.js" = some [104, 105] ∧
    ProxyCore.ChangePACPort fakeEnv.traced
        { runningCore "global" with
            pacSrv := ⟨some "127.0.0.1:8080", "8080", [104, 105], "127.0.0.1", "2234", true⟩,
            op := ⟨⟨"global", "http://127.0.0.1:8080/proxy.pac", "127.0.0.1", "2234"⟩, true⟩ }
        "1234" ({ runningWorld "global" 1 with listening := ["127.0.0.1:8080"] }, [])
      = Outcome.ret (none,
          { runningCore "global" with
              pacSrv := ⟨some "127.0.0.1:8080", "8080", [104, 105], "127.0.0.1", "2234", true⟩,
              op := ⟨⟨"global", "http://127.0.0.1:8080/proxy.pac", "127.0.0.1", "2234"⟩, true⟩ },
          ({ runningWorld "global" 1 with listening := ["127.0.0.1:8080"] }, [])) :=
  ⟨by decide,
   { core_started := rfl
     op_running := rfl
     mode_known := by decide
     op_mode := rfl
     op_url := by decide
     ss_running := rfl
     ss_live := ⟨0, newSSProcessMock "127.0.0.1" "2234" testSrvCfg, rfl, rfl, rfl, rfl, rfl⟩
     ss_port := rfl
     op_port := rfl
     pac_port := rfl
     pac_running := rfl
     pac_server := by decide
     pac_listening := by decide
     ifaces := by unfold ifacesReflect; decide },
   by decide, by decide, by decide, by decide⟩

/-! ## ChangeMode when driver calls may fail -/

theorem clearLoop_some_stays {σ : Type} (cf : String → σ → Err × σ) :
    ∀ (ks : List String) (e : String) (s : σ), ∃ e', (clearLoop cf ks (some e) s).1 = some e' := by
  intro ks
  induction ks with
  | nil => intro e s; exact ⟨e, rfl⟩
  | cons k ks ih =>
    intro e s
    rcases h : cf k s with ⟨r, s1⟩
    cases r with
    | none => simp only [clearLoop, h]; exact ih e s1
    | some err => simp only [clearLoop, h]; exact ih _ s1

/-- When the loop of `clearProxy` ends without an error, no clear call was rejected. -/
theorem clearLoop_none_all_ok {σ : Type} (cf : String → σ → Err × σ) (badk : String → Bool)
    (hbad : ∀ k s, badk k = true → ∃ e, (cf k s).1 = some e) :
    ∀ (ks : List String) (r : Err) (s : σ), (clearLoop cf ks r s).1 = none →
      ∀ k ∈ ks, badk k = false := by
  intro ks
  induction ks with
  | nil => intro r s _ k hk; cases hk
  | cons k ks ih =>
    intro r s h k' hk'
    rcases hc : cf k s with ⟨e, s1⟩
    cases e with
    | some err =>
      simp only [clearLoop, hc] at h
      obtain ⟨e', he'⟩ := clearLoop_some_stays cf ks ("clear " ++ k ++ " error: " ++ err ++ "; ") s1
      rw [he'] at h
      cases h
    | none =>
      simp only [clearLoop, hc] at h
      rcases List.mem_cons.1 hk' with e1 | e1
      · cases hb : badk k'
        · rfl
        · rw [e1] at hb
          obtain ⟨e, he⟩ := hbad k s hb
          rw [hc] at he
          cases he
      · exact ih r s1 h k' e1

theorem failing_clearAuto_state (bad : Call → Bool) (nw : String) (m : mockAPI) :
    ((mockDriver.failing bad).clearAutoProxyFor nw m).2
      = m.modify nw (fun x => if bad (Call.clearAutoProxyFor nw) then x else x.clearAuto) := by
  cases hb : bad (Call.clearAutoProxyFor nw)
  · cases hh : m.has nw
    · rw [mockAPI.modify_not_has m nw _ hh]
      simp [osAPI.failing, hb, mockDriver, mockAPI.clearAutoProxyFor, hh]
    · simp [osAPI.failing, hb, mockDriver, mockAPI.clearAutoProxyFor, hh]
  · simp [osAPI.failing, hb, mockAPI.modify_same]

theorem failing_clearGlobal_state (bad : Call → Bool) (nw : String) (m : mockAPI) :
    ((mockDriver.failing bad).clearGlobalProxyFor nw m).2
      = m.modify nw (fun x => if bad (Call.clearGlobalProxyFor nw) then x else x.clearGlobal) := by
  cases hb : bad (Call.clearGlobalProxyFor nw)
  · cases hh : m.has nw
    · rw [mockAPI.modify_not_has m nw _ hh]
      simp [osAPI.failing, hb, mockDriver, mockAPI.clearGlobalProxyFor, hh]
    · simp [osAPI.failing, hb, mockDriver, mockAPI.clearGlobalProxyFor, hh]
  · simp [osAPI.failing, hb, mockAPI.modify_same]

/-- On the fake driver with injected faults: when clearing PAC mode returns nil, PAC mode
has been cleared on every interface. -/
theorem failing_clearAutoProxy_ok (bad : Call → Bool) (m m' : mockAPI)
    (h : clearAutoProxy (mockDriver.failing bad) m = (none, m')) :
    m' = m.mapSettings mockSettings.clearAuto := by
  unfold clearAutoProxy clearProxy at h
  by_cases hb : bad Call.listAllNetwork = true
  · simp [osAPI.failing, hb] at h
  · simp only [Bool.not_eq_true] at hb
    have hl : (mockDriver.failing bad).listAllNetwork m
        = (Except.ok (m.settings.map Prod.fst), m) := by
      simp [osAPI.failing, hb, mockDriver, mockAPI.listAllNetwork]
    rw [hl] at h
    simp only at h
    have hall := clearLoop_none_all_ok (mockDriver.failing bad).clearAutoProxyFor
      (fun k => bad (Call.clearAutoProxyFor k))
      (fun k s hk => ⟨"driver failure", by simp [osAPI.failing, hk]⟩) _ none m (by rw [h])
    have hs := clearLoop_state (mockDriver.failing bad).clearAutoProxyFor
      (fun k x => if bad (Call.clearAutoProxyFor k) then x else x.clearAuto)
      (fun k x => by
        by_cases hk : bad (Call.clearAutoProxyFor k) = true <;> simp [hk, mockSettings.clearAuto_idem])
      (failing_clearAuto_state bad) (m.settings.map Prod.fst) none m
    rw [h] at hs
    simp only at hs
    rw [hs]
    simp only [mockAPI.mapSettings, mockAPI.mk.injEq]
    apply List.map_congr_left
    intro e he
    have hmem : e.1 ∈ m.settings.map Prod.fst := List.mem_map_of_mem Prod.fst he
    have := hall e.1 hmem
    simp only at this
    simp [this, hmem]

/-- On the fake driver with injected faults: when clearing global mode returns nil, global
mode has been cleared on every interface. -/
theorem failing_clearGlobalProxy_ok (bad : Call → Bool) (m m' : mockAPI)
    (h : clearGlobalProxy (mockDriver.failing bad) m = (none, m')) :
    m' = m.mapSettings mockSettings.clearGlobal := by
  unfold clearGlobalProxy clearProxy at h
  by_cases hb : bad Call.listAllNetwork = true
  · simp [osAPI.failing, hb] at h
  · simp only [Bool.not_eq_true] at hb
    have hl : (mockDriver.failing bad).listAllNetwork m
        = (Except.ok (m.settings.map Prod.fst), m) := by
      simp [osAPI.failing, hb, mockDriver, mockAPI.listAllNetwork]
    rw [hl] at h
    simp only at h
    have hall := clearLoop_none_all_ok (mockDriver.failing bad).clearGlobalProxyFor
      (fun k => bad (Call.clearGlobalProxyFor k))
      (fun k s hk => ⟨"driver failure", by simp [osAPI.failing, hk]⟩) _ none m (by rw [h])
    have hs := clearLoop_state (mockDriver.failing bad).clearGlobalProxyFor
      (fun k x => if bad (Call.clearGlobalProxyFor k) then x else x.clearGlobal)
      (fun k x => by
        by_cases hk : bad (Call.clearGlobalProxyFor k) = true <;> simp [hk, mockSettings.clearGlobal_idem])
      (failing_clearGlobal_state bad) (m.settings.map Prod.fst) none m
    rw [h] at hs
    simp only at hs
    rw [hs]
    simp only [mockAPI.mapSettings, mockAPI.mk.injEq]
    apply List.map_congr_left
    intro e he
    have hmem : e.1 ∈ m.settings.map Prod.fst := List.mem_map_of_mem Prod.fst he
    have := hall e.1 hmem
    simp only at this
    simp [this, hmem]

theorem mask_high (i : Nat) : notModePAC.testBit (i + 2) = notModeGlobal.testBit (i + 2) := by
  have h : notModePAC >>> 2 = notModeGlobal >>> 2 := by decide
  have h' := congrArg (fun n => n.testBit i) h
  simpa [Nat.testBit_shiftRight, Nat.add_comm] using h'

/-- Setting the global flag makes up for a clear of global mode that did not happen. -/
theorem flag_lemma_set_global_absorbs (a : Nat) :
    ((a &&& notModePAC) &&& notModeGlobal) ||| modeGlobal = (a &&& notModePAC) ||| modeGlobal := by
  apply Nat.eq_of_testBit_eq
  intro i
  simp only [Nat.testBit_and, Nat.testBit_or]
  rcases i with _ | _ | i
  · have h1 : notModePAC.testBit 0 = false := by decide
    simp [h1]
  · have h2 : modeGlobal.testBit 1 = true := by decide
    simp [h2]
  · rw [← mask_high i]
    cases a.testBit (i + 2) <;> cases notModePAC.testBit (i + 2) <;> simp

/-- Setting the PAC flag makes up for a clear of PAC mode that did not happen. -/
theorem flag_lemma_set_pac_absorbs (a : Nat) :
    ((a &&& notModePAC) &&& notModeGlobal) ||| modePAC = (a &&& notModeGlobal) ||| modePAC := by
  apply Nat.eq_of_testBit_eq
  intro i
  simp only [Nat.testBit_and, Nat.testBit_or]
  rcases i with _ | _ | i
  · have h2 : modePAC.testBit 0 = true := by decide
    simp [h2]
  · have h1 : notModeGlobal.testBit 1 = false := by decide
    simp [h1]
  · rw [mask_high i]
    cases a.testBit (i + 2) <;> cases notModeGlobal.testBit (i + 2) <;> simp

theorem setGlobal_preCleared_clearAuto (bad : Call → Bool) (k addr port : String)
    (x : mockSettings) :
    (preCleared bad k x.clearAuto).setGlobal addr port
      = x.clearAuto.clearGlobal.setGlobal addr port := by
  have hi : ∀ a : Nat, ((a &&& notModePAC) &&& notModePAC) = a &&& notModePAC := by
    intro a
    rw [Nat.and_assoc, Nat.and_self]
  unfold preCleared
  cases bad (Call.clearGlobalProxyFor k) <;> cases bad (Call.clearAutoProxyFor k) <;>
    simp [mockSettings.setGlobal, mockSettings.clearAuto, mockSettings.clearGlobal, hi,
      flag_lemma_set_global_absorbs]

theorem setAuto_preCleared_clearGlobal (bad : Call → Bool) (k url : String) (x : mockSettings) :
    (preCleared bad k x.clearGlobal).setAuto url = x.clearAuto.clearGlobal.setAuto url := by
  have hc : ∀ a : Nat, (a &&& notModeGlobal) &&& notModePAC = (a &&& notModePAC) &&& notModeGlobal := by
    intro a
    rw [Nat.and_assoc, Nat.and_comm notModeGlobal, ← Nat.and_assoc]
  have hi : ∀ a : Nat, ((a &&& notModeGlobal) &&& notModeGlobal) = a &&& notModeGlobal := by
    intro a
    rw [Nat.and_assoc, Nat.and_self]
  unfold preCleared
  cases bad (Call.clearGlobalProxyFor k) <;> cases bad (Call.clearAutoProxyFor k) <;>
    simp [mockSettings.setAuto, mockSettings.clearAuto, mockSettings.clearGlobal, hc, hi,
      flag_lemma_set_pac_absorbs]

/-- What a successful `ChangeMode` from pac to global leaves on the fake driver with
injected faults. -/
theorem failing_ChangeMode_pac_to_global (bad : Call → Bool) (m : mockAPI) (op : OSOperator)
    (hrun : op.isStartup = true) (hold : op.cfg.mode = config.ModePAC)
    (hok : (op.ChangeMode (mockDriver.failing bad) config.ModeGlobal m).1 = none) :
    op.ChangeMode (mockDriver.failing bad) config.ModeGlobal m
      = (none, { op with cfg := { op.cfg with mode := config.ModeGlobal } },
          m.mapSettings
            (fun x => x.clearAuto.clearGlobal.setGlobal op.cfg.localAddr op.cfg.localPort)) := by
  have h1 : config.ModeGlobal ≠ config.ModePAC := mode_pac_ne_global.symm
  unfold OSOperator.ChangeMode OSOperator.reStartup at hok ⊢
  simp only [hold, h1, if_false, hrun, Bool.not_true, Bool.false_eq_true, clearProxyByMode,
    if_true] at hok ⊢
  rcases hc : clearAutoProxy (mockDriver.failing bad) m with ⟨e1, s1⟩
  rw [hc] at hok
  cases e1 with
  | some err => simp at hok
  | none =>
    simp only at hok ⊢
    rcases hr : resetProxy (mockDriver.failing bad) { op.cfg with mode := config.ModeGlobal } s1
      with ⟨e2, s2⟩
    rw [hr] at hok
    cases e2 with
    | some err => simp at hok
    | none =>
      simp only
      have hs1 := failing_clearAutoProxy_ok bad m s1 hc
      have h : setProxy (mockDriver.failing bad)
          (fun nw => (mockDriver.failing bad).setGlobalProxyFor nw op.cfg.localAddr
            op.cfg.localPort) s1 = (none, s2) := by
        simpa [resetProxy, h1, setGlobalProxy] using hr
      have hs2 := failing_setProxy_ok bad _
        (mockSettings.setGlobal op.cfg.localAddr op.cfg.localPort)
        (mockSettings.setGlobal_idem op.cfg.localAddr op.cfg.localPort)
        (fun nw s => failing_setGlobal_step bad op.cfg.localAddr op.cfg.localPort nw s) s1 s2 h
      rw [hs2, hs1]
      simp [mockAPI.mapSettings, List.map_map, Function.comp_def, setGlobal_preCleared_clearAuto]

/-- What a successful `ChangeMode` from global to pac leaves on the fake driver with
injected faults. -/
theorem failing_ChangeMode_global_to_pac (bad : Call → Bool) (m : mockAPI) (op : OSOperator)
    (hrun : op.isStartup = true) (hold : op.cfg.mode = config.ModeGlobal)
    (hok : (op.ChangeMode (mockDriver.failing bad) config.ModePAC m).1 = none) :
    op.ChangeMode (mockDriver.failing bad) config.ModePAC m
      = (none, { op with cfg := { op.cfg with mode := config.ModePAC } },
          m.mapSettings (fun x => x.clearAuto.clearGlobal.setAuto op.cfg.pacURL)) := by
  have h1 : config.ModePAC ≠ config.ModeGlobal := mode_pac_ne_global
  have h2 : config.ModeGlobal ≠ config.ModePAC := mode_pac_ne_global.symm
  unfold OSOperator.ChangeMode OSOperator.reStartup at hok ⊢
  simp only [hold, h1, h2, if_false, hrun, Bool.not_true, Bool.false_eq_true, clearProxyByMode,
    if_true] at hok ⊢
  rcases hc : clearGlobalProxy (mockDriver.failing bad) m with ⟨e1, s1⟩
  rw [hc] at hok
  cases e1 with
  | some err => simp at hok
  | none =>
    simp only at hok ⊢
    rcases hr : resetProxy (mockDriver.failing bad) { op.cfg with mode := config.ModePAC } s1
      with ⟨e2, s2⟩
    rw [hr] at hok
    cases e2 with
    | some err => simp at hok
    | none =>
      simp only
      have hs1 := failing_clearGlobalProxy_ok bad m s1 hc
      have h : setProxy (mockDriver.failing bad)
          (fun nw => (mockDriver.failing bad).setAutoProxyFor nw op.cfg.pacURL) s1
          = (none, s2) := by
        simpa [resetProxy, setAutoProxy] using hr
      have hs2 := failing_setProxy_ok bad _ (mockSettings.setAuto op.cfg.pacURL)
        (mockSettings.setAuto_idem op.cfg.pacURL)
        (fun nw s => failing_setAuto_step bad op.cfg.pacURL nw s) s1 s2 h
      rw [hs2, hs1]
      simp [mockAPI.mapSettings, List.map_map, Function.comp_def, setAuto_preCleared_clearGlobal]

/-- C2: on the fake driver with injected faults, where every call may fail on its own.
When a running operator changes to another mode `newMode` in pac/global and `ChangeMode`
returns nil, the stored mode is `newMode` (nothing else of the operator changes), the
driver state is the one a fresh `Startup` in `newMode` produces on the fake driver, the
interfaces are the same, and on every interface the old mode's flag is off and its fields
are empty while the new mode's flag is on with the operator's configured values. -/
theorem C2_change_mode_leaves_no_old_setting (bad : Call → Bool) (m : mockAPI)
    (op : OSOperator) (newMode : String) (hrun : op.isStartup = true)
    (hnew : newMode = config.ModePAC ∨ newMode = config.ModeGlobal)
    (hne : newMode ≠ op.cfg.mode)
    (hok : (op.ChangeMode (mockDriver.failing bad) newMode m).1 = none) :
    (op.ChangeMode (mockDriver.failing bad) newMode m).2.1
        = { op with cfg := { op.cfg with mode := newMode } } ∧
    (∃ fresh, NewOSOperator newMode op.cfg.pacURL op.cfg.localAddr op.cfg.localPort
        = Except.ok fresh ∧
      (op.ChangeMode (mockDriver.failing bad) newMode m).2.2
        = (fresh.Startup mockDriver m).2.2) ∧
    (op.ChangeMode (mockDriver.failing bad) newMode m).2.2.settings.map Prod.fst
        = m.settings.map Prod.fst ∧
    ∀ e ∈ (op.ChangeMode (mockDriver.failing bad) newMode m).2.2.settings,
      (newMode = config.ModeGlobal →
        e.2.pacOn = false ∧ e.2.pacURL = "" ∧ e.2.globalOn = true ∧
        e.2.globalAddr = op.cfg.localAddr ∧ e.2.globalPort = op.cfg.localPort) ∧
      (newMode = config.ModePAC →
        e.2.globalOn = false ∧ e.2.globalAddr = "" ∧ e.2.globalPort = "" ∧
        e.2.pacOn = true ∧ e.2.pacURL = op.cfg.pacURL) := by
  by_cases h1 : op.cfg.mode = config.ModePAC
  · have hg : newMode = config.ModeGlobal := by
      rcases hnew with h | h
      · exact absurd (h.trans h1.symm) hne
      · exact h
    subst hg
    rw [failing_ChangeMode_pac_to_global bad m op hrun h1 hok]
    refine ⟨rfl, ⟨⟨⟨config.ModeGlobal, op.cfg.pacURL, op.cfg.localAddr, op.cfg.localPort⟩,
      false⟩, by simp [NewOSOperator], ?_⟩, mockAPI.mapSettings_keys _ _, ?_⟩
    · rw [mock_Startup_global m _ rfl rfl]
    · intro e he
      obtain ⟨x, hx⟩ := mockAPI.mem_mapSettings he
      rw [hx]
      have := applied_global op.cfg.localAddr op.cfg.localPort x
      exact ⟨fun _ => ⟨this.2.1, this.2.2.2.2, this.1, this.2.2.1, this.2.2.2.1⟩,
        fun h => absurd h mode_pac_ne_global.symm⟩
  · by_cases h2 : op.cfg.mode = config.ModeGlobal
    · have hp : newMode = config.ModePAC := by
        rcases hnew with h | h
        · exact h
        · exact absurd (h.trans h2.symm) hne
      subst hp
      rw [failing_ChangeMode_global_to_pac bad m op hrun h2 hok]
      refine ⟨rfl, ⟨⟨⟨config.ModePAC, op.cfg.pacURL, op.cfg.localAddr, op.cfg.localPort⟩,
        false⟩, by simp [NewOSOperator], ?_⟩, mockAPI.mapSettings_keys _ _, ?_⟩
      · rw [mock_Startup_pac m _ rfl rfl]
      · intro e he
        obtain ⟨x, hx⟩ := mockAPI.mem_mapSettings he
        rw [hx]
        have := applied_pac op.cfg.pacURL x
        exact ⟨fun h => absurd h mode_pac_ne_global,
          fun _ => ⟨this.2.1, this.2.2.2.1, this.2.2.2.2, this.1, this.2.2.1⟩⟩
    · have := ChangeMode_unknown_old_mode (mockDriver.failing bad) op newMode m hrun hne h1 h2
      rw [hok] at this
      exact absurd this (by simp)

/-- Witness of C2: a running pac operator; `WiFi` holds, beside the PAC setting, a stale
global setting, and the driver rejects clearing global mode on `WiFi`, so the pre-clear of
the apply fails there. `ChangeMode` to global returns nil and both interfaces end with
global mode only, with the operator's address and port. -/
theorem C2_change_mode_leaves_no_old_setting_witness :
    (OSOperator.ChangeMode
        (mockDriver.failing (fun c => decide (c = Call.clearGlobalProxyFor "WiFi")))
        ⟨⟨"pac", "abcd", "11.22.33.44", "1234"⟩, true⟩ "global"
        ⟨[("WiFi", { mode := 3, pacURL := "abcd", globalAddr := "127.0.0.1",
                     globalPort := "2234" }),
          ("wlan", { mode := 1, pacURL := "abcd" })]⟩).1 = none ∧
    (∀ e ∈ (OSOperator.ChangeMode
        (mockDriver.failing (fun c => decide (c = Call.clearGlobalProxyFor "WiFi")))
        ⟨⟨"pac", "abcd", "11.22.33.44", "1234"⟩, true⟩ "global"
        ⟨[("WiFi", { mode := 3, pacURL := "abcd", globalAddr := "127.0.0.1",
                     globalPort := "2234" }),
          ("wlan", { mode := 1, pacURL := "abcd" })]⟩).2.2.settings,
      ("global" = config.ModeGlobal →
        e.2.pacOn = false ∧ e.2.pacURL = "" ∧ e.2.globalOn = true ∧
        e.2.globalAddr = "11.22.33.44" ∧ e.2.globalPort = "1234") ∧
      ("global" = config.ModePAC →
        e.2.globalOn = false ∧ e.2.globalAddr = "" ∧ e.2.globalPort = "" ∧
        e.2.pacOn = true ∧ e.2.pacURL = "abcd")) :=
  ⟨by decide, (C2_change_mode_leaves_no_old_setting
    (fun c => decide (c = Call.clearGlobalProxyFor "WiFi"))
    ⟨[("WiFi", { mode := 3, pacURL := "abcd", globalAddr := "127.0.0.1",
                 globalPort := "2234" }),
      ("wlan", { mode := 1, pacURL := "abcd" })]⟩
    ⟨⟨"pac", "abcd", "11.22.33.44", "1234"⟩, true⟩ "global" rfl (Or.inr rfl) (by decide)
    (by decide)).2.2.2⟩

end core

/-! # Theorems about the configuration -/

namespace config

/-! ## Go maps as association lists -/

theorem lookup_cons_eq {α : Type} (k : String) (b : α) (l : List (String × α)) :
    ((k, b) :: l).lookup k = some b := by
  simp [List.lookup]

theorem lookup_cons_ne {α : Type} (k k' : String) (b : α) (l : List (String × α))
    (h : k' ≠ k) : ((k, b) :: l).lookup k' = l.lookup k' := by
  have : (k' == k) = false := by simpa using h
  simp [List.lookup, this]

theorem lookup_map_replace {α : Type} (k : String) (v : α) :
    ∀ m : List (String × α), (m.lookup k).isSome = true →
      (m.map (fun e => if e.1 = k then (k, v) else e)).lookup k = some v := by
  intro m
  induction m with
  | nil => intro h; simp at h
  | cons a l ih =>
    intro h
    rcases a with ⟨a1, a2⟩
    by_cases ha : a1 = k
    · have hf : (if (a1, a2).1 = k then (k, v) else (a1, a2)) = (k, v) :=
        if_pos ha
      rw [List.map_cons, hf, lookup_cons_eq]
    · have hf : (if (a1, a2).1 = k then (k, v) else (a1, a2)) = (a1, a2) :=
        if_neg ha
      have hk : k ≠ a1 := fun h => ha h.symm
      rw [lookup_cons_ne a1 k a2 l hk] at h
      rw [List.map_cons, hf, lookup_cons_ne a1 k a2 _ hk]
      exact ih h

theorem lookup_map_replace_ne {α : Type} (k k' : String) (v : α) (hne : k' ≠ k) :
    ∀ m : List (String × α),
      (m.map (fun e => if e.1 = k then (k, v) else e)).lookup k' = m.lookup k' := by
  intro m
  induction m with
  | nil => rfl
  | cons a l ih =>
    rcases a with ⟨a1, a2⟩
    by_cases ha : a1 = k
    · have hf : (if (a1, a2).1 = k then (k, v) else (a1, a2)) = (k, v) :=
        if_pos ha
      rw [List.map_cons, hf, lookup_cons_ne k k' v _ hne, ih, ha, lookup_cons_ne k k' a2 l hne]
    · have hf : (if (a1, a2).1 = k then (k, v) else (a1, a2)) = (a1, a2) :=
        if_neg ha
      rw [List.map_cons, hf]
      by_cases hk : k' = a1
      · rw [hk, lookup_cons_eq, lookup_cons_eq]
      · rw [lookup_cons_ne a1 k' a2 _ hk, lookup_cons_ne a1 k' a2 _ hk, ih]

theorem lookup_append_new {α : Type} (k k' : String) (v : α) :
    ∀ m : List (String × α),
      (m ++ [(k, v)]).lookup k' = (m.lookup k').or (if k' = k then some v else none) := by
  intro m
  induction m with
  | nil =>
    by_cases h : k' = k
    · rw [h]; simp [lookup_cons_eq]
    · rw [List.nil_append, lookup_cons_ne k k' v _ h]; simp [h]
  | cons a l ih =>
    rcases a with ⟨a1, a2⟩
    by_cases hk : k' = a1
    · rw [hk, List.cons_append, lookup_cons_eq, lookup_cons_eq]; rfl
    · rw [List.cons_append, lookup_cons_ne a1 k' a2 _ hk, lookup_cons_ne a1 k' a2 _ hk, ih]

theorem lookup_mapSet_self {α : Type} (m : List (String × α)) (k : String) (v : α) :
    (mapSet m k v).lookup k = some v := by
  unfold mapSet
  by_cases h : (m.lookup k).isSome = true
  · simp only [h, if_true]
    exact lookup_map_replace k v m h
  · simp only [h, Bool.false_eq_true, if_false, lookup_append_new]
    have : m.lookup k = none := by
      cases hl : m.lookup k with
      | none => rfl
      | some x => simp [hl] at h
    simp [this]

theorem lookup_mapSet_ne {α : Type} (m : List (String × α)) (k k' : String) (v : α)
    (hne : k' ≠ k) : (mapSet m k v).lookup k' = m.lookup k' := by
  unfold mapSet
  by_cases h : (m.lookup k).isSome = true
  · simp only [h, if_true]
    exact lookup_map_replace_ne k k' v hne m
  · simp only [h, Bool.false_eq_true, if_false, lookup_append_new, hne]
    cases m.lookup k' <;> rfl

theorem mapDelete_cons_eq {α : Type} (k : String) (b : α) (l : List (String × α)) :
    mapDelete ((k, b) :: l) k = mapDelete l k := by
  simp [mapDelete, List.filter]

theorem mapDelete_cons_ne {α : Type} (k a1 : String) (b : α) (l : List (String × α))
    (h : a1 ≠ k) : mapDelete ((a1, b) :: l) k = (a1, b) :: mapDelete l k := by
  have h1 : (a1 != k) = true := by simpa using h
  simp [mapDelete, List.filter, h1]

theorem lookup_mapDelete_self {α : Type} (k : String) :
    ∀ m : List (String × α), (mapDelete m k).lookup k = none := by
  intro m
  induction m with
  | nil => rfl
  | cons a l ih =>
    rcases a with ⟨a1, a2⟩
    by_cases ha : a1 = k
    · rw [ha, mapDelete_cons_eq]; exact ih
    · rw [mapDelete_cons_ne k a1 a2 l ha, lookup_cons_ne a1 k a2 _ (fun h => ha h.symm)]
      exact ih

theorem lookup_mapDelete_ne {α : Type} (k k' : String) (hne : k' ≠ k) :
    ∀ m : List (String × α), (mapDelete m k).lookup k' = m.lookup k' := by
  intro m
  induction m with
  | nil => rfl
  | cons a l ih =>
    rcases a with ⟨a1, a2⟩
    by_cases ha : a1 = k
    · rw [ha, mapDelete_cons_eq, lookup_cons_ne k k' a2 l hne]; exact ih
    · rw [mapDelete_cons_ne k a1 a2 l ha]
      by_cases hk : k' = a1
      · rw [hk, lookup_cons_eq, lookup_cons_eq]
      · rw [lookup_cons_ne a1 k' a2 _ hk, lookup_cons_ne a1 k' a2 _ hk]; exact ih

/-! ## Servers of the configuration -/

theorem CheckServerConfig_ok (ac : AppConfig) (srv : ServerConfig)
    (hport : common.IsValidPort srv.Port = true)
    (hcrypt : srv.Crypt = "" ∨ IsValidCryptoMethod srv.Crypt = true) :
    ac.CheckServerConfig srv = none := by
  unfold AppConfig.CheckServerConfig
  rcases hcrypt with h | h <;> simp [hport, h]

theorem CheckServerConfig_bad (ac : AppConfig) (srv : ServerConfig)
    (h : common.IsValidPort srv.Port = false ∨
      (srv.Crypt ≠ "" ∧ IsValidCryptoMethod srv.Crypt = false)) :
    ∃ err, ac.CheckServerConfig srv = some err := by
  unfold AppConfig.CheckServerConfig
  by_cases hp : common.IsValidPort srv.Port = true
  · rcases h with h | ⟨h1, h2⟩
    · rw [hp] at h; cases h
    · simp [hp, h1, h2]
  · simp only [Bool.not_eq_true] at hp
    simp [hp]

theorem IsValidCryptoMethod_iff (cm : String) :
    IsValidCryptoMethod cm = true ↔
      cm = "AEAD_AES_128_GCM" ∨ cm = "AEAD_AES_256_GCM" ∨ cm = "AEAD_CHACHA20_POLY1305" := by
  simp [IsValidCryptoMethod, Crypt_AEAD_AES_128_GCM, Crypt_AEAD_AES_256_GCM,
    Crypt_AEAD_CHACHA20_POLY1305, or_assoc]

/-- C24: `UpdateServer(name, srv)` followed by `GetServerConfig(name)`. For a non-empty
name, a valid port and a crypto that is empty or one of the three supported methods,
`UpdateServer` returns nil, `GetServerConfig(name)` returns `srv` with an empty crypto
replaced by `AEAD_CHACHA20_POLY1305` and the other fields as given, every other name is
answered as before, and when `name` is the server in use `GetCurrentServerConfig` returns
the same value under that name. For an empty name, an invalid port or an unsupported
crypto it returns an error and the configuration is unchanged. -/
theorem C24_update_server_then_get_is_round_trip (ac : AppConfig) (name : String)
    (srv : ServerConfig) :
    (name ≠ "" → common.IsValidPort srv.Port = true →
      (srv.Crypt = "" ∨ srv.Crypt = "AEAD_AES_128_GCM" ∨ srv.Crypt = "AEAD_AES_256_GCM" ∨
        srv.Crypt = "AEAD_CHACHA20_POLY1305") →
      (ac.UpdateServer name srv).1 = none ∧
      (ac.UpdateServer name srv).2.GetServerConfig name
        = Except.ok { Address := srv.Address, Port := srv.Port,
                      Crypt := if srv.Crypt = "" then "AEAD_CHACHA20_POLY1305" else srv.Crypt,
                      Password := srv.Password } ∧
      (∀ other, other ≠ name →
        (ac.UpdateServer name srv).2.GetServerConfig other = ac.GetServerConfig other) ∧
      (ac.c.UsingServer = name →
        (ac.UpdateServer name srv).2.GetCurrentServerConfig
          = core.Outcome.ret (name,
              { Address := srv.Address, Port := srv.Port,
                Crypt := if srv.Crypt = "" then "AEAD_CHACHA20_POLY1305" else srv.Crypt,
                Password := srv.Password }))) ∧
    ((name = "" ∨ common.IsValidPort srv.Port = false ∨
        (srv.Crypt ≠ "" ∧ srv.Crypt ≠ "AEAD_AES_128_GCM" ∧ srv.Crypt ≠ "AEAD_AES_256_GCM" ∧
          srv.Crypt ≠ "AEAD_CHACHA20_POLY1305")) →
      (∃ err, (ac.UpdateServer name srv).1 = some err) ∧ (ac.UpdateServer name srv).2 = ac) := by
  constructor
  · intro hname hport hcrypt
    have hc : srv.Crypt = "" ∨ IsValidCryptoMethod srv.Crypt = true := by
      rcases hcrypt with h | h
      · exact Or.inl h
      · exact Or.inr ((IsValidCryptoMethod_iff _).2 h)
    have hok := CheckServerConfig_ok ac srv hport hc
    have hU : ac.UpdateServer name srv
        = (none,
            { c := { ac.c with
                       Servers := mapSet ac.c.Servers name
                         (if srv.Crypt = "" then { srv with Crypt := DefaultCrypt } else srv) },
              currentServer :=
                if ac.c.UsingServer = name then
                  some (if srv.Crypt = "" then { srv with Crypt := DefaultCrypt } else srv)
                else ac.currentServer }) := by
      simp [AppConfig.UpdateServer, hname, hok]
    have hv : (if srv.Crypt = "" then { srv with Crypt := DefaultCrypt } else srv)
        = { Address := srv.Address, Port := srv.Port,
            Crypt := if srv.Crypt = "" then "AEAD_CHACHA20_POLY1305" else srv.Crypt,
            Password := srv.Password } := by
      by_cases h : srv.Crypt = "" <;> simp [h, DefaultCrypt, Crypt_AEAD_CHACHA20_POLY1305]
    rw [hU, hv]
    refine ⟨rfl, ?_, ?_, ?_⟩
    · simp [AppConfig.GetServerConfig, lookup_mapSet_self]
    · intro other hne
      simp [AppConfig.GetServerConfig, lookup_mapSet_ne _ _ _ _ hne]
    · intro hus
      simp [AppConfig.GetCurrentServerConfig, hus]
  · intro h
    rcases h with h | h | h
    · simp [AppConfig.UpdateServer, h]
    · obtain ⟨err, herr⟩ := CheckServerConfig_bad ac srv (Or.inl h)
      by_cases hn : name = ""
      · simp [AppConfig.UpdateServer, hn]
      · simp [AppConfig.UpdateServer, hn, herr]
    · have hbad : IsValidCryptoMethod srv.Crypt = false := by
        cases hv : IsValidCryptoMethod srv.Crypt with
        | false => rfl
        | true =>
          rcases (IsValidCryptoMethod_iff _).1 hv with h1 | h1 | h1
          · exact absurd h1 h.2.1
          · exact absurd h1 h.2.2.1
          · exact absurd h1 h.2.2.2
      obtain ⟨err, herr⟩ := CheckServerConfig_bad ac srv (Or.inr ⟨h.1, hbad⟩)
      by_cases hn : name = ""
      · simp [AppConfig.UpdateServer, hn]
      · simp [AppConfig.UpdateServer, hn, herr]

/-- Witness of C24: a server without crypto is stored under `srv2` in the new
configuration and read back with the default crypto. -/
theorem C24_update_server_then_get_is_round_trip_witness :
    (NewConfig.UpdateServer "srv2" ⟨"99.88.77.66", "7766", "", "server2pwd"⟩).1 = none ∧
    (NewConfig.UpdateServer "srv2" ⟨"99.88.77.66", "7766", "", "server2pwd"⟩).2.GetServerConfig
        "srv2"
      = Except.ok ⟨"99.88.77.66", "7766", "AEAD_CHACHA20_POLY1305", "server2pwd"⟩ :=
  ⟨((C24_update_server_then_get_is_round_trip NewConfig "srv2"
      ⟨"99.88.77.66", "7766", "", "server2pwd"⟩).1 (by decide) (by decide) (Or.inl rfl)).1,
   ((C24_update_server_then_get_is_round_trip NewConfig "srv2"
      ⟨"99.88.77.66", "7766", "", "server2pwd"⟩).1 (by decide) (by decide) (Or.inl rfl)).2.1⟩

/-! ## Loading a configuration -/

/-- C26 (the code at the failing input): a file that defines one server and nothing else,
that is, a document that `toml.Unmarshal` decodes by storing that one server (without
crypto) and leaving every other field of the configuration as it finds it. `LoadConfig`
succeeds; the mode is `pac`, the ports are 1080, 1082 and 1083, the server is the current
server and its crypto is `DefaultCrypt`; but `IsEnabled()` is false, the value
`defaultCfg` sets, while the declared constant `defaultEnabled` is true. -/
theorem C26_loaded_defaults_enabled_is_false
    (readFile : String → Except String (List UInt8))
    (unmarshal : List UInt8 → appConfig → Except String appConfig)
    (cfgFile : String) (cfgBytes : List UInt8) (name address port password : String)
    (hread : readFile cfgFile = Except.ok cfgBytes)
    (hdoc : unmarshal cfgBytes defaultCfg
      = Except.ok { defaultCfg with Servers := [(name, ⟨address, port, "", password⟩)] })
    (hport : common.IsValidPort port = true) :
    ∃ ac, LoadConfig readFile unmarshal cfgFile = Except.ok ac ∧
      ac.IsEnabled = false ∧ defaultEnabled = true ∧
      ac.GetMode = defaultMode ∧ defaultMode = "pac" ∧
      ac.GetLocalPort = "1080" ∧ ac.GetPACPort = "1082" ∧ ac.GetAPIPort = "1083" ∧
      ac.GetCurrentServerConfig
        = core.Outcome.ret (name, ⟨address, port, DefaultCrypt, password⟩) ∧
      ac.GetServerConfig name = Except.ok ⟨address, port, DefaultCrypt, password⟩ ∧
      DefaultCrypt = "AEAD_CHACHA20_POLY1305" := by
  have hsrv : ∀ ac : AppConfig, ac.CheckServerConfig ⟨address, port, "", password⟩ = none :=
    fun ac => CheckServerConfig_ok ac _ hport (Or.inl rfl)
  have hdoc' : unmarshal cfgBytes defaultCfg
      = Except.ok ⟨false, false, defaultMode, defaultLocalPort, defaultPACPort, defaultAPIPort,
          "", [(name, ⟨address, port, "", password⟩)]⟩ := hdoc
  have hservers : AppConfig.checkServers
      ⟨⟨false, false, defaultMode, defaultLocalPort, defaultPACPort, defaultAPIPort,
          "", [(name, ⟨address, port, "", password⟩)]⟩, none⟩ = none := by
    simp [AppConfig.checkServers, checkEachServer, hsrv]
  have hrest : AppConfig.checkRepeatPorts
      ⟨⟨false, false, defaultMode, defaultLocalPort, defaultPACPort, defaultAPIPort,
          "", [(name, ⟨address, port, "", password⟩)]⟩, none⟩ "" none = none := by
    rfl
  have hcheck : AppConfig.check
      ⟨⟨false, false, defaultMode, defaultLocalPort, defaultPACPort, defaultAPIPort,
          "", [(name, ⟨address, port, "", password⟩)]⟩, none⟩ = none := by
    have h1 : IsValidMode defaultMode = true := by decide
    have h2 : common.IsValidPort defaultLocalPort = true := by decide
    have h3 : common.IsValidPort defaultAPIPort = true := by decide
    have h4 : common.IsValidPort defaultPACPort = true := by decide
    simp only [AppConfig.check, hservers, h1, h2, h3, h4]
    exact hrest
  refine ⟨AppConfig.setServerDefault
    ⟨⟨false, false, defaultMode, defaultLocalPort, defaultPACPort, defaultAPIPort,
        "", [(name, ⟨address, port, "", password⟩)]⟩, none⟩, ?_, ?_⟩
  · simp only [LoadConfig, hread, hdoc', hcheck]
  · refine ⟨rfl, rfl, rfl, rfl, rfl, rfl, rfl, ?_, ?_, rfl⟩
    · simp [AppConfig.GetCurrentServerConfig, AppConfig.setServerDefault,
        lookup_cons_eq, SetServerConfigDefault]
    · simp [AppConfig.GetServerConfig, AppConfig.setServerDefault,
        lookup_cons_eq, SetServerConfigDefault]

/-- Witness of C26: the file of `TestDefaultConfig`. -/
theorem C26_loaded_defaults_enabled_is_false_witness :
    ∃ ac, LoadConfig (fun _ => Except.ok [])
        (fun _ c => Except.ok
          { c with Servers := [("server2", ⟨"99.88.77.66", "7766", "", "server2pwd"⟩)] })
        "config.toml" = Except.ok ac ∧
      ac.IsEnabled = false ∧ defaultEnabled = true :=
  (C26_loaded_defaults_enabled_is_false (fun _ => Except.ok [])
      (fun _ c => Except.ok
        { c with Servers := [("server2", ⟨"99.88.77.66", "7766", "", "server2pwd"⟩)] })
      "config.toml" [] "server2" "99.88.77.66" "7766" "server2pwd" rfl rfl (by decide)).imp
    (fun _ h => ⟨h.1, h.2.1, h.2.2.1⟩)

/-! ## The three ports -/

theorem lookup_mapSet_isSome {α : Type} (m : List (String × α)) (k q : String) (v : α) :
    ((mapSet m k v).lookup q).isSome = true ↔ q = k ∨ (m.lookup q).isSome = true := by
  by_cases h : q = k
  · subst h; simp [lookup_mapSet_self]
  · rw [lookup_mapSet_ne m k q v h]; simp [h]

theorem addPortMap_ok_keys (ex : Option String) (m m1 : List (String × String)) (p name : String)
    (h : addPortMap ex m p name = Except.ok m1) :
    (∀ q, (m1.lookup q).isSome = true ↔ (m.lookup q).isSome = true ∨ (ex ≠ some p ∧ q = p)) ∧
    (ex ≠ some p → m.lookup p = none) := by
  unfold addPortMap at h
  by_cases hs : ex = some p
  · simp only [hs, if_true, Except.ok.injEq] at h
    subst h
    simp [hs]
  · simp only [hs, if_false] at h
    cases hl : m.lookup p with
    | some rep => simp [hl] at h
    | none =>
      simp only [hl, Except.ok.injEq] at h
      subst h
      refine ⟨fun q => ?_, fun _ => rfl⟩
      rw [lookup_mapSet_isSome]
      simp [hs, or_comm]

theorem addPortMap_error (ex : Option String) (m : List (String × String)) (p name e : String)
    (h : addPortMap ex m p name = Except.error e) :
    ex ≠ some p ∧ (m.lookup p).isSome = true := by
  unfold addPortMap at h
  by_cases hs : ex = some p
  · simp [hs] at h
  · simp only [hs, if_false] at h
    cases hl : m.lookup p with
    | some rep => exact ⟨hs, rfl⟩
    | none => simp [hl] at h

/-- The check `checkRepeatPorts` passes exactly when the stored ports that are not skipped
are pairwise different and `port` is none of them; a stored port is skipped when `except`
points to a string equal to it. -/
theorem checkRepeatPorts_none_iff (ac : AppConfig) (port : String) (ex : Option String) :
    ac.checkRepeatPorts port ex = none ↔
      (ex ≠ some ac.c.APIPort → ex ≠ some ac.c.LocalPort → ac.c.APIPort ≠ ac.c.LocalPort) ∧
      (ex ≠ some ac.c.APIPort → ex ≠ some ac.c.PACPort → ac.c.APIPort ≠ ac.c.PACPort) ∧
      (ex ≠ some ac.c.LocalPort → ex ≠ some ac.c.PACPort → ac.c.LocalPort ≠ ac.c.PACPort) ∧
      (ex ≠ some ac.c.APIPort → port ≠ ac.c.APIPort) ∧
      (ex ≠ some ac.c.LocalPort → port ≠ ac.c.LocalPort) ∧
      (ex ≠ some ac.c.PACPort → port ≠ ac.c.PACPort) := by
  unfold AppConfig.checkRepeatPorts
  cases h1 : addPortMap ex [] ac.c.APIPort "control port" with
  | error e =>
    have := addPortMap_error _ _ _ _ _ h1
    simp at this
  | ok m1 =>
    obtain ⟨k1, -⟩ := addPortMap_ok_keys _ _ _ _ _ h1
    simp only []
    cases h2 : addPortMap ex m1 ac.c.LocalPort "local port" with
    | error e =>
      obtain ⟨a, b⟩ := addPortMap_error _ _ _ _ _ h2
      rw [k1] at b
      simp only [List.lookup, Option.isSome_none, Bool.false_eq_true, false_or] at b
      simp only [reduceCtorEq, false_iff]
      intro hh
      exact hh.1 b.1 a b.2.symm
    | ok m2 =>
      obtain ⟨k2, f2⟩ := addPortMap_ok_keys _ _ _ _ _ h2
      simp only []
      cases h3 : addPortMap ex m2 ac.c.PACPort "pac port" with
      | error e =>
        obtain ⟨a, b⟩ := addPortMap_error _ _ _ _ _ h3
        rw [k2, k1] at b
        simp only [List.lookup, Option.isSome_none, Bool.false_eq_true, false_or] at b
        simp only [reduceCtorEq, false_iff]
        intro hh
        rcases b with b | b
        · exact hh.2.1 b.1 a b.2.symm
        · exact hh.2.2.1 b.1 a b.2.symm
      | ok m3 =>
        obtain ⟨k3, f3⟩ := addPortMap_ok_keys _ _ _ _ _ h3
        have g2 : ex ≠ some ac.c.LocalPort → ¬ (m1.lookup ac.c.LocalPort).isSome = true := by
          intro h; rw [f2 h]; simp
        have g3 : ex ≠ some ac.c.PACPort → ¬ (m2.lookup ac.c.PACPort).isSome = true := by
          intro h; rw [f3 h]; simp
        rw [k1] at g2
        rw [k2, k1] at g3
        simp only [List.lookup, Option.isSome_none, Bool.false_eq_true, false_or] at g2 g3
        have hiff : ¬ (m3.lookup port).isSome = true ↔
            (ex ≠ some ac.c.APIPort → ex ≠ some ac.c.LocalPort →
              ac.c.APIPort ≠ ac.c.LocalPort) ∧
            (ex ≠ some ac.c.APIPort → ex ≠ some ac.c.PACPort → ac.c.APIPort ≠ ac.c.PACPort) ∧
            (ex ≠ some ac.c.LocalPort → ex ≠ some ac.c.PACPort →
              ac.c.LocalPort ≠ ac.c.PACPort) ∧
            (ex ≠ some ac.c.APIPort → port ≠ ac.c.APIPort) ∧
            (ex ≠ some ac.c.LocalPort → port ≠ ac.c.LocalPort) ∧
            (ex ≠ some ac.c.PACPort → port ≠ ac.c.PACPort) := by
          rw [k3, k2, k1]
          simp only [List.lookup, Option.isSome_none, Bool.false_eq_true, false_or]
          constructor
          · intro h
            refine ⟨?_, ?_, ?_, ?_, ?_, ?_⟩
            · intro a b c; exact g2 b ⟨a, c.symm⟩
            · intro a b c; exact g3 b (Or.inl ⟨a, c.symm⟩)
            · intro a b c; exact g3 b (Or.inr ⟨a, c.symm⟩)
            · intro a c; exact h (Or.inl (Or.inl ⟨a, c⟩))
            · intro a c; exact h (Or.inl (Or.inr ⟨a, c⟩))
            · intro a c; exact h (Or.inr ⟨a, c⟩)
          · intro hh h
            rcases h with (h | h) | h
            · exact hh.2.2.2.1 h.1 h.2
            · exact hh.2.2.2.2.1 h.1 h.2
            · exact hh.2.2.2.2.2 h.1 h.2
        simp only []
        cases hl : m3.lookup port with
        | none =>
          rw [hl] at hiff
          simpa using hiff
        | some rep =>
          rw [hl] at hiff
          simpa using hiff

theorem parseUintLoop_some (maxVal : Nat) :
    ∀ (cs : List Char) (n r : Nat), n ≤ maxVal → common.parseUintLoop maxVal cs n = some r →
      (∀ c ∈ cs, '0' ≤ c ∧ c ≤ '9') ∧ r ≤ maxVal ∧
        r = cs.foldl (fun a c => a * 10 + (c.toNat - 48)) n := by
  intro cs
  induction cs with
  | nil =>
    intro n r hn h
    simp only [common.parseUintLoop, Option.some.injEq] at h
    subst h
    simp [hn]
  | cons c cs ih =>
    intro n r hn h
    unfold common.parseUintLoop at h
    by_cases hd : '0' ≤ c ∧ c ≤ '9'
    · simp only [hd, and_self, if_true] at h
      by_cases hb : n * 10 + (c.toNat - 48) > maxVal
      · simp [hb] at h
      · simp only [hb, if_false] at h
        obtain ⟨h1, h2, h3⟩ := ih _ r (Nat.le_of_not_gt hb) h
        refine ⟨?_, h2, ?_⟩
        · intro c' hc'
          rcases List.mem_cons.1 hc' with e | e
          · rw [e]; exact hd
          · exact h1 c' e
        · rw [List.foldl_cons]; exact h3
    · simp [hd] at h

/-- A port accepted by `IsValidPort` is a non-empty string of decimal digits whose value
is at most 65535. -/
theorem IsValidPort_decimal (p : String) (h : common.IsValidPort p = true) :
    p ≠ "" ∧ (∀ c ∈ p.data, '0' ≤ c ∧ c ≤ '9') ∧
      common.ParseUint p 16 = some (p.data.foldl (fun a c => a * 10 + (c.toNat - 48)) 0) ∧
      p.data.foldl (fun a c => a * 10 + (c.toNat - 48)) 0 ≤ 65535 := by
  unfold common.IsValidPort common.ParseUint at h
  by_cases he : p = ""
  · simp [he] at h
  · simp only [he, if_false] at h
    have e16 : (2 : Nat) ^ 16 - 1 = 65535 := by norm_num
    rw [e16] at h
    cases hr : common.parseUintLoop 65535 p.data 0 with
    | none => simp [hr] at h
    | some r =>
      obtain ⟨h1, h2, h3⟩ := parseUintLoop_some _ _ _ _ (Nat.zero_le _) hr
      refine ⟨he, h1, ?_, ?_⟩
      · simp only [common.ParseUint, he, if_false, e16, hr, h3]
      · rw [← h3]; exact h2

theorem IsValidPort_ne_empty (p : String) (h : common.IsValidPort p = true) : p ≠ "" :=
  (IsValidPort_decimal p h).1

theorem checkPort_none (ac : AppConfig) (p : String) (ex : Option String)
    (h : ac.checkPort p ex = none) :
    common.IsValidPort p = true ∧ ac.checkRepeatPorts p ex = none := by
  unfold AppConfig.checkPort at h
  by_cases hv : common.IsValidPort p = true
  · simpa [hv] using h
  · simp only [Bool.not_eq_true] at hv
    simp [hv] at h

theorem PortsDistinct_SetAPIPort (ac : AppConfig) (p : String) (h : ac.PortsDistinct) :
    (ac.SetAPIPort p).2.PortsDistinct := by
  unfold AppConfig.SetAPIPort
  cases hc : ac.CheckAPIPort p with
  | some err => exact h
  | none =>
    obtain ⟨hv, hr⟩ := checkPort_none ac p _ hc
    obtain ⟨-, -, -, -, r5, r6⟩ := (checkRepeatPorts_none_iff ac p _).1 hr
    obtain ⟨i1, i2, i3, i4, i5, i6⟩ := h
    refine ⟨fun _ => hv, i2, i3, ?_, ?_, i6⟩
    · intro _ hL
      apply r5
      intro e
      have e' : ac.c.APIPort = ac.c.LocalPort := Option.some.inj e
      exact i4 (e' ▸ hL) hL e'
    · intro _ hP
      apply r6
      intro e
      have e' : ac.c.APIPort = ac.c.PACPort := Option.some.inj e
      exact i5 (e' ▸ hP) hP e'

theorem PortsDistinct_SetLocalPort (ac : AppConfig) (p : String) (h : ac.PortsDistinct) :
    (ac.SetLocalPort p).2.PortsDistinct := by
  unfold AppConfig.SetLocalPort
  cases hc : ac.CheckLocalPort p with
  | some err => exact h
  | none =>
    obtain ⟨hv, hr⟩ := checkPort_none ac p _ hc
    obtain ⟨-, -, -, r4, -, r6⟩ := (checkRepeatPorts_none_iff ac p _).1 hr
    obtain ⟨i1, i2, i3, i4, i5, i6⟩ := h
    refine ⟨i1, fun _ => hv, i3, ?_, i5, ?_⟩
    · intro hA _ e
      refine r4 ?_ e.symm
      intro e1
      have e' : ac.c.LocalPort = ac.c.APIPort := Option.some.inj e1
      exact i4 hA (e' ▸ hA) e'.symm
    · intro _ hP
      apply r6
      intro e
      have e' : ac.c.LocalPort = ac.c.PACPort := Option.some.inj e
      exact i6 (e' ▸ hP) hP e'

theorem PortsDistinct_SetPACPort (ac : AppConfig) (p : String) (h : ac.PortsDistinct) :
    (ac.SetPACPort p).2.PortsDistinct := by
  unfold AppConfig.SetPACPort
  cases hc : ac.CheckPACPort p with
  | some err => exact h
  | none =>
    obtain ⟨hv, hr⟩ := checkPort_none ac p _ hc
    obtain ⟨-, -, -, r4, r5, -⟩ := (checkRepeatPorts_none_iff ac p _).1 hr
    obtain ⟨i1, i2, i3, i4, i5, i6⟩ := h
    refine ⟨i1, i2, fun _ => hv, i4, ?_, ?_⟩
    · intro hA _ e
      refine r4 ?_ e.symm
      intro e1
      have e' : ac.c.PACPort = ac.c.APIPort := Option.some.inj e1
      exact i5 hA (e' ▸ hA) e'.symm
    · intro hL _ e
      refine r5 ?_ e.symm
      intro e1
      have e' : ac.c.PACPort = ac.c.LocalPort := Option.some.inj e1
      exact i6 hL (e' ▸ hL) e'.symm

theorem PortsDistinct_portCalls :
    ∀ (cs : List PortCall) (ac : AppConfig), ac.PortsDistinct →
      (AppConfig.portCalls cs ac).PortsDistinct := by
  intro cs
  induction cs with
  | nil => intro ac h; exact h
  | cons c cs ih =>
    intro ac h
    apply ih
    cases c with
    | SetAPIPort p => exact PortsDistinct_SetAPIPort ac p h
    | SetLocalPort p => exact PortsDistinct_SetLocalPort ac p h
    | SetPACPort p => exact PortsDistinct_SetPACPort ac p h

theorem PortsDistinct_NewConfig : NewConfig.PortsDistinct := by
  refine ⟨?_, ?_, ?_, ?_, ?_, ?_⟩ <;> intro h <;> exact absurd rfl h

theorem PortsDistinct_of_check (ac : AppConfig) (h : ac.check = none) : ac.PortsDistinct := by
  unfold AppConfig.check at h
  cases hs : ac.checkServers with
  | some err => simp [hs] at h
  | none =>
    simp only [hs] at h
    by_cases hm : IsValidMode ac.c.Mode = true
    · by_cases hl : common.IsValidPort ac.c.LocalPort = true
      · by_cases ha : common.IsValidPort ac.c.APIPort = true
        · by_cases hp : common.IsValidPort ac.c.PACPort = true
          · simp only [hm, hl, ha, hp, Bool.not_true, Bool.false_eq_true, if_false] at h
            obtain ⟨r1, r2, r3, -, -, -⟩ := (checkRepeatPorts_none_iff ac "" none).1 h
            exact ⟨fun _ => ha, fun _ => hl, fun _ => hp,
              fun _ _ => r1 (by simp) (by simp), fun _ _ => r2 (by simp) (by simp),
              fun _ _ => r3 (by simp) (by simp)⟩
          · simp only [Bool.not_eq_true] at hp
            simp [hm, hl, ha, hp] at h
        · simp only [Bool.not_eq_true] at ha
          simp [hm, hl, ha] at h
      · simp only [Bool.not_eq_true] at hl
        simp [hm, hl] at h
    · simp only [Bool.not_eq_true] at hm
      simp [hm] at h

theorem checkPort_rejects (ac : AppConfig) (p x : String)
    (h : common.IsValidPort p = false ∨ ac.checkRepeatPorts p (some x) ≠ none) :
    ∃ err, ac.checkPort p (some x) = some err := by
  unfold AppConfig.checkPort
  by_cases hv : common.IsValidPort p = true
  · rcases h with h | h
    · rw [hv] at h; cases h
    · cases hr : ac.checkRepeatPorts p (some x) with
      | none => exact absurd hr h
      | some err => exact ⟨err, by simp [hv]⟩
  · simp only [Bool.not_eq_true] at hv
    simp [hv]

/-- C38: the ports of `AppConfig`. The configuration `NewConfig()` builds, and every
configuration accepted by `check()`, satisfies the invariant that every port that has been
set is accepted by `IsValidPort` and any two ports that have been set are different
strings, and every sequence of `SetAPIPort`, `SetLocalPort` and `SetPACPort` calls keeps
it; a port accepted by `IsValidPort` is a non-empty string of decimal digits of value at
most 65535; on a configuration satisfying the invariant, a Set call whose port is invalid
or equals one of the other two configured ports returns an error and leaves the
configuration unchanged. The three calls that set the default ports on `NewConfig()` all
succeed. -/
theorem C38_set_ports_stay_valid_and_distinct :
    (∀ cs, (AppConfig.portCalls cs NewConfig).PortsDistinct) ∧
    (∀ (ac : AppConfig) (cs : List PortCall), ac.check = none → (AppConfig.portCalls cs ac).PortsDistinct) ∧
    (∀ p, common.IsValidPort p = true →
      p ≠ "" ∧ (∀ c ∈ p.data, '0' ≤ c ∧ c ≤ '9') ∧
        common.ParseUint p 16 = some (p.data.foldl (fun a c => a * 10 + (c.toNat - 48)) 0) ∧
        p.data.foldl (fun a c => a * 10 + (c.toNat - 48)) 0 ≤ 65535) ∧
    (∀ (ac : AppConfig) (p : String), ac.PortsDistinct →
      (common.IsValidPort p = false ∨ p = ac.c.LocalPort ∨ p = ac.c.PACPort) →
      ∃ err, ac.SetAPIPort p = (some err, ac)) ∧
    (∀ (ac : AppConfig) (p : String), ac.PortsDistinct →
      (common.IsValidPort p = false ∨ p = ac.c.APIPort ∨ p = ac.c.PACPort) →
      ∃ err, ac.SetLocalPort p = (some err, ac)) ∧
    (∀ (ac : AppConfig) (p : String), ac.PortsDistinct →
      (common.IsValidPort p = false ∨ p = ac.c.APIPort ∨ p = ac.c.LocalPort) →
      ∃ err, ac.SetPACPort p = (some err, ac)) ∧
    AppConfig.portCalls
        [PortCall.SetAPIPort "1083", PortCall.SetLocalPort "1080", PortCall.SetPACPort "1082"]
        NewConfig
      = ⟨⟨false, false, "", "1080", "1082", "1083", "", []⟩, none⟩ := by
  refine ⟨fun cs => PortsDistinct_portCalls cs _ PortsDistinct_NewConfig,
    fun ac cs h => PortsDistinct_portCalls cs _ (PortsDistinct_of_check ac h),
    IsValidPort_decimal, ?_, ?_, ?_, by decide⟩
  · intro ac p ⟨i1, i2, i3, i4, i5, i6⟩ h
    have hrej : ∃ err, ac.CheckAPIPort p = some err := by
      apply checkPort_rejects
      by_cases hv : common.IsValidPort p = true
      · right
        intro hn
        obtain ⟨-, -, -, -, r5, r6⟩ := (checkRepeatPorts_none_iff ac p _).1 hn
        have hp := IsValidPort_ne_empty p hv
        rcases h with h | h | h
        · rw [hv] at h; cases h
        · refine r5 ?_ h
          intro e
          have e' : ac.c.APIPort = ac.c.LocalPort := Option.some.inj e
          have hL : ac.c.LocalPort ≠ "" := h ▸ hp
          exact i4 (e' ▸ hL) hL e'
        · refine r6 ?_ h
          intro e
          have e' : ac.c.APIPort = ac.c.PACPort := Option.some.inj e
          have hP : ac.c.PACPort ≠ "" := h ▸ hp
          exact i5 (e' ▸ hP) hP e'
      · left; simpa using hv
    obtain ⟨err, he⟩ := hrej
    exact ⟨err, by simp [AppConfig.SetAPIPort, he]⟩
  · intro ac p ⟨i1, i2, i3, i4, i5, i6⟩ h
    have hrej : ∃ err, ac.CheckLocalPort p = some err := by
      apply checkPort_rejects
      by_cases hv : common.IsValidPort p = true
      · right
        intro hn
        obtain ⟨-, -, -, r4, -, r6⟩ := (checkRepeatPorts_none_iff ac p _).1 hn
        have hp := IsValidPort_ne_empty p hv
        rcases h with h | h | h
        · rw [hv] at h; cases h
        · refine r4 ?_ h
          intro e
          have e' : ac.c.LocalPort = ac.c.APIPort := Option.some.inj e
          have hA : ac.c.APIPort ≠ "" := h ▸ hp
          exact i4 hA (e' ▸ hA) e'.symm
        · refine r6 ?_ h
          intro e
          have e' : ac.c.LocalPort = ac.c.PACPort := Option.some.inj e
          have hP : ac.c.PACPort ≠ "" := h ▸ hp
          exact i6 (e' ▸ hP) hP e'
      · left; simpa using hv
    obtain ⟨err, he⟩ := hrej
    exact ⟨err, by simp [AppConfig.SetLocalPort, he]⟩
  · intro ac p ⟨i1, i2, i3, i4, i5, i6⟩ h
    have hrej : ∃ err, ac.CheckPACPort p = some err := by
      apply checkPort_rejects
      by_cases hv : common.IsValidPort p = true
      · right
        intro hn
        obtain ⟨-, -, -, r4, r5, -⟩ := (checkRepeatPorts_none_iff ac p _).1 hn
        have hp := IsValidPort_ne_empty p hv
        rcases h with h | h | h
        · rw [hv] at h; cases h
        · refine r4 ?_ h
          intro e
          have e' : ac.c.PACPort = ac.c.APIPort := Option.some.inj e
          have hA : ac.c.APIPort ≠ "" := h ▸ hp
          exact i5 hA (e' ▸ hA) e'.symm
        · refine r5 ?_ h
          intro e
          have e' : ac.c.PACPort = ac.c.LocalPort := Option.some.inj e
          have hL : ac.c.LocalPort ≠ "" := h ▸ hp
          exact i6 hL (e' ▸ hL) e'.symm
      · left; simpa using hv
    obtain ⟨err, he⟩ := hrej
    exact ⟨err, by simp [AppConfig.SetPACPort, he]⟩

/-! ## The server in use -/

theorem lookup_map_values {α : Type} (f : α → α) (k : String) :
    ∀ m : List (String × α),
      (m.map (fun e => (e.1, f e.2))).lookup k = (m.lookup k).map f := by
  intro m
  induction m with
  | nil => rfl
  | cons a l ih =>
    rcases a with ⟨a1, a2⟩
    by_cases h : k = a1
    · subst h
      rw [List.map_cons, lookup_cons_eq, lookup_cons_eq]; rfl
    · rw [List.map_cons, lookup_cons_ne a1 k _ _ h, lookup_cons_ne a1 k _ _ h, ih]

theorem mem_mapSet {α : Type} (m : List (String × α)) (k : String) (v : α) (e : String × α)
    (h : e ∈ mapSet m k v) : e ∈ m ∨ e = (k, v) := by
  unfold mapSet at h
  by_cases hs : (m.lookup k).isSome = true
  · simp only [hs, if_true, List.mem_map] at h
    obtain ⟨a, ha, hae⟩ := h
    by_cases hk : a.1 = k
    · right; rw [← hae]; simp [hk]
    · left; rw [← hae]; simp [hk, ha]
  · simp only [hs, Bool.false_eq_true, if_false, List.mem_append, List.mem_singleton] at h
    exact h

theorem SetServerConfigDefault_crypt (srv : ServerConfig)
    (h : srv.Crypt = "" ∨ IsValidCryptoMethod srv.Crypt = true) :
    IsValidCryptoMethod (SetServerConfigDefault srv).Crypt = true := by
  unfold SetServerConfigDefault
  by_cases hc : srv.Crypt = ""
  · simp only [hc, if_true]; decide
  · simp only [hc, if_false]
    rcases h with h | h
    · exact absurd h hc
    · exact h

theorem CheckServerConfig_none_crypt (ac : AppConfig) (srv : ServerConfig)
    (h : ac.CheckServerConfig srv = none) :
    srv.Crypt = "" ∨ IsValidCryptoMethod srv.Crypt = true := by
  unfold AppConfig.CheckServerConfig at h
  by_cases hp : common.IsValidPort srv.Port = true
  · by_cases hc : srv.Crypt = ""
    · exact Or.inl hc
    · right
      by_cases hv : IsValidCryptoMethod srv.Crypt = true
      · exact hv
      · simp only [Bool.not_eq_true] at hv
        simp [hp, hc, hv] at h
  · simp only [Bool.not_eq_true] at hp
    simp [hp] at h

theorem checkEachServer_none (ac : AppConfig) :
    ∀ l : List (String × ServerConfig), checkEachServer ac l = none →
      ∀ e ∈ l, ac.CheckServerConfig e.2 = none := by
  intro l
  induction l with
  | nil => intro _ e he; cases he
  | cons a l ih =>
    intro h e he
    unfold checkEachServer at h
    cases hc : ac.CheckServerConfig a.2 with
    | some err => simp [hc] at h
    | none =>
      simp only [hc] at h
      rcases List.mem_cons.1 he with e1 | e1
      · rw [e1]; exact hc
      · exact ih h e e1

theorem checkServers_none (ac : AppConfig) (h : ac.checkServers = none) :
    ac.c.Servers ≠ [] ∧
    (ac.c.UsingServer = "" → ac.c.Servers.length = 1) ∧
    (ac.c.UsingServer ≠ "" → (ac.c.Servers.lookup ac.c.UsingServer).isSome = true) ∧
    ∀ e ∈ ac.c.Servers, ac.CheckServerConfig e.2 = none := by
  unfold AppConfig.checkServers at h
  by_cases h1 : ac.c.Servers.length ≤ 0
  · simp [h1] at h
  · simp only [h1, if_false] at h
    by_cases h2 : ac.c.UsingServer = "" ∧ ac.c.Servers.length ≠ 1
    · simp [h2] at h
    · simp only [h2, if_false] at h
      by_cases h3 : ac.c.UsingServer ≠ "" ∧ (ac.c.Servers.lookup ac.c.UsingServer).isNone = true
      · simp [h3] at h
      · simp only [h3, if_false] at h
        refine ⟨?_, ?_, ?_, checkEachServer_none ac _ h⟩
        · intro e; rw [e] at h1; simp at h1
        · intro e
          by_contra hne
          exact h2 ⟨e, hne⟩
        · intro e
          cases hl : ac.c.Servers.lookup ac.c.UsingServer with
          | none => exact absurd ⟨e, by simp [hl]⟩ h3
          | some x => rfl

theorem check_none_checkServers (ac : AppConfig) (h : ac.check = none) :
    ac.checkServers = none := by
  unfold AppConfig.check at h
  cases hs : ac.checkServers with
  | some err => simp [hs] at h
  | none => rfl

theorem check_rejects_of_checkServers (ac : AppConfig)
    (h : ∃ err, ac.checkServers = some err) : ∃ err, ac.check = some err := by
  obtain ⟨err, h⟩ := h
  refine ⟨err, ?_⟩
  unfold AppConfig.check
  simp [h]

/-- What `setServerDefault` makes of a configuration accepted by `checkServers`. -/
theorem CurrentServerOK_setServerDefault (ac : AppConfig) (h : ac.checkServers = none) :
    ac.setServerDefault.CurrentServerOK := by
  obtain ⟨hne, h1, h2, h3⟩ := checkServers_none ac h
  have hl : ∃ srv, ac.c.Servers.lookup ac.setServerDefault.c.UsingServer = some srv := by
    by_cases hu : ac.c.UsingServer = ""
    · cases hs : ac.c.Servers with
      | nil => exact absurd hs hne
      | cons a l =>
        rcases a with ⟨a1, a2⟩
        have e : ac.setServerDefault.c.UsingServer = a1 := by
          simp [AppConfig.setServerDefault, hu, hs]
        rw [e]
        exact ⟨a2, lookup_cons_eq a1 a2 l⟩
    · have e : ac.setServerDefault.c.UsingServer = ac.c.UsingServer := by
        simp [AppConfig.setServerDefault, hu]
      rw [e]
      cases hl : ac.c.Servers.lookup ac.c.UsingServer with
      | none => have := h2 hu; simp [hl] at this
      | some x => exact ⟨x, rfl⟩
  obtain ⟨srv, hsrv⟩ := hl
  have hcur : ac.setServerDefault.currentServer
      = (ac.c.Servers.lookup ac.setServerDefault.c.UsingServer).map SetServerConfigDefault :=
    rfl
  have hsv : ac.setServerDefault.c.Servers
      = ac.c.Servers.map (fun e => (e.1, SetServerConfigDefault e.2)) := rfl
  refine ⟨⟨SetServerConfigDefault srv, ?_, ?_⟩, ?_⟩
  · rw [hsv, lookup_map_values, hsrv]; rfl
  · rw [hcur, hsrv]; rfl
  · intro e he
    have he' : e ∈ ac.c.Servers.map (fun e => (e.1, SetServerConfigDefault e.2)) := he
    obtain ⟨a, ha, hae⟩ := List.mem_map.1 he'
    rw [← hae]
    exact SetServerConfigDefault_crypt a.2 (CheckServerConfig_none_crypt ac a.2 (h3 a ha))

theorem CurrentServerOK_UpdateServer (ac ac1 : AppConfig) (name : String) (srv : ServerConfig)
    (hok : ac.CurrentServerOK) (h : ac.UpdateServer name srv = (none, ac1)) :
    ac1.CurrentServerOK := by
  unfold AppConfig.UpdateServer at h
  by_cases hn : name = ""
  · simp [hn] at h
  · simp only [hn, if_false] at h
    cases hc : ac.CheckServerConfig srv with
    | some err => simp [hc] at h
    | none =>
      simp only [hc, Prod.mk.injEq, true_and] at h
      subst h
      obtain ⟨⟨cur, hcur, hptr⟩, hall⟩ := hok
      have hcr : IsValidCryptoMethod
          (if srv.Crypt = "" then { srv with Crypt := DefaultCrypt } else srv).Crypt = true :=
        SetServerConfigDefault_crypt srv (CheckServerConfig_none_crypt ac srv hc)
      refine ⟨?_, ?_⟩
      · by_cases hu : ac.c.UsingServer = name
        · refine ⟨if srv.Crypt = "" then { srv with Crypt := DefaultCrypt } else srv, ?_, ?_⟩
          · show (mapSet ac.c.Servers name _).lookup ac.c.UsingServer = _
            rw [hu]; exact lookup_mapSet_self _ _ _
          · show (if ac.c.UsingServer = name then _ else _) = _
            rw [if_pos hu]
        · refine ⟨cur, ?_, ?_⟩
          · show (mapSet ac.c.Servers name _).lookup ac.c.UsingServer = _
            rw [lookup_mapSet_ne _ _ _ _ hu]; exact hcur
          · show (if ac.c.UsingServer = name then _ else _) = _
            rw [if_neg hu]; exact hptr
      · intro e he
        have he' : e ∈ mapSet ac.c.Servers name
            (if srv.Crypt = "" then { srv with Crypt := DefaultCrypt } else srv) := he
        rcases mem_mapSet _ _ _ _ he' with h1 | h1
        · exact hall e h1
        · rw [h1]; exact hcr

theorem CurrentServerOK_SetCurrentServer (ac ac1 : AppConfig) (name : String)
    (hok : ac.CurrentServerOK) (h : ac.SetCurrentServer name = (none, ac1)) :
    ac1.CurrentServerOK := by
  unfold AppConfig.SetCurrentServer at h
  cases hl : ac.c.Servers.lookup name with
  | none => simp [hl] at h
  | some srv =>
    simp only [hl, Prod.mk.injEq, true_and] at h
    subst h
    exact ⟨⟨srv, hl, rfl⟩, hok.2⟩

theorem CurrentServerOK_RemoveServerMust (ac ac1 : AppConfig) (name : String)
    (hok : ac.CurrentServerOK) (h : ac.RemoveServerMust name = core.Outcome.ret ac1) :
    ac1.CurrentServerOK := by
  unfold AppConfig.RemoveServerMust at h
  cases hc : ac.CheckServerBeRemoved name with
  | some err => simp [hc] at h
  | none =>
    simp only [hc, core.Outcome.ret.injEq] at h
    subst h
    have hne : ac.c.UsingServer ≠ name := by
      intro e
      unfold AppConfig.CheckServerBeRemoved at hc
      cases hl : ac.c.Servers.lookup name with
      | none => simp [hl] at hc
      | some x => simp [hl, e] at hc
    obtain ⟨⟨cur, hcur, hptr⟩, hall⟩ := hok
    refine ⟨⟨cur, ?_, hptr⟩, ?_⟩
    · show (mapDelete ac.c.Servers name).lookup ac.c.UsingServer = _
      rw [lookup_mapDelete_ne name _ hne]; exact hcur
    · intro e he
      have he' : e ∈ mapDelete ac.c.Servers name := he
      exact hall e (List.mem_filter.1 he').1

theorem CurrentServerOK_serverCalls :
    ∀ (cs : List ServerCall) (ac ac1 : AppConfig), ac.CurrentServerOK →
      AppConfig.serverCalls cs ac = some ac1 → ac1.CurrentServerOK := by
  intro cs
  induction cs with
  | nil =>
    intro ac ac1 hok h
    simp only [AppConfig.serverCalls, Option.some.injEq] at h
    rw [← h]; exact hok
  | cons c cs ih =>
    intro ac ac1 hok h
    unfold AppConfig.serverCalls at h
    cases hc : ac.serverCall c with
    | none => simp [hc] at h
    | some ac2 =>
      simp only [hc] at h
      refine ih ac2 ac1 ?_ h
      cases c with
      | UpdateServer name srv =>
        unfold AppConfig.serverCall at hc
        rcases hu : ac.UpdateServer name srv with ⟨r, ac3⟩
        cases r with
        | some err => simp [hu] at hc
        | none =>
          simp only [hu, Option.some.injEq] at hc
          subst hc
          exact CurrentServerOK_UpdateServer ac _ name srv hok hu
      | SetCurrentServer name =>
        unfold AppConfig.serverCall at hc
        rcases hu : ac.SetCurrentServer name with ⟨r, ac3⟩
        cases r with
        | some err => simp [hu] at hc
        | none =>
          simp only [hu, Option.some.injEq] at hc
          subst hc
          exact CurrentServerOK_SetCurrentServer ac _ name hok hu
      | RemoveServerMust name =>
        unfold AppConfig.serverCall at hc
        cases hu : ac.RemoveServerMust name with
        | panic msg => simp [hu] at hc
        | ret ac3 =>
          simp only [hu, Option.some.injEq] at hc
          subst hc
          exact CurrentServerOK_RemoveServerMust ac _ name hok hu

theorem LoadConfig_ok (readFile : String → Except String (List UInt8))
    (unmarshal : List UInt8 → appConfig → Except String appConfig) (cfgFile : String)
    (ac : AppConfig) (h : LoadConfig readFile unmarshal cfgFile = Except.ok ac) :
    ∃ c, AppConfig.check ⟨c, none⟩ = none ∧ ac = AppConfig.setServerDefault ⟨c, none⟩ := by
  unfold LoadConfig at h
  cases h1 : readFile cfgFile with
  | error e => simp [h1] at h
  | ok bytes =>
    simp only [h1] at h
    cases h2 : unmarshal bytes defaultCfg with
    | error e => simp [h2] at h
    | ok c =>
      simp only [h2] at h
      cases h3 : AppConfig.check ⟨c, none⟩ with
      | some err => simp [h3] at h
      | none =>
        simp only [h3, Except.ok.injEq] at h
        exact ⟨c, h3, h.symm⟩

/-- C39: the server in use. Every configuration `LoadConfig` returns, that is every parsed
configuration accepted by `check()` and completed by `setServerDefault()`, satisfies the
invariant that the name in use is a key of the server table, `currentServer` is the table's
entry for that name and every server's crypto is a supported method; every sequence of
`UpdateServer`, `SetCurrentServer` and `RemoveServerMust` calls none of which fails keeps
it; under the invariant `GetCurrentServerConfig` returns the name in use with exactly what
`GetServerConfig` returns for that name, and every crypto is one of the three methods;
`check()` rejects a configuration with no servers, with several servers and no
`usingServer`, and with a `usingServer` that is not in the table. A sequence of the three
calls on a loaded configuration that succeeds is given last. -/
theorem C39_current_server_is_a_table_entry :
    (∀ (readFile : String → Except String (List UInt8))
        (unmarshal : List UInt8 → appConfig → Except String appConfig) (cfgFile : String)
        (ac : AppConfig),
      LoadConfig readFile unmarshal cfgFile = Except.ok ac → ac.CurrentServerOK) ∧
    (∀ ac : AppConfig, ac.check = none → ac.setServerDefault.CurrentServerOK) ∧
    (∀ (cs : List ServerCall) (ac ac1 : AppConfig), ac.CurrentServerOK →
      AppConfig.serverCalls cs ac = some ac1 → ac1.CurrentServerOK) ∧
    (∀ ac : AppConfig, ac.CurrentServerOK →
      ∃ srv, ac.GetCurrentServerConfig = core.Outcome.ret (ac.c.UsingServer, srv) ∧
        ac.GetServerConfig ac.c.UsingServer = Except.ok srv ∧
        ∀ e ∈ ac.c.Servers,
          e.2.Crypt = "AEAD_AES_128_GCM" ∨ e.2.Crypt = "AEAD_AES_256_GCM" ∨
            e.2.Crypt = "AEAD_CHACHA20_POLY1305") ∧
    (∀ ac : AppConfig, ac.c.Servers = [] → ∃ err, ac.check = some err) ∧
    (∀ ac : AppConfig, ac.c.UsingServer = "" → 2 ≤ ac.c.Servers.length →
      ∃ err, ac.check = some err) ∧
    (∀ ac : AppConfig, ac.c.UsingServer ≠ "" → ac.c.Servers.lookup ac.c.UsingServer = none →
      ∃ err, ac.check = some err) ∧
    AppConfig.serverCalls
        [ServerCall.UpdateServer "server2" ⟨"99.88.77.66", "7766", "", "server2pwd"⟩,
         ServerCall.SetCurrentServer "server2",
         ServerCall.RemoveServerMust "server1"]
        (AppConfig.setServerDefault
          ⟨⟨false, false, "pac", "1080", "1082", "1083", "",
            [("server1", ⟨"11.22.33.44", "3234", "", "yourpwd"⟩)]⟩, none⟩)
      = some ⟨⟨false, false, "pac", "1080", "1082", "1083", "server2",
          [("server2", ⟨"99.88.77.66", "7766", "AEAD_CHACHA20_POLY1305", "server2pwd"⟩)]⟩,
          some ⟨"99.88.77.66", "7766", "AEAD_CHACHA20_POLY1305", "server2pwd"⟩⟩ := by
  refine ⟨?_, ?_, CurrentServerOK_serverCalls, ?_, ?_, ?_, ?_, by decide⟩
  · intro readFile unmarshal cfgFile ac h
    obtain ⟨c, hc, hac⟩ := LoadConfig_ok readFile unmarshal cfgFile ac h
    rw [hac]
    exact CurrentServerOK_setServerDefault _ (check_none_checkServers _ hc)
  · intro ac h
    exact CurrentServerOK_setServerDefault _ (check_none_checkServers _ h)
  · intro ac ⟨⟨srv, hl, hp⟩, hall⟩
    refine ⟨srv, ?_, ?_, ?_⟩
    · simp [AppConfig.GetCurrentServerConfig, hp]
    · simp [AppConfig.GetServerConfig, hl]
    · intro e he
      exact (IsValidCryptoMethod_iff _).1 (hall e he)
  · intro ac h
    apply check_rejects_of_checkServers
    unfold AppConfig.checkServers
    rw [if_pos (by simp [h])]
    exact ⟨_, rfl⟩
  · intro ac hu hlen
    have h1 : ¬ ac.c.Servers.length ≤ 0 := by omega
    have h2 : ac.c.Servers.length ≠ 1 := by omega
    apply check_rejects_of_checkServers
    unfold AppConfig.checkServers
    rw [if_neg h1, if_pos ⟨hu, h2⟩]
    exact ⟨_, rfl⟩
  · intro ac hu hl
    apply check_rejects_of_checkServers
    unfold AppConfig.checkServers
    by_cases h1 : ac.c.Servers.length ≤ 0
    · rw [if_pos h1]
      exact ⟨_, rfl⟩
    · rw [if_neg h1, if_neg (fun h => hu h.1), if_pos ⟨hu, by simp [hl]⟩]
      exact ⟨_, rfl⟩

end config

/-! # Theorems about the controller -/

namespace main

/-! ## Changing the local port through the controller -/

theorem checkRepeatPorts_local (ac : config.AppConfig) (p : String)
    (hA : p ≠ ac.c.APIPort) (hP : p ≠ ac.c.PACPort)
    (hAP : ac.c.APIPort = ac.c.PACPort → ac.c.APIPort = ac.c.LocalPort) :
    ac.checkRepeatPorts p (some ac.c.LocalPort) = none := by
  have e1 : (p == ac.c.PACPort) = false := by simpa using hP
  have e2 : (p == ac.c.APIPort) = false := by simpa using hA
  unfold config.AppConfig.checkRepeatPorts config.addPortMap
  by_cases h1 : ac.c.LocalPort = ac.c.APIPort
  · by_cases h2 : ac.c.LocalPort = ac.c.PACPort
    · simp [h1.symm, h2.symm, List.lookup]
    · simp [h1.symm, h2, config.mapSet, List.lookup, e1]
  · by_cases h2 : ac.c.LocalPort = ac.c.PACPort
    · simp [h1, h2.symm, config.mapSet, List.lookup, e2]
    · have h3 : ac.c.PACPort ≠ ac.c.APIPort := fun h => h1 (hAP h.symm).symm
      have e3 : (ac.c.PACPort == ac.c.APIPort) = false := by simpa using h3
      simp [h1, h2, config.mapSet, List.lookup, e1, e2, e3]

theorem checkRepeatPorts_local_api (ac : config.AppConfig) (p : String)
    (hL : p ≠ ac.c.LocalPort) (hA : p = ac.c.APIPort) :
    ∃ err, ac.checkRepeatPorts p (some ac.c.LocalPort) = some err := by
  subst hA
  have e0 : ¬ ac.c.LocalPort = ac.c.APIPort := fun h => hL h.symm
  unfold config.AppConfig.checkRepeatPorts config.addPortMap
  by_cases h2 : ac.c.LocalPort = ac.c.PACPort
  · simp [e0, h2.symm, config.mapSet, List.lookup]
  · by_cases h3 : ac.c.PACPort = ac.c.APIPort
    · simp [e0, h2, h3, config.mapSet, List.lookup]
    · have e3 : (ac.c.PACPort == ac.c.APIPort) = false := by simpa using h3
      have e4 : (ac.c.APIPort == ac.c.PACPort) = false := by
        simpa using fun h : ac.c.APIPort = ac.c.PACPort => h3 h.symm
      simp [e0, h2, config.mapSet, List.lookup, e3, e4]

theorem checkRepeatPorts_local_pac (ac : config.AppConfig) (p : String)
    (hL : p ≠ ac.c.LocalPort) (hP : p = ac.c.PACPort) :
    ∃ err, ac.checkRepeatPorts p (some ac.c.LocalPort) = some err := by
  subst hP
  have e0 : ¬ ac.c.LocalPort = ac.c.PACPort := fun h => hL h.symm
  unfold config.AppConfig.checkRepeatPorts config.addPortMap
  by_cases h1 : ac.c.LocalPort = ac.c.APIPort
  · simp [h1.symm, e0, config.mapSet, List.lookup]
  · by_cases h3 : ac.c.PACPort = ac.c.APIPort
    · simp [h1, e0, h3, config.mapSet, List.lookup]
    · have e3 : (ac.c.PACPort == ac.c.APIPort) = false := by simpa using h3
      simp [h1, e0, config.mapSet, List.lookup, e3]

theorem checkRepeatPorts_local_same (ac : config.AppConfig) (p : String)
    (hAP : ac.c.APIPort = ac.c.PACPort) (hAL : ac.c.APIPort ≠ ac.c.LocalPort) :
    ∃ err, ac.checkRepeatPorts p (some ac.c.LocalPort) = some err := by
  have e0 : ¬ ac.c.LocalPort = ac.c.APIPort := fun h => hAL h.symm
  have e1 : ¬ ac.c.LocalPort = ac.c.PACPort := fun h => hAL (hAP.trans h.symm)
  unfold config.AppConfig.checkRepeatPorts config.addPortMap
  simp [e0, e1, hAP.symm, config.mapSet, List.lookup]

/-- Counterexample to C25 as stated: a configuration made by `NewConfig` and
`SetLocalPort("2234")` has no API port and no PAC port (both are the empty string). For
the valid port 1234, which equals none of the three configured ports,
`Controler.ChangeLocalPort` returns the error of `checkRepeatPorts` about the two equal
stored ports, and the core is not called. -/
theorem C25_counterexample_unset_ports_reject_every_port :
    config.NewConfig.SetLocalPort "2234"
      = (none, ⟨⟨false, false, "", "2234", "", "", "", []⟩, none⟩) ∧
    common.IsValidPort "1234" = true ∧
    Controler.ChangeLocalPort proxyCoreMock.api.traced
        ⟨⟨⟨false, false, "", "2234", "", "", "", []⟩, none⟩, true⟩ "1234"
        (⟨true, "pac", "2234", "", ⟨"", "", "", ""⟩⟩, [])
      = core.Outcome.ret (some "pac port '' is same as control port",
          ⟨⟨⟨false, false, "", "2234", "", "", "", []⟩, none⟩, true⟩,
          (⟨true, "pac", "2234", "", ⟨"", "", "", ""⟩⟩, [])) := by
  decide

/-- C25 (as amended): `Controler.ChangeLocalPort(p)`, observed on a recording core. If `p`
is the configured local port it returns nil and the core is not called. Otherwise, if `p`
is not a valid port, or equals the configured API or PAC port, or the configured API and
PAC ports are equal to each other and differ from the local port, it returns an error, the
core is not called and nothing changes. In every other case the core is called once with
`p`: if it fails its error is returned and the configuration is unchanged, if it returns
nil the configured local port becomes `p` and nothing else of the configuration changes. -/
theorem C25_controller_change_local_port_keeps_config_in_step {κ : Type}
    (coreAPI : CoreInterface κ) (ctrl : Controler) (p : String) (k : κ)
    (log : List CoreCall) :
    (p = ctrl.cfg.GetLocalPort →
      ctrl.ChangeLocalPort coreAPI.traced p (k, log) = core.Outcome.ret (none, ctrl, (k, log))) ∧
    (p ≠ ctrl.cfg.GetLocalPort →
      (common.IsValidPort p = false ∨ p = ctrl.cfg.GetAPIPort ∨ p = ctrl.cfg.GetPACPort ∨
        (ctrl.cfg.GetAPIPort = ctrl.cfg.GetPACPort ∧
          ctrl.cfg.GetAPIPort ≠ ctrl.cfg.GetLocalPort)) →
      ∃ err, ctrl.ChangeLocalPort coreAPI.traced p (k, log)
        = core.Outcome.ret (some err, ctrl, (k, log))) ∧
    (p ≠ ctrl.cfg.GetLocalPort → common.IsValidPort p = true → p ≠ ctrl.cfg.GetAPIPort →
      p ≠ ctrl.cfg.GetPACPort →
      (ctrl.cfg.GetAPIPort = ctrl.cfg.GetPACPort → ctrl.cfg.GetAPIPort = ctrl.cfg.GetLocalPort) →
      (∀ err k1, coreAPI.ChangeLocalPort p k = core.Outcome.ret (some err, k1) →
        ctrl.ChangeLocalPort coreAPI.traced p (k, log)
          = core.Outcome.ret (some err, ctrl, (k1, log ++ [CoreCall.ChangeLocalPort p]))) ∧
      (∀ k1, coreAPI.ChangeLocalPort p k = core.Outcome.ret (none, k1) →
        ctrl.ChangeLocalPort coreAPI.traced p (k, log)
          = core.Outcome.ret (none,
              { ctrl with cfg := { ctrl.cfg with c := { ctrl.cfg.c with LocalPort := p } } },
              (k1, log ++ [CoreCall.ChangeLocalPort p]))) ∧
      (∀ msg, coreAPI.ChangeLocalPort p k = core.Outcome.panic msg →
        ctrl.ChangeLocalPort coreAPI.traced p (k, log) = core.Outcome.panic msg)) := by
  refine ⟨?_, ?_, ?_⟩
  · intro h
    simp [Controler.ChangeLocalPort, h]
  · intro hL hbad
    have hL' : p ≠ ctrl.cfg.c.LocalPort := hL
    have hcheck : ∃ err, ctrl.cfg.CheckLocalPort p = some err := by
      unfold config.AppConfig.CheckLocalPort config.AppConfig.checkPort
      by_cases hv : common.IsValidPort p = true
      · simp only [hv, Bool.not_true, Bool.false_eq_true, if_false]
        rcases hbad with h | h | h | h
        · rw [hv] at h; cases h
        · exact checkRepeatPorts_local_api ctrl.cfg p hL' h
        · exact checkRepeatPorts_local_pac ctrl.cfg p hL' h
        · exact checkRepeatPorts_local_same ctrl.cfg p h.1 h.2
      · simp only [Bool.not_eq_true] at hv
        simp [hv]
    obtain ⟨err, herr⟩ := hcheck
    exact ⟨err, by simp [Controler.ChangeLocalPort, hL, herr]⟩
  · intro hL hv hA hP hAP
    have hcheck : ctrl.cfg.CheckLocalPort p = none := by
      unfold config.AppConfig.CheckLocalPort config.AppConfig.checkPort
      simp only [hv, Bool.not_true, Bool.false_eq_true, if_false]
      exact checkRepeatPorts_local ctrl.cfg p hA hP hAP
    have hset : ctrl.cfg.SetLocalPortMust p
        = core.Outcome.ret { ctrl.cfg with c := { ctrl.cfg.c with LocalPort := p } } := by
      simp [config.AppConfig.SetLocalPortMust, config.AppConfig.SetLocalPort, hcheck]
    have htr : (coreAPI.traced).ChangeLocalPort p (k, log)
        = withCall (CoreCall.ChangeLocalPort p) log (coreAPI.ChangeLocalPort p k) := rfl
    refine ⟨?_, ?_, ?_⟩
    · intro err k1 hc
      simp [Controler.ChangeLocalPort, hL, hcheck, htr, hc, withCall]
    · intro k1 hc
      simp [Controler.ChangeLocalPort, hL, hcheck, htr, hc, withCall, hset]
    · intro msg hc
      simp [Controler.ChangeLocalPort, hL, hcheck, htr, hc, withCall]

/-- Witness of C25 (as amended): the configuration of `TestControlerChangeLocalPort` (API
port 4321, local port 2234) and the fake core of that test: the core is called with 1234
and the configured local port becomes 1234. -/
theorem C25_controller_change_local_port_keeps_config_in_step_witness :
    Controler.ChangeLocalPort proxyCoreMock.api.traced
        ⟨⟨⟨true, false, "pac", "2234", "", "4321", "", []⟩, none⟩, true⟩ "1234"
        (⟨true, "pac", "2234", "", ⟨"", "", "", ""⟩⟩, [])
      = core.Outcome.ret (none,
          ⟨⟨⟨true, false, "pac", "1234", "", "4321", "", []⟩, none⟩, true⟩,
          (⟨true, "pac", "1234", "", ⟨"", "", "", ""⟩⟩, [CoreCall.ChangeLocalPort "1234"])) :=
  ((C25_controller_change_local_port_keeps_config_in_step proxyCoreMock.api
      ⟨⟨⟨true, false, "pac", "2234", "", "4321", "", []⟩, none⟩, true⟩ "1234"
      ⟨true, "pac", "2234", "", ⟨"", "", "", ""⟩⟩ []).2.2
      (by decide) (by decide) (by decide) (by decide) (by decide)).2.1 _ rfl

/-! ## Removing servers through the controller -/

theorem CheckServerBeRemoved_none_iff (ac : config.AppConfig) (name : String) :
    ac.CheckServerBeRemoved name = none ↔
      (ac.c.Servers.lookup name).isSome = true ∧ name ≠ ac.c.UsingServer := by
  unfold config.AppConfig.CheckServerBeRemoved
  cases h : ac.c.Servers.lookup name with
  | none => simp
  | some srv =>
    by_cases hu : name = ac.c.UsingServer <;> simp [hu]

theorem checkAllBeRemoved_none_iff (ac : config.AppConfig) (names : List String) :
    checkAllBeRemoved ac names = none ↔ ∀ n ∈ names, ac.CheckServerBeRemoved n = none := by
  induction names with
  | nil => simp [checkAllBeRemoved]
  | cons a l ih =>
    cases h : ac.CheckServerBeRemoved a with
    | none => simp [checkAllBeRemoved, h, ih]
    | some err => simp [checkAllBeRemoved, h]

/-- When some name of the list does not exist or is the server in use, `RemoveServers`
returns an error and the controller, its configuration included, is unchanged. -/
theorem RemoveServers_error_removes_nothing (ctrl : Controler) (names : List String)
    (h : ∃ n ∈ names,
      (ctrl.cfg.c.Servers.lookup n).isSome = false ∨ n = ctrl.cfg.c.UsingServer) :
    ∃ err, ctrl.RemoveServers names = (core.Outcome.ret (some err), ctrl) := by
  cases hc : checkAllBeRemoved ctrl.cfg names with
  | some err => exact ⟨err, by simp [Controler.RemoveServers, hc]⟩
  | none =>
    obtain ⟨n, hn, hbad⟩ := h
    have := (CheckServerBeRemoved_none_iff ctrl.cfg n).1
      ((checkAllBeRemoved_none_iff ctrl.cfg names).1 hc n hn)
    rcases hbad with hb | hb
    · rw [this.1] at hb; cases hb
    · exact absurd hb this.2

/-- The second loop of `RemoveServers` on names that are all removable and pairwise
different: it returns nil, the names are gone, every other name is answered as before, and
the server in use is unchanged. -/
theorem removeAllMust_nodup :
    ∀ (names : List String) (ac : config.AppConfig), names.Nodup →
      (∀ n ∈ names, ac.CheckServerBeRemoved n = none) →
      (removeAllMust ac names).1 = core.Outcome.ret none ∧
      (∀ n ∈ names, (removeAllMust ac names).2.c.Servers.lookup n = none) ∧
      (∀ n, n ∉ names →
        (removeAllMust ac names).2.c.Servers.lookup n = ac.c.Servers.lookup n) ∧
      (removeAllMust ac names).2.c.UsingServer = ac.c.UsingServer ∧
      (removeAllMust ac names).2.currentServer = ac.currentServer := by
  intro names
  induction names with
  | nil =>
    intro ac _ _
    simp [removeAllMust]
  | cons a l ih =>
    intro ac hnd hall
    have ha := hall a (List.mem_cons_self _ _)
    have hnd' := List.nodup_cons.1 hnd
    have hstep : removeAllMust ac (a :: l)
        = removeAllMust { ac with c := { ac.c with Servers := config.mapDelete ac.c.Servers a } }
            l := by
      simp [removeAllMust, config.AppConfig.RemoveServerMust, ha]
    have hall' : ∀ n ∈ l,
        config.AppConfig.CheckServerBeRemoved
          { ac with c := { ac.c with Servers := config.mapDelete ac.c.Servers a } } n = none := by
      intro n hn
      have hne : n ≠ a := fun h => hnd'.1 (h ▸ hn)
      have h0 := (CheckServerBeRemoved_none_iff ac n).1 (hall n (List.mem_cons_of_mem _ hn))
      apply (CheckServerBeRemoved_none_iff _ n).2
      refine ⟨?_, h0.2⟩
      show ((config.mapDelete ac.c.Servers a).lookup n).isSome = true
      rw [config.lookup_mapDelete_ne a n hne]
      exact h0.1
    obtain ⟨h1, h2, h3, h4, h5⟩ := ih _ hnd'.2 hall'
    rw [hstep]
    refine ⟨h1, ?_, ?_, h4, h5⟩
    · intro n hn
      rcases List.mem_cons.1 hn with hna | hnl
      · by_cases hal : a ∈ l
        · rw [hna]; exact h2 a hal
        · rw [hna, h3 a hal]
          exact config.lookup_mapDelete_self a _
      · exact h2 n hnl
    · intro n hn
      have hna : n ≠ a := fun h => hn (h ▸ List.mem_cons_self _ _)
      have hnl : n ∉ l := fun h => hn (List.mem_cons_of_mem _ h)
      rw [h3 n hnl]
      exact config.lookup_mapDelete_ne a n hna _

/-- C23 (the code at the failing input): the configuration of `TestControlerRemoveServers`
(servers `srvName1`, `srvName2` and `srvName3`, the last one in use, built from
`NewConfig` by `UpdateServer` and `SetCurrentServer`) and the list `srvName1`, `srvName1`,
`srvName2`. Every name of the list exists and none is the server in use, so the checking
loop passes; the removing loop removes `srvName1`, then `RemoveServerMust` panics on its
second occurrence. The call does not return, and `srvName2` has not been removed: it is
still answered with its configuration. -/
theorem C23_repeated_name_removes_some_and_panics :
    (((((config.NewConfig.UpdateServer "srvName1"
            ⟨"119.229.339.449", "9129", "AEAD_AES_128_GCM", "server1pwdnew"⟩).2.UpdateServer
          "srvName2" ⟨"99.88.77.66", "7766", "", "server2pwd"⟩).2.UpdateServer
          "srvName3" ⟨"69.78.77.86", "4455", "AEAD_CHACHA20_POLY1305", "server2pwd"⟩).2
        ).SetCurrentServer "srvName3").2
      = ⟨⟨false, false, "", "", "", "", "srvName3",
          [("srvName1", ⟨"119.229.339.449", "9129", "AEAD_AES_128_GCM", "server1pwdnew"⟩),
           ("srvName2", ⟨"99.88.77.66", "7766", "AEAD_CHACHA20_POLY1305", "server2pwd"⟩),
           ("srvName3", ⟨"69.78.77.86", "4455", "AEAD_CHACHA20_POLY1305", "server2pwd"⟩)]⟩,
          some ⟨"69.78.77.86", "4455", "AEAD_CHACHA20_POLY1305", "server2pwd"⟩⟩ ∧
    Controler.RemoveServers
        ⟨⟨⟨false, false, "", "", "", "", "srvName3",
          [("srvName1", ⟨"119.229.339.449", "9129", "AEAD_AES_128_GCM", "server1pwdnew"⟩),
           ("srvName2", ⟨"99.88.77.66", "7766", "AEAD_CHACHA20_POLY1305", "server2pwd"⟩),
           ("srvName3", ⟨"69.78.77.86", "4455", "AEAD_CHACHA20_POLY1305", "server2pwd"⟩)]⟩,
          some ⟨"69.78.77.86", "4455", "AEAD_CHACHA20_POLY1305", "server2pwd"⟩⟩, true⟩
        ["srvName1", "srvName1", "srvName2"]
      = (core.Outcome.panic "check server name error: server name 'srvName1' not exist",
          ⟨⟨⟨false, false, "", "", "", "", "srvName3",
            [("srvName2", ⟨"99.88.77.66", "7766", "AEAD_CHACHA20_POLY1305", "server2pwd"⟩),
             ("srvName3", ⟨"69.78.77.86", "4455", "AEAD_CHACHA20_POLY1305", "server2pwd"⟩)]⟩,
            some ⟨"69.78.77.86", "4455", "AEAD_CHACHA20_POLY1305", "server2pwd"⟩⟩, true⟩) ∧
    config.AppConfig.GetServerConfig
        ⟨⟨false, false, "", "", "", "", "srvName3",
          [("srvName2", ⟨"99.88.77.66", "7766", "AEAD_CHACHA20_POLY1305", "server2pwd"⟩),
           ("srvName3", ⟨"69.78.77.86", "4455", "AEAD_CHACHA20_POLY1305", "server2pwd"⟩)]⟩,
          some ⟨"69.78.77.86", "4455", "AEAD_CHACHA20_POLY1305", "server2pwd"⟩⟩ "srvName2"
      = Except.ok ⟨"99.88.77.66", "7766", "AEAD_CHACHA20_POLY1305", "server2pwd"⟩ :=
  ⟨by decide, by decide, rfl⟩

/-- When the names are pairwise different, all exist and none is the server in use,
`RemoveServers` returns nil, every named server is gone, every other server is answered as
before, and the server in use is unchanged. -/
theorem RemoveServers_nodup_removes_all (ctrl : Controler) (names : List String)
    (hnd : names.Nodup)
    (hall : ∀ n ∈ names,
      (ctrl.cfg.c.Servers.lookup n).isSome = true ∧ n ≠ ctrl.cfg.c.UsingServer) :
    (ctrl.RemoveServers names).1 = core.Outcome.ret none ∧
    (∀ n ∈ names, (ctrl.RemoveServers names).2.cfg.GetServerConfig n
      = Except.error ("unknown server name '" ++ n ++ "'")) ∧
    (∀ n, n ∉ names →
      (ctrl.RemoveServers names).2.cfg.GetServerConfig n = ctrl.cfg.GetServerConfig n) ∧
    (ctrl.RemoveServers names).2.cfg.GetCurrentServerConfig
      = ctrl.cfg.GetCurrentServerConfig := by
  have hall' : ∀ n ∈ names, ctrl.cfg.CheckServerBeRemoved n = none :=
    fun n hn => (CheckServerBeRemoved_none_iff ctrl.cfg n).2 (hall n hn)
  have hc := (checkAllBeRemoved_none_iff ctrl.cfg names).2 hall'
  obtain ⟨h1, h2, h3, h4, h5⟩ := removeAllMust_nodup names ctrl.cfg hnd hall'
  have hR : ctrl.RemoveServers names
      = ((removeAllMust ctrl.cfg names).1, { ctrl with cfg := (removeAllMust ctrl.cfg names).2 })
      := by
    simp [Controler.RemoveServers, hc]
  rw [hR]
  refine ⟨h1, ?_, ?_, ?_⟩
  · intro n hn
    simp [config.AppConfig.GetServerConfig, h2 n hn]
  · intro n hn
    simp [config.AppConfig.GetServerConfig, h3 n hn]
  · simp [config.AppConfig.GetCurrentServerConfig, h4, h5]

/-! ## RemoveServers with a name given twice -/

/-- C37 (the code at the failing input): the configuration of `TestControlerRemoveServers`
(servers `srvName1`, `srvName2` and `srvName3`, the last one in use) and the list
`srvName1`, `srvName1`. The name exists and is not the server in use, so the checking loop
reports no error; the removing loop removes `srvName1` and `RemoveServerMust` panics on its
second occurrence. The call neither returns an error nor returns nil: it panics. -/
theorem C37_remove_servers_panics_on_repeated_name :
    checkAllBeRemoved
        ⟨⟨false, false, "", "", "", "", "srvName3",
          [("srvName1", ⟨"119.229.339.449", "9129", "AEAD_AES_128_GCM", "server1pwdnew"⟩),
           ("srvName2", ⟨"99.88.77.66", "7766", "AEAD_CHACHA20_POLY1305", "server2pwd"⟩),
           ("srvName3", ⟨"69.78.77.86", "4455", "AEAD_CHACHA20_POLY1305", "server2pwd"⟩)]⟩,
          some ⟨"69.78.77.86", "4455", "AEAD_CHACHA20_POLY1305", "server2pwd"⟩⟩
        ["srvName1", "srvName1"]
      = none ∧
    Controler.RemoveServers
        ⟨⟨⟨false, false, "", "", "", "", "srvName3",
          [("srvName1", ⟨"119.229.339.449", "9129", "AEAD_AES_128_GCM", "server1pwdnew"⟩),
           ("srvName2", ⟨"99.88.77.66", "7766", "AEAD_CHACHA20_POLY1305", "server2pwd"⟩),
           ("srvName3", ⟨"69.78.77.86", "4455", "AEAD_CHACHA20_POLY1305", "server2pwd"⟩)]⟩,
          some ⟨"69.78.77.86", "4455", "AEAD_CHACHA20_POLY1305", "server2pwd"⟩⟩, true⟩
        ["srvName1", "srvName1"]
      = (core.Outcome.panic "check server name error: server name 'srvName1' not exist",
          ⟨⟨⟨false, false, "", "", "", "", "srvName3",
            [("srvName2", ⟨"99.88.77.66", "7766", "AEAD_CHACHA20_POLY1305", "server2pwd"⟩),
             ("srvName3", ⟨"69.78.77.86", "4455", "AEAD_CHACHA20_POLY1305", "server2pwd"⟩)]⟩,
            some ⟨"69.78.77.86", "4455", "AEAD_CHACHA20_POLY1305", "server2pwd"⟩⟩, true⟩) := by
  decide

end main

end ssctrl
